import Mathlib

/-! learn-vulkan-cpp2: a shallow embedding of the renderer scaffold.

The procedures of the repository configure a native graphics API.  Each
procedure is embedded as a pure function: what the native API reports
(result codes, capability structures, enumerations) is an explicit argument,
what the procedure hands to the native API or stores through an output
parameter is the returned value, and a C++ `throw` is the `error` case of
`Except`.  Unsigned 32-bit values are natural numbers reduced modulo `2 ^ 32`
where the source can wrap.
-/

/-! ## Failures -/

/-- The C++ exception classes that a procedure of the repository can end with. -/
inductive FailureKind where
  | runtime_error
  | invalid_argument
  | bad_optional_access
  | length_error
  deriving DecidableEq, Repr

/-- A raised C++ exception: its class and the text it carries. -/
structure Failure where
  kind : FailureKind
  message : String
  deriving DecidableEq, Repr

/-- The expression `std::runtime_error(msg)`. -/
def runtimeError (msg : String) : Failure := ⟨FailureKind.runtime_error, msg⟩

/-- The expression `std::invalid_argument(msg)`. -/
def invalidArgument (msg : String) : Failure := ⟨FailureKind.invalid_argument, msg⟩

/-! ## Native constants and scalar conversions -/

/-- The native result code `VK_SUCCESS`. -/
def VK_SUCCESS : Int := 0

/-- The null handle `VK_NULL_HANDLE`. -/
def VK_NULL_HANDLE : Nat := 0

/-- The value `std::numeric_limits<uint32_t>::max()`. -/
def UINT32_MAX : Nat := 2 ^ 32 - 1

/-- The conversion `static_cast<uint32_t>(x)` of a signed integer. -/
def toUInt32 (x : Int) : Nat := (x % 2 ^ 32).toNat

/-- The reference implementation of `std::clamp(v, lo, hi)`. -/
def clamp (v lo hi : Nat) : Nat :=
  if v < lo then lo else if hi < v then hi else v

deriving instance DecidableEq for Except

/-! ### Values of the native headers used by the procedures -/

def VK_TRUE : Nat := 1
def VK_FALSE : Nat := 0
def VK_QUEUE_FAMILY_IGNORED : Nat := 2 ^ 32 - 1
def VK_QUEUE_GRAPHICS_BIT : Nat := 0x1

def VK_FORMAT_R8G8B8A8_SRGB : Nat := 43
def VK_FORMAT_B8G8R8A8_SRGB : Nat := 50
def VK_COLOR_SPACE_SRGB_NONLINEAR_KHR : Nat := 0

def VK_PRESENT_MODE_IMMEDIATE_KHR : Nat := 0
def VK_PRESENT_MODE_MAILBOX_KHR : Nat := 1
def VK_PRESENT_MODE_FIFO_KHR : Nat := 2
def VK_PRESENT_MODE_FIFO_RELAXED_KHR : Nat := 3

def VK_SHARING_MODE_EXCLUSIVE : Nat := 0
def VK_SHARING_MODE_CONCURRENT : Nat := 1
def VK_COMPOSITE_ALPHA_OPAQUE_BIT_KHR : Nat := 0x1

def VK_IMAGE_LAYOUT_UNDEFINED : Nat := 0
def VK_IMAGE_LAYOUT_SHADER_READ_ONLY_OPTIMAL : Nat := 5
def VK_IMAGE_LAYOUT_TRANSFER_SRC_OPTIMAL : Nat := 6
def VK_IMAGE_LAYOUT_TRANSFER_DST_OPTIMAL : Nat := 7

def VK_ACCESS_SHADER_READ_BIT : Nat := 0x20
def VK_ACCESS_TRANSFER_READ_BIT : Nat := 0x800
def VK_ACCESS_TRANSFER_WRITE_BIT : Nat := 0x1000

def VK_PIPELINE_STAGE_TOP_OF_PIPE_BIT : Nat := 0x1
def VK_PIPELINE_STAGE_FRAGMENT_SHADER_BIT : Nat := 0x80
def VK_PIPELINE_STAGE_TRANSFER_BIT : Nat := 0x1000

def VK_IMAGE_ASPECT_COLOR_BIT : Nat := 0x1
def VK_IMAGE_TYPE_2D : Nat := 1
def VK_IMAGE_TILING_OPTIMAL : Nat := 0
def VK_IMAGE_TILING_LINEAR : Nat := 1
def VK_FILTER_LINEAR : Nat := 1
def VK_FORMAT_FEATURE_SAMPLED_IMAGE_FILTER_LINEAR_BIT : Nat := 0x1000

def VK_IMAGE_USAGE_TRANSFER_SRC_BIT : Nat := 0x1
def VK_IMAGE_USAGE_TRANSFER_DST_BIT : Nat := 0x2
def VK_IMAGE_USAGE_SAMPLED_BIT : Nat := 0x4
def VK_IMAGE_USAGE_COLOR_ATTACHMENT_BIT : Nat := 0x10

def VK_BUFFER_USAGE_TRANSFER_SRC_BIT : Nat := 0x1
def VK_BUFFER_USAGE_TRANSFER_DST_BIT : Nat := 0x2
def VK_BUFFER_USAGE_INDEX_BUFFER_BIT : Nat := 0x40
def VK_BUFFER_USAGE_VERTEX_BUFFER_BIT : Nat := 0x80

def VK_MEMORY_PROPERTY_DEVICE_LOCAL_BIT : Nat := 0x1
def VK_MEMORY_PROPERTY_HOST_VISIBLE_BIT : Nat := 0x2
def VK_MEMORY_PROPERTY_HOST_COHERENT_BIT : Nat := 0x4

def VK_COMMAND_BUFFER_LEVEL_PRIMARY : Nat := 0
def VK_COMMAND_BUFFER_USAGE_ONE_TIME_SUBMIT_BIT : Nat := 0x1

def VK_BUFFER_USAGE_UNIFORM_BUFFER_BIT : Nat := 0x10
def VK_DESCRIPTOR_TYPE_COMBINED_IMAGE_SAMPLER : Nat := 1
def VK_DESCRIPTOR_TYPE_UNIFORM_BUFFER : Nat := 6
def VK_SHADER_STAGE_VERTEX_BIT : Nat := 0x1
def VK_SHADER_STAGE_FRAGMENT_BIT : Nat := 0x10
def VK_VERTEX_INPUT_RATE_VERTEX : Nat := 0
def VK_FORMAT_R32G32_SFLOAT : Nat := 103
def VK_FORMAT_R32G32B32_SFLOAT : Nat := 106
def VK_EXT_DEBUG_UTILS_EXTENSION_NAME : String := "VK_EXT_debug_utils"

def VK_SAMPLE_COUNT_1_BIT : Nat := 0x1
def VK_SAMPLE_COUNT_2_BIT : Nat := 0x2
def VK_SAMPLE_COUNT_4_BIT : Nat := 0x4
def VK_SAMPLE_COUNT_8_BIT : Nat := 0x8
def VK_SAMPLE_COUNT_16_BIT : Nat := 0x10
def VK_SAMPLE_COUNT_32_BIT : Nat := 0x20
def VK_SAMPLE_COUNT_64_BIT : Nat := 0x40

def VK_ATTACHMENT_LOAD_OP_CLEAR : Nat := 1
def VK_ATTACHMENT_LOAD_OP_DONT_CARE : Nat := 2
def VK_ATTACHMENT_STORE_OP_STORE : Nat := 0
def VK_ATTACHMENT_STORE_OP_DONT_CARE : Nat := 1

def VK_IMAGE_LAYOUT_COLOR_ATTACHMENT_OPTIMAL : Nat := 2
def VK_IMAGE_LAYOUT_DEPTH_STENCIL_ATTACHMENT_OPTIMAL : Nat := 3
def VK_IMAGE_LAYOUT_PRESENT_SRC_KHR : Nat := 1000001002

def VK_PIPELINE_BIND_POINT_GRAPHICS : Nat := 0
def VK_SUBPASS_EXTERNAL : Nat := 2 ^ 32 - 1
def VK_PIPELINE_STAGE_EARLY_FRAGMENT_TESTS_BIT : Nat := 0x100
def VK_PIPELINE_STAGE_COLOR_ATTACHMENT_OUTPUT_BIT : Nat := 0x400
def VK_ACCESS_COLOR_ATTACHMENT_WRITE_BIT : Nat := 0x100
def VK_ACCESS_DEPTH_STENCIL_ATTACHMENT_WRITE_BIT : Nat := 0x400

def VK_PRIMITIVE_TOPOLOGY_TRIANGLE_LIST : Nat := 3
def VK_DYNAMIC_STATE_VIEWPORT : Nat := 0
def VK_DYNAMIC_STATE_SCISSOR : Nat := 1
def VK_POLYGON_MODE_FILL : Nat := 0
def VK_CULL_MODE_BACK_BIT : Nat := 0x2
def VK_FRONT_FACE_COUNTER_CLOCKWISE : Nat := 0
def VK_FRONT_FACE_CLOCKWISE : Nat := 1
def VK_COLOR_COMPONENT_R_BIT : Nat := 0x1
def VK_COLOR_COMPONENT_G_BIT : Nat := 0x2
def VK_COLOR_COMPONENT_B_BIT : Nat := 0x4
def VK_COLOR_COMPONENT_A_BIT : Nat := 0x8
def VK_BLEND_FACTOR_ZERO : Nat := 0
def VK_BLEND_FACTOR_ONE : Nat := 1
def VK_BLEND_FACTOR_SRC_ALPHA : Nat := 6
def VK_BLEND_FACTOR_ONE_MINUS_SRC_ALPHA : Nat := 7
def VK_BLEND_OP_ADD : Nat := 0
def VK_LOGIC_OP_COPY : Nat := 3
def VK_COMPARE_OP_LESS : Nat := 1
def VK_COMPARE_OP_ALWAYS : Nat := 7

def VK_SAMPLER_ADDRESS_MODE_REPEAT : Nat := 0
def VK_BORDER_COLOR_INT_OPAQUE_BLACK : Nat := 3
def VK_SAMPLER_MIPMAP_MODE_LINEAR : Nat := 1
def VK_LOD_CLAMP_NONE : Rat := 1000

/-! ## Native structures -/

structure VkExtent2D where
  width : Nat
  height : Nat
  deriving DecidableEq, Repr

structure VkExtent3D where
  width : Nat
  height : Nat
  depth : Nat
  deriving DecidableEq, Repr

structure VkOffset3D where
  x : Int
  y : Int
  z : Int
  deriving DecidableEq, Repr

structure VkSurfaceFormatKHR where
  format : Nat
  colorSpace : Nat
  deriving DecidableEq, Repr

structure VkSurfaceCapabilitiesKHR where
  minImageCount : Nat
  maxImageCount : Nat
  currentExtent : VkExtent2D
  minImageExtent : VkExtent2D
  maxImageExtent : VkExtent2D
  currentTransform : Nat
  deriving DecidableEq, Repr

structure VkQueueFamilyProperties where
  queueFlags : Nat
  queueCount : Nat
  deriving DecidableEq, Repr

structure VkMemoryRequirements where
  size : Nat
  alignment : Nat
  memoryTypeBits : Nat
  deriving DecidableEq, Repr

structure VkBufferCreateInfo where
  size : Nat
  usage : Nat
  sharingMode : Nat
  flags : Nat
  deriving DecidableEq, Repr

structure VkMemoryAllocateInfo where
  allocationSize : Nat
  memoryTypeIndex : Nat
  deriving DecidableEq, Repr

structure VkImageCreateInfo where
  imageType : Nat
  extent : VkExtent3D
  mipLevels : Nat
  arrayLayers : Nat
  format : Nat
  tiling : Nat
  initialLayout : Nat
  usage : Nat
  sharingMode : Nat
  samples : Nat
  flags : Nat
  deriving DecidableEq, Repr

structure VkImageSubresourceRange where
  aspectMask : Nat
  baseMipLevel : Nat
  levelCount : Nat
  baseArrayLayer : Nat
  layerCount : Nat
  deriving DecidableEq, Repr

structure VkImageSubresourceLayers where
  aspectMask : Nat
  mipLevel : Nat
  baseArrayLayer : Nat
  layerCount : Nat
  deriving DecidableEq, Repr

structure VkImageMemoryBarrier where
  srcAccessMask : Nat
  dstAccessMask : Nat
  oldLayout : Nat
  newLayout : Nat
  srcQueueFamilyIndex : Nat
  dstQueueFamilyIndex : Nat
  image : Nat
  subresourceRange : VkImageSubresourceRange
  deriving DecidableEq, Repr

structure VkBufferImageCopy where
  bufferOffset : Nat
  bufferRowLength : Nat
  bufferImageHeight : Nat
  imageSubresource : VkImageSubresourceLayers
  imageOffset : VkOffset3D
  imageExtent : VkExtent3D
  deriving DecidableEq, Repr

structure VkImageBlit where
  srcSubresource : VkImageSubresourceLayers
  srcOffsets0 : VkOffset3D
  srcOffsets1 : VkOffset3D
  dstSubresource : VkImageSubresourceLayers
  dstOffsets0 : VkOffset3D
  dstOffsets1 : VkOffset3D
  deriving DecidableEq, Repr

structure VkCommandBufferAllocateInfo where
  commandPool : Nat
  level : Nat
  commandBufferCount : Nat
  deriving DecidableEq, Repr

structure VkSwapchainCreateInfoKHR where
  surface : Nat
  minImageCount : Nat
  imageFormat : Nat
  imageColorSpace : Nat
  imageExtent : VkExtent2D
  imageArrayLayers : Nat
  imageUsage : Nat
  imageSharingMode : Nat
  queueFamilyIndexCount : Nat
  pQueueFamilyIndices : Option (List Nat)
  preTransform : Nat
  compositeAlpha : Nat
  presentMode : Nat
  clipped : Nat
  oldSwapchain : Nat
  deriving DecidableEq, Repr

structure VkBufferCopy where
  srcOffset : Nat
  dstOffset : Nat
  size : Nat
  deriving DecidableEq, Repr

structure VkDescriptorPoolSize where
  type : Nat
  descriptorCount : Nat
  deriving DecidableEq, Repr

structure VkDescriptorPoolCreateInfo where
  poolSizeCount : Nat
  pPoolSizes : List VkDescriptorPoolSize
  maxSets : Nat
  flags : Nat
  deriving DecidableEq, Repr

structure VkDescriptorSetLayoutBinding where
  binding : Nat
  descriptorType : Nat
  descriptorCount : Nat
  stageFlags : Nat
  pImmutableSamplers : Option (List Nat)
  deriving DecidableEq, Repr

structure VkDescriptorSetLayoutCreateInfo where
  bindingCount : Nat
  pBindings : List VkDescriptorSetLayoutBinding
  deriving DecidableEq, Repr

structure VkDescriptorSetAllocateInfo where
  descriptorPool : Nat
  descriptorSetCount : Nat
  pSetLayouts : List Nat
  deriving DecidableEq, Repr

structure VkDescriptorBufferInfo where
  buffer : Nat
  offset : Nat
  range : Nat
  deriving DecidableEq, Repr

structure VkDescriptorImageInfo where
  sampler : Nat
  imageView : Nat
  imageLayout : Nat
  deriving DecidableEq, Repr

structure VkWriteDescriptorSet where
  dstSet : Nat
  dstBinding : Nat
  dstArrayElement : Nat
  descriptorCount : Nat
  descriptorType : Nat
  pImageInfo : Option VkDescriptorImageInfo
  pBufferInfo : Option VkDescriptorBufferInfo
  deriving DecidableEq, Repr

structure VkVertexInputBindingDescription where
  binding : Nat
  stride : Nat
  inputRate : Nat
  deriving DecidableEq, Repr

structure VkVertexInputAttributeDescription where
  location : Nat
  binding : Nat
  format : Nat
  offset : Nat
  deriving DecidableEq, Repr

structure VkPipelineVertexInputStateCreateInfo where
  vertexBindingDescriptionCount : Nat
  pVertexBindingDescriptions : List VkVertexInputBindingDescription
  vertexAttributeDescriptionCount : Nat
  pVertexAttributeDescriptions : List VkVertexInputAttributeDescription
  deriving DecidableEq, Repr

/-- The limits of `VkPhysicalDeviceProperties` that the procedures read. -/
structure VkPhysicalDeviceLimits where
  framebufferColorSampleCounts : Nat
  framebufferDepthSampleCounts : Nat
  maxSamplerAnisotropy : Rat
  deriving DecidableEq, Repr

/-- What `vkGetPhysicalDeviceFormatProperties` reports for one format. -/
structure VkFormatProperties where
  linearTilingFeatures : Nat
  optimalTilingFeatures : Nat
  bufferFeatures : Nat
  deriving DecidableEq, Repr

/-- The member of `VkPhysicalDeviceFeatures` that the procedures set; every
other member keeps the `VK_FALSE` of the value-initialisation. -/
structure VkPhysicalDeviceFeatures where
  samplerAnisotropy : Nat
  deriving DecidableEq, Repr

structure VkDeviceQueueCreateInfo where
  queueFamilyIndex : Nat
  queueCount : Nat
  pQueuePriorities : List Rat
  deriving DecidableEq, Repr

structure VkDeviceCreateInfo where
  queueCreateInfoCount : Nat
  pQueueCreateInfos : List VkDeviceQueueCreateInfo
  pEnabledFeatures : Option VkPhysicalDeviceFeatures
  enabledExtensionCount : Nat
  ppEnabledExtensionNames : List String
  enabledLayerCount : Nat
  ppEnabledLayerNames : Option (List String)
  deriving DecidableEq, Repr

structure VkSamplerCreateInfo where
  magFilter : Nat
  minFilter : Nat
  addressModeU : Nat
  addressModeV : Nat
  addressModeW : Nat
  anisotropyEnable : Nat
  maxAnisotropy : Rat
  borderColor : Nat
  unnormalizedCoordinates : Nat
  compareEnable : Nat
  compareOp : Nat
  mipmapMode : Nat
  minLod : Rat
  maxLod : Rat
  mipLodBias : Rat
  deriving DecidableEq, Repr

structure VkFramebufferCreateInfo where
  renderPass : Nat
  attachmentCount : Nat
  pAttachments : List Nat
  width : Nat
  height : Nat
  layers : Nat
  deriving DecidableEq, Repr

structure VkAttachmentDescription where
  format : Nat
  samples : Nat
  loadOp : Nat
  storeOp : Nat
  stencilLoadOp : Nat
  stencilStoreOp : Nat
  initialLayout : Nat
  finalLayout : Nat
  deriving DecidableEq, Repr

structure VkAttachmentReference where
  attachment : Nat
  layout : Nat
  deriving DecidableEq, Repr

structure VkSubpassDescription where
  pipelineBindPoint : Nat
  inputAttachmentCount : Nat
  colorAttachmentCount : Nat
  pColorAttachments : List VkAttachmentReference
  pResolveAttachments : Option (List VkAttachmentReference)
  pDepthStencilAttachment : Option VkAttachmentReference
  preserveAttachmentCount : Nat
  deriving DecidableEq, Repr

structure VkSubpassDependency where
  srcSubpass : Nat
  dstSubpass : Nat
  srcStageMask : Nat
  dstStageMask : Nat
  srcAccessMask : Nat
  dstAccessMask : Nat
  dependencyFlags : Nat
  deriving DecidableEq, Repr

structure VkRenderPassCreateInfo where
  attachmentCount : Nat
  pAttachments : List VkAttachmentDescription
  subpassCount : Nat
  pSubpasses : List VkSubpassDescription
  dependencyCount : Nat
  pDependencies : List VkSubpassDependency
  deriving DecidableEq, Repr

/-- The code of a shader module: `codeSize` bytes read from `pCode`. -/
structure VkShaderModuleCreateInfo where
  codeSize : Nat
  pCode : List Nat
  deriving DecidableEq, Repr

structure VkPipelineShaderStageCreateInfo where
  stage : Nat
  module : Nat
  pName : String
  deriving DecidableEq, Repr

structure VkPipelineInputAssemblyStateCreateInfo where
  topology : Nat
  primitiveRestartEnable : Nat
  deriving DecidableEq, Repr

structure VkPipelineDynamicStateCreateInfo where
  dynamicStateCount : Nat
  pDynamicStates : List Nat
  deriving DecidableEq, Repr

/-- The viewport state; `pViewports` and `pScissors` stay null in the
procedures and are not represented. -/
structure VkPipelineViewportStateCreateInfo where
  viewportCount : Nat
  scissorCount : Nat
  deriving DecidableEq, Repr

structure VkPipelineRasterizationStateCreateInfo where
  depthClampEnable : Nat
  rasterizerDiscardEnable : Nat
  polygonMode : Nat
  lineWidth : Rat
  cullMode : Nat
  frontFace : Nat
  depthBiasEnable : Nat
  depthBiasConstantFactor : Rat
  depthBiasClamp : Rat
  depthBiasSlopeFactor : Rat
  deriving DecidableEq, Repr

structure VkPipelineMultisampleStateCreateInfo where
  sampleShadingEnable : Nat
  rasterizationSamples : Nat
  minSampleShading : Rat
  pSampleMask : Option (List Nat)
  alphaToCoverageEnable : Nat
  alphaToOneEnable : Nat
  deriving DecidableEq, Repr

structure VkPipelineColorBlendAttachmentState where
  colorWriteMask : Nat
  blendEnable : Nat
  srcColorBlendFactor : Nat
  dstColorBlendFactor : Nat
  colorBlendOp : Nat
  srcAlphaBlendFactor : Nat
  dstAlphaBlendFactor : Nat
  alphaBlendOp : Nat
  deriving DecidableEq, Repr

structure VkPipelineColorBlendStateCreateInfo where
  logicOpEnable : Nat
  logicOp : Nat
  attachmentCount : Nat
  pAttachments : List VkPipelineColorBlendAttachmentState
  blendConstants : List Rat
  deriving DecidableEq, Repr

structure VkPipelineLayoutCreateInfo where
  setLayoutCount : Nat
  pSetLayouts : Option (List Nat)
  pushConstantRangeCount : Nat
  deriving DecidableEq, Repr

structure VkStencilOpState where
  failOp : Nat
  passOp : Nat
  depthFailOp : Nat
  compareOp : Nat
  compareMask : Nat
  writeMask : Nat
  reference : Nat
  deriving DecidableEq, Repr

structure VkPipelineDepthStencilStateCreateInfo where
  depthTestEnable : Nat
  depthWriteEnable : Nat
  depthCompareOp : Nat
  depthBoundsTestEnable : Nat
  stencilTestEnable : Nat
  front : VkStencilOpState
  back : VkStencilOpState
  minDepthBounds : Rat
  maxDepthBounds : Rat
  deriving DecidableEq, Repr

structure VkGraphicsPipelineCreateInfo where
  stageCount : Nat
  pStages : List VkPipelineShaderStageCreateInfo
  pVertexInputState : Option VkPipelineVertexInputStateCreateInfo
  pInputAssemblyState : Option VkPipelineInputAssemblyStateCreateInfo
  pViewportState : Option VkPipelineViewportStateCreateInfo
  pRasterizationState : Option VkPipelineRasterizationStateCreateInfo
  pMultisampleState : Option VkPipelineMultisampleStateCreateInfo
  pDepthStencilState : Option VkPipelineDepthStencilStateCreateInfo
  pColorBlendState : Option VkPipelineColorBlendStateCreateInfo
  pDynamicState : Option VkPipelineDynamicStateCreateInfo
  layout : Nat
  renderPass : Nat
  subpass : Nat
  basePipelineHandle : Nat
  basePipelineIndex : Int
  deriving DecidableEq, Repr

/-! ## Runs: the native calls a procedure issues and how it ends -/

/-- A state-changing call into the native layer, with the arguments the
procedures fill in.  Pure queries (`vkGet...`, `vkEnumerate...`) are not
recorded: what they report is an argument of the embedded procedure. -/
inductive NativeCall where
  | vkCreateBuffer (bufferInfo : VkBufferCreateInfo)
  | vkAllocateMemory (allocInfo : VkMemoryAllocateInfo)
  | vkBindBufferMemory (buffer memory offset : Nat)
  | vkMapMemory (memory offset size flags : Nat)
  | memcpy (size : Nat)
  | vkUnmapMemory (memory : Nat)
  | stbi_image_free
  | vkCreateImage (imageInfo : VkImageCreateInfo)
  | vkBindImageMemory (image memory offset : Nat)
  | vkDestroyBuffer (buffer : Nat)
  | vkFreeMemory (memory : Nat)
  | vkAllocateCommandBuffers (allocInfo : VkCommandBufferAllocateInfo) (commandBuffer : Nat)
  | vkBeginCommandBuffer (commandBuffer flags : Nat)
  | vkCmdPipelineBarrier (commandBuffer srcStageMask dstStageMask dependencyFlags : Nat)
      (imageMemoryBarriers : List VkImageMemoryBarrier)
  | vkCmdCopyBufferToImage (commandBuffer srcBuffer dstImage dstImageLayout : Nat)
      (regions : List VkBufferImageCopy)
  | vkCmdBlitImage (commandBuffer srcImage srcImageLayout dstImage dstImageLayout : Nat)
      (regions : List VkImageBlit) (filter : Nat)
  | vkEndCommandBuffer (commandBuffer : Nat)
  | vkQueueSubmit (queue : Nat) (commandBuffers : List Nat) (fence : Nat)
  | vkQueueWaitIdle (queue : Nat)
  | vkFreeCommandBuffers (commandPool : Nat) (commandBuffers : List Nat)
  | vkCreateSwapchainKHR (createInfo : VkSwapchainCreateInfoKHR)
  | vkCmdCopyBuffer (commandBuffer srcBuffer dstBuffer : Nat) (regions : List VkBufferCopy)
  | vkCreateDescriptorPool (poolInfo : VkDescriptorPoolCreateInfo)
  | vkCreateDescriptorSetLayout (layoutInfo : VkDescriptorSetLayoutCreateInfo)
  | vkAllocateDescriptorSets (allocInfo : VkDescriptorSetAllocateInfo)
  | vkUpdateDescriptorSets (descriptorWrites : List VkWriteDescriptorSet)
      (descriptorCopyCount : Nat)
  | vkCreateDevice (createInfo : VkDeviceCreateInfo)
  | vkCreateSampler (samplerInfo : VkSamplerCreateInfo)
  | vkCreateFramebuffer (framebufferInfo : VkFramebufferCreateInfo)
  | vkCreateRenderPass (renderPassInfo : VkRenderPassCreateInfo)
  | vkCreateShaderModule (createInfo : VkShaderModuleCreateInfo)
  | vkCreatePipelineLayout (pipelineLayoutInfo : VkPipelineLayoutCreateInfo)
  | vkCreateGraphicsPipelines (pipelineCache createInfoCount : Nat)
      (pCreateInfos : List VkGraphicsPipelineCreateInfo)
  | vkDestroyShaderModule (shaderModule : Nat)
  deriving DecidableEq, Repr

/-- The run of a procedure: the native calls it issued, in order, and its
outcome, a returned value or the exception it ended with. -/
structure Run (α : Type) where
  calls : List NativeCall
  outcome : Except Failure α

namespace Run

/-- Normal completion without a native call. -/
def ret {α : Type} (a : α) : Run α := ⟨[], Except.ok a⟩

/-- Sequencing: the second part runs only when the first returned. -/
def andThen {α β : Type} (r : Run α) (f : α → Run β) : Run β :=
  match r.outcome with
  | Except.error e => ⟨r.calls, Except.error e⟩
  | Except.ok a => ⟨r.calls ++ (f a).calls, (f a).outcome⟩

instance : Monad Run where
  pure := ret
  bind := andThen

/-- Issue one native call. -/
def call (c : NativeCall) : Run Unit := ⟨[c], Except.ok ()⟩

/-- The statement `throw e`. -/
def raise {α : Type} (e : Failure) : Run α := ⟨[], Except.error e⟩

/-- Embed a computation that issues no recorded call. -/
def lift {α : Type} (x : Except Failure α) : Run α := ⟨[], x⟩

/-- Whether the run ended by raising. -/
def raised {α : Type} (r : Run α) : Bool :=
  match r.outcome with
  | Except.error _ => true
  | Except.ok _ => false

end Run

namespace buffer

/-- One entry of the native memory-type table. -/
structure VkMemoryType where
  propertyFlags : Nat
  heapIndex : Nat
  deriving DecidableEq, Repr

/-- What `vkGetPhysicalDeviceMemoryProperties` reports: the number of valid
entries and the table itself (an array of `VK_MAX_MEMORY_TYPES = 32` entries
in the native structure). -/
structure VkPhysicalDeviceMemoryProperties where
  memoryTypeCount : Nat
  memoryTypes : List VkMemoryType
  deriving DecidableEq, Repr

/-- The expression `memProperties.memoryTypes[i].propertyFlags`. -/
def propertyFlagsAt (memProperties : VkPhysicalDeviceMemoryProperties) (i : Nat) : Nat :=
  (memProperties.memoryTypes.getD i ⟨0, 0⟩).propertyFlags

/-- The loop of `findMemoryType`, started at index `i` with `remaining`
iterations left before `i` reaches `memoryTypeCount`; falling out of the loop
reaches the `throw`.  The operand `1 << i` is an `int` converted to
`uint32_t` by the `&`, which is `2 ^ i` for `i ≤ 31`. -/
def findMemoryTypeLoop (memProperties : VkPhysicalDeviceMemoryProperties)
    (typeFilter properties : Nat) : Nat → Nat → Except Failure Nat
  | 0, _ => Except.error (runtimeError "failed to find suitable memory type!")
  | remaining + 1, i =>
    if (typeFilter &&& ((1 <<< i) % 2 ^ 32)) ≠ 0
        ∧ (propertyFlagsAt memProperties i &&& properties) = properties then
      Except.ok i
    else
      findMemoryTypeLoop memProperties typeFilter properties remaining (i + 1)

/-- The procedure `buffer::findMemoryType`; `memProperties` is what the
physical device reports. -/
def findMemoryType (memProperties : VkPhysicalDeviceMemoryProperties)
    (typeFilter properties : Nat) : Except Failure Nat :=
  findMemoryTypeLoop memProperties typeFilter properties memProperties.memoryTypeCount 0

/-- Memory type `i` is acceptable for a request: bit `i` of the type filter
is set and the property flags of entry `i` have every bit of the required
mask. -/
def memoryTypeMatches (memProperties : VkPhysicalDeviceMemoryProperties)
    (typeFilter properties i : Nat) : Prop :=
  typeFilter.testBit i = true
    ∧ ∀ b : Nat, properties.testBit b = true → (propertyFlagsAt memProperties i).testBit b = true

/-- What the native layer answers while `bindBuffer` runs: the result codes
of its three fallible calls, the handles written by the two creating calls,
and the memory requirements reported for the new buffer. -/
structure BindBufferReplies where
  createBufferResult : Int
  buffer : Nat
  memRequirements : VkMemoryRequirements
  allocateMemoryResult : Int
  bufferMemory : Nat
  bindBufferMemoryResult : Int
  deriving DecidableEq, Repr

/-- The procedure `buffer::bindBuffer`.  It returns the handles stored through
`buffer` and `bufferMemory`.  The source discards the value returned by
`vkBindBufferMemory`, so `replies.bindBufferMemoryResult` is not read. -/
def bindBuffer (memProperties : VkPhysicalDeviceMemoryProperties)
    (replies : BindBufferReplies) (size usage properties : Nat) : Run (Nat × Nat) := do
  let bufferInfo : VkBufferCreateInfo :=
    { size := size, usage := usage, sharingMode := VK_SHARING_MODE_EXCLUSIVE, flags := 0 }
  Run.call (NativeCall.vkCreateBuffer bufferInfo)
  if replies.createBufferResult ≠ VK_SUCCESS then
    Run.raise (runtimeError "failed to create vertex buffer!")
  else
    let memRequirements := replies.memRequirements
    let memoryTypeIndex ←
      Run.lift (findMemoryType memProperties memRequirements.memoryTypeBits properties)
    let allocInfo : VkMemoryAllocateInfo :=
      { allocationSize := memRequirements.size, memoryTypeIndex := memoryTypeIndex }
    Run.call (NativeCall.vkAllocateMemory allocInfo)
    if replies.allocateMemoryResult ≠ VK_SUCCESS then
      Run.raise (runtimeError "failed to allocate vertex buffer memory!")
    else
      Run.call (NativeCall.vkBindBufferMemory replies.buffer replies.bufferMemory 0)
      pure (replies.buffer, replies.bufferMemory)

end buffer

/-! ## Physical devices as the native layer reports them -/

/-- Everything the native layer reports about one physical device and the
window surface: queue families, per-family presentation support
(`vkGetPhysicalDeviceSurfaceSupportKHR`, a `VkBool32` per family index),
device extension names, surface capabilities, formats and presentation
modes, the `samplerAnisotropy` feature and the memory-type table. -/
structure PhysicalDeviceReport where
  queueFamilies : List VkQueueFamilyProperties
  presentationSupport : List Nat
  availableExtensions : List String
  capabilities : VkSurfaceCapabilitiesKHR
  formats : List VkSurfaceFormatKHR
  presentationModes : List Nat
  samplerAnisotropy : Nat
  memProperties : buffer.VkPhysicalDeviceMemoryProperties
  deriving DecidableEq, Repr

namespace swapchain

/-- The structure `swapchain::SwapChainSupportDetails`. -/
structure SwapChainSupportDetails where
  capabilities : VkSurfaceCapabilitiesKHR
  formats : List VkSurfaceFormatKHR
  presentationModes : List Nat
  deriving DecidableEq, Repr

/-- The procedure `swapchain::querySwapChainSupport`: the vectors are filled
with what the device reports (left empty when the reported count is 0). -/
def querySwapChainSupport (report : PhysicalDeviceReport) : SwapChainSupportDetails :=
  { capabilities := report.capabilities
    formats := report.formats
    presentationModes := report.presentationModes }

/-- The loop of `chooseSwapSurfaceFormat`: the first entry with the wanted
format and colour space, `none` when the loop falls through. -/
def chooseSwapSurfaceFormatLoop : List VkSurfaceFormatKHR → Option VkSurfaceFormatKHR
  | [] => none
  | availableFormat :: rest =>
    if availableFormat.format = VK_FORMAT_B8G8R8A8_SRGB
        ∧ availableFormat.colorSpace = VK_COLOR_SPACE_SRGB_NONLINEAR_KHR then
      some availableFormat
    else
      chooseSwapSurfaceFormatLoop rest

/-- The procedure `swapchain::chooseSwapSurfaceFormat`.  The result `none`
stands for the read of `availableFormats[0]` on an empty vector, which has no
defined value in the source. -/
def chooseSwapSurfaceFormat (availableFormats : List VkSurfaceFormatKHR) :
    Option VkSurfaceFormatKHR :=
  match chooseSwapSurfaceFormatLoop availableFormats with
  | some availableFormat => some availableFormat
  | none => availableFormats[0]?

/-- The procedure `swapchain::chooseSwapPresentMode`. -/
def chooseSwapPresentMode : List Nat → Nat
  | [] => VK_PRESENT_MODE_FIFO_KHR
  | availablePresentMode :: rest =>
    if availablePresentMode = VK_PRESENT_MODE_MAILBOX_KHR then
      availablePresentMode
    else
      chooseSwapPresentMode rest

/-- The procedure `swapchain::chooseSwapExtent`; `framebufferSize` is the pair
of `int`s written by `glfwGetFramebufferSize`. -/
def chooseSwapExtent (capabilities : VkSurfaceCapabilitiesKHR)
    (framebufferSize : Int × Int) : VkExtent2D :=
  if capabilities.currentExtent.width ≠ UINT32_MAX then
    capabilities.currentExtent
  else
    let width := framebufferSize.1
    let height := framebufferSize.2
    let actualExtent : VkExtent2D := { width := toUInt32 width, height := toUInt32 height }
    let actualExtent := { actualExtent with
      width := clamp actualExtent.width capabilities.minImageExtent.width
        capabilities.maxImageExtent.width }
    let actualExtent := { actualExtent with
      height := clamp actualExtent.height capabilities.minImageExtent.height
        capabilities.maxImageExtent.height }
    actualExtent

end swapchain

namespace device

/-- The structure `device::QueueFamilyIndices`. -/
structure QueueFamilyIndices where
  graphicsFamily : Option Nat
  presentationFamily : Option Nat
  deriving DecidableEq, Repr

/-- The member function `QueueFamilyIndices::isComplete`. -/
def QueueFamilyIndices.isComplete (indices : QueueFamilyIndices) : Bool :=
  indices.graphicsFamily.isSome && indices.presentationFamily.isSome

/-- The loop of `findQueueFamilies` over the remaining families, `i` being the
index of the first of them. -/
def findQueueFamiliesLoop (presentationSupport : List Nat) :
    List VkQueueFamilyProperties → Nat → QueueFamilyIndices → QueueFamilyIndices
  | [], _, indices => indices
  | queueFamily :: rest, i, indices =>
    if queueFamily.queueFlags &&& VK_QUEUE_GRAPHICS_BIT ≠ 0 then
      let presentationSupport := presentationSupport.getD i VK_FALSE
      let indices :=
        if presentationSupport ≠ 0 then { indices with presentationFamily := some i }
        else indices
      { indices with graphicsFamily := some i }
    else
      findQueueFamiliesLoop presentationSupport rest (i + 1) indices

/-- The procedure `device::findQueueFamilies`. -/
def findQueueFamilies (report : PhysicalDeviceReport) : QueueFamilyIndices :=
  findQueueFamiliesLoop report.presentationSupport report.queueFamilies 0
    { graphicsFamily := none, presentationFamily := none }

/-- The constructor `std::set<std::string>(first, last)`: the distinct names. -/
def requiredExtensionSet (device_extensions : List String) : List String :=
  device_extensions.foldl (fun s name => if name ∈ s then s else name :: s) []

/-- The procedure `device::checkDeviceExtensionSupport`: every available name
is erased from the set of required names, and the set must end up empty. -/
def checkDeviceExtensionSupport (availableExtensions device_extensions : List String) : Bool :=
  (availableExtensions.foldl (fun requiredExtensions extensionName =>
      requiredExtensions.erase extensionName) (requiredExtensionSet device_extensions)).isEmpty

/-- The procedure `device::isPhysicalDeviceSuitable`. -/
def isPhysicalDeviceSuitable (report : PhysicalDeviceReport)
    (device_extensions : List String) : Bool :=
  let indices := findQueueFamilies report
  let extensionsSupported := checkDeviceExtensionSupport report.availableExtensions device_extensions
  let swapChainAdequate :=
    if extensionsSupported then
      let swapChainSupport := swapchain.querySwapChainSupport report
      !swapChainSupport.formats.isEmpty && !swapChainSupport.presentationModes.isEmpty
    else false
  indices.isComplete && extensionsSupported && swapChainAdequate
    && decide (report.samplerAnisotropy ≠ 0)

/-- How a call of `pickPhysicalDevice` ends: the devices handed to
`isPhysicalDeviceSuitable`, in order, the handle held by `*pPhysicalDevice`,
and whether the procedure returned or raised. -/
structure PickPhysicalDeviceRun where
  examined : List Nat
  physicalDevice : Nat
  outcome : Except Failure Unit
  deriving DecidableEq

/-- The loop of `pickPhysicalDevice` over the remaining devices: `physicalDevice`
is the current value of `*pPhysicalDevice`, `examined` the devices already
tested.  The `break` ends the loop at the first suitable device. -/
def pickPhysicalDeviceLoop (gpu : Nat → PhysicalDeviceReport) (device_extensions : List String) :
    List Nat → Nat → List Nat → Nat × List Nat
  | [], physicalDevice, examined => (physicalDevice, examined)
  | device :: rest, physicalDevice, examined =>
    if isPhysicalDeviceSuitable (gpu device) device_extensions then
      (device, examined ++ [device])
    else
      pickPhysicalDeviceLoop gpu device_extensions rest physicalDevice (examined ++ [device])

/-- The procedure `device::pickPhysicalDevice`.  `enumerated` is the list of
handles `vkEnumeratePhysicalDevices` reports, `gpu` what the native layer
reports for each handle, and `physicalDevice` the value `*pPhysicalDevice`
holds when the procedure is entered. -/
def pickPhysicalDevice (enumerated : List Nat) (gpu : Nat → PhysicalDeviceReport)
    (device_extensions : List String) (physicalDevice : Nat) : PickPhysicalDeviceRun :=
  let deviceCount := enumerated.length
  if deviceCount = 0 then
    { examined := [], physicalDevice := physicalDevice,
      outcome := Except.error (runtimeError "failed to find GPUs with Vulkan support!") }
  else
    let devices := enumerated
    let (physicalDevice, examined) :=
      pickPhysicalDeviceLoop gpu device_extensions devices physicalDevice []
    if physicalDevice = VK_NULL_HANDLE then
      { examined := examined, physicalDevice := physicalDevice,
        outcome := Except.error (runtimeError "failed to find a suitable GPU!") }
    else
      { examined := examined, physicalDevice := physicalDevice, outcome := Except.ok () }

end device

namespace swapchain

/-- What the native layer answers while `createSwapChain` runs: the size
`glfwGetFramebufferSize` writes, the result code of `vkCreateSwapchainKHR`,
the handle it stores and the images `vkGetSwapchainImagesKHR` reports. -/
structure CreateSwapChainReplies where
  framebufferSize : Int × Int
  createSwapchainResult : Int
  swapChain : Nat
  swapChainImages : List Nat
  deriving DecidableEq, Repr

/-- What `createSwapChain` stores through its output parameters. -/
structure SwapChainOutputs where
  swapChain : Nat
  swapChainImages : List Nat
  swapChainImageFormat : Nat
  swapChainExtent : VkExtent2D
  deriving DecidableEq, Repr

/-- The local variable `imageCount` of `createSwapChain` when the create-info
is filled: one more than the minimum (an unsigned 32-bit sum), lowered to a
non-zero maximum. -/
def imageCount (capabilities : VkSurfaceCapabilitiesKHR) : Nat :=
  let imageCount := (capabilities.minImageCount + 1) % 2 ^ 32
  if capabilities.maxImageCount > 0 ∧ imageCount > capabilities.maxImageCount then
    capabilities.maxImageCount
  else
    imageCount

/-- The expression `optional.value()`, which raises `std::bad_optional_access`
on an empty optional. -/
def optionalValue (o : Option Nat) : Run Nat :=
  match o with
  | some v => pure v
  | none => Run.raise ⟨FailureKind.bad_optional_access, "bad optional access"⟩

/-- The body of `createSwapChain` after the surface format has been chosen. -/
def createSwapChainWith (report : PhysicalDeviceReport) (replies : CreateSwapChainReplies)
    (surface : Nat) (swapChainSupport : SwapChainSupportDetails)
    (surfaceFormat : VkSurfaceFormatKHR) : Run SwapChainOutputs := do
  let presentMode := chooseSwapPresentMode swapChainSupport.presentationModes
  let extent := chooseSwapExtent swapChainSupport.capabilities replies.framebufferSize
  let imageCount := imageCount swapChainSupport.capabilities
  let indices := device.findQueueFamilies report
  let graphicsFamily ← optionalValue indices.graphicsFamily
  let presentationFamily ← optionalValue indices.presentationFamily
  let queueFamilyIndices := [graphicsFamily, presentationFamily]
  let concurrent : Bool := indices.graphicsFamily ≠ indices.presentationFamily
  let createInfo : VkSwapchainCreateInfoKHR :=
    { surface := surface
      minImageCount := imageCount
      imageFormat := surfaceFormat.format
      imageColorSpace := surfaceFormat.colorSpace
      imageExtent := extent
      imageArrayLayers := 1
      imageUsage := VK_IMAGE_USAGE_COLOR_ATTACHMENT_BIT
      imageSharingMode :=
        if concurrent then VK_SHARING_MODE_CONCURRENT else VK_SHARING_MODE_EXCLUSIVE
      queueFamilyIndexCount := if concurrent then 2 else 0
      pQueueFamilyIndices := if concurrent then some queueFamilyIndices else none
      preTransform := swapChainSupport.capabilities.currentTransform
      compositeAlpha := VK_COMPOSITE_ALPHA_OPAQUE_BIT_KHR
      presentMode := presentMode
      clipped := VK_TRUE
      oldSwapchain := VK_NULL_HANDLE }
  Run.call (NativeCall.vkCreateSwapchainKHR createInfo)
  if replies.createSwapchainResult ≠ VK_SUCCESS then
    Run.raise (runtimeError "failed to create swap chain!")
  else
    pure { swapChain := replies.swapChain
           swapChainImages := replies.swapChainImages
           swapChainImageFormat := surfaceFormat.format
           swapChainExtent := extent }

/-- The procedure `swapchain::createSwapChain` for the physical device and
surface described by `report`.  The result is `none` when the surface format
cannot be read (an empty format list, see `chooseSwapSurfaceFormat`). -/
def createSwapChain (report : PhysicalDeviceReport) (replies : CreateSwapChainReplies)
    (surface : Nat) : Option (Run SwapChainOutputs) :=
  let swapChainSupport := querySwapChainSupport report
  match chooseSwapSurfaceFormat swapChainSupport.formats with
  | none => none
  | some surfaceFormat =>
    some (createSwapChainWith report replies surface swapChainSupport surfaceFormat)

end swapchain

namespace commandbuffer

/-- The procedure `commandbuffer::beginSingleTimeCommands`; `commandBuffer` is
the handle the native allocation writes. -/
def beginSingleTimeCommands (commandPool commandBuffer : Nat) : Run Nat := do
  let allocInfo : VkCommandBufferAllocateInfo :=
    { commandPool := commandPool, level := VK_COMMAND_BUFFER_LEVEL_PRIMARY,
      commandBufferCount := 1 }
  Run.call (NativeCall.vkAllocateCommandBuffers allocInfo commandBuffer)
  Run.call (NativeCall.vkBeginCommandBuffer commandBuffer
    VK_COMMAND_BUFFER_USAGE_ONE_TIME_SUBMIT_BIT)
  pure commandBuffer

/-- The procedure `commandbuffer::endAndExecuteSingleTimeCommands`. -/
def endAndExecuteSingleTimeCommands (commandPool graphicsQueue commandBuffer : Nat) :
    Run Unit := do
  Run.call (NativeCall.vkEndCommandBuffer commandBuffer)
  Run.call (NativeCall.vkQueueSubmit graphicsQueue [commandBuffer] VK_NULL_HANDLE)
  Run.call (NativeCall.vkQueueWaitIdle graphicsQueue)
  Run.call (NativeCall.vkFreeCommandBuffers commandPool [commandBuffer])

end commandbuffer

namespace texture

/-- The procedure `texture::transitionImageLayout`; `commandBuffer` is the
handle the single-use allocation writes. -/
def transitionImageLayout (commandPool graphicsQueue image format oldLayout newLayout
    mipLevels commandBuffer : Nat) : Run Unit := do
  let commandBuffer ← commandbuffer.beginSingleTimeCommands commandPool commandBuffer
  let barrier : VkImageMemoryBarrier :=
    { srcAccessMask := 0
      dstAccessMask := 0
      oldLayout := oldLayout
      newLayout := newLayout
      srcQueueFamilyIndex := VK_QUEUE_FAMILY_IGNORED
      dstQueueFamilyIndex := VK_QUEUE_FAMILY_IGNORED
      image := image
      subresourceRange :=
        { aspectMask := VK_IMAGE_ASPECT_COLOR_BIT, baseMipLevel := 0, levelCount := mipLevels,
          baseArrayLayer := 0, layerCount := 1 } }
  let (barrier, sourceStage, destinationStage) ←
    (if oldLayout = VK_IMAGE_LAYOUT_UNDEFINED
        ∧ newLayout = VK_IMAGE_LAYOUT_TRANSFER_DST_OPTIMAL then
      pure ({ barrier with srcAccessMask := 0, dstAccessMask := VK_ACCESS_TRANSFER_WRITE_BIT },
        VK_PIPELINE_STAGE_TOP_OF_PIPE_BIT, VK_PIPELINE_STAGE_TRANSFER_BIT)
    else if oldLayout = VK_IMAGE_LAYOUT_TRANSFER_DST_OPTIMAL
        ∧ newLayout = VK_IMAGE_LAYOUT_SHADER_READ_ONLY_OPTIMAL then
      pure ({ barrier with srcAccessMask := VK_ACCESS_TRANSFER_WRITE_BIT,
                           dstAccessMask := VK_ACCESS_SHADER_READ_BIT },
        VK_PIPELINE_STAGE_TRANSFER_BIT, VK_PIPELINE_STAGE_FRAGMENT_SHADER_BIT)
    else
      Run.raise (invalidArgument "unsupported layout transition!")
      : Run (VkImageMemoryBarrier × Nat × Nat))
  let _ := format
  Run.call (NativeCall.vkCmdPipelineBarrier commandBuffer sourceStage destinationStage 0
    [barrier])
  commandbuffer.endAndExecuteSingleTimeCommands commandPool graphicsQueue commandBuffer

/-- The procedure `texture::copyBufferToImage`. -/
def copyBufferToImage (commandPool graphicsQueue buffer image width height
    commandBuffer : Nat) : Run Unit := do
  let commandBuffer ← commandbuffer.beginSingleTimeCommands commandPool commandBuffer
  let region : VkBufferImageCopy :=
    { bufferOffset := 0
      bufferRowLength := 0
      bufferImageHeight := 0
      imageSubresource :=
        { aspectMask := VK_IMAGE_ASPECT_COLOR_BIT, mipLevel := 0, baseArrayLayer := 0,
          layerCount := 1 }
      imageOffset := { x := 0, y := 0, z := 0 }
      imageExtent := { width := width, height := height, depth := 1 } }
  Run.call (NativeCall.vkCmdCopyBufferToImage commandBuffer buffer image
    VK_IMAGE_LAYOUT_TRANSFER_DST_OPTIMAL [region])
  commandbuffer.endAndExecuteSingleTimeCommands commandPool graphicsQueue commandBuffer

/-- What the native layer answers while `bindImageMemory` runs. -/
structure BindImageMemoryReplies where
  createImageResult : Int
  image : Nat
  memRequirements : VkMemoryRequirements
  allocateMemoryResult : Int
  imageMemory : Nat
  bindImageMemoryResult : Int
  deriving DecidableEq, Repr

/-- The procedure `texture::bindImageMemory`.  It returns the handles stored
through `image` and `imageMemory`; the value returned by `vkBindImageMemory`
is discarded by the source. -/
def bindImageMemory (memProperties : buffer.VkPhysicalDeviceMemoryProperties)
    (replies : BindImageMemoryReplies)
    (width height mipLevels msaaSampleCount format tiling usage properties : Nat) :
    Run (Nat × Nat) := do
  let imageInfo : VkImageCreateInfo :=
    { imageType := VK_IMAGE_TYPE_2D
      extent := { width := width % 2 ^ 32, height := height % 2 ^ 32, depth := 1 }
      mipLevels := mipLevels
      arrayLayers := 1
      format := format
      tiling := tiling
      initialLayout := VK_IMAGE_LAYOUT_UNDEFINED
      usage := usage
      sharingMode := VK_SHARING_MODE_EXCLUSIVE
      samples := msaaSampleCount
      flags := 0 }
  Run.call (NativeCall.vkCreateImage imageInfo)
  if replies.createImageResult ≠ VK_SUCCESS then
    Run.raise (runtimeError "failed to create image!")
  else
    let memRequirements := replies.memRequirements
    let memoryTypeIndex ←
      Run.lift (buffer.findMemoryType memProperties memRequirements.memoryTypeBits properties)
    let allocInfo : VkMemoryAllocateInfo :=
      { allocationSize := memRequirements.size, memoryTypeIndex := memoryTypeIndex }
    Run.call (NativeCall.vkAllocateMemory allocInfo)
    if replies.allocateMemoryResult ≠ VK_SUCCESS then
      Run.raise (runtimeError "failed to allocate image memory!")
    else
      Run.call (NativeCall.vkBindImageMemory replies.image replies.imageMemory 0)
      pure (replies.image, replies.imageMemory)

/-- The barrier variable of `generateMipmaps` as it stands at a barrier
call: one mip level of the colour aspect, no queue family transfer. -/
def mipBarrier (image baseMipLevel oldLayout newLayout srcAccessMask dstAccessMask : Nat) :
    VkImageMemoryBarrier :=
  { srcAccessMask := srcAccessMask
    dstAccessMask := dstAccessMask
    oldLayout := oldLayout
    newLayout := newLayout
    srcQueueFamilyIndex := VK_QUEUE_FAMILY_IGNORED
    dstQueueFamilyIndex := VK_QUEUE_FAMILY_IGNORED
    image := image
    subresourceRange :=
      { aspectMask := VK_IMAGE_ASPECT_COLOR_BIT, baseMipLevel := baseMipLevel, levelCount := 1,
        baseArrayLayer := 0, layerCount := 1 } }

/-- The loop of `generateMipmaps`, entered at level `i` with `remaining`
iterations left before `i` reaches `mipLevels`; it returns the final
`mipWidth` and `mipHeight`. -/
def generateMipmapsLoop (commandBuffer image : Nat) :
    Nat → Nat → Int → Int → Run (Int × Int)
  | 0, _, mipWidth, mipHeight => pure (mipWidth, mipHeight)
  | remaining + 1, i, mipWidth, mipHeight => do
    Run.call (NativeCall.vkCmdPipelineBarrier commandBuffer
      VK_PIPELINE_STAGE_TRANSFER_BIT VK_PIPELINE_STAGE_TRANSFER_BIT 0
      [mipBarrier image (i - 1) VK_IMAGE_LAYOUT_TRANSFER_DST_OPTIMAL
        VK_IMAGE_LAYOUT_TRANSFER_SRC_OPTIMAL VK_ACCESS_TRANSFER_WRITE_BIT
        VK_ACCESS_TRANSFER_READ_BIT])
    let blit : VkImageBlit :=
      { srcOffsets0 := { x := 0, y := 0, z := 0 }
        srcOffsets1 := { x := mipWidth, y := mipHeight, z := 1 }
        srcSubresource :=
          { aspectMask := VK_IMAGE_ASPECT_COLOR_BIT, mipLevel := i - 1, baseArrayLayer := 0,
            layerCount := 1 }
        dstOffsets0 := { x := 0, y := 0, z := 0 }
        dstOffsets1 :=
          { x := if mipWidth > 1 then mipWidth / 2 else 1
            y := if mipHeight > 1 then mipHeight / 2 else 1
            z := 1 }
        dstSubresource :=
          { aspectMask := VK_IMAGE_ASPECT_COLOR_BIT, mipLevel := i, baseArrayLayer := 0,
            layerCount := 1 } }
    Run.call (NativeCall.vkCmdBlitImage commandBuffer
      image VK_IMAGE_LAYOUT_TRANSFER_SRC_OPTIMAL
      image VK_IMAGE_LAYOUT_TRANSFER_DST_OPTIMAL
      [blit] VK_FILTER_LINEAR)
    Run.call (NativeCall.vkCmdPipelineBarrier commandBuffer
      VK_PIPELINE_STAGE_TRANSFER_BIT VK_PIPELINE_STAGE_FRAGMENT_SHADER_BIT 0
      [mipBarrier image (i - 1) VK_IMAGE_LAYOUT_TRANSFER_SRC_OPTIMAL
        VK_IMAGE_LAYOUT_SHADER_READ_ONLY_OPTIMAL VK_ACCESS_TRANSFER_READ_BIT
        VK_ACCESS_SHADER_READ_BIT])
    let mipWidth := if mipWidth > 1 then mipWidth / 2 else mipWidth
    let mipHeight := if mipHeight > 1 then mipHeight / 2 else mipHeight
    generateMipmapsLoop commandBuffer image remaining (i + 1) mipWidth mipHeight

/-- The procedure `texture::generateMipmaps`; `optimalTilingFeatures` is what
the physical device reports for `imageFormat`, `commandBuffer` the handle the
single-use allocation writes.  The loop runs for `i = 1, ..., mipLevels - 1`;
the last barrier names level `mipLevels - 1` as an unsigned 32-bit value. -/
def generateMipmaps (optimalTilingFeatures commandPool graphicsQueue image imageFormat : Nat)
    (texWidth texHeight : Int) (mipLevels commandBuffer : Nat) : Run Unit := do
  let _ := imageFormat
  if optimalTilingFeatures &&& VK_FORMAT_FEATURE_SAMPLED_IMAGE_FILTER_LINEAR_BIT = 0 then
    Run.raise (runtimeError "texture image format does not support linear blitting!")
  else
    let commandBuffer ← commandbuffer.beginSingleTimeCommands commandPool commandBuffer
    let _ ← generateMipmapsLoop commandBuffer image (mipLevels - 1) 1 texWidth texHeight
    Run.call (NativeCall.vkCmdPipelineBarrier commandBuffer
      VK_PIPELINE_STAGE_TRANSFER_BIT VK_PIPELINE_STAGE_FRAGMENT_SHADER_BIT 0
      [mipBarrier image ((mipLevels + (2 ^ 32 - 1)) % 2 ^ 32)
        VK_IMAGE_LAYOUT_TRANSFER_DST_OPTIMAL VK_IMAGE_LAYOUT_SHADER_READ_ONLY_OPTIMAL
        VK_ACCESS_TRANSFER_WRITE_BIT VK_ACCESS_SHADER_READ_BIT])
    commandbuffer.endAndExecuteSingleTimeCommands commandPool graphicsQueue commandBuffer

/-- The value of `static_cast<uint32_t>(std::floor(std::log2(x)))` for an
`int` argument `x ≥ 1`: the integer part of the binary logarithm.  Every
`int` is a `double` without rounding and the logarithm is taken as the exact
real one.  For `x ≤ 0` the conversion is undefined in the source; the
definition gives 0 there. -/
def floorLog2 (x : Int) : Nat := Nat.log2 x.toNat

/-- The local variable `mipLevels` of `createTextureImage`. -/
def mipLevels (texWidth texHeight : Int) : Nat :=
  (floorLog2 (max texWidth texHeight) + 1) % 2 ^ 32

/-- The `int` product `texWidth * texHeight * 4` converted to `VkDeviceSize`
(unsigned 64-bit).  A product outside the `int` range is undefined in the
source; it is taken here as the two-complement wrap. -/
def imageSize (texWidth texHeight : Int) : Nat :=
  let product := ((texWidth * texHeight * 4 + 2 ^ 31) % 2 ^ 32) - 2 ^ 31
  (product % 2 ^ 64).toNat

/-- What the image loader and the native layer answer while
`createTextureImage` runs. -/
structure CreateTextureImageReplies where
  pixelsLoaded : Bool
  texWidth : Int
  texHeight : Int
  staging : buffer.BindBufferReplies
  image : BindImageMemoryReplies
  optimalTilingFeatures : Nat
  transitionCommandBuffer : Nat
  copyCommandBuffer : Nat
  mipmapCommandBuffer : Nat
  deriving DecidableEq, Repr

/-- What `createTextureImage` returns (`mipLevels`) and stores through its
output parameters. -/
structure CreateTextureImageOutputs where
  mipLevels : Nat
  textureImage : Nat
  textureImageMemory : Nat
  deriving DecidableEq, Repr

/-- The procedure `texture::createTextureImage`. -/
def createTextureImage (memProperties : buffer.VkPhysicalDeviceMemoryProperties)
    (replies : CreateTextureImageReplies) (commandPool graphicsQueue msaaSampleCount : Nat) :
    Run CreateTextureImageOutputs := do
  let texWidth := replies.texWidth
  let texHeight := replies.texHeight
  let imageSize := imageSize texWidth texHeight
  let mipLevels := mipLevels texWidth texHeight
  if !replies.pixelsLoaded then
    Run.raise (runtimeError "failed to load texture image!")
  else
    let (stagingBuffer, stagingBufferMemory) ←
      buffer.bindBuffer memProperties replies.staging imageSize VK_BUFFER_USAGE_TRANSFER_SRC_BIT
        (VK_MEMORY_PROPERTY_HOST_VISIBLE_BIT ||| VK_MEMORY_PROPERTY_HOST_COHERENT_BIT)
    Run.call (NativeCall.vkMapMemory stagingBufferMemory 0 imageSize 0)
    Run.call (NativeCall.memcpy imageSize)
    Run.call (NativeCall.vkUnmapMemory stagingBufferMemory)
    Run.call NativeCall.stbi_image_free
    let (textureImage, textureImageMemory) ←
      bindImageMemory memProperties replies.image (toUInt32 texWidth) (toUInt32 texHeight)
        mipLevels msaaSampleCount VK_FORMAT_R8G8B8A8_SRGB VK_IMAGE_TILING_OPTIMAL
        (VK_IMAGE_USAGE_TRANSFER_SRC_BIT ||| VK_IMAGE_USAGE_TRANSFER_DST_BIT
          ||| VK_IMAGE_USAGE_SAMPLED_BIT)
        VK_MEMORY_PROPERTY_DEVICE_LOCAL_BIT
    transitionImageLayout commandPool graphicsQueue textureImage VK_FORMAT_R8G8B8A8_SRGB
      VK_IMAGE_LAYOUT_UNDEFINED VK_IMAGE_LAYOUT_TRANSFER_DST_OPTIMAL mipLevels
      replies.transitionCommandBuffer
    copyBufferToImage commandPool graphicsQueue stagingBuffer textureImage
      (toUInt32 texWidth) (toUInt32 texHeight) replies.copyCommandBuffer
    generateMipmaps replies.optimalTilingFeatures commandPool graphicsQueue textureImage
      VK_FORMAT_R8G8B8A8_SRGB texWidth texHeight mipLevels replies.mipmapCommandBuffer
    Run.call (NativeCall.vkDestroyBuffer stagingBuffer)
    Run.call (NativeCall.vkFreeMemory stagingBufferMemory)
    pure { mipLevels := mipLevels, textureImage := textureImage,
           textureImageMemory := textureImageMemory }

end texture

/-! ## Structure layout -/

/-- The size and the alignment of a non-static data member. -/
structure Member where
  name : String
  size : Nat
  align : Nat
  deriving DecidableEq, Repr

/-- The least multiple of `align` that is at least `offset`. -/
def alignUp (offset align : Nat) : Nat := (offset + align - 1) / align * align

/-- The offsets of the members of a standard-layout structure laid out in
declaration order from `offset` on, each at the next multiple of its
alignment. -/
def memberOffsets : List Member → Nat → List (String × Nat)
  | [], _ => []
  | m :: rest, offset =>
    (m.name, alignUp offset m.align) :: memberOffsets rest (alignUp offset m.align + m.size)

/-- The value of `offsetof(S, name)` for the structure with the given
members. -/
def offsetof (members : List Member) (name : String) : Nat :=
  ((memberOffsets members 0).lookup name).getD 0

/-- The end of the last member of the structure. -/
def membersEnd : List Member → Nat → Nat
  | [], offset => offset
  | m :: rest, offset => membersEnd rest (alignUp offset m.align + m.size)

/-- The value of `sizeof(S)`: the end of the last member, rounded up to the
largest member alignment. -/
def sizeof (members : List Member) : Nat :=
  alignUp (membersEnd members 0) (members.foldl (fun a m => max a m.align) 1)

namespace commandbuffer

/-- The number of native calls in `calls` that allocate the command buffer
`commandBuffer`. -/
def allocations (commandBuffer : Nat) (calls : List NativeCall) : Nat :=
  calls.countP fun c =>
    match c with
    | NativeCall.vkAllocateCommandBuffers _ allocated => decide (allocated = commandBuffer)
    | _ => false

/-- The number of native calls in `calls` that free the command buffer
`commandBuffer`. -/
def frees (commandBuffer : Nat) (calls : List NativeCall) : Nat :=
  calls.countP fun c =>
    match c with
    | NativeCall.vkFreeCommandBuffers _ freed => freed.contains commandBuffer
    | _ => false

end commandbuffer

namespace buffer

/-- The procedure `buffer::copyBuffer`; `commandBuffer` is the handle the
single-use allocation writes. -/
def copyBuffer (commandPool graphicsQueue srcBuffer dstBuffer size commandBuffer : Nat) :
    Run Unit := do
  let commandBuffer ← commandbuffer.beginSingleTimeCommands commandPool commandBuffer
  let copyRegion : VkBufferCopy := { srcOffset := 0, dstOffset := 0, size := size }
  Run.call (NativeCall.vkCmdCopyBuffer commandBuffer srcBuffer dstBuffer [copyRegion])
  commandbuffer.endAndExecuteSingleTimeCommands commandPool graphicsQueue commandBuffer

/-- The enumeration `buffer::Type`. -/
inductive BufferType where
  | Vertex
  | Index
  deriving DecidableEq, Repr

/-- What the native layer answers while `createBuffer` runs. -/
structure CreateBufferReplies where
  staging : BindBufferReplies
  destination : BindBufferReplies
  copyCommandBuffer : Nat
  deriving DecidableEq, Repr

/-- The procedure template `buffer::createBuffer<T>`.  `elementSize` is
`sizeof(itemList[0])` and `itemCount` is `itemList.size()`; their product is a
`size_t` (unsigned 64-bit) value.  The bytes of the items are not represented:
the `memcpy` call records how many are written.  It returns the handles stored
through `buffer` and `bufferMemory`. -/
def createBuffer (bufferType : BufferType) (memProperties : VkPhysicalDeviceMemoryProperties)
    (replies : CreateBufferReplies) (commandPool graphicsQueue elementSize itemCount : Nat) :
    Run (Nat × Nat) := do
  let bufferSize := (elementSize * itemCount) % 2 ^ 64
  let (stagingBuffer, stagingBufferMemory) ←
    bindBuffer memProperties replies.staging bufferSize VK_BUFFER_USAGE_TRANSFER_SRC_BIT
      (VK_MEMORY_PROPERTY_HOST_VISIBLE_BIT ||| VK_MEMORY_PROPERTY_HOST_COHERENT_BIT)
  Run.call (NativeCall.vkMapMemory stagingBufferMemory 0 bufferSize 0)
  Run.call (NativeCall.memcpy bufferSize)
  Run.call (NativeCall.vkUnmapMemory stagingBufferMemory)
  let buffer_bit :=
    if bufferType = BufferType.Vertex then VK_BUFFER_USAGE_VERTEX_BUFFER_BIT
    else VK_BUFFER_USAGE_INDEX_BUFFER_BIT
  let (buffer, bufferMemory) ←
    bindBuffer memProperties replies.destination bufferSize
      (VK_BUFFER_USAGE_TRANSFER_DST_BIT ||| buffer_bit) VK_MEMORY_PROPERTY_DEVICE_LOCAL_BIT
  copyBuffer commandPool graphicsQueue stagingBuffer buffer bufferSize replies.copyCommandBuffer
  Run.call (NativeCall.vkDestroyBuffer stagingBuffer)
  Run.call (NativeCall.vkFreeMemory stagingBufferMemory)
  pure (buffer, bufferMemory)

/-- The construction of a `std::vector` whose size is given by an `int`: a
negative value becomes a `size_t` above `max_size()` and the constructor
raises `std::length_error`. -/
def vectorSize (n : Int) : Run Nat :=
  if n < 0 then
    Run.raise ⟨FailureKind.length_error, "cannot create std::vector larger than max_size()"⟩
  else
    pure n.toNat

/-- The procedure `buffer::createDescriptorPool`; `createDescriptorPoolResult`
and `descriptorPool` are the result code and the handle of the native
creation.  It returns the handle stored through `descriptorPool`. -/
def createDescriptorPool (createDescriptorPoolResult : Int) (descriptorPool : Nat)
    (maxFramesInFlight : Int) : Run Nat := do
  let poolSizes : List VkDescriptorPoolSize :=
    [ { type := VK_DESCRIPTOR_TYPE_UNIFORM_BUFFER,
        descriptorCount := toUInt32 maxFramesInFlight },
      { type := VK_DESCRIPTOR_TYPE_COMBINED_IMAGE_SAMPLER,
        descriptorCount := toUInt32 maxFramesInFlight } ]
  let poolInfo : VkDescriptorPoolCreateInfo :=
    { poolSizeCount := poolSizes.length % 2 ^ 32
      pPoolSizes := poolSizes
      maxSets := toUInt32 maxFramesInFlight
      flags := 0 }
  Run.call (NativeCall.vkCreateDescriptorPool poolInfo)
  if createDescriptorPoolResult ≠ VK_SUCCESS then
    Run.raise (runtimeError "failed to create descriptor pool!")
  else
    pure descriptorPool

/-- The array `bindings` of `createDescriptorSetLayout`: the uniform buffer
of the vertex stage at binding 0 and the combined image sampler of the
fragment stage at binding 1. -/
def descriptorSetLayoutBindings : List VkDescriptorSetLayoutBinding :=
  let uboLayoutBinding : VkDescriptorSetLayoutBinding :=
    { binding := 0
      descriptorType := VK_DESCRIPTOR_TYPE_UNIFORM_BUFFER
      descriptorCount := 1
      stageFlags := VK_SHADER_STAGE_VERTEX_BIT
      pImmutableSamplers := none }
  let samplerLayoutBinding : VkDescriptorSetLayoutBinding :=
    { binding := 1
      descriptorType := VK_DESCRIPTOR_TYPE_COMBINED_IMAGE_SAMPLER
      descriptorCount := 1
      stageFlags := VK_SHADER_STAGE_FRAGMENT_BIT
      pImmutableSamplers := none }
  [uboLayoutBinding, samplerLayoutBinding]

/-- The procedure `buffer::createDescriptorSetLayout`.  It returns the handle
stored through `descriptorSetLayout`. -/
def createDescriptorSetLayout (createDescriptorSetLayoutResult : Int)
    (descriptorSetLayout : Nat) : Run Nat := do
  let bindings := descriptorSetLayoutBindings
  let layoutInfo : VkDescriptorSetLayoutCreateInfo :=
    { bindingCount := bindings.length % 2 ^ 32, pBindings := bindings }
  Run.call (NativeCall.vkCreateDescriptorSetLayout layoutInfo)
  if createDescriptorSetLayoutResult ≠ VK_SUCCESS then
    Run.raise (runtimeError "failed to create descriptor set layout!")
  else
    pure descriptorSetLayout

/-- The type `glm::mat4`: sixteen 32-bit floats; here with the `alignas(16)`
of the members of `UniformBufferObject`. -/
def mat4Aligned16 (name : String) : Member := { name := name, size := 64, align := 16 }

/-- The members of the structure `buffer::UniformBufferObject`. -/
def UniformBufferObject : List Member :=
  [mat4Aligned16 "model", mat4Aligned16 "view", mat4Aligned16 "proj"]

/-- What the native layer answers while `createDescriptorSets` runs: the
result code of the allocation and the set handles it writes. -/
structure CreateDescriptorSetsReplies where
  allocateDescriptorSetsResult : Int
  descriptorSets : List Nat
  deriving DecidableEq, Repr

/-- The loop of `createDescriptorSets` that configures the allocated sets,
entered at index `i` with `remaining` iterations left.  The vector
`descriptorSets` has `maxFramesInFlight` entries, null where the native layer
wrote nothing.  Reading `uniformBuffers[i]` past the end of the vector has no
defined value in the source; the null handle is read here. -/
def createDescriptorSetsLoop (uniformBuffers descriptorSets : List Nat)
    (textureImageView textureSampler : Nat) : Nat → Nat → Run Unit
  | 0, _ => pure ()
  | remaining + 1, i => do
    let bufferInfo : VkDescriptorBufferInfo :=
      { buffer := uniformBuffers.getD i VK_NULL_HANDLE, offset := 0,
        range := sizeof UniformBufferObject }
    let imageInfo : VkDescriptorImageInfo :=
      { imageLayout := VK_IMAGE_LAYOUT_SHADER_READ_ONLY_OPTIMAL,
        imageView := textureImageView, sampler := textureSampler }
    let descriptorWrites : List VkWriteDescriptorSet :=
      [ { dstSet := descriptorSets.getD i VK_NULL_HANDLE
          dstBinding := 0
          dstArrayElement := 0
          descriptorType := VK_DESCRIPTOR_TYPE_UNIFORM_BUFFER
          descriptorCount := 1
          pBufferInfo := some bufferInfo
          pImageInfo := none },
        { dstSet := descriptorSets.getD i VK_NULL_HANDLE
          dstBinding := 1
          dstArrayElement := 0
          descriptorType := VK_DESCRIPTOR_TYPE_COMBINED_IMAGE_SAMPLER
          descriptorCount := 1
          pBufferInfo := none
          pImageInfo := some imageInfo } ]
    Run.call (NativeCall.vkUpdateDescriptorSets descriptorWrites 0)
    createDescriptorSetsLoop uniformBuffers descriptorSets textureImageView textureSampler
      remaining (i + 1)

/-- The procedure `buffer::createDescriptorSets`.  It returns the vector
stored through `descriptorSets`. -/
def createDescriptorSets (replies : CreateDescriptorSetsReplies) (maxFramesInFlight : Int)
    (uniformBuffers : List Nat) (descriptorPool descriptorSetLayout textureImageView
      textureSampler : Nat) : Run (List Nat) := do
  let size ← vectorSize maxFramesInFlight
  let layouts := List.replicate size descriptorSetLayout
  let allocInfo : VkDescriptorSetAllocateInfo :=
    { descriptorPool := descriptorPool
      descriptorSetCount := toUInt32 maxFramesInFlight
      pSetLayouts := layouts }
  let descriptorSets := (List.range size).map fun i => replies.descriptorSets.getD i VK_NULL_HANDLE
  Run.call (NativeCall.vkAllocateDescriptorSets allocInfo)
  if replies.allocateDescriptorSetsResult ≠ VK_SUCCESS then
    Run.raise (runtimeError "failed to allocate descriptor sets!")
  else
    createDescriptorSetsLoop uniformBuffers descriptorSets textureImageView textureSampler
      size 0
    pure descriptorSets

/-- The number of descriptors of type `descriptorType` that one set with the
given layout bindings holds. -/
def descriptorsOfType (bindings : List VkDescriptorSetLayoutBinding) (descriptorType : Nat) :
    Nat :=
  ((bindings.filter fun b => b.descriptorType = descriptorType).map fun b =>
    b.descriptorCount).sum

/-- The number of descriptors of type `descriptorType` that a pool with the
given sizes provides. -/
def poolDescriptorsOfType (poolSizes : List VkDescriptorPoolSize) (descriptorType : Nat) :
    Nat :=
  ((poolSizes.filter fun p => p.type = descriptorType).map fun p => p.descriptorCount).sum

end buffer

namespace device

/-- The procedure `device::getRequiredExtensions`; `glfwExtensions` is the
array `glfwGetRequiredInstanceExtensions` reports. -/
def getRequiredExtensions (glfwExtensions : List String) (enable_validation_layers : Bool) :
    List String :=
  let extensions := glfwExtensions
  if enable_validation_layers then
    extensions ++ [VK_EXT_DEBUG_UTILS_EXTENSION_NAME]
  else
    extensions

end device

namespace vertex

/-- The type `glm::vec3`: three 32-bit floats. -/
def vec3 (name : String) : Member := { name := name, size := 12, align := 4 }

/-- The type `glm::vec2`: two 32-bit floats. -/
def vec2 (name : String) : Member := { name := name, size := 8, align := 4 }

/-- The data members of the structure `vertex::Vertex`. -/
def Vertex : List Member := [vec3 "pos", vec3 "color", vec2 "texCoord"]

/-- The function `vertex::Vertex::getBindingDescription`. -/
def getBindingDescription : VkVertexInputBindingDescription :=
  { binding := 0, stride := sizeof Vertex, inputRate := VK_VERTEX_INPUT_RATE_VERTEX }

/-- The function `vertex::Vertex::getAttributeDescriptions`. -/
def getAttributeDescriptions : List VkVertexInputAttributeDescription :=
  [ { binding := 0, location := 0, format := VK_FORMAT_R32G32B32_SFLOAT,
      offset := offsetof Vertex "pos" },
    { binding := 0, location := 1, format := VK_FORMAT_R32G32B32_SFLOAT,
      offset := offsetof Vertex "color" },
    { binding := 0, location := 2, format := VK_FORMAT_R32G32_SFLOAT,
      offset := offsetof Vertex "texCoord" } ]

/-- The number of bytes one attribute of the given format reads: four per
32-bit float component. -/
def formatSize (format : Nat) : Nat :=
  if format = VK_FORMAT_R32G32B32_SFLOAT then 12
  else if format = VK_FORMAT_R32G32_SFLOAT then 8
  else 0

end vertex

namespace pipeline

/-- The local variable `vertexInputInfo` of `createGraphicsPipeline`. -/
def vertexInputInfo : VkPipelineVertexInputStateCreateInfo :=
  let bindingDescription := vertex.getBindingDescription
  let attributeDescriptions := vertex.getAttributeDescriptions
  { vertexBindingDescriptionCount := 1
    vertexAttributeDescriptionCount := attributeDescriptions.length % 2 ^ 32
    pVertexBindingDescriptions := [bindingDescription]
    pVertexAttributeDescriptions := attributeDescriptions }

end pipeline

namespace texture

/-- The barrier `b` covers mip level `level`. -/
def barrierCovers (b : VkImageMemoryBarrier) (level : Nat) : Bool :=
  decide (b.subresourceRange.baseMipLevel ≤ level
    ∧ level < b.subresourceRange.baseMipLevel + b.subresourceRange.levelCount)

/-- Every mip level of `image` that the barrier covers is in the layout the
barrier names as `oldLayout`, `layouts` giving the layout of each level. -/
def barrierNamesActualLayout (image : Nat) (layouts : Nat → Nat) (b : VkImageMemoryBarrier) :
    Bool :=
  b.image ≠ image
    || (List.range b.subresourceRange.levelCount).all fun k =>
        layouts (b.subresourceRange.baseMipLevel + k) = b.oldLayout

/-- The layouts of the mip levels of `image` once the barrier has executed. -/
def layoutsAfterBarrier (image : Nat) (layouts : Nat → Nat) (b : VkImageMemoryBarrier) :
    Nat → Nat :=
  fun level => if b.image = image ∧ barrierCovers b level = true then b.newLayout
    else layouts level

/-- The layouts of the mip levels of `image` once the recorded command has
executed: only pipeline barriers change them. -/
def layoutsAfterCall (image : Nat) (layouts : Nat → Nat) : NativeCall → Nat → Nat
  | NativeCall.vkCmdPipelineBarrier _ _ _ _ barriers =>
    barriers.foldl (layoutsAfterBarrier image) layouts
  | _ => layouts

/-- The layouts of the mip levels of `image` after a sequence of calls. -/
def layoutsAfter (image : Nat) (layouts : Nat → Nat) (calls : List NativeCall) : Nat → Nat :=
  calls.foldl (layoutsAfterCall image) layouts

/-- The barriers of one call, taken in order from the layouts `layouts`, each
name the actual layout of the levels they cover. -/
def barriersNameActualLayouts (image : Nat) :
    (Nat → Nat) → List VkImageMemoryBarrier → Bool
  | _, [] => true
  | layouts, b :: rest =>
    barrierNamesActualLayout image layouts b
      && barriersNameActualLayouts image (layoutsAfterBarrier image layouts b) rest

/-- The recorded command agrees with the layouts the mip levels of `image`
have when it executes: a barrier names the actual layout of the levels it
covers; a blit reads a level that is in TRANSFER_SRC_OPTIMAL, writes a level
that is in TRANSFER_DST_OPTIMAL, and names these two layouts. -/
def callAgreesWithLayouts (image : Nat) (layouts : Nat → Nat) : NativeCall → Bool
  | NativeCall.vkCmdPipelineBarrier _ _ _ _ barriers =>
    barriersNameActualLayouts image layouts barriers
  | NativeCall.vkCmdBlitImage _ srcImage srcImageLayout dstImage dstImageLayout regions _ =>
    regions.all fun blit =>
      (srcImage ≠ image
        || (layouts blit.srcSubresource.mipLevel = VK_IMAGE_LAYOUT_TRANSFER_SRC_OPTIMAL
            && srcImageLayout = VK_IMAGE_LAYOUT_TRANSFER_SRC_OPTIMAL))
      && (dstImage ≠ image
        || (layouts blit.dstSubresource.mipLevel = VK_IMAGE_LAYOUT_TRANSFER_DST_OPTIMAL
            && dstImageLayout = VK_IMAGE_LAYOUT_TRANSFER_DST_OPTIMAL))
  | _ => true

/-- Every call of the sequence agrees with the layouts the mip levels of
`image` have at its point of the sequence, starting from `layouts`. -/
def callsAgreeWithLayouts (image : Nat) : (Nat → Nat) → List NativeCall → Bool
  | _, [] => true
  | layouts, c :: rest =>
    callAgreesWithLayouts image layouts c
      && callsAgreeWithLayouts image (layoutsAfterCall image layouts c) rest

/-- The number of barriers in `calls` that move mip level `level` of `image`
to the layout `newLayout`. -/
def movesToLayout (image newLayout level : Nat) (calls : List NativeCall) : Nat :=
  (calls.map fun c =>
    match c with
    | NativeCall.vkCmdPipelineBarrier _ _ _ _ barriers =>
      barriers.countP fun b =>
        decide (b.image = image) && barrierCovers b level && decide (b.newLayout = newLayout)
    | _ => 0).sum

/-- The blit commands among `calls`, in order. -/
def blits (calls : List NativeCall) : List NativeCall :=
  calls.filter fun c =>
    match c with
    | NativeCall.vkCmdBlitImage _ _ _ _ _ _ _ => true
    | _ => false

/-- The size of a mip level along one dimension: the size `x` of level 0
halved `level` times, rounding down, and never below 1. -/
def mipExtent (x level : Nat) : Nat := max 1 (x / 2 ^ level)

/-- The blit from mip level `i - 1` to mip level `i` of a `texWidth` by
`texHeight` image, each over its whole extent. -/
def mipBlit (texWidth texHeight i : Nat) : VkImageBlit :=
  { srcOffsets0 := { x := 0, y := 0, z := 0 }
    srcOffsets1 := { x := (mipExtent texWidth (i - 1) : Nat), y := (mipExtent texHeight (i - 1) : Nat),
                     z := 1 }
    srcSubresource :=
      { aspectMask := VK_IMAGE_ASPECT_COLOR_BIT, mipLevel := i - 1, baseArrayLayer := 0,
        layerCount := 1 }
    dstOffsets0 := { x := 0, y := 0, z := 0 }
    dstOffsets1 := { x := (mipExtent texWidth i : Nat), y := (mipExtent texHeight i : Nat),
                     z := 1 }
    dstSubresource :=
      { aspectMask := VK_IMAGE_ASPECT_COLOR_BIT, mipLevel := i, baseArrayLayer := 0,
        layerCount := 1 } }

end texture

namespace commandbuffer

/-- The queue submissions among `calls`, in order. -/
def submits (calls : List NativeCall) : List NativeCall :=
  calls.filter fun c =>
    match c with
    | NativeCall.vkQueueSubmit _ _ _ => true
    | _ => false

end commandbuffer

namespace texture

/-- The pipeline barrier commands among `calls`, in order. -/
def pipelineBarriers (calls : List NativeCall) : List NativeCall :=
  calls.filter fun c =>
    match c with
    | NativeCall.vkCmdPipelineBarrier _ _ _ _ _ => true
    | _ => false

/-- The variable `barrier` of `transitionImageLayout` when the barrier is
recorded: all `mipLevels` levels of the colour aspect of `image`, moved from
`oldLayout` to `newLayout`, without a queue family transfer. -/
def transitionBarrier (image oldLayout newLayout mipLevels srcAccessMask dstAccessMask : Nat) :
    VkImageMemoryBarrier :=
  { srcAccessMask := srcAccessMask
    dstAccessMask := dstAccessMask
    oldLayout := oldLayout
    newLayout := newLayout
    srcQueueFamilyIndex := VK_QUEUE_FAMILY_IGNORED
    dstQueueFamilyIndex := VK_QUEUE_FAMILY_IGNORED
    image := image
    subresourceRange :=
      { aspectMask := VK_IMAGE_ASPECT_COLOR_BIT, baseMipLevel := 0, levelCount := mipLevels,
        baseArrayLayer := 0, layerCount := 1 } }

end texture

namespace device

/-- The elements of `std::set<uint32_t>{a, b}` in the order in which the set
is iterated: ascending, each value once. -/
def queueFamilySet (a b : Nat) : List Nat :=
  if a = b then [a] else if a < b then [a, b] else [b, a]

/-- What the native layer answers while `createLogicalDevice` runs: the result
code of `vkCreateDevice`, the handle it stores, and the handle
`vkGetDeviceQueue` reports for queue 0 of each family. -/
structure CreateLogicalDeviceReplies where
  createDeviceResult : Int
  logicalDevice : Nat
  deviceQueue : Nat → Nat

/-- What `createLogicalDevice` stores through its output parameters. -/
structure LogicalDeviceOutputs where
  logicalDevice : Nat
  graphicsQueue : Nat
  presentQueue : Nat
  deriving DecidableEq, Repr

/-- The procedure `device::createLogicalDevice` for the physical device and
surface described by `report`. -/
def createLogicalDevice (report : PhysicalDeviceReport) (replies : CreateLogicalDeviceReplies)
    (device_extensions : List String) (enable_validation_layers : Bool)
    (validation_layers : List String) : Run LogicalDeviceOutputs := do
  let indices := findQueueFamilies report
  let graphicsFamily ← swapchain.optionalValue indices.graphicsFamily
  let presentationFamily ← swapchain.optionalValue indices.presentationFamily
  let uniqueQueueFamilies := queueFamilySet graphicsFamily presentationFamily
  let queuePriority : Rat := 1
  let queueCreateInfos : List VkDeviceQueueCreateInfo :=
    uniqueQueueFamilies.map fun queueFamily =>
      { queueFamilyIndex := queueFamily, queueCount := 1, pQueuePriorities := [queuePriority] }
  let deviceFeatures : VkPhysicalDeviceFeatures := { samplerAnisotropy := VK_TRUE }
  let createInfo : VkDeviceCreateInfo :=
    { queueCreateInfoCount := queueCreateInfos.length % 2 ^ 32
      pQueueCreateInfos := queueCreateInfos
      pEnabledFeatures := some deviceFeatures
      enabledExtensionCount := device_extensions.length % 2 ^ 32
      ppEnabledExtensionNames := device_extensions
      enabledLayerCount :=
        if enable_validation_layers then validation_layers.length % 2 ^ 32 else 0
      ppEnabledLayerNames := if enable_validation_layers then some validation_layers else none }
  Run.call (NativeCall.vkCreateDevice createInfo)
  if replies.createDeviceResult ≠ VK_SUCCESS then
    Run.raise (runtimeError "failed to create logical device!")
  else
    let graphicsFamily ← swapchain.optionalValue indices.graphicsFamily
    let presentationFamily ← swapchain.optionalValue indices.presentationFamily
    pure { logicalDevice := replies.logicalDevice
           graphicsQueue := replies.deviceQueue graphicsFamily
           presentQueue := replies.deviceQueue presentationFamily }

end device

namespace texture

/-- The procedure `texture::createTextureSampler`.  `limits` is the member
`limits` of what `vkGetPhysicalDeviceProperties` reports for the physical
device, `createSamplerResult` the result code of `vkCreateSampler`; the
procedure returns the handle stored through `textureSampler`. -/
def createTextureSampler (limits : VkPhysicalDeviceLimits) (createSamplerResult : Int)
    (textureSampler : Nat) : Run Nat := do
  let samplerInfo : VkSamplerCreateInfo :=
    { magFilter := VK_FILTER_LINEAR
      minFilter := VK_FILTER_LINEAR
      addressModeU := VK_SAMPLER_ADDRESS_MODE_REPEAT
      addressModeV := VK_SAMPLER_ADDRESS_MODE_REPEAT
      addressModeW := VK_SAMPLER_ADDRESS_MODE_REPEAT
      anisotropyEnable := VK_TRUE
      maxAnisotropy := limits.maxSamplerAnisotropy
      borderColor := VK_BORDER_COLOR_INT_OPAQUE_BLACK
      unnormalizedCoordinates := VK_FALSE
      compareEnable := VK_FALSE
      compareOp := VK_COMPARE_OP_ALWAYS
      mipmapMode := VK_SAMPLER_MIPMAP_MODE_LINEAR
      minLod := 0
      maxLod := VK_LOD_CLAMP_NONE
      mipLodBias := 0 }
  Run.call (NativeCall.vkCreateSampler samplerInfo)
  if createSamplerResult ≠ VK_SUCCESS then
    Run.raise (runtimeError "failed to create texture sampler!")
  else
    pure textureSampler

end texture

namespace swapchain

/-- What the native layer answers while `createFramebuffers` runs: the result
code of the creation for the view at each index and the handle it stores. -/
structure CreateFramebuffersReplies where
  createFramebufferResult : Nat → Int
  framebuffer : Nat → Nat

/-- The member `std::vector::resize(n)` on a vector of handles: the first `n`
entries are kept, missing ones are value-initialised. -/
def resize (v : List Nat) (n : Nat) : List Nat :=
  v.take n ++ List.replicate (n - v.length) VK_NULL_HANDLE

/-- The variable `framebufferInfo` of `createFramebuffers` in the iteration
for the view `swapChainImageView`. -/
def framebufferInfo (swapChainExtent : VkExtent2D)
    (depthImageView colorImageView renderPass swapChainImageView : Nat) :
    VkFramebufferCreateInfo :=
  let attachments := [colorImageView, depthImageView, swapChainImageView]
  { renderPass := renderPass
    attachmentCount := attachments.length % 2 ^ 32
    pAttachments := attachments
    width := swapChainExtent.width
    height := swapChainExtent.height
    layers := 1 }

/-- The loop of `createFramebuffers`, entered at index `i` with `remaining`
iterations left. -/
def createFramebuffersLoop (replies : CreateFramebuffersReplies)
    (swapChainImageViews : List Nat) (swapChainExtent : VkExtent2D)
    (depthImageView colorImageView renderPass : Nat) : Nat → Nat → List Nat → Run (List Nat)
  | 0, _, swapChainFramebuffers => pure swapChainFramebuffers
  | remaining + 1, i, swapChainFramebuffers => do
    let framebufferInfo := framebufferInfo swapChainExtent depthImageView colorImageView
      renderPass (swapChainImageViews.getD i VK_NULL_HANDLE)
    Run.call (NativeCall.vkCreateFramebuffer framebufferInfo)
    if replies.createFramebufferResult i ≠ VK_SUCCESS then
      Run.raise (runtimeError "failed to create framebuffer!")
    else
      createFramebuffersLoop replies swapChainImageViews swapChainExtent depthImageView
        colorImageView renderPass remaining (i + 1)
        (swapChainFramebuffers.set i (replies.framebuffer i))

/-- The procedure `swapchain::createFramebuffers`.  `swapChainFramebuffers` is
the vector on entry; the procedure returns the vector it leaves. -/
def createFramebuffers (replies : CreateFramebuffersReplies) (swapChainImageViews : List Nat)
    (swapChainExtent : VkExtent2D) (depthImageView colorImageView renderPass : Nat)
    (swapChainFramebuffers : List Nat) : Run (List Nat) :=
  let swapChainImageViewsSize := swapChainImageViews.length
  let swapChainFramebuffers := resize swapChainFramebuffers swapChainImageViewsSize
  createFramebuffersLoop replies swapChainImageViews swapChainExtent depthImageView
    colorImageView renderPass swapChainImageViewsSize 0 swapChainFramebuffers

end swapchain

namespace pipeline

/-- The variable `renderPassInfo` of `createRenderPass` when the render pass
is created, with the structures it points to. -/
def renderPassInfo (swapChainImageFormat msaaSampleCount depthFormat : Nat) :
    VkRenderPassCreateInfo :=
  let colorAttachment : VkAttachmentDescription :=
    { format := swapChainImageFormat
      samples := VK_SAMPLE_COUNT_1_BIT
      loadOp := VK_ATTACHMENT_LOAD_OP_CLEAR
      storeOp := VK_ATTACHMENT_STORE_OP_STORE
      stencilLoadOp := VK_ATTACHMENT_LOAD_OP_DONT_CARE
      stencilStoreOp := VK_ATTACHMENT_STORE_OP_DONT_CARE
      initialLayout := VK_IMAGE_LAYOUT_UNDEFINED
      finalLayout := 0 }
  let colorAttachment := { colorAttachment with samples := msaaSampleCount }
  let colorAttachment :=
    { colorAttachment with finalLayout := VK_IMAGE_LAYOUT_COLOR_ATTACHMENT_OPTIMAL }
  let colorAttachmentRef : VkAttachmentReference :=
    { attachment := 0, layout := VK_IMAGE_LAYOUT_COLOR_ATTACHMENT_OPTIMAL }
  let colorAttachmentResolve : VkAttachmentDescription :=
    { format := swapChainImageFormat
      samples := VK_SAMPLE_COUNT_1_BIT
      loadOp := VK_ATTACHMENT_LOAD_OP_DONT_CARE
      storeOp := VK_ATTACHMENT_STORE_OP_STORE
      stencilLoadOp := VK_ATTACHMENT_LOAD_OP_DONT_CARE
      stencilStoreOp := VK_ATTACHMENT_STORE_OP_DONT_CARE
      initialLayout := VK_IMAGE_LAYOUT_UNDEFINED
      finalLayout := VK_IMAGE_LAYOUT_PRESENT_SRC_KHR }
  let colorAttachmentResolveRef : VkAttachmentReference :=
    { attachment := 2, layout := VK_IMAGE_LAYOUT_COLOR_ATTACHMENT_OPTIMAL }
  let depthAttachment : VkAttachmentDescription :=
    { format := depthFormat
      samples := msaaSampleCount
      loadOp := VK_ATTACHMENT_LOAD_OP_CLEAR
      storeOp := VK_ATTACHMENT_STORE_OP_DONT_CARE
      stencilLoadOp := VK_ATTACHMENT_LOAD_OP_DONT_CARE
      stencilStoreOp := VK_ATTACHMENT_STORE_OP_DONT_CARE
      initialLayout := VK_IMAGE_LAYOUT_UNDEFINED
      finalLayout := VK_IMAGE_LAYOUT_DEPTH_STENCIL_ATTACHMENT_OPTIMAL }
  let depthAttachmentRef : VkAttachmentReference :=
    { attachment := 1, layout := VK_IMAGE_LAYOUT_DEPTH_STENCIL_ATTACHMENT_OPTIMAL }
  let subpass : VkSubpassDescription :=
    { pipelineBindPoint := VK_PIPELINE_BIND_POINT_GRAPHICS
      inputAttachmentCount := 0
      colorAttachmentCount := 1
      pColorAttachments := [colorAttachmentRef]
      pResolveAttachments := some [colorAttachmentResolveRef]
      pDepthStencilAttachment := some depthAttachmentRef
      preserveAttachmentCount := 0 }
  let dependency : VkSubpassDependency :=
    { srcSubpass := VK_SUBPASS_EXTERNAL
      dstSubpass := 0
      srcStageMask :=
        VK_PIPELINE_STAGE_COLOR_ATTACHMENT_OUTPUT_BIT ||| VK_PIPELINE_STAGE_EARLY_FRAGMENT_TESTS_BIT
      dstStageMask :=
        VK_PIPELINE_STAGE_COLOR_ATTACHMENT_OUTPUT_BIT ||| VK_PIPELINE_STAGE_EARLY_FRAGMENT_TESTS_BIT
      srcAccessMask :=
        VK_ACCESS_COLOR_ATTACHMENT_WRITE_BIT ||| VK_ACCESS_DEPTH_STENCIL_ATTACHMENT_WRITE_BIT
      dstAccessMask :=
        VK_ACCESS_COLOR_ATTACHMENT_WRITE_BIT ||| VK_ACCESS_DEPTH_STENCIL_ATTACHMENT_WRITE_BIT
      dependencyFlags := 0 }
  let attachments := [colorAttachment, depthAttachment, colorAttachmentResolve]
  { attachmentCount := attachments.length % 2 ^ 32
    pAttachments := attachments
    subpassCount := 1
    pSubpasses := [subpass]
    dependencyCount := 1
    pDependencies := [dependency] }

/-- The procedure `pipeline::createRenderPass`.  It returns the handle stored
through `renderPass`. -/
def createRenderPass (createRenderPassResult : Int) (swapChainImageFormat msaaSampleCount
    depthFormat renderPass : Nat) : Run Nat := do
  Run.call (NativeCall.vkCreateRenderPass
    (renderPassInfo swapChainImageFormat msaaSampleCount depthFormat))
  if createRenderPassResult ≠ VK_SUCCESS then
    Run.raise (runtimeError "failed to create render pass!")
  else
    pure renderPass

end pipeline

namespace buffer

/-- What the native layer answers while `createUniformBuffers` runs: the
answers to the `bindBuffer` of each index and the address each mapping
stores. -/
structure CreateUniformBuffersReplies where
  bind : Nat → BindBufferReplies
  mapped : Nat → Nat

/-- The loop of `createUniformBuffers`, entered at index `i` with `remaining`
iterations left; the vectors are `uniformBuffers`, `uniformBuffersMemory` and
`uniformBuffersMapped`.  The value returned by `vkMapMemory` is discarded in
the source. -/
def createUniformBuffersLoop (memProperties : VkPhysicalDeviceMemoryProperties)
    (replies : CreateUniformBuffersReplies) (bufferSize : Nat) :
    Nat → Nat → List Nat × List Nat × List Nat → Run (List Nat × List Nat × List Nat)
  | 0, _, vectors => pure vectors
  | remaining + 1, i, (uniformBuffers, uniformBuffersMemory, uniformBuffersMapped) => do
    let (buffer, bufferMemory) ←
      bindBuffer memProperties (replies.bind i) bufferSize VK_BUFFER_USAGE_UNIFORM_BUFFER_BIT
        (VK_MEMORY_PROPERTY_HOST_VISIBLE_BIT ||| VK_MEMORY_PROPERTY_HOST_COHERENT_BIT)
    let uniformBuffers := uniformBuffers.set i buffer
    let uniformBuffersMemory := uniformBuffersMemory.set i bufferMemory
    Run.call (NativeCall.vkMapMemory bufferMemory 0 bufferSize 0)
    let uniformBuffersMapped := uniformBuffersMapped.set i (replies.mapped i)
    createUniformBuffersLoop memProperties replies bufferSize remaining (i + 1)
      (uniformBuffers, uniformBuffersMemory, uniformBuffersMapped)

/-- The procedure `buffer::createUniformBuffers`.  The three vectors are those
on entry; the procedure returns the vectors it leaves. -/
def createUniformBuffers (memProperties : VkPhysicalDeviceMemoryProperties)
    (replies : CreateUniformBuffersReplies) (maxFramesInFlight : Int)
    (uniformBuffers uniformBuffersMemory uniformBuffersMapped : List Nat) :
    Run (List Nat × List Nat × List Nat) := do
  let bufferSize := sizeof UniformBufferObject
  let size ← vectorSize maxFramesInFlight
  let uniformBuffers := swapchain.resize uniformBuffers size
  let uniformBuffersMemory := swapchain.resize uniformBuffersMemory size
  let uniformBuffersMapped := swapchain.resize uniformBuffersMapped size
  createUniformBuffersLoop memProperties replies bufferSize size 0
    (uniformBuffers, uniformBuffersMemory, uniformBuffersMapped)

/-- The array `descriptorWrites` of `createDescriptorSets` for the set
`descriptorSet` and the uniform buffer `uniformBuffer`. -/
def descriptorWrites (descriptorSet uniformBuffer textureImageView textureSampler : Nat) :
    List VkWriteDescriptorSet :=
  [ { dstSet := descriptorSet
      dstBinding := 0
      dstArrayElement := 0
      descriptorType := VK_DESCRIPTOR_TYPE_UNIFORM_BUFFER
      descriptorCount := 1
      pBufferInfo :=
        some { buffer := uniformBuffer, offset := 0, range := sizeof UniformBufferObject }
      pImageInfo := none },
    { dstSet := descriptorSet
      dstBinding := 1
      dstArrayElement := 0
      descriptorType := VK_DESCRIPTOR_TYPE_COMBINED_IMAGE_SAMPLER
      descriptorCount := 1
      pBufferInfo := none
      pImageInfo :=
        some { imageLayout := VK_IMAGE_LAYOUT_SHADER_READ_ONLY_OPTIMAL,
               imageView := textureImageView, sampler := textureSampler } } ]

end buffer

namespace device

/-- The procedure `device::getMaxUsableSampleCount`; `limits` is the member
`limits` of what `vkGetPhysicalDeviceProperties` reports for the device. -/
def getMaxUsableSampleCount (limits : VkPhysicalDeviceLimits) : Nat :=
  let counts := limits.framebufferColorSampleCounts &&& limits.framebufferDepthSampleCounts
  if counts &&& VK_SAMPLE_COUNT_64_BIT ≠ 0 then VK_SAMPLE_COUNT_64_BIT
  else if counts &&& VK_SAMPLE_COUNT_32_BIT ≠ 0 then VK_SAMPLE_COUNT_32_BIT
  else if counts &&& VK_SAMPLE_COUNT_16_BIT ≠ 0 then VK_SAMPLE_COUNT_16_BIT
  else if counts &&& VK_SAMPLE_COUNT_8_BIT ≠ 0 then VK_SAMPLE_COUNT_8_BIT
  else if counts &&& VK_SAMPLE_COUNT_4_BIT ≠ 0 then VK_SAMPLE_COUNT_4_BIT
  else if counts &&& VK_SAMPLE_COUNT_2_BIT ≠ 0 then VK_SAMPLE_COUNT_2_BIT
  else VK_SAMPLE_COUNT_1_BIT

end device

namespace device

/-- The procedure `device::findSupportedDepthImageFormat`: the range-based
loop over `candidates`, as a recursion on the list. `formatProperties` is what
`vkGetPhysicalDeviceFormatProperties` reports for each format of the physical
device. -/
def findSupportedDepthImageFormat (formatProperties : Nat → VkFormatProperties)
    (candidates : List Nat) (tiling features : Nat) : Except Failure Nat :=
  match candidates with
  | [] => Except.error (runtimeError "failed to find supported format!")
  | format :: rest =>
    let props := formatProperties format
    if tiling = VK_IMAGE_TILING_LINEAR ∧ props.linearTilingFeatures &&& features = features then
      Except.ok format
    else if tiling = VK_IMAGE_TILING_OPTIMAL
        ∧ props.optimalTilingFeatures &&& features = features then
      Except.ok format
    else
      findSupportedDepthImageFormat formatProperties rest tiling features

/-- A format qualifies for a request: the tiling is LINEAR and the
linear-tiling features of the format have every bit of the required mask, or
the tiling is OPTIMAL and the optimal-tiling features have every bit of it. -/
def formatQualifies (formatProperties : Nat → VkFormatProperties)
    (tiling features format : Nat) : Prop :=
  (tiling = VK_IMAGE_TILING_LINEAR
      ∧ ∀ b : Nat, features.testBit b = true →
          (formatProperties format).linearTilingFeatures.testBit b = true)
    ∨ (tiling = VK_IMAGE_TILING_OPTIMAL
      ∧ ∀ b : Nat, features.testBit b = true →
          (formatProperties format).optimalTilingFeatures.testBit b = true)

end device

namespace pipeline

/-- The function `readFile`.  `files` gives the bytes of the file of each
name, `none` for a name whose file cannot be opened; the buffer returned has
the size of the file and holds its bytes. -/
def readFile (files : String → Option (List Nat)) (filename : String) :
    Except Failure (List Nat) :=
  match files filename with
  | none => Except.error (runtimeError "failed to open file!")
  | some buffer => Except.ok buffer

/-- The function `pipeline::createShaderModule`; `createShaderModuleResult` is
the result code of `vkCreateShaderModule` and `shaderModule` the handle it
stores. -/
def createShaderModule (code : List Nat) (createShaderModuleResult : Int)
    (shaderModule : Nat) : Run Nat := do
  let createInfo : VkShaderModuleCreateInfo :=
    { codeSize := code.length
      pCode := code }
  Run.call (NativeCall.vkCreateShaderModule createInfo)
  if createShaderModuleResult ≠ VK_SUCCESS then
    Run.raise (runtimeError "failed to create shader module!")
  else
    pure shaderModule

/-- What the native layer answers while `createGraphicsPipeline` or
`createCubePipeline` runs: the result code of each creation and the handle it
stores. -/
structure CreatePipelineReplies where
  createVertShaderModuleResult : Int
  vertShaderModule : Nat
  createFragShaderModuleResult : Int
  fragShaderModule : Nat
  createPipelineLayoutResult : Int
  pipelineLayout : Nat
  createGraphicsPipelinesResult : Int
  graphicsPipeline : Nat
  deriving DecidableEq, Repr

/-- The array `shaderStages` of `createGraphicsPipeline` and of
`createCubePipeline`. -/
def shaderStages (vertShaderModule fragShaderModule : Nat) :
    List VkPipelineShaderStageCreateInfo :=
  let vertShaderStageInfo : VkPipelineShaderStageCreateInfo :=
    { stage := VK_SHADER_STAGE_VERTEX_BIT
      module := vertShaderModule
      pName := "main" }
  let fragShaderStageInfo : VkPipelineShaderStageCreateInfo :=
    { stage := VK_SHADER_STAGE_FRAGMENT_BIT
      module := fragShaderModule
      pName := "main" }
  [vertShaderStageInfo, fragShaderStageInfo]

/-- The local variable `vertexInputInfo` of `createCubePipeline`: both counts
are 0 and both pointers stay null. -/
def cubeVertexInputInfo : VkPipelineVertexInputStateCreateInfo :=
  { vertexBindingDescriptionCount := 0
    vertexAttributeDescriptionCount := 0
    pVertexBindingDescriptions := []
    pVertexAttributeDescriptions := [] }

/-- The local variable `inputAssembly` of both procedures. -/
def inputAssembly : VkPipelineInputAssemblyStateCreateInfo :=
  { topology := VK_PRIMITIVE_TOPOLOGY_TRIANGLE_LIST
    primitiveRestartEnable := VK_FALSE }

/-- The local variable `dynamicState` of both procedures. -/
def dynamicState : VkPipelineDynamicStateCreateInfo :=
  let dynamicStates := [VK_DYNAMIC_STATE_VIEWPORT, VK_DYNAMIC_STATE_SCISSOR]
  { dynamicStateCount := dynamicStates.length % 2 ^ 32
    pDynamicStates := dynamicStates }

/-- The local variable `viewportState` of both procedures. -/
def viewportState : VkPipelineViewportStateCreateInfo :=
  { viewportCount := 1
    scissorCount := 1 }

/-- The local variable `rasterizer` of both procedures, which differ in the
front face only: counter-clockwise in `createGraphicsPipeline`, clockwise in
`createCubePipeline`. -/
def rasterizer (frontFace : Nat) : VkPipelineRasterizationStateCreateInfo :=
  { depthClampEnable := VK_FALSE
    rasterizerDiscardEnable := VK_FALSE
    polygonMode := VK_POLYGON_MODE_FILL
    lineWidth := 1
    cullMode := VK_CULL_MODE_BACK_BIT
    frontFace := frontFace
    depthBiasEnable := VK_FALSE
    depthBiasConstantFactor := 0
    depthBiasClamp := 0
    depthBiasSlopeFactor := 0 }

/-- The local variable `multisampling` of both procedures. -/
def multisampling (msaaSampleCount : Nat) : VkPipelineMultisampleStateCreateInfo :=
  { sampleShadingEnable := VK_FALSE
    rasterizationSamples := msaaSampleCount
    minSampleShading := 1
    pSampleMask := none
    alphaToCoverageEnable := VK_FALSE
    alphaToOneEnable := VK_FALSE }

/-- The local variable `colorBlending` of both procedures, with the one
attachment state `colorBlendAttachment` it points to. -/
def colorBlending : VkPipelineColorBlendStateCreateInfo :=
  let colorBlendAttachment : VkPipelineColorBlendAttachmentState :=
    { colorWriteMask := VK_COLOR_COMPONENT_R_BIT ||| VK_COLOR_COMPONENT_G_BIT
        ||| VK_COLOR_COMPONENT_B_BIT ||| VK_COLOR_COMPONENT_A_BIT
      blendEnable := VK_TRUE
      srcColorBlendFactor := VK_BLEND_FACTOR_SRC_ALPHA
      dstColorBlendFactor := VK_BLEND_FACTOR_ONE_MINUS_SRC_ALPHA
      colorBlendOp := VK_BLEND_OP_ADD
      srcAlphaBlendFactor := VK_BLEND_FACTOR_ONE
      dstAlphaBlendFactor := VK_BLEND_FACTOR_ZERO
      alphaBlendOp := VK_BLEND_OP_ADD }
  { logicOpEnable := VK_FALSE
    logicOp := VK_LOGIC_OP_COPY
    attachmentCount := 1
    pAttachments := [colorBlendAttachment]
    blendConstants := [0, 0, 0, 0] }

/-- The local variable `depthStencil` of both procedures; `front` and `back`
are value-initialised. -/
def depthStencil : VkPipelineDepthStencilStateCreateInfo :=
  { depthTestEnable := VK_TRUE
    depthWriteEnable := VK_TRUE
    depthCompareOp := VK_COMPARE_OP_LESS
    depthBoundsTestEnable := VK_FALSE
    minDepthBounds := 0
    maxDepthBounds := 1
    stencilTestEnable := VK_FALSE
    front := ⟨0, 0, 0, 0, 0, 0, 0⟩
    back := ⟨0, 0, 0, 0, 0, 0, 0⟩ }

/-- The local variable `pipelineInfo` of both procedures when it is passed to
`vkCreateGraphicsPipelines`.  `pDepthStencilState` is assigned twice, first
the null pointer and then the address of `depthStencil`; the procedures differ
in the vertex input state and in the front face of the rasterizer. -/
def pipelineInfo (vertexInputInfo : VkPipelineVertexInputStateCreateInfo) (frontFace : Nat)
    (vertShaderModule fragShaderModule msaaSampleCount renderPass pipelineLayout : Nat) :
    VkGraphicsPipelineCreateInfo :=
  let pipelineInfo : VkGraphicsPipelineCreateInfo :=
    { stageCount := 2
      pStages := shaderStages vertShaderModule fragShaderModule
      pVertexInputState := some vertexInputInfo
      pInputAssemblyState := some inputAssembly
      pViewportState := some viewportState
      pRasterizationState := some (rasterizer frontFace)
      pMultisampleState := some (multisampling msaaSampleCount)
      pDepthStencilState := none
      pColorBlendState := some colorBlending
      pDynamicState := some dynamicState
      layout := pipelineLayout
      renderPass := 0
      subpass := 0
      basePipelineHandle := 0
      basePipelineIndex := 0 }
  let pipelineInfo := { pipelineInfo with pDepthStencilState := some depthStencil }
  let pipelineInfo := { pipelineInfo with renderPass := renderPass }
  let pipelineInfo := { pipelineInfo with subpass := 0 }
  let pipelineInfo := { pipelineInfo with basePipelineHandle := VK_NULL_HANDLE }
  { pipelineInfo with basePipelineIndex := -1 }

/-- The procedure `pipeline::createGraphicsPipeline`.  It returns the handles
stored through `pipelineLayout` and `graphicsPipeline`; the parameter
`swapChainExtent` is not read, the viewport and the scissor being dynamic. -/
def createGraphicsPipeline (files : String → Option (List Nat))
    (replies : CreatePipelineReplies) (vert_file frag_file : String)
    (swapChainExtent : VkExtent2D) (msaaSampleCount renderPass descriptorSetLayout : Nat) :
    Run (Nat × Nat) := do
  let vertShaderCode ← Run.lift (readFile files vert_file)
  let fragShaderCode ← Run.lift (readFile files frag_file)
  let vertShaderModule ← createShaderModule vertShaderCode
    replies.createVertShaderModuleResult replies.vertShaderModule
  let fragShaderModule ← createShaderModule fragShaderCode
    replies.createFragShaderModuleResult replies.fragShaderModule
  let pipelineLayoutInfo : VkPipelineLayoutCreateInfo :=
    { setLayoutCount := 1
      pSetLayouts := some [descriptorSetLayout]
      pushConstantRangeCount := 0 }
  Run.call (NativeCall.vkCreatePipelineLayout pipelineLayoutInfo)
  if replies.createPipelineLayoutResult ≠ VK_SUCCESS then
    Run.raise (runtimeError "failed to create pipeline layout!")
  else do
    let pipelineLayout := replies.pipelineLayout
    Run.call (NativeCall.vkCreateGraphicsPipelines VK_NULL_HANDLE 1
      [pipelineInfo vertexInputInfo VK_FRONT_FACE_COUNTER_CLOCKWISE vertShaderModule
        fragShaderModule msaaSampleCount renderPass pipelineLayout])
    if replies.createGraphicsPipelinesResult ≠ VK_SUCCESS then
      Run.raise (runtimeError "failed to create graphics pipeline!")
    else do
      Run.call (NativeCall.vkDestroyShaderModule fragShaderModule)
      Run.call (NativeCall.vkDestroyShaderModule vertShaderModule)
      pure (pipelineLayout, replies.graphicsPipeline)

/-- The procedure `pipeline::createCubePipeline`.  It returns the handles
stored through `pipelineLayout` and `graphicsPipeline`; the parameter
`swapChainExtent` is not read, the viewport and the scissor being dynamic. -/
def createCubePipeline (files : String → Option (List Nat))
    (replies : CreatePipelineReplies) (vert_file frag_file : String)
    (swapChainExtent : VkExtent2D) (msaaSampleCount renderPass : Nat) :
    Run (Nat × Nat) := do
  let vertShaderCode ← Run.lift (readFile files vert_file)
  let fragShaderCode ← Run.lift (readFile files frag_file)
  let vertShaderModule ← createShaderModule vertShaderCode
    replies.createVertShaderModuleResult replies.vertShaderModule
  let fragShaderModule ← createShaderModule fragShaderCode
    replies.createFragShaderModuleResult replies.fragShaderModule
  let pipelineLayoutInfo : VkPipelineLayoutCreateInfo :=
    { setLayoutCount := 0
      pSetLayouts := none
      pushConstantRangeCount := 0 }
  Run.call (NativeCall.vkCreatePipelineLayout pipelineLayoutInfo)
  if replies.createPipelineLayoutResult ≠ VK_SUCCESS then
    Run.raise (runtimeError "failed to create pipeline layout!")
  else do
    let pipelineLayout := replies.pipelineLayout
    Run.call (NativeCall.vkCreateGraphicsPipelines VK_NULL_HANDLE 1
      [pipelineInfo cubeVertexInputInfo VK_FRONT_FACE_CLOCKWISE vertShaderModule
        fragShaderModule msaaSampleCount renderPass pipelineLayout])
    if replies.createGraphicsPipelinesResult ≠ VK_SUCCESS then
      Run.raise (runtimeError "failed to create graphics pipeline!")
    else do
      Run.call (NativeCall.vkDestroyShaderModule fragShaderModule)
      Run.call (NativeCall.vkDestroyShaderModule vertShaderModule)
      pure (pipelineLayout, replies.graphicsPipeline)

/-- A pipeline create-info is depth-tested and multisampled for a sample
count: its depth-stencil state is present, with depth test and depth write
enabled, comparison LESS, depth-bounds and stencil tests disabled, and its
multisample state is present with that rasterization sample count. -/
def depthTestedAndMultisampled (info : VkGraphicsPipelineCreateInfo)
    (msaaSampleCount : Nat) : Prop :=
  ∃ (depthStencil : VkPipelineDepthStencilStateCreateInfo)
    (multisampling : VkPipelineMultisampleStateCreateInfo),
    info.pDepthStencilState = some depthStencil
    ∧ depthStencil.depthTestEnable = VK_TRUE
    ∧ depthStencil.depthWriteEnable = VK_TRUE
    ∧ depthStencil.depthCompareOp = VK_COMPARE_OP_LESS
    ∧ depthStencil.depthBoundsTestEnable = VK_FALSE
    ∧ depthStencil.stencilTestEnable = VK_FALSE
    ∧ info.pMultisampleState = some multisampling
    ∧ multisampling.rasterizationSamples = msaaSampleCount

end pipeline

/-! # Properties -/

/-! ## Runs -/

namespace Run

@[simp] theorem outcome_pure {α : Type} (a : α) : (pure a : Run α).outcome = Except.ok a := rfl

@[simp] theorem calls_pure {α : Type} (a : α) : (pure a : Run α).calls = [] := rfl

@[simp] theorem outcome_call (c : NativeCall) : (call c).outcome = Except.ok () := rfl

@[simp] theorem calls_call (c : NativeCall) : (call c).calls = [c] := rfl

@[simp] theorem outcome_raise {α : Type} (e : Failure) :
    (raise e : Run α).outcome = Except.error e := rfl

@[simp] theorem calls_raise {α : Type} (e : Failure) : (raise e : Run α).calls = [] := rfl

@[simp] theorem outcome_lift {α : Type} (x : Except Failure α) : (lift x).outcome = x := rfl

@[simp] theorem calls_lift {α : Type} (x : Except Failure α) : (lift x).calls = [] := rfl

theorem bind_eq_andThen {α β : Type} (r : Run α) (f : α → Run β) : r >>= f = andThen r f := rfl

theorem outcome_bind_of_ok {α β : Type} (r : Run α) (f : α → Run β) (a : α)
    (h : r.outcome = Except.ok a) : (r >>= f).outcome = (f a).outcome := by
  simp only [bind_eq_andThen, andThen, h]

theorem outcome_bind_of_error {α β : Type} (r : Run α) (f : α → Run β) (e : Failure)
    (h : r.outcome = Except.error e) : (r >>= f).outcome = Except.error e := by
  simp only [bind_eq_andThen, andThen, h]

theorem calls_bind_of_ok {α β : Type} (r : Run α) (f : α → Run β) (a : α)
    (h : r.outcome = Except.ok a) : (r >>= f).calls = r.calls ++ (f a).calls := by
  simp only [bind_eq_andThen, andThen, h]

theorem calls_bind_of_error {α β : Type} (r : Run α) (f : α → Run β) (e : Failure)
    (h : r.outcome = Except.error e) : (r >>= f).calls = r.calls := by
  simp only [bind_eq_andThen, andThen, h]

@[simp] theorem outcome_call_bind {β : Type} (c : NativeCall) (f : Unit → Run β) :
    (call c >>= f).outcome = (f ()).outcome := rfl

@[simp] theorem calls_call_bind {β : Type} (c : NativeCall) (f : Unit → Run β) :
    (call c >>= f).calls = c :: (f ()).calls := rfl

@[simp] theorem outcome_raise_bind {α β : Type} (e : Failure) (f : α → Run β) :
    ((raise e : Run α) >>= f).outcome = Except.error e := rfl

@[simp] theorem calls_raise_bind {α β : Type} (e : Failure) (f : α → Run β) :
    ((raise e : Run α) >>= f).calls = [] := rfl

@[simp] theorem outcome_pure_bind {α β : Type} (a : α) (f : α → Run β) :
    ((pure a : Run α) >>= f).outcome = (f a).outcome := rfl

@[simp] theorem calls_pure_bind {α β : Type} (a : α) (f : α → Run β) :
    ((pure a : Run α) >>= f).calls = (f a).calls := rfl

/-- A failure of a sequence is a failure of its first part or, the first part
having returned, a failure of the rest. -/
theorem bind_error_cases {α β : Type} (r : Run α) (f : α → Run β) (e : Failure)
    (h : (r >>= f).outcome = Except.error e) :
    r.outcome = Except.error e
      ∨ ∃ a, r.outcome = Except.ok a ∧ (f a).outcome = Except.error e := by
  cases hr : r.outcome with
  | error e1 =>
    rw [outcome_bind_of_error r f e1 hr] at h
    injection h with h
    left; rw [h]
  | ok a =>
    rw [outcome_bind_of_ok r f a hr] at h
    right; exact ⟨a, rfl, h⟩

theorem raised_eq_true_iff {α : Type} (r : Run α) :
    r.raised = true ↔ ∃ e, r.outcome = Except.error e := by
  unfold raised
  cases r.outcome with
  | error e => simp
  | ok a => simp

theorem raised_eq_false_iff {α : Type} (r : Run α) :
    r.raised = false ↔ ∃ a, r.outcome = Except.ok a := by
  unfold raised
  cases r.outcome with
  | error e => simp
  | ok a => simp

end Run

/-! ## Bit masks -/

theorem and_two_pow_ne_zero_iff (x i : Nat) : x &&& 2 ^ i ≠ 0 ↔ x.testBit i = true := by
  constructor
  · intro h
    by_contra hbit
    apply h
    apply Nat.eq_of_testBit_eq
    intro j
    rw [Nat.testBit_and, Nat.testBit_two_pow, Nat.zero_testBit]
    by_cases hij : i = j
    · subst hij
      simp [Bool.eq_false_iff.mpr hbit]
    · simp [hij]
  · intro hbit h
    have h1 : (x &&& 2 ^ i).testBit i = true := by
      rw [Nat.testBit_and, hbit, Nat.testBit_two_pow_self]
      rfl
    rw [h, Nat.zero_testBit] at h1
    exact Bool.noConfusion h1

theorem and_eq_right_iff_bits (a p : Nat) :
    a &&& p = p ↔ ∀ b : Nat, p.testBit b = true → a.testBit b = true := by
  constructor
  · intro h b hb
    have h1 : (a &&& p).testBit b = true := by rw [h]; exact hb
    rw [Nat.testBit_and] at h1
    simp only [Bool.and_eq_true] at h1
    exact h1.1
  · intro h
    apply Nat.eq_of_testBit_eq
    intro b
    rw [Nat.testBit_and]
    cases hb : p.testBit b
    · simp
    · simp [h b hb]

namespace buffer

/-- The test made by one iteration of the loop of `findMemoryType` agrees
with `memoryTypeMatches` for every index below 32. -/
theorem loop_test_iff (memProperties : VkPhysicalDeviceMemoryProperties)
    (typeFilter properties i : Nat) (hi : i < 32) :
    ((typeFilter &&& ((1 <<< i) % 2 ^ 32)) ≠ 0
        ∧ (propertyFlagsAt memProperties i &&& properties) = properties)
      ↔ memoryTypeMatches memProperties typeFilter properties i := by
  have hpow : (1 <<< i) % 2 ^ 32 = 2 ^ i := by
    rw [Nat.one_shiftLeft]
    exact Nat.mod_eq_of_lt (Nat.pow_lt_pow_right (by norm_num) hi)
  rw [hpow, and_two_pow_ne_zero_iff, and_eq_right_iff_bits]
  rfl

theorem findMemoryTypeLoop_ok_iff (memProperties : VkPhysicalDeviceMemoryProperties)
    (typeFilter properties : Nat) :
    ∀ (remaining i k : Nat), i + remaining ≤ 32 →
      (findMemoryTypeLoop memProperties typeFilter properties remaining i = Except.ok k
        ↔ (i ≤ k ∧ k < i + remaining
            ∧ memoryTypeMatches memProperties typeFilter properties k
            ∧ ∀ j, i ≤ j → j < k → ¬ memoryTypeMatches memProperties typeFilter properties j)) := by
  intro remaining
  induction remaining with
  | zero =>
    intro i k _
    simp only [findMemoryTypeLoop, Nat.add_zero]
    constructor
    · intro h; cases h
    · rintro ⟨h1, h2, _⟩; omega
  | succ n ih =>
    intro i k hle
    have hi : i < 32 := by omega
    have htest := loop_test_iff memProperties typeFilter properties i hi
    unfold findMemoryTypeLoop
    by_cases hm : memoryTypeMatches memProperties typeFilter properties i
    · rw [if_pos (htest.mpr hm)]
      constructor
      · intro h
        injection h with h
        subst h
        exact ⟨le_refl _, by omega, hm, fun j h1 h2 => by omega⟩
      · rintro ⟨h1, _, _, h4⟩
        by_cases hik : i = k
        · rw [hik]
        · exact absurd hm (h4 i (le_refl _) (by omega))
    · rw [if_neg (fun h => hm (htest.mp h)), ih (i + 1) k (by omega)]
      constructor
      · rintro ⟨h1, h2, h3, h4⟩
        refine ⟨by omega, by omega, h3, ?_⟩
        intro j hj1 hj2
        by_cases hij : j = i
        · rw [hij]; exact hm
        · exact h4 j (by omega) hj2
      · rintro ⟨h1, h2, h3, h4⟩
        have hik : i ≠ k := fun h => hm (h ▸ h3)
        exact ⟨by omega, by omega, h3, fun j hj1 hj2 => h4 j (by omega) hj2⟩

theorem findMemoryTypeLoop_error_iff (memProperties : VkPhysicalDeviceMemoryProperties)
    (typeFilter properties : Nat) :
    ∀ (remaining i : Nat) (e : Failure), i + remaining ≤ 32 →
      (findMemoryTypeLoop memProperties typeFilter properties remaining i = Except.error e
        ↔ (e = runtimeError "failed to find suitable memory type!"
            ∧ ∀ j, i ≤ j → j < i + remaining →
                ¬ memoryTypeMatches memProperties typeFilter properties j)) := by
  intro remaining
  induction remaining with
  | zero =>
    intro i e _
    simp only [findMemoryTypeLoop, Nat.add_zero]
    constructor
    · intro h
      injection h with h
      exact ⟨h.symm, fun j h1 h2 => by omega⟩
    · rintro ⟨h, _⟩
      rw [h]
  | succ n ih =>
    intro i e hle
    have hi : i < 32 := by omega
    have htest := loop_test_iff memProperties typeFilter properties i hi
    unfold findMemoryTypeLoop
    by_cases hm : memoryTypeMatches memProperties typeFilter properties i
    · rw [if_pos (htest.mpr hm)]
      constructor
      · intro h; cases h
      · rintro ⟨_, h⟩
        exact absurd hm (h i (le_refl _) (by omega))
    · rw [if_neg (fun h => hm (htest.mp h)), ih (i + 1) e (by omega)]
      constructor
      · rintro ⟨h1, h2⟩
        refine ⟨h1, ?_⟩
        intro j hj1 hj2
        by_cases hij : j = i
        · rw [hij]; exact hm
        · exact h2 j (by omega) (by omega)
      · rintro ⟨h1, h2⟩
        exact ⟨h1, fun j hj1 hj2 => h2 j (by omega) (by omega)⟩

/-- C1: for a memory-type table with at most 32 valid entries,
`findMemoryType` returns index `i` exactly when `i` is the smallest index
below `memoryTypeCount` whose filter bit is set and whose property flags
contain the required mask, and it raises the runtime failure
"failed to find suitable memory type!" exactly when no index qualifies. -/
theorem findMemoryType_smallest_matching_index
    (memProperties : VkPhysicalDeviceMemoryProperties) (typeFilter properties : Nat)
    (hcount : memProperties.memoryTypeCount ≤ 32) :
    (∀ i : Nat, findMemoryType memProperties typeFilter properties = Except.ok i
        ↔ (i < memProperties.memoryTypeCount
            ∧ memoryTypeMatches memProperties typeFilter properties i
            ∧ ∀ j, j < i → ¬ memoryTypeMatches memProperties typeFilter properties j))
    ∧ (∀ e : Failure, findMemoryType memProperties typeFilter properties = Except.error e
        ↔ (e = runtimeError "failed to find suitable memory type!"
            ∧ ∀ i, i < memProperties.memoryTypeCount →
                ¬ memoryTypeMatches memProperties typeFilter properties i)) := by
  constructor
  · intro i
    unfold findMemoryType
    rw [findMemoryTypeLoop_ok_iff memProperties typeFilter properties _ 0 i (by omega)]
    constructor
    · rintro ⟨_, h2, h3, h4⟩
      exact ⟨by omega, h3, fun j hj => h4 j (Nat.zero_le _) hj⟩
    · rintro ⟨h1, h2, h3⟩
      exact ⟨Nat.zero_le _, by omega, h2, fun j _ hj => h3 j hj⟩
  · intro e
    unfold findMemoryType
    rw [findMemoryTypeLoop_error_iff memProperties typeFilter properties _ 0 e (by omega)]
    constructor
    · rintro ⟨h1, h2⟩
      exact ⟨h1, fun i hi => h2 i (Nat.zero_le _) (by omega)⟩
    · rintro ⟨h1, h2⟩
      exact ⟨h1, fun i _ hi => h2 i (by omega)⟩

end buffer

/-! ## Failures of the procedures -/

namespace commandbuffer

theorem beginSingleTimeCommands_outcome (commandPool commandBuffer : Nat) :
    (beginSingleTimeCommands commandPool commandBuffer).outcome = Except.ok commandBuffer := rfl

theorem endAndExecuteSingleTimeCommands_outcome (commandPool graphicsQueue commandBuffer : Nat) :
    (endAndExecuteSingleTimeCommands commandPool graphicsQueue commandBuffer).outcome
      = Except.ok () := rfl

end commandbuffer

namespace buffer

theorem findMemoryTypeLoop_error (memProperties : VkPhysicalDeviceMemoryProperties)
    (typeFilter properties : Nat) :
    ∀ (remaining i : Nat) (e : Failure),
      findMemoryTypeLoop memProperties typeFilter properties remaining i = Except.error e →
      e = runtimeError "failed to find suitable memory type!" := by
  intro remaining
  induction remaining with
  | zero =>
    intro i e h
    simp only [findMemoryTypeLoop] at h
    injection h with h
    exact h.symm
  | succ n ih =>
    intro i e h
    unfold findMemoryTypeLoop at h
    split_ifs at h
    exact ih (i + 1) e h

theorem findMemoryType_error (memProperties : VkPhysicalDeviceMemoryProperties)
    (typeFilter properties : Nat) (e : Failure)
    (h : findMemoryType memProperties typeFilter properties = Except.error e) :
    e = runtimeError "failed to find suitable memory type!" :=
  findMemoryTypeLoop_error memProperties typeFilter properties _ _ e h

theorem bindBuffer_error (memProperties : VkPhysicalDeviceMemoryProperties)
    (replies : BindBufferReplies) (size usage properties : Nat) (e : Failure)
    (h : (bindBuffer memProperties replies size usage properties).outcome = Except.error e) :
    e = runtimeError "failed to create vertex buffer!"
      ∨ e = runtimeError "failed to find suitable memory type!"
      ∨ e = runtimeError "failed to allocate vertex buffer memory!" := by
  unfold bindBuffer at h
  simp only [Run.outcome_call_bind] at h
  cases hf : findMemoryType memProperties replies.memRequirements.memoryTypeBits properties with
  | error e1 =>
    have he1 := findMemoryType_error _ _ _ e1 hf
    split_ifs at h <;>
      simp [Run.bind_eq_andThen, Run.andThen, hf] at h <;> subst h <;> simp [he1]
  | ok idx =>
    split_ifs at h <;>
      simp [Run.bind_eq_andThen, Run.andThen, hf, Run.call, Run.raise] at h <;> subst h <;> simp

theorem bindBuffer_raised_iff (memProperties : VkPhysicalDeviceMemoryProperties)
    (replies : BindBufferReplies) (size usage properties : Nat) :
    (bindBuffer memProperties replies size usage properties).raised = true
      ↔ (replies.createBufferResult ≠ VK_SUCCESS
          ∨ (∃ e, findMemoryType memProperties replies.memRequirements.memoryTypeBits properties
                = Except.error e)
          ∨ replies.allocateMemoryResult ≠ VK_SUCCESS) := by
  unfold bindBuffer Run.raised
  simp only [Run.outcome_call_bind]
  cases hf : findMemoryType memProperties replies.memRequirements.memoryTypeBits properties with
  | error e1 =>
    by_cases h1 : replies.createBufferResult = VK_SUCCESS <;>
      simp [Run.bind_eq_andThen, Run.andThen, hf, h1, Run.raise]
  | ok idx =>
    by_cases h1 : replies.createBufferResult = VK_SUCCESS <;>
    by_cases h2 : replies.allocateMemoryResult = VK_SUCCESS <;>
      simp [Run.bind_eq_andThen, Run.andThen, hf, h1, h2, Run.call, Run.raise, Run.ret, pure]

end buffer

namespace texture

theorem transitionImageLayout_error_iff (commandPool graphicsQueue image format oldLayout
    newLayout mipLevels commandBuffer : Nat) (e : Failure) :
    (transitionImageLayout commandPool graphicsQueue image format oldLayout newLayout mipLevels
        commandBuffer).outcome = Except.error e
      ↔ (¬ (oldLayout = VK_IMAGE_LAYOUT_UNDEFINED
              ∧ newLayout = VK_IMAGE_LAYOUT_TRANSFER_DST_OPTIMAL)
          ∧ ¬ (oldLayout = VK_IMAGE_LAYOUT_TRANSFER_DST_OPTIMAL
              ∧ newLayout = VK_IMAGE_LAYOUT_SHADER_READ_ONLY_OPTIMAL)
          ∧ e = invalidArgument "unsupported layout transition!") := by
  unfold transitionImageLayout
  rw [Run.outcome_bind_of_ok _ _ _ (commandbuffer.beginSingleTimeCommands_outcome _ _)]
  dsimp only
  split_ifs with h1 h2
  · simp [h1, commandbuffer.endAndExecuteSingleTimeCommands_outcome]
  · simp [h2, commandbuffer.endAndExecuteSingleTimeCommands_outcome]
  · simp only [Run.outcome_raise_bind]
    constructor
    · intro h
      injection h with h
      exact ⟨h1, h2, h.symm⟩
    · rintro ⟨_, _, h⟩
      rw [h]

theorem copyBufferToImage_outcome (commandPool graphicsQueue buffer image width height
    commandBuffer : Nat) :
    (copyBufferToImage commandPool graphicsQueue buffer image width height
        commandBuffer).outcome = Except.ok () := rfl

theorem bindImageMemory_error (memProperties : buffer.VkPhysicalDeviceMemoryProperties)
    (replies : BindImageMemoryReplies)
    (width height mipLevels msaaSampleCount format tiling usage properties : Nat) (e : Failure)
    (h : (bindImageMemory memProperties replies width height mipLevels msaaSampleCount format
            tiling usage properties).outcome = Except.error e) :
    e = runtimeError "failed to create image!"
      ∨ e = runtimeError "failed to find suitable memory type!"
      ∨ e = runtimeError "failed to allocate image memory!" := by
  unfold bindImageMemory at h
  simp only [Run.outcome_call_bind] at h
  cases hf : buffer.findMemoryType memProperties replies.memRequirements.memoryTypeBits
      properties with
  | error e1 =>
    have he1 := buffer.findMemoryType_error _ _ _ e1 hf
    split_ifs at h <;>
      simp [Run.bind_eq_andThen, Run.andThen, hf] at h <;> subst h <;> simp [he1]
  | ok idx =>
    split_ifs at h <;>
      simp [Run.bind_eq_andThen, Run.andThen, hf, Run.call, Run.raise] at h <;> subst h <;> simp

theorem generateMipmapsLoop_returns (commandBuffer image : Nat) :
    ∀ (remaining i : Nat) (mipWidth mipHeight : Int),
      ∃ p, (generateMipmapsLoop commandBuffer image remaining i mipWidth mipHeight).outcome
        = Except.ok p := by
  intro remaining
  induction remaining with
  | zero =>
    intro i mipWidth mipHeight
    exact ⟨(mipWidth, mipHeight), rfl⟩
  | succ n ih =>
    intro i mipWidth mipHeight
    unfold generateMipmapsLoop
    simp only [Run.outcome_call_bind]
    exact ih _ _ _

theorem generateMipmaps_error (optimalTilingFeatures commandPool graphicsQueue image
    imageFormat : Nat) (texWidth texHeight : Int) (mipLevels commandBuffer : Nat) (e : Failure)
    (h : (generateMipmaps optimalTilingFeatures commandPool graphicsQueue image imageFormat
            texWidth texHeight mipLevels commandBuffer).outcome = Except.error e) :
    e = runtimeError "texture image format does not support linear blitting!" := by
  unfold generateMipmaps at h
  split_ifs at h with h1
  · simp only [Run.outcome_raise] at h
    injection h with h
    exact h.symm
  · rw [Run.outcome_bind_of_ok _ _ _ (commandbuffer.beginSingleTimeCommands_outcome _ _)] at h
    obtain ⟨p, hp⟩ := generateMipmapsLoop_returns commandBuffer image (mipLevels - 1) 1
      texWidth texHeight
    rw [Run.outcome_bind_of_ok _ _ _ hp] at h
    simp [commandbuffer.endAndExecuteSingleTimeCommands_outcome] at h

end texture

namespace texture

theorem createTextureImage_error (memProperties : buffer.VkPhysicalDeviceMemoryProperties)
    (replies : CreateTextureImageReplies) (commandPool graphicsQueue msaaSampleCount : Nat)
    (e : Failure)
    (h : (createTextureImage memProperties replies commandPool graphicsQueue
            msaaSampleCount).outcome = Except.error e) :
    e.kind = FailureKind.runtime_error
      ∧ e.message ∈ ["failed to load texture image!", "failed to create vertex buffer!",
          "failed to find suitable memory type!", "failed to allocate vertex buffer memory!",
          "failed to create image!", "failed to allocate image memory!",
          "texture image format does not support linear blitting!"] := by
  unfold createTextureImage at h
  dsimp only at h
  split_ifs at h with hp
  · simp only [Run.outcome_raise] at h
    injection h with h
    subst h
    simp [runtimeError]
  · rcases Run.bind_error_cases _ _ _ h with h | ⟨a, _, h⟩
    · rcases buffer.bindBuffer_error _ _ _ _ _ _ h with h | h | h <;> subst h <;>
        simp [runtimeError]
    · obtain ⟨stagingBuffer, stagingBufferMemory⟩ := a
      simp only [Run.outcome_call_bind] at h
      rcases Run.bind_error_cases _ _ _ h with h | ⟨a, _, h⟩
      · rcases bindImageMemory_error _ _ _ _ _ _ _ _ _ _ _ h with h | h | h <;> subst h <;>
          simp [runtimeError]
      · obtain ⟨textureImage, textureImageMemory⟩ := a
        dsimp only at h
        rcases Run.bind_error_cases _ _ _ h with h | ⟨_, _, h⟩
        · rw [transitionImageLayout_error_iff] at h
          exact absurd ⟨rfl, rfl⟩ h.1
        · rw [Run.outcome_bind_of_ok _ _ _ (copyBufferToImage_outcome _ _ _ _ _ _ _)] at h
          rcases Run.bind_error_cases _ _ _ h with h | ⟨_, _, h⟩
          · have h := generateMipmaps_error _ _ _ _ _ _ _ _ _ _ h
            subst h
            simp [runtimeError]
          · simp at h

end texture

namespace swapchain

theorem createSwapChainWith_error (report : PhysicalDeviceReport)
    (replies : CreateSwapChainReplies) (surface : Nat)
    (swapChainSupport : SwapChainSupportDetails) (surfaceFormat : VkSurfaceFormatKHR)
    (e : Failure)
    (h : (createSwapChainWith report replies surface swapChainSupport surfaceFormat).outcome
          = Except.error e) :
    e = runtimeError "failed to create swap chain!"
      ∨ (e.kind = FailureKind.bad_optional_access
          ∧ (device.findQueueFamilies report).isComplete = false) := by
  unfold createSwapChainWith at h
  dsimp only at h
  cases hg : (device.findQueueFamilies report).graphicsFamily with
  | none =>
    right
    rw [hg] at h
    simp only [optionalValue, Run.outcome_raise_bind] at h
    injection h with h
    subst h
    simp [device.QueueFamilyIndices.isComplete, hg]
  | some g =>
    cases hpf : (device.findQueueFamilies report).presentationFamily with
    | none =>
      right
      rw [hg, hpf] at h
      simp only [optionalValue, Run.outcome_pure_bind, Run.outcome_raise_bind] at h
      injection h with h
      subst h
      simp [device.QueueFamilyIndices.isComplete, hpf]
    | some q =>
      left
      rw [hg, hpf] at h
      simp only [optionalValue, Run.outcome_pure_bind, Run.outcome_call_bind] at h
      split_ifs at h
      · simp only [Run.outcome_raise] at h
        injection h with h
        exact h.symm
      · simp at h

end swapchain

namespace device

theorem pickPhysicalDevice_error (enumerated : List Nat) (gpu : Nat → PhysicalDeviceReport)
    (device_extensions : List String) (physicalDevice : Nat) (e : Failure)
    (h : (pickPhysicalDevice enumerated gpu device_extensions physicalDevice).outcome
          = Except.error e) :
    e = runtimeError "failed to find GPUs with Vulkan support!"
      ∨ e = runtimeError "failed to find a suitable GPU!" := by
  unfold pickPhysicalDevice at h
  dsimp only at h
  split_ifs at h <;> simp at h <;> simp [h]

end device

/-! ## Claims on failures -/

/-- C1, at a concrete table of two memory types: for the filter `0b11` and
the required mask `0b110`, entry 1 is the answer of `findMemoryType`. -/
theorem findMemoryType_smallest_matching_index_witness :
    (⟨2, [⟨1, 0⟩, ⟨6, 0⟩]⟩ : buffer.VkPhysicalDeviceMemoryProperties).memoryTypeCount ≤ 32
      ∧ (1 < (⟨2, [⟨1, 0⟩, ⟨6, 0⟩]⟩ : buffer.VkPhysicalDeviceMemoryProperties).memoryTypeCount
          ∧ buffer.memoryTypeMatches ⟨2, [⟨1, 0⟩, ⟨6, 0⟩]⟩ 3 6 1
          ∧ ∀ j, j < 1 → ¬ buffer.memoryTypeMatches ⟨2, [⟨1, 0⟩, ⟨6, 0⟩]⟩ 3 6 j) :=
  ⟨by decide,
    ((buffer.findMemoryType_smallest_matching_index ⟨2, [⟨1, 0⟩, ⟨6, 0⟩]⟩ 3 6 (by decide)).1 1).mp
      (by decide)⟩

/-- C3 as stated fails: with the buffer created and its memory allocated,
`bindBuffer` returns normally although binding the memory to the buffer
answers the non-success code -2. -/
theorem bindBuffer_returns_although_binding_failed :
    (⟨0, 11, ⟨64, 16, 1⟩, 0, 12, -2⟩ : buffer.BindBufferReplies).bindBufferMemoryResult
      ≠ VK_SUCCESS
    ∧ (buffer.bindBuffer ⟨1, [⟨6, 0⟩]⟩ ⟨0, 11, ⟨64, 16, 1⟩, 0, 12, -2⟩ 64
        VK_BUFFER_USAGE_TRANSFER_SRC_BIT 6).outcome = Except.ok (11, 12)
    ∧ NativeCall.vkBindBufferMemory 11 12 0
        ∈ (buffer.bindBuffer ⟨1, [⟨6, 0⟩]⟩ ⟨0, 11, ⟨64, 16, 1⟩, 0, 12, -2⟩ 64
            VK_BUFFER_USAGE_TRANSFER_SRC_BIT 6).calls := by
  decide

/-- C3, amended: `bindBuffer` raises exactly when creating the buffer answers
a non-success code, or no suitable memory type is found, or allocating the
memory answers a non-success code; the code answered by binding the memory to
the buffer has no influence on the run; and `bindBuffer` returns normally
exactly when the buffer was created, a memory type found and the memory
allocated. -/
theorem bindBuffer_raises_iff_create_or_allocate_fails
    (memProperties : buffer.VkPhysicalDeviceMemoryProperties)
    (replies : buffer.BindBufferReplies) (size usage properties : Nat) :
    ((buffer.bindBuffer memProperties replies size usage properties).raised = true
      ↔ (replies.createBufferResult ≠ VK_SUCCESS
          ∨ (∃ e, buffer.findMemoryType memProperties replies.memRequirements.memoryTypeBits
                properties = Except.error e)
          ∨ replies.allocateMemoryResult ≠ VK_SUCCESS))
    ∧ (∀ result : Int,
        buffer.bindBuffer memProperties { replies with bindBufferMemoryResult := result }
            size usage properties
          = buffer.bindBuffer memProperties replies size usage properties)
    ∧ ((buffer.bindBuffer memProperties replies size usage properties).raised = false
      ↔ (replies.createBufferResult = VK_SUCCESS
          ∧ (∃ i, buffer.findMemoryType memProperties replies.memRequirements.memoryTypeBits
                properties = Except.ok i)
          ∧ replies.allocateMemoryResult = VK_SUCCESS)) := by
  have hraised := buffer.bindBuffer_raised_iff memProperties replies size usage properties
  refine ⟨hraised, fun _ => rfl, ?_⟩
  rw [← Bool.not_eq_true, hraised]
  cases hf : buffer.findMemoryType memProperties replies.memRequirements.memoryTypeBits
      properties with
  | error e => simp
  | ok i => simp

/-! ## Swapchain negotiation -/

namespace swapchain

theorem imageCount_eq (capabilities : VkSurfaceCapabilitiesKHR)
    (hmin : capabilities.minImageCount < 2 ^ 32 - 1) :
    imageCount capabilities
      = if capabilities.maxImageCount > 0
            ∧ capabilities.minImageCount + 1 > capabilities.maxImageCount then
          capabilities.maxImageCount
        else capabilities.minImageCount + 1 := by
  unfold imageCount
  have hmod : (capabilities.minImageCount + 1) % 2 ^ 32 = capabilities.minImageCount + 1 :=
    Nat.mod_eq_of_lt (by omega)
  simp only [hmod]

/-- With at least one surface format and complete queue family indices,
`createSwapChain` issues exactly one native call, the creation of the
swapchain, and the create-info of that call carries `imageCount`. -/
theorem createSwapChain_request (report : PhysicalDeviceReport)
    (replies : CreateSwapChainReplies) (surface : Nat) (hformats : report.formats ≠ [])
    (hcomplete : (device.findQueueFamilies report).isComplete = true) :
    ∃ run createInfo, createSwapChain report replies surface = some run
      ∧ run.calls = [NativeCall.vkCreateSwapchainKHR createInfo]
      ∧ createInfo.minImageCount = imageCount report.capabilities := by
  obtain ⟨g, hg⟩ : ∃ g, (device.findQueueFamilies report).graphicsFamily = some g := by
    cases hgf : (device.findQueueFamilies report).graphicsFamily with
    | none => simp [device.QueueFamilyIndices.isComplete, hgf] at hcomplete
    | some g => exact ⟨g, rfl⟩
  obtain ⟨q, hq⟩ : ∃ q, (device.findQueueFamilies report).presentationFamily = some q := by
    cases hpf : (device.findQueueFamilies report).presentationFamily with
    | none => simp [device.QueueFamilyIndices.isComplete, hpf] at hcomplete
    | some q => exact ⟨q, rfl⟩
  obtain ⟨surfaceFormat, hsf⟩ :
      ∃ f, chooseSwapSurfaceFormat (querySwapChainSupport report).formats = some f := by
    unfold chooseSwapSurfaceFormat
    cases chooseSwapSurfaceFormatLoop (querySwapChainSupport report).formats with
    | some f => exact ⟨f, rfl⟩
    | none =>
      cases hl : report.formats with
      | nil => exact absurd hl hformats
      | cons f rest => exact ⟨f, by simp [querySwapChainSupport, hl]⟩
  have hcalls : ∃ createInfo,
      (createSwapChainWith report replies surface (querySwapChainSupport report)
          surfaceFormat).calls = [NativeCall.vkCreateSwapchainKHR createInfo]
        ∧ createInfo.minImageCount = imageCount report.capabilities := by
    unfold createSwapChainWith
    simp only [hg, hq, optionalValue, Run.calls_pure_bind, Run.calls_call_bind]
    split_ifs <;> exact ⟨_, rfl, rfl⟩
  obtain ⟨createInfo, hc1, hc2⟩ := hcalls
  refine ⟨_, createInfo, ?_, hc1, hc2⟩
  unfold createSwapChain
  simp only [hsf]

theorem createSwapChain_requests_only_imageCount (report : PhysicalDeviceReport)
    (replies : CreateSwapChainReplies) (surface : Nat) (run : Run SwapChainOutputs)
    (createInfo : VkSwapchainCreateInfoKHR)
    (hrun : createSwapChain report replies surface = some run)
    (hcall : NativeCall.vkCreateSwapchainKHR createInfo ∈ run.calls) :
    createInfo.minImageCount = imageCount report.capabilities := by
  unfold createSwapChain at hrun
  dsimp only at hrun
  split at hrun
  · cases hrun
  · injection hrun with hrun
    subst hrun
    unfold createSwapChainWith at hcall
    dsimp only at hcall
    cases hg : (device.findQueueFamilies report).graphicsFamily with
    | none =>
      rw [hg] at hcall
      simp [optionalValue] at hcall
    | some g =>
      cases hpf : (device.findQueueFamilies report).presentationFamily with
      | none =>
        rw [hg, hpf] at hcall
        simp [optionalValue] at hcall
      | some q =>
        rw [hg, hpf] at hcall
        simp only [optionalValue, Run.calls_pure_bind, Run.calls_call_bind] at hcall
        split_ifs at hcall <;>
          simp only [Run.calls_raise, Run.calls_pure, List.mem_singleton] at hcall <;>
          injection hcall with hcall <;> subst hcall <;> rfl

end swapchain

/-- C4: for surface capabilities with `minImageCount < 2^32 - 1`, the image
count `createSwapChain` requests is `minImageCount + 1`, except that it is
`maxImageCount` when `maxImageCount > 0` and `minImageCount + 1` exceeds it;
it never exceeds a non-zero `maxImageCount`, and it is at least
`minImageCount` when `maxImageCount = 0` or `minImageCount ≤ maxImageCount`.
Every swapchain creation `createSwapChain` issues carries this count, and for
a device with a surface format and complete queue family indices it issues
exactly that one call. -/
theorem createSwapChain_image_count (report : PhysicalDeviceReport)
    (hmin : report.capabilities.minImageCount < 2 ^ 32 - 1) :
    swapchain.imageCount report.capabilities
        = (if report.capabilities.maxImageCount > 0
              ∧ report.capabilities.minImageCount + 1 > report.capabilities.maxImageCount then
            report.capabilities.maxImageCount
          else report.capabilities.minImageCount + 1)
    ∧ (report.capabilities.maxImageCount ≠ 0 →
        swapchain.imageCount report.capabilities ≤ report.capabilities.maxImageCount)
    ∧ (report.capabilities.maxImageCount = 0
          ∨ report.capabilities.minImageCount ≤ report.capabilities.maxImageCount →
        report.capabilities.minImageCount ≤ swapchain.imageCount report.capabilities)
    ∧ (∀ (replies : swapchain.CreateSwapChainReplies) (surface : Nat)
          (run : Run swapchain.SwapChainOutputs) (createInfo : VkSwapchainCreateInfoKHR),
        swapchain.createSwapChain report replies surface = some run →
        NativeCall.vkCreateSwapchainKHR createInfo ∈ run.calls →
          createInfo.minImageCount = swapchain.imageCount report.capabilities)
    ∧ (∀ (replies : swapchain.CreateSwapChainReplies) (surface : Nat),
        report.formats ≠ [] → (device.findQueueFamilies report).isComplete = true →
          ∃ run createInfo, swapchain.createSwapChain report replies surface = some run
            ∧ run.calls = [NativeCall.vkCreateSwapchainKHR createInfo]
            ∧ createInfo.minImageCount = swapchain.imageCount report.capabilities) := by
  have heq := swapchain.imageCount_eq report.capabilities hmin
  refine ⟨heq, ?_, ?_, ?_, ?_⟩
  · intro hmax
    rw [heq]
    split_ifs with h
    · exact le_refl _
    · rw [not_and_or] at h
      omega
  · intro h
    rw [heq]
    split_ifs with h1
    · omega
    · omega
  · intro replies surface run createInfo hrun hcall
    exact swapchain.createSwapChain_requests_only_imageCount report replies surface run
      createInfo hrun hcall
  · intro replies surface hformats hcomplete
    exact swapchain.createSwapChain_request report replies surface hformats hcomplete

/-- C4, at a surface that wants at least 2 and at most 3 images: the count
requested is 3. -/
theorem createSwapChain_image_count_witness :
    (⟨[], [], [], ⟨2, 3, ⟨800, 600⟩, ⟨1, 1⟩, ⟨4096, 4096⟩, 1⟩, [], [], 1, ⟨0, []⟩⟩ :
        PhysicalDeviceReport).capabilities.minImageCount < 2 ^ 32 - 1
    ∧ swapchain.imageCount (⟨[], [], [], ⟨2, 3, ⟨800, 600⟩, ⟨1, 1⟩, ⟨4096, 4096⟩, 1⟩, [], [],
        1, ⟨0, []⟩⟩ : PhysicalDeviceReport).capabilities = 3 :=
  ⟨by decide,
    (createSwapChain_image_count
      ⟨[], [], [], ⟨2, 3, ⟨800, 600⟩, ⟨1, 1⟩, ⟨4096, 4096⟩, 1⟩, [], [], 1, ⟨0, []⟩⟩
      (by decide)).1.trans (by decide)⟩

theorem clamp_bounds (v lo hi : Nat) (h : lo ≤ hi) :
    lo ≤ clamp v lo hi ∧ clamp v lo hi ≤ hi ∧ clamp v lo hi = max lo (min v hi) := by
  unfold clamp
  split_ifs with h1 h2
  · refine ⟨le_refl _, h, ?_⟩
    rw [max_eq_left]
    exact le_trans (min_le_left _ _) (le_of_lt h1)
  · refine ⟨h, le_refl _, ?_⟩
    rw [min_eq_right (le_of_lt h2), max_eq_right h]
  · have h3 : lo ≤ v := by omega
    have h4 : v ≤ hi := by omega
    refine ⟨h3, h4, ?_⟩
    rw [min_eq_left h4, max_eq_right h3]

/-- C5: `chooseSwapExtent` returns `currentExtent` unchanged when its width
is not `2^32 - 1`; when width and height of `currentExtent` are both
`2^32 - 1` it returns the framebuffer size converted to unsigned 32-bit, each
dimension passed through `std::clamp` with the corresponding minimum and
maximum image extent, so that, where the minimum does not exceed the
maximum, the result lies between them and is the framebuffer dimension
raised to the minimum or lowered to the maximum. -/
theorem chooseSwapExtent_current_or_clamped (capabilities : VkSurfaceCapabilitiesKHR)
    (framebufferSize : Int × Int) :
    (capabilities.currentExtent.width ≠ 2 ^ 32 - 1 →
      swapchain.chooseSwapExtent capabilities framebufferSize = capabilities.currentExtent)
    ∧ (capabilities.currentExtent.width = 2 ^ 32 - 1 →
        capabilities.currentExtent.height = 2 ^ 32 - 1 →
      swapchain.chooseSwapExtent capabilities framebufferSize
          = { width := clamp (toUInt32 framebufferSize.1) capabilities.minImageExtent.width
                capabilities.maxImageExtent.width
              height := clamp (toUInt32 framebufferSize.2) capabilities.minImageExtent.height
                capabilities.maxImageExtent.height }
        ∧ (capabilities.minImageExtent.width ≤ capabilities.maxImageExtent.width →
            capabilities.minImageExtent.width
                ≤ (swapchain.chooseSwapExtent capabilities framebufferSize).width
              ∧ (swapchain.chooseSwapExtent capabilities framebufferSize).width
                ≤ capabilities.maxImageExtent.width
              ∧ (swapchain.chooseSwapExtent capabilities framebufferSize).width
                = max capabilities.minImageExtent.width
                    (min (toUInt32 framebufferSize.1) capabilities.maxImageExtent.width))
        ∧ (capabilities.minImageExtent.height ≤ capabilities.maxImageExtent.height →
            capabilities.minImageExtent.height
                ≤ (swapchain.chooseSwapExtent capabilities framebufferSize).height
              ∧ (swapchain.chooseSwapExtent capabilities framebufferSize).height
                ≤ capabilities.maxImageExtent.height
              ∧ (swapchain.chooseSwapExtent capabilities framebufferSize).height
                = max capabilities.minImageExtent.height
                    (min (toUInt32 framebufferSize.2) capabilities.maxImageExtent.height)))
    ∧ (0 ≤ framebufferSize.1 → framebufferSize.1 < 2 ^ 31 →
        (toUInt32 framebufferSize.1 : Int) = framebufferSize.1)
    ∧ (0 ≤ framebufferSize.2 → framebufferSize.2 < 2 ^ 31 →
        (toUInt32 framebufferSize.2 : Int) = framebufferSize.2) := by
  refine ⟨?_, ?_, ?_, ?_⟩
  · intro h
    unfold swapchain.chooseSwapExtent
    rw [if_pos (by simpa [UINT32_MAX] using h)]
  · intro hw _
    have heq : swapchain.chooseSwapExtent capabilities framebufferSize
        = { width := clamp (toUInt32 framebufferSize.1) capabilities.minImageExtent.width
              capabilities.maxImageExtent.width
            height := clamp (toUInt32 framebufferSize.2) capabilities.minImageExtent.height
              capabilities.maxImageExtent.height } := by
      unfold swapchain.chooseSwapExtent
      rw [if_neg (by simpa [UINT32_MAX] using hw)]
    refine ⟨heq, ?_, ?_⟩
    · intro hle
      rw [heq]
      exact clamp_bounds _ _ _ hle
    · intro hle
      rw [heq]
      exact clamp_bounds _ _ _ hle
  · intro h0 h1
    unfold toUInt32
    rw [Int.emod_eq_of_lt h0 (by omega)]
    exact Int.toNat_of_nonneg h0
  · intro h0 h1
    unfold toUInt32
    rw [Int.emod_eq_of_lt h0 (by omega)]
    exact Int.toNat_of_nonneg h0

/-- C5, at a surface that leaves the extent to the application: a
framebuffer of 5000 by 300 pixels is brought into the bounds 640..4096 by
480..2160. -/
theorem chooseSwapExtent_current_or_clamped_witness :
    swapchain.chooseSwapExtent
        ⟨2, 3, ⟨2 ^ 32 - 1, 2 ^ 32 - 1⟩, ⟨640, 480⟩, ⟨4096, 2160⟩, 1⟩ (5000, 300)
      = { width := 4096, height := 480 } :=
  (((chooseSwapExtent_current_or_clamped
      ⟨2, 3, ⟨2 ^ 32 - 1, 2 ^ 32 - 1⟩, ⟨640, 480⟩, ⟨4096, 2160⟩, 1⟩ (5000, 300)).2.1
      (by decide) (by decide)).1).trans (by decide)

namespace swapchain

theorem chooseSwapSurfaceFormatLoop_some (availableFormats : List VkSurfaceFormatKHR)
    (chosen : VkSurfaceFormatKHR)
    (h : chooseSwapSurfaceFormatLoop availableFormats = some chosen) :
    ∃ before after, availableFormats = before ++ chosen :: after
      ∧ (chosen.format = VK_FORMAT_B8G8R8A8_SRGB
          ∧ chosen.colorSpace = VK_COLOR_SPACE_SRGB_NONLINEAR_KHR)
      ∧ ∀ f ∈ before, ¬ (f.format = VK_FORMAT_B8G8R8A8_SRGB
          ∧ f.colorSpace = VK_COLOR_SPACE_SRGB_NONLINEAR_KHR) := by
  induction availableFormats with
  | nil => simp [chooseSwapSurfaceFormatLoop] at h
  | cons f rest ih =>
    unfold chooseSwapSurfaceFormatLoop at h
    split_ifs at h with hf
    · injection h with h
      subst h
      exact ⟨[], rest, rfl, hf, by simp⟩
    · obtain ⟨before, after, h1, h2, h3⟩ := ih h
      refine ⟨f :: before, after, by rw [h1]; rfl, h2, ?_⟩
      intro x hx
      rcases List.mem_cons.mp hx with hx | hx
      · rw [hx]; exact hf
      · exact h3 x hx

theorem chooseSwapSurfaceFormatLoop_none (availableFormats : List VkSurfaceFormatKHR)
    (h : chooseSwapSurfaceFormatLoop availableFormats = none) :
    ∀ f ∈ availableFormats, ¬ (f.format = VK_FORMAT_B8G8R8A8_SRGB
      ∧ f.colorSpace = VK_COLOR_SPACE_SRGB_NONLINEAR_KHR) := by
  induction availableFormats with
  | nil => simp
  | cons f rest ih =>
    unfold chooseSwapSurfaceFormatLoop at h
    split_ifs at h with hf
    intro x hx
    rcases List.mem_cons.mp hx with hx | hx
    · rw [hx]; exact hf
    · exact ih h x hx

theorem chooseSwapPresentMode_of_mem (modes : List Nat)
    (h : VK_PRESENT_MODE_MAILBOX_KHR ∈ modes) :
    chooseSwapPresentMode modes = VK_PRESENT_MODE_MAILBOX_KHR := by
  induction modes with
  | nil => simp at h
  | cons m rest ih =>
    unfold chooseSwapPresentMode
    split_ifs with hm
    · exact hm
    · rcases List.mem_cons.mp h with h | h
      · exact absurd h.symm hm
      · exact ih h

theorem chooseSwapPresentMode_of_not_mem (modes : List Nat)
    (h : VK_PRESENT_MODE_MAILBOX_KHR ∉ modes) :
    chooseSwapPresentMode modes = VK_PRESENT_MODE_FIFO_KHR := by
  induction modes with
  | nil => rfl
  | cons m rest ih =>
    unfold chooseSwapPresentMode
    split_ifs with hm
    · exact absurd (by rw [hm]; exact List.mem_cons_self _ _) h
    · exact ih (fun h1 => h (List.mem_cons_of_mem _ h1))

end swapchain

/-- C6: for a non-empty list of surface formats, `chooseSwapSurfaceFormat`
returns an element of the list: the first entry, in list order, with format
B8G8R8A8_SRGB and colour space SRGB_NONLINEAR, or, when no entry has both,
the first item of the list. -/
theorem chooseSwapSurfaceFormat_first_srgb_or_head
    (availableFormats : List VkSurfaceFormatKHR) (hne : availableFormats ≠ []) :
    ∃ chosen, swapchain.chooseSwapSurfaceFormat availableFormats = some chosen
      ∧ chosen ∈ availableFormats
      ∧ ((∃ before after, availableFormats = before ++ chosen :: after
            ∧ (chosen.format = VK_FORMAT_B8G8R8A8_SRGB
                ∧ chosen.colorSpace = VK_COLOR_SPACE_SRGB_NONLINEAR_KHR)
            ∧ ∀ f ∈ before, ¬ (f.format = VK_FORMAT_B8G8R8A8_SRGB
                ∧ f.colorSpace = VK_COLOR_SPACE_SRGB_NONLINEAR_KHR))
          ∨ ((∀ f ∈ availableFormats, ¬ (f.format = VK_FORMAT_B8G8R8A8_SRGB
                ∧ f.colorSpace = VK_COLOR_SPACE_SRGB_NONLINEAR_KHR))
            ∧ ∃ rest, availableFormats = chosen :: rest)) := by
  unfold swapchain.chooseSwapSurfaceFormat
  cases hloop : swapchain.chooseSwapSurfaceFormatLoop availableFormats with
  | some chosen =>
    obtain ⟨before, after, h1, h2, h3⟩ :=
      swapchain.chooseSwapSurfaceFormatLoop_some availableFormats chosen hloop
    refine ⟨chosen, rfl, ?_, Or.inl ⟨before, after, h1, h2, h3⟩⟩
    rw [h1]
    simp
  | none =>
    have hnone := swapchain.chooseSwapSurfaceFormatLoop_none availableFormats hloop
    cases availableFormats with
    | nil => exact absurd rfl hne
    | cons f rest =>
      exact ⟨f, by simp, List.mem_cons_self _ _, Or.inr ⟨hnone, rest, rfl⟩⟩

/-- C6, at a list whose second entry is the wanted sRGB format. -/
theorem chooseSwapSurfaceFormat_first_srgb_or_head_witness :
    ∃ chosen, swapchain.chooseSwapSurfaceFormat [⟨44, 0⟩, ⟨50, 0⟩, ⟨50, 0⟩] = some chosen
      ∧ chosen ∈ [(⟨44, 0⟩ : VkSurfaceFormatKHR), ⟨50, 0⟩, ⟨50, 0⟩]
      ∧ ((∃ before after,
            [(⟨44, 0⟩ : VkSurfaceFormatKHR), ⟨50, 0⟩, ⟨50, 0⟩] = before ++ chosen :: after
            ∧ (chosen.format = VK_FORMAT_B8G8R8A8_SRGB
                ∧ chosen.colorSpace = VK_COLOR_SPACE_SRGB_NONLINEAR_KHR)
            ∧ ∀ f ∈ before, ¬ (f.format = VK_FORMAT_B8G8R8A8_SRGB
                ∧ f.colorSpace = VK_COLOR_SPACE_SRGB_NONLINEAR_KHR))
          ∨ ((∀ f ∈ [(⟨44, 0⟩ : VkSurfaceFormatKHR), ⟨50, 0⟩, ⟨50, 0⟩],
                ¬ (f.format = VK_FORMAT_B8G8R8A8_SRGB
                  ∧ f.colorSpace = VK_COLOR_SPACE_SRGB_NONLINEAR_KHR))
            ∧ ∃ rest, [(⟨44, 0⟩ : VkSurfaceFormatKHR), ⟨50, 0⟩, ⟨50, 0⟩] = chosen :: rest)) :=
  chooseSwapSurfaceFormat_first_srgb_or_head [⟨44, 0⟩, ⟨50, 0⟩, ⟨50, 0⟩] (by decide)

/-- C7: for every list of presentation modes, the empty one included,
`chooseSwapPresentMode` returns MAILBOX when the list contains MAILBOX and
FIFO otherwise, whether or not FIFO is in the list; it returns no other
mode. -/
theorem chooseSwapPresentMode_mailbox_or_fifo (availablePresentationModes : List Nat) :
    (VK_PRESENT_MODE_MAILBOX_KHR ∈ availablePresentationModes →
      swapchain.chooseSwapPresentMode availablePresentationModes = VK_PRESENT_MODE_MAILBOX_KHR)
    ∧ (VK_PRESENT_MODE_MAILBOX_KHR ∉ availablePresentationModes →
      swapchain.chooseSwapPresentMode availablePresentationModes = VK_PRESENT_MODE_FIFO_KHR)
    ∧ (swapchain.chooseSwapPresentMode availablePresentationModes = VK_PRESENT_MODE_MAILBOX_KHR
        ∨ swapchain.chooseSwapPresentMode availablePresentationModes = VK_PRESENT_MODE_FIFO_KHR)
    ∧ (VK_PRESENT_MODE_MAILBOX_KHR ∉ availablePresentationModes →
        VK_PRESENT_MODE_FIFO_KHR ∉ availablePresentationModes →
      swapchain.chooseSwapPresentMode availablePresentationModes = VK_PRESENT_MODE_FIFO_KHR)
    ∧ swapchain.chooseSwapPresentMode [] = VK_PRESENT_MODE_FIFO_KHR := by
  refine ⟨swapchain.chooseSwapPresentMode_of_mem _, swapchain.chooseSwapPresentMode_of_not_mem _,
    ?_, fun h _ => swapchain.chooseSwapPresentMode_of_not_mem _ h, rfl⟩
  by_cases h : VK_PRESENT_MODE_MAILBOX_KHR ∈ availablePresentationModes
  · exact Or.inl (swapchain.chooseSwapPresentMode_of_mem _ h)
  · exact Or.inr (swapchain.chooseSwapPresentMode_of_not_mem _ h)

/-- C7, at a list offering only IMMEDIATE and FIFO_RELAXED: the answer is
FIFO, which the list does not contain. -/
theorem chooseSwapPresentMode_mailbox_or_fifo_witness :
    swapchain.chooseSwapPresentMode
        [VK_PRESENT_MODE_IMMEDIATE_KHR, VK_PRESENT_MODE_FIFO_RELAXED_KHR]
      = VK_PRESENT_MODE_FIFO_KHR :=
  (chooseSwapPresentMode_mailbox_or_fifo
    [VK_PRESENT_MODE_IMMEDIATE_KHR, VK_PRESENT_MODE_FIFO_RELAXED_KHR]).2.2.2.1
    (by decide) (by decide)

/-! ## Physical device selection -/

namespace device

theorem pickPhysicalDeviceLoop_first_suitable (gpu : Nat → PhysicalDeviceReport)
    (device_extensions : List String) (first : Nat) (after : List Nat)
    (hfirst : isPhysicalDeviceSuitable (gpu first) device_extensions = true) :
    ∀ (before : List Nat) (physicalDevice : Nat) (examined : List Nat),
      (∀ d ∈ before, isPhysicalDeviceSuitable (gpu d) device_extensions = false) →
      pickPhysicalDeviceLoop gpu device_extensions (before ++ first :: after) physicalDevice
          examined
        = (first, examined ++ (before ++ [first])) := by
  intro before
  induction before with
  | nil =>
    intro physicalDevice examined _
    simp only [List.nil_append]
    unfold pickPhysicalDeviceLoop
    rw [if_pos hfirst]
  | cons d rest ih =>
    intro physicalDevice examined hbefore
    have hd : isPhysicalDeviceSuitable (gpu d) device_extensions = false :=
      hbefore d (List.mem_cons_self _ _)
    simp only [List.cons_append]
    unfold pickPhysicalDeviceLoop
    rw [if_neg (by simp [hd])]
    rw [ih physicalDevice (examined ++ [d])
      (fun x hx => hbefore x (List.mem_cons_of_mem _ hx))]
    simp

theorem pickPhysicalDeviceLoop_none_suitable (gpu : Nat → PhysicalDeviceReport)
    (device_extensions : List String) :
    ∀ (devices : List Nat) (physicalDevice : Nat) (examined : List Nat),
      (∀ d ∈ devices, isPhysicalDeviceSuitable (gpu d) device_extensions = false) →
      pickPhysicalDeviceLoop gpu device_extensions devices physicalDevice examined
        = (physicalDevice, examined ++ devices) := by
  intro devices
  induction devices with
  | nil =>
    intro physicalDevice examined _
    simp [pickPhysicalDeviceLoop]
  | cons d rest ih =>
    intro physicalDevice examined hall
    have hd : isPhysicalDeviceSuitable (gpu d) device_extensions = false :=
      hall d (List.mem_cons_self _ _)
    unfold pickPhysicalDeviceLoop
    rw [if_neg (by simp [hd])]
    rw [ih physicalDevice (examined ++ [d]) (fun x hx => hall x (List.mem_cons_of_mem _ hx))]
    simp

/-- A list with an element satisfying a test splits at the first such
element. -/
theorem split_at_first (p : Nat → Bool) :
    ∀ (l : List Nat), (∃ d ∈ l, p d = true) →
      ∃ before first after, l = before ++ first :: after
        ∧ (∀ d ∈ before, p d = false) ∧ p first = true := by
  intro l
  induction l with
  | nil =>
    rintro ⟨d, hd, _⟩
    simp at hd
  | cons x rest ih =>
    rintro ⟨d, hd, hp⟩
    by_cases hx : p x = true
    · exact ⟨[], x, rest, rfl, by simp, hx⟩
    · have hrest : ∃ d ∈ rest, p d = true := by
        rcases List.mem_cons.mp hd with h | h
        · rw [h] at hp; exact absurd hp hx
        · exact ⟨d, h, hp⟩
      obtain ⟨before, first, after, h1, h2, h3⟩ := ih hrest
      refine ⟨x :: before, first, after, by rw [h1]; rfl, ?_, h3⟩
      intro y hy
      rcases List.mem_cons.mp hy with h | h
      · rw [h]; simpa using hx
      · exact h2 y h

/-- With the output handle null on entry and GPUs enumerated of which none is
suitable, `pickPhysicalDevice` raises "failed to find a suitable GPU!". -/
theorem pickPhysicalDevice_none_suitable_from_null (enumerated : List Nat)
    (gpu : Nat → PhysicalDeviceReport) (device_extensions : List String)
    (hne : enumerated ≠ [])
    (hnone : ∀ d ∈ enumerated, isPhysicalDeviceSuitable (gpu d) device_extensions = false) :
    pickPhysicalDevice enumerated gpu device_extensions VK_NULL_HANDLE
      = { examined := enumerated, physicalDevice := VK_NULL_HANDLE,
          outcome := Except.error (runtimeError "failed to find a suitable GPU!") } := by
  unfold pickPhysicalDevice
  have hlen : enumerated.length ≠ 0 := by
    intro h
    exact hne (List.length_eq_zero.mp h)
  simp only [hlen, if_false]
  rw [pickPhysicalDeviceLoop_none_suitable gpu device_extensions enumerated _ _ hnone]
  simp

end device

/-- C8: when the enumerated GPUs (whose handles are not the null handle)
include a suitable one, `pickPhysicalDevice` returns normally with the output
handle set to the first suitable GPU in enumeration order, whatever the
handle held before, and it has examined the GPUs up to and including that one
and none after it. -/
theorem pickPhysicalDevice_selects_first_suitable (enumerated : List Nat)
    (gpu : Nat → PhysicalDeviceReport) (device_extensions : List String)
    (physicalDevice : Nat)
    (hhandles : ∀ d ∈ enumerated, d ≠ VK_NULL_HANDLE)
    (hsuitable : ∃ d ∈ enumerated,
      device.isPhysicalDeviceSuitable (gpu d) device_extensions = true) :
    ∃ before first after, enumerated = before ++ first :: after
      ∧ (∀ d ∈ before, device.isPhysicalDeviceSuitable (gpu d) device_extensions = false)
      ∧ device.isPhysicalDeviceSuitable (gpu first) device_extensions = true
      ∧ device.pickPhysicalDevice enumerated gpu device_extensions physicalDevice
          = { examined := before ++ [first], physicalDevice := first,
              outcome := Except.ok () } := by
  obtain ⟨before, first, after, h1, h2, h3⟩ :=
    device.split_at_first (fun d => device.isPhysicalDeviceSuitable (gpu d) device_extensions)
      enumerated hsuitable
  refine ⟨before, first, after, h1, h2, h3, ?_⟩
  have hfirst : first ≠ VK_NULL_HANDLE := hhandles first (by rw [h1]; simp)
  unfold device.pickPhysicalDevice
  have hlen : enumerated.length ≠ 0 := by
    rw [h1]; simp
  simp only [hlen, if_false]
  rw [h1, device.pickPhysicalDeviceLoop_first_suitable gpu device_extensions first after h3
    before physicalDevice [] h2]
  simp [hfirst]

/-- C8, at three enumerated GPUs of which the second and the third can
present to the surface. -/
theorem pickPhysicalDevice_selects_first_suitable_witness :
    (∀ d ∈ [4, 5, 7], d ≠ VK_NULL_HANDLE)
    ∧ (∃ d ∈ [4, 5, 7], device.isPhysicalDeviceSuitable
        ((fun d => ⟨[⟨1, 1⟩], [d % 2], ["VK_KHR_swapchain"],
          ⟨2, 3, ⟨800, 600⟩, ⟨1, 1⟩, ⟨4096, 4096⟩, 1⟩, [⟨50, 0⟩], [2], 1, ⟨0, []⟩⟩ :
        Nat → PhysicalDeviceReport) d) ["VK_KHR_swapchain"] = true)
    ∧ ∃ before first after, [4, 5, 7] = before ++ first :: after
      ∧ (∀ d ∈ before, device.isPhysicalDeviceSuitable
          ((fun d => ⟨[⟨1, 1⟩], [d % 2], ["VK_KHR_swapchain"],
          ⟨2, 3, ⟨800, 600⟩, ⟨1, 1⟩, ⟨4096, 4096⟩, 1⟩, [⟨50, 0⟩], [2], 1, ⟨0, []⟩⟩ :
        Nat → PhysicalDeviceReport) d) ["VK_KHR_swapchain"] = false)
      ∧ device.isPhysicalDeviceSuitable
          ((fun d => ⟨[⟨1, 1⟩], [d % 2], ["VK_KHR_swapchain"],
          ⟨2, 3, ⟨800, 600⟩, ⟨1, 1⟩, ⟨4096, 4096⟩, 1⟩, [⟨50, 0⟩], [2], 1, ⟨0, []⟩⟩ :
        Nat → PhysicalDeviceReport) first) ["VK_KHR_swapchain"] = true
      ∧ device.pickPhysicalDevice [4, 5, 7]
          (fun d => ⟨[⟨1, 1⟩], [d % 2], ["VK_KHR_swapchain"],
          ⟨2, 3, ⟨800, 600⟩, ⟨1, 1⟩, ⟨4096, 4096⟩, 1⟩, [⟨50, 0⟩], [2], 1, ⟨0, []⟩⟩ :
        Nat → PhysicalDeviceReport)
          ["VK_KHR_swapchain"] 0
        = { examined := before ++ [first], physicalDevice := first,
            outcome := Except.ok () } :=
  ⟨by decide, ⟨5, by decide, by decide⟩,
    pickPhysicalDevice_selects_first_suitable [4, 5, 7]
      (fun d => ⟨[⟨1, 1⟩], [d % 2], ["VK_KHR_swapchain"],
          ⟨2, 3, ⟨800, 600⟩, ⟨1, 1⟩, ⟨4096, 4096⟩, 1⟩, [⟨50, 0⟩], [2], 1, ⟨0, []⟩⟩ :
        Nat → PhysicalDeviceReport)
      ["VK_KHR_swapchain"] 0 (by decide) ⟨5, by decide, by decide⟩⟩

/-- C9 fails on the code: one GPU is enumerated, it cannot present to the
surface and so is not suitable, and the output handle holds the non-null
value 7 on entry; `pickPhysicalDevice` returns normally, the handle still 7,
where the claim has it raise "failed to find a suitable GPU!". -/
theorem pickPhysicalDevice_returns_without_suitable_gpu :
    device.isPhysicalDeviceSuitable
        ((fun d => ⟨[⟨1, 1⟩], [d % 2], ["VK_KHR_swapchain"],
            ⟨2, 3, ⟨800, 600⟩, ⟨1, 1⟩, ⟨4096, 4096⟩, 1⟩, [⟨50, 0⟩], [2], 1, ⟨0, []⟩⟩ :
          Nat → PhysicalDeviceReport) 4) ["VK_KHR_swapchain"] = false
    ∧ device.pickPhysicalDevice [4]
        (fun d => ⟨[⟨1, 1⟩], [d % 2], ["VK_KHR_swapchain"],
          ⟨2, 3, ⟨800, 600⟩, ⟨1, 1⟩, ⟨4096, 4096⟩, 1⟩, [⟨50, 0⟩], [2], 1, ⟨0, []⟩⟩)
        ["VK_KHR_swapchain"] 7
      = { examined := [4], physicalDevice := 7, outcome := Except.ok () } := by
  decide

/-! ## Mip level count -/

namespace Run

/-- A sequence that returns is made of a first part that returned and a rest
that returned. -/
theorem bind_ok_cases {α β : Type} (r : Run α) (f : α → Run β) (b : β)
    (h : (r >>= f).outcome = Except.ok b) :
    ∃ a, r.outcome = Except.ok a ∧ (f a).outcome = Except.ok b := by
  cases hr : r.outcome with
  | error e =>
    rw [outcome_bind_of_error r f e hr] at h
    cases h
  | ok a =>
    rw [outcome_bind_of_ok r f a hr] at h
    exact ⟨a, rfl, h⟩

end Run

namespace buffer

theorem bindBuffer_ok (memProperties : VkPhysicalDeviceMemoryProperties)
    (replies : BindBufferReplies) (size usage properties i : Nat)
    (hcreate : replies.createBufferResult = VK_SUCCESS)
    (hfind : findMemoryType memProperties replies.memRequirements.memoryTypeBits properties
      = Except.ok i)
    (halloc : replies.allocateMemoryResult = VK_SUCCESS) :
    (bindBuffer memProperties replies size usage properties).outcome
      = Except.ok (replies.buffer, replies.bufferMemory) := by
  unfold bindBuffer
  simp [Run.bind_eq_andThen, Run.andThen, hcreate, hfind, halloc, Run.call, Run.ret, pure]

end buffer

namespace texture

theorem bindImageMemory_ok (memProperties : buffer.VkPhysicalDeviceMemoryProperties)
    (replies : BindImageMemoryReplies)
    (width height mipLevels msaaSampleCount format tiling usage properties i : Nat)
    (hcreate : replies.createImageResult = VK_SUCCESS)
    (hfind : buffer.findMemoryType memProperties replies.memRequirements.memoryTypeBits
      properties = Except.ok i)
    (halloc : replies.allocateMemoryResult = VK_SUCCESS) :
    (bindImageMemory memProperties replies width height mipLevels msaaSampleCount format
        tiling usage properties).outcome = Except.ok (replies.image, replies.imageMemory) := by
  unfold bindImageMemory
  simp [Run.bind_eq_andThen, Run.andThen, hcreate, hfind, halloc, Run.call, Run.ret, pure]

theorem transitionImageLayout_to_transfer_dst (commandPool graphicsQueue image format mipLevels
    commandBuffer : Nat) :
    (transitionImageLayout commandPool graphicsQueue image format VK_IMAGE_LAYOUT_UNDEFINED
        VK_IMAGE_LAYOUT_TRANSFER_DST_OPTIMAL mipLevels commandBuffer).outcome
      = Except.ok () := by
  cases h : (transitionImageLayout commandPool graphicsQueue image format
      VK_IMAGE_LAYOUT_UNDEFINED VK_IMAGE_LAYOUT_TRANSFER_DST_OPTIMAL mipLevels
      commandBuffer).outcome with
  | error e =>
    rw [transitionImageLayout_error_iff] at h
    exact absurd ⟨rfl, rfl⟩ h.1
  | ok u => rfl

theorem generateMipmaps_ok (optimalTilingFeatures commandPool graphicsQueue image
    imageFormat : Nat) (texWidth texHeight : Int) (mipLevels commandBuffer : Nat)
    (hlinear : optimalTilingFeatures &&& VK_FORMAT_FEATURE_SAMPLED_IMAGE_FILTER_LINEAR_BIT ≠ 0) :
    (generateMipmaps optimalTilingFeatures commandPool graphicsQueue image imageFormat
        texWidth texHeight mipLevels commandBuffer).outcome = Except.ok () := by
  unfold generateMipmaps
  dsimp only
  rw [if_neg hlinear]
  rw [Run.outcome_bind_of_ok _ _ _ (commandbuffer.beginSingleTimeCommands_outcome _ _)]
  obtain ⟨p, hp⟩ := generateMipmapsLoop_returns commandBuffer image (mipLevels - 1) 1
    texWidth texHeight
  rw [Run.outcome_bind_of_ok _ _ _ hp]
  simp [commandbuffer.endAndExecuteSingleTimeCommands_outcome]

theorem createTextureImage_ok_mipLevels
    (memProperties : buffer.VkPhysicalDeviceMemoryProperties)
    (replies : CreateTextureImageReplies) (commandPool graphicsQueue msaaSampleCount : Nat)
    (out : CreateTextureImageOutputs)
    (h : (createTextureImage memProperties replies commandPool graphicsQueue
            msaaSampleCount).outcome = Except.ok out) :
    out.mipLevels = mipLevels replies.texWidth replies.texHeight := by
  unfold createTextureImage at h
  dsimp only at h
  split_ifs at h with hp
  · simp at h
  · obtain ⟨a, _, h⟩ := Run.bind_ok_cases _ _ _ h
    obtain ⟨stagingBuffer, stagingBufferMemory⟩ := a
    simp only [Run.outcome_call_bind] at h
    obtain ⟨a, _, h⟩ := Run.bind_ok_cases _ _ _ h
    obtain ⟨textureImage, textureImageMemory⟩ := a
    dsimp only at h
    obtain ⟨_, _, h⟩ := Run.bind_ok_cases _ _ _ h
    obtain ⟨_, _, h⟩ := Run.bind_ok_cases _ _ _ h
    obtain ⟨_, _, h⟩ := Run.bind_ok_cases _ _ _ h
    simp only [Run.outcome_call_bind, Run.outcome_pure] at h
    injection h with h
    rw [← h]

theorem createTextureImage_returns
    (memProperties : buffer.VkPhysicalDeviceMemoryProperties)
    (replies : CreateTextureImageReplies) (commandPool graphicsQueue msaaSampleCount : Nat)
    (hpixels : replies.pixelsLoaded = true)
    (hstaging : (buffer.bindBuffer memProperties replies.staging
        (imageSize replies.texWidth replies.texHeight) VK_BUFFER_USAGE_TRANSFER_SRC_BIT
        (VK_MEMORY_PROPERTY_HOST_VISIBLE_BIT ||| VK_MEMORY_PROPERTY_HOST_COHERENT_BIT)).raised
        = false)
    (himage : (bindImageMemory memProperties replies.image (toUInt32 replies.texWidth)
        (toUInt32 replies.texHeight) (mipLevels replies.texWidth replies.texHeight)
        msaaSampleCount VK_FORMAT_R8G8B8A8_SRGB VK_IMAGE_TILING_OPTIMAL
        (VK_IMAGE_USAGE_TRANSFER_SRC_BIT ||| VK_IMAGE_USAGE_TRANSFER_DST_BIT
          ||| VK_IMAGE_USAGE_SAMPLED_BIT)
        VK_MEMORY_PROPERTY_DEVICE_LOCAL_BIT).raised = false)
    (hlinear : replies.optimalTilingFeatures
        &&& VK_FORMAT_FEATURE_SAMPLED_IMAGE_FILTER_LINEAR_BIT ≠ 0) :
    ∃ out, (createTextureImage memProperties replies commandPool graphicsQueue
        msaaSampleCount).outcome = Except.ok out := by
  obtain ⟨a, ha⟩ := (Run.raised_eq_false_iff _).mp hstaging
  obtain ⟨b, hb⟩ := (Run.raised_eq_false_iff _).mp himage
  unfold createTextureImage
  dsimp only
  rw [if_neg (by simp [hpixels])]
  rw [Run.outcome_bind_of_ok _ _ _ ha]
  obtain ⟨stagingBuffer, stagingBufferMemory⟩ := a
  simp only [Run.outcome_call_bind]
  rw [Run.outcome_bind_of_ok _ _ _ hb]
  obtain ⟨textureImage, textureImageMemory⟩ := b
  dsimp only
  rw [Run.outcome_bind_of_ok _ _ _ (transitionImageLayout_to_transfer_dst _ _ _ _ _ _)]
  rw [Run.outcome_bind_of_ok _ _ _ (copyBufferToImage_outcome _ _ _ _ _ _ _)]
  rw [Run.outcome_bind_of_ok _ _ _ (generateMipmaps_ok _ _ _ _ _ _ _ _ _ hlinear)]
  simp only [Run.outcome_call_bind, Run.outcome_pure]
  exact ⟨_, rfl⟩

theorem mipLevels_eq_log (w h : Nat) (hw : 1 ≤ w) (hwmax : w < 2 ^ 31) (hhmax : h < 2 ^ 31) :
    mipLevels (w : Int) (h : Int) = Nat.log 2 (max w h) + 1 := by
  unfold mipLevels floorLog2
  have hmax : (max (w : Int) (h : Int)).toNat = max w h := by
    rw [← Nat.cast_max]
    exact Int.toNat_natCast _
  rw [hmax, Nat.log2_eq_log_two]
  have hm : max w h < 2 ^ 31 := max_lt hwmax hhmax
  have hm0 : max w h ≠ 0 := by
    have : w ≤ max w h := le_max_left _ _
    omega
  have hlog : Nat.log 2 (max w h) < 31 := Nat.log_lt_of_lt_pow hm0 hm
  exact Nat.mod_eq_of_lt (by omega)

end texture

/-- The natural-number logarithm `Nat.log 2 n` is the integer part of the
real binary logarithm of `n`. -/
theorem floor_logb_two_eq_log (n : Nat) : ⌊Real.logb 2 (n : ℝ)⌋ = (Nat.log 2 n : Int) := by
  have h := Real.floor_logb_natCast (b := 2) (r := (n : ℝ)) (Nat.cast_nonneg n)
  rw [Int.log_natCast] at h
  exact_mod_cast h

/-- C10: for a texture of width `w ≥ 1` and height `h ≥ 1` (values of an
`int`), the mip level count of `createTextureImage` is
`floor(log2(max(w, h))) + 1`; it is the one number `L ≥ 1` with
`2^(L-1) ≤ max(w, h) < 2^L`; every run of `createTextureImage` that returns,
returns it, and the procedure does return when the image is loaded, the
staging buffer and the image are created and bound, and the format supports
linear blitting. -/
theorem createTextureImage_mip_level_count (w h : Nat) (hw : 1 ≤ w) (_ : 1 ≤ h)
    (hwmax : w < 2 ^ 31) (hhmax : h < 2 ^ 31) :
    (texture.mipLevels (w : Int) (h : Int) : Int) = ⌊Real.logb 2 ((max w h : Nat) : ℝ)⌋ + 1
    ∧ 1 ≤ texture.mipLevels (w : Int) (h : Int)
    ∧ 2 ^ (texture.mipLevels (w : Int) (h : Int) - 1) ≤ max w h
    ∧ max w h < 2 ^ texture.mipLevels (w : Int) (h : Int)
    ∧ (∀ L : Nat, 1 ≤ L → 2 ^ (L - 1) ≤ max w h → max w h < 2 ^ L →
        L = texture.mipLevels (w : Int) (h : Int))
    ∧ (∀ (memProperties : buffer.VkPhysicalDeviceMemoryProperties)
          (replies : texture.CreateTextureImageReplies)
          (commandPool graphicsQueue msaaSampleCount : Nat)
          (out : texture.CreateTextureImageOutputs),
        replies.texWidth = (w : Int) → replies.texHeight = (h : Int) →
        (texture.createTextureImage memProperties replies commandPool graphicsQueue
            msaaSampleCount).outcome = Except.ok out →
          out.mipLevels = texture.mipLevels (w : Int) (h : Int))
    ∧ (∀ (memProperties : buffer.VkPhysicalDeviceMemoryProperties)
          (replies : texture.CreateTextureImageReplies)
          (commandPool graphicsQueue msaaSampleCount : Nat),
        replies.texWidth = (w : Int) → replies.texHeight = (h : Int) →
        replies.pixelsLoaded = true →
        (buffer.bindBuffer memProperties replies.staging
            (texture.imageSize replies.texWidth replies.texHeight)
            VK_BUFFER_USAGE_TRANSFER_SRC_BIT
            (VK_MEMORY_PROPERTY_HOST_VISIBLE_BIT ||| VK_MEMORY_PROPERTY_HOST_COHERENT_BIT)).raised
          = false →
        (texture.bindImageMemory memProperties replies.image (toUInt32 replies.texWidth)
            (toUInt32 replies.texHeight)
            (texture.mipLevels replies.texWidth replies.texHeight)
            msaaSampleCount VK_FORMAT_R8G8B8A8_SRGB VK_IMAGE_TILING_OPTIMAL
            (VK_IMAGE_USAGE_TRANSFER_SRC_BIT ||| VK_IMAGE_USAGE_TRANSFER_DST_BIT
              ||| VK_IMAGE_USAGE_SAMPLED_BIT)
            VK_MEMORY_PROPERTY_DEVICE_LOCAL_BIT).raised = false →
        replies.optimalTilingFeatures
            &&& VK_FORMAT_FEATURE_SAMPLED_IMAGE_FILTER_LINEAR_BIT ≠ 0 →
          ∃ out, (texture.createTextureImage memProperties replies commandPool graphicsQueue
              msaaSampleCount).outcome = Except.ok out
            ∧ out.mipLevels = texture.mipLevels (w : Int) (h : Int)) := by
  have hlog := texture.mipLevels_eq_log w h hw hwmax hhmax
  have hm0 : max w h ≠ 0 := by
    have : w ≤ max w h := le_max_left _ _
    omega
  refine ⟨?_, ?_, ?_, ?_, ?_, ?_, ?_⟩
  · rw [floor_logb_two_eq_log, hlog]
    push_cast
    rfl
  · rw [hlog]
    omega
  · rw [hlog, Nat.add_sub_cancel]
    exact Nat.pow_log_le_self 2 hm0
  · rw [hlog]
    exact Nat.lt_pow_succ_log_self (by norm_num) _
  · intro L hL hlow hhigh
    rw [hlog]
    have hL1 : L - 1 + 1 = L := by omega
    have := Nat.log_eq_of_pow_le_of_lt_pow hlow (by rw [hL1]; exact hhigh)
    omega
  · intro memProperties replies commandPool graphicsQueue msaaSampleCount out hrw hrh hout
    rw [← hrw, ← hrh]
    exact texture.createTextureImage_ok_mipLevels _ _ _ _ _ out hout
  · intro memProperties replies commandPool graphicsQueue msaaSampleCount hrw hrh hpixels
      hstaging himage hlinear
    obtain ⟨out, hout⟩ := texture.createTextureImage_returns memProperties replies commandPool
      graphicsQueue msaaSampleCount hpixels hstaging himage hlinear
    refine ⟨out, hout, ?_⟩
    rw [← hrw, ← hrh]
    exact texture.createTextureImage_ok_mipLevels _ _ _ _ _ out hout

/-- C10, at a texture of 1024 by 600 pixels: 11 mip levels. -/
theorem createTextureImage_mip_level_count_witness :
    1 ≤ 1024 ∧ 1 ≤ 600 ∧ 1024 < 2 ^ 31 ∧ 600 < 2 ^ 31
    ∧ 2 ^ (texture.mipLevels ((1024 : Nat) : Int) ((600 : Nat) : Int) - 1) ≤ max 1024 600
    ∧ max 1024 600 < 2 ^ texture.mipLevels ((1024 : Nat) : Int) ((600 : Nat) : Int) :=
  ⟨by decide, by decide, by decide, by decide,
    (createTextureImage_mip_level_count 1024 600 (by decide) (by decide) (by decide)
      (by decide)).2.2.1,
    (createTextureImage_mip_level_count 1024 600 (by decide) (by decide) (by decide)
      (by decide)).2.2.2.1⟩

/-! ## Descriptor pool and descriptor sets -/

theorem toUInt32_natCast (n : Nat) (hn : n < 2 ^ 32) : toUInt32 (n : Int) = n := by
  unfold toUInt32
  have h : ((n : Int) % 2 ^ 32) = (n : Int) := Int.emod_eq_of_lt (by omega) (by exact_mod_cast hn)
  rw [h]
  exact Int.toNat_natCast n

namespace buffer

theorem vectorSize_natCast (n : Nat) : vectorSize (n : Int) = pure n := by
  unfold vectorSize
  rw [if_neg (by omega)]
  rfl

theorem createDescriptorPool_calls (createDescriptorPoolResult : Int) (descriptorPool : Nat)
    (maxFramesInFlight : Int) :
    (createDescriptorPool createDescriptorPoolResult descriptorPool maxFramesInFlight).calls
      = [NativeCall.vkCreateDescriptorPool
          { poolSizeCount := 2
            pPoolSizes :=
              [⟨VK_DESCRIPTOR_TYPE_UNIFORM_BUFFER, toUInt32 maxFramesInFlight⟩,
               ⟨VK_DESCRIPTOR_TYPE_COMBINED_IMAGE_SAMPLER, toUInt32 maxFramesInFlight⟩]
            maxSets := toUInt32 maxFramesInFlight
            flags := 0 }] := by
  unfold createDescriptorPool
  dsimp only
  simp only [Run.calls_call_bind]
  split_ifs <;> rfl

theorem createDescriptorSetLayout_calls (createDescriptorSetLayoutResult : Int)
    (descriptorSetLayout : Nat) :
    (createDescriptorSetLayout createDescriptorSetLayoutResult descriptorSetLayout).calls
      = [NativeCall.vkCreateDescriptorSetLayout
          { bindingCount := 2, pBindings := descriptorSetLayoutBindings }] := by
  unfold createDescriptorSetLayout
  dsimp only
  simp only [Run.calls_call_bind]
  split_ifs <;> rfl

theorem createDescriptorSetsLoop_outcome (uniformBuffers descriptorSets : List Nat)
    (textureImageView textureSampler : Nat) :
    ∀ (remaining i : Nat),
      (createDescriptorSetsLoop uniformBuffers descriptorSets textureImageView textureSampler
        remaining i).outcome = Except.ok () := by
  intro remaining
  induction remaining with
  | zero => intro i; rfl
  | succ n ih =>
    intro i
    unfold createDescriptorSetsLoop
    simp only [Run.outcome_call_bind]
    exact ih (i + 1)

theorem createDescriptorSets_first_call (replies : CreateDescriptorSetsReplies) (n : Nat)
    (uniformBuffers : List Nat)
    (descriptorPool descriptorSetLayout textureImageView textureSampler : Nat) :
    ∃ rest, (createDescriptorSets replies (n : Int) uniformBuffers descriptorPool
        descriptorSetLayout textureImageView textureSampler).calls
      = NativeCall.vkAllocateDescriptorSets
          { descriptorPool := descriptorPool
            descriptorSetCount := toUInt32 (n : Int)
            pSetLayouts := List.replicate n descriptorSetLayout } :: rest := by
  unfold createDescriptorSets
  rw [vectorSize_natCast]
  simp only [Run.calls_pure_bind, Run.calls_call_bind]
  exact ⟨_, rfl⟩

theorem createDescriptorSets_ok (replies : CreateDescriptorSetsReplies) (n : Nat)
    (uniformBuffers : List Nat)
    (descriptorPool descriptorSetLayout textureImageView textureSampler : Nat)
    (h : replies.allocateDescriptorSetsResult = VK_SUCCESS) :
    (createDescriptorSets replies (n : Int) uniformBuffers descriptorPool
        descriptorSetLayout textureImageView textureSampler).outcome
      = Except.ok ((List.range n).map fun i => replies.descriptorSets.getD i VK_NULL_HANDLE) := by
  unfold createDescriptorSets
  rw [vectorSize_natCast]
  simp only [Run.outcome_pure_bind, Run.outcome_call_bind]
  rw [if_neg (by simp [h])]
  rw [Run.outcome_bind_of_ok _ _ _ (createDescriptorSetsLoop_outcome _ _ _ _ _ _)]
  rfl

end buffer

/-- C11: for `maxFramesInFlight = n ≥ 0` (a value of an `int`),
`createDescriptorPool` requests a pool with `maxSets = n` and exactly two
pool sizes, `n` uniform-buffer and `n` combined-image-sampler descriptors;
`createDescriptorSets` with the same `n` first requests the allocation of
exactly `n` sets, all with the given layout, and returns `n` sets when the
allocation succeeds; a set with the layout of `createDescriptorSetLayout`
holds one descriptor of each of the two types; so for each type the
descriptors of the `n` sets sum to the pool's `descriptorCount` of that type,
and the sets requested equal the pool's `maxSets`. -/
theorem descriptor_pool_sizes_match_descriptor_sets (n : Nat) (hn : n < 2 ^ 31)
    (createDescriptorPoolResult : Int) (descriptorPoolHandle : Nat)
    (createDescriptorSetLayoutResult : Int) (descriptorSetLayoutHandle : Nat)
    (replies : buffer.CreateDescriptorSetsReplies) (uniformBuffers : List Nat)
    (descriptorPool descriptorSetLayout textureImageView textureSampler : Nat) :
    (∃ poolInfo,
      (buffer.createDescriptorPool createDescriptorPoolResult descriptorPoolHandle
          (n : Int)).calls = [NativeCall.vkCreateDescriptorPool poolInfo]
      ∧ poolInfo.maxSets = n
      ∧ poolInfo.poolSizeCount = 2
      ∧ poolInfo.pPoolSizes = [⟨VK_DESCRIPTOR_TYPE_UNIFORM_BUFFER, n⟩,
          ⟨VK_DESCRIPTOR_TYPE_COMBINED_IMAGE_SAMPLER, n⟩]
      ∧ ∃ layoutInfo allocInfo rest,
        (buffer.createDescriptorSetLayout createDescriptorSetLayoutResult
            descriptorSetLayoutHandle).calls
          = [NativeCall.vkCreateDescriptorSetLayout layoutInfo]
        ∧ (buffer.createDescriptorSets replies (n : Int) uniformBuffers descriptorPool
            descriptorSetLayout textureImageView textureSampler).calls
          = NativeCall.vkAllocateDescriptorSets allocInfo :: rest
        ∧ allocInfo.descriptorPool = descriptorPool
        ∧ allocInfo.descriptorSetCount = n
        ∧ allocInfo.pSetLayouts = List.replicate n descriptorSetLayout
        ∧ allocInfo.pSetLayouts.length = poolInfo.maxSets
        ∧ buffer.descriptorsOfType layoutInfo.pBindings VK_DESCRIPTOR_TYPE_UNIFORM_BUFFER = 1
        ∧ buffer.descriptorsOfType layoutInfo.pBindings
            VK_DESCRIPTOR_TYPE_COMBINED_IMAGE_SAMPLER = 1
        ∧ (∀ descriptorType, descriptorType = VK_DESCRIPTOR_TYPE_UNIFORM_BUFFER
              ∨ descriptorType = VK_DESCRIPTOR_TYPE_COMBINED_IMAGE_SAMPLER →
            allocInfo.descriptorSetCount
                * buffer.descriptorsOfType layoutInfo.pBindings descriptorType
              = buffer.poolDescriptorsOfType poolInfo.pPoolSizes descriptorType))
    ∧ (replies.allocateDescriptorSetsResult = VK_SUCCESS →
        ∃ descriptorSets,
          (buffer.createDescriptorSets replies (n : Int) uniformBuffers descriptorPool
              descriptorSetLayout textureImageView textureSampler).outcome
            = Except.ok descriptorSets
          ∧ descriptorSets.length = n) := by
  have hcast : toUInt32 (n : Int) = n := toUInt32_natCast n (by omega)
  constructor
  · refine ⟨_, buffer.createDescriptorPool_calls _ _ _, hcast, rfl, by rw [hcast], ?_⟩
    obtain ⟨rest, hrest⟩ := buffer.createDescriptorSets_first_call replies n uniformBuffers
      descriptorPool descriptorSetLayout textureImageView textureSampler
    refine ⟨_, _, rest, buffer.createDescriptorSetLayout_calls _ _, hrest, rfl, hcast, rfl,
      ?_, by decide, by decide, ?_⟩
    · simp [hcast]
    · intro descriptorType ht
      rcases ht with ht | ht <;> subst ht <;>
        simp [hcast, buffer.descriptorsOfType, buffer.poolDescriptorsOfType,
          buffer.descriptorSetLayoutBindings, VK_DESCRIPTOR_TYPE_UNIFORM_BUFFER,
          VK_DESCRIPTOR_TYPE_COMBINED_IMAGE_SAMPLER]
  · intro h
    exact ⟨_, buffer.createDescriptorSets_ok replies n uniformBuffers descriptorPool
      descriptorSetLayout textureImageView textureSampler h, by simp⟩

/-- C11, at two frames in flight with a successful allocation. -/
theorem descriptor_pool_sizes_match_descriptor_sets_witness :
    (2 : Nat) < 2 ^ 31
    ∧ (⟨0, [21, 22]⟩ : buffer.CreateDescriptorSetsReplies).allocateDescriptorSetsResult
        = VK_SUCCESS
    ∧ ∃ descriptorSets,
        (buffer.createDescriptorSets ⟨0, [21, 22]⟩ ((2 : Nat) : Int) [31, 32] 5 6 7 8).outcome
          = Except.ok descriptorSets
        ∧ descriptorSets.length = 2 :=
  ⟨by decide, by decide,
    (descriptor_pool_sizes_match_descriptor_sets 2 (by decide) 0 5 0 6 ⟨0, [21, 22]⟩ [31, 32]
      5 6 7 8).2 (by decide)⟩


/-! ## Single-use command buffers -/

namespace texture

theorem transitionImageLayout_calls_undefined_to_transfer_dst (commandPool graphicsQueue image
    format mipLevels commandBuffer : Nat) :
    (transitionImageLayout commandPool graphicsQueue image format VK_IMAGE_LAYOUT_UNDEFINED
        VK_IMAGE_LAYOUT_TRANSFER_DST_OPTIMAL mipLevels commandBuffer).calls
      = [NativeCall.vkAllocateCommandBuffers
            { commandPool := commandPool, level := VK_COMMAND_BUFFER_LEVEL_PRIMARY,
              commandBufferCount := 1 } commandBuffer,
          NativeCall.vkBeginCommandBuffer commandBuffer
            VK_COMMAND_BUFFER_USAGE_ONE_TIME_SUBMIT_BIT,
          NativeCall.vkCmdPipelineBarrier commandBuffer VK_PIPELINE_STAGE_TOP_OF_PIPE_BIT
            VK_PIPELINE_STAGE_TRANSFER_BIT 0
            [{ srcAccessMask := 0
               dstAccessMask := VK_ACCESS_TRANSFER_WRITE_BIT
               oldLayout := VK_IMAGE_LAYOUT_UNDEFINED
               newLayout := VK_IMAGE_LAYOUT_TRANSFER_DST_OPTIMAL
               srcQueueFamilyIndex := VK_QUEUE_FAMILY_IGNORED
               dstQueueFamilyIndex := VK_QUEUE_FAMILY_IGNORED
               image := image
               subresourceRange :=
                 { aspectMask := VK_IMAGE_ASPECT_COLOR_BIT, baseMipLevel := 0,
                   levelCount := mipLevels, baseArrayLayer := 0, layerCount := 1 } }],
          NativeCall.vkEndCommandBuffer commandBuffer,
          NativeCall.vkQueueSubmit graphicsQueue [commandBuffer] VK_NULL_HANDLE,
          NativeCall.vkQueueWaitIdle graphicsQueue,
          NativeCall.vkFreeCommandBuffers commandPool [commandBuffer]] := rfl

theorem transitionImageLayout_calls_transfer_dst_to_shader_read (commandPool graphicsQueue
    image format mipLevels commandBuffer : Nat) :
    (transitionImageLayout commandPool graphicsQueue image format
        VK_IMAGE_LAYOUT_TRANSFER_DST_OPTIMAL VK_IMAGE_LAYOUT_SHADER_READ_ONLY_OPTIMAL mipLevels
        commandBuffer).calls
      = [NativeCall.vkAllocateCommandBuffers
            { commandPool := commandPool, level := VK_COMMAND_BUFFER_LEVEL_PRIMARY,
              commandBufferCount := 1 } commandBuffer,
          NativeCall.vkBeginCommandBuffer commandBuffer
            VK_COMMAND_BUFFER_USAGE_ONE_TIME_SUBMIT_BIT,
          NativeCall.vkCmdPipelineBarrier commandBuffer VK_PIPELINE_STAGE_TRANSFER_BIT
            VK_PIPELINE_STAGE_FRAGMENT_SHADER_BIT 0
            [{ srcAccessMask := VK_ACCESS_TRANSFER_WRITE_BIT
               dstAccessMask := VK_ACCESS_SHADER_READ_BIT
               oldLayout := VK_IMAGE_LAYOUT_TRANSFER_DST_OPTIMAL
               newLayout := VK_IMAGE_LAYOUT_SHADER_READ_ONLY_OPTIMAL
               srcQueueFamilyIndex := VK_QUEUE_FAMILY_IGNORED
               dstQueueFamilyIndex := VK_QUEUE_FAMILY_IGNORED
               image := image
               subresourceRange :=
                 { aspectMask := VK_IMAGE_ASPECT_COLOR_BIT, baseMipLevel := 0,
                   levelCount := mipLevels, baseArrayLayer := 0, layerCount := 1 } }],
          NativeCall.vkEndCommandBuffer commandBuffer,
          NativeCall.vkQueueSubmit graphicsQueue [commandBuffer] VK_NULL_HANDLE,
          NativeCall.vkQueueWaitIdle graphicsQueue,
          NativeCall.vkFreeCommandBuffers commandPool [commandBuffer]] := rfl

theorem transitionImageLayout_calls_unsupported (commandPool graphicsQueue image format
    oldLayout newLayout mipLevels commandBuffer : Nat)
    (h1 : ¬ (oldLayout = VK_IMAGE_LAYOUT_UNDEFINED
      ∧ newLayout = VK_IMAGE_LAYOUT_TRANSFER_DST_OPTIMAL))
    (h2 : ¬ (oldLayout = VK_IMAGE_LAYOUT_TRANSFER_DST_OPTIMAL
      ∧ newLayout = VK_IMAGE_LAYOUT_SHADER_READ_ONLY_OPTIMAL)) :
    (transitionImageLayout commandPool graphicsQueue image format oldLayout newLayout mipLevels
        commandBuffer).calls
      = [NativeCall.vkAllocateCommandBuffers
            { commandPool := commandPool, level := VK_COMMAND_BUFFER_LEVEL_PRIMARY,
              commandBufferCount := 1 } commandBuffer,
          NativeCall.vkBeginCommandBuffer commandBuffer
            VK_COMMAND_BUFFER_USAGE_ONE_TIME_SUBMIT_BIT] := by
  unfold transitionImageLayout
  rw [Run.calls_bind_of_ok _ _ _ (commandbuffer.beginSingleTimeCommands_outcome _ _)]
  dsimp only
  rw [if_neg h1, if_neg h2]
  rfl

end texture

/-- C12 as stated fails: for the unsupported pair UNDEFINED to
SHADER_READ_ONLY_OPTIMAL the call raises after the command buffer 9 has been
allocated, and no call frees it. -/
theorem transitionImageLayout_does_not_free_on_failure :
    (texture.transitionImageLayout 1 2 3 VK_FORMAT_R8G8B8A8_SRGB VK_IMAGE_LAYOUT_UNDEFINED
        VK_IMAGE_LAYOUT_SHADER_READ_ONLY_OPTIMAL 1 9).raised = true
    ∧ commandbuffer.allocations 9
        (texture.transitionImageLayout 1 2 3 VK_FORMAT_R8G8B8A8_SRGB VK_IMAGE_LAYOUT_UNDEFINED
          VK_IMAGE_LAYOUT_SHADER_READ_ONLY_OPTIMAL 1 9).calls = 1
    ∧ commandbuffer.frees 9
        (texture.transitionImageLayout 1 2 3 VK_FORMAT_R8G8B8A8_SRGB VK_IMAGE_LAYOUT_UNDEFINED
          VK_IMAGE_LAYOUT_SHADER_READ_ONLY_OPTIMAL 1 9).calls = 0 := by
  decide

/-- C12, amended: for each of the two supported pairs of layouts
`transitionImageLayout` returns normally, having allocated its single-use
command buffer once, as its first native call, and freed it once, as its
last native call; for every other pair it raises right after recording has
begun, the command buffer allocated once and not freed. -/
theorem transitionImageLayout_frees_command_buffer_iff_supported (commandPool graphicsQueue
    image format oldLayout newLayout mipLevels commandBuffer : Nat) :
    ((oldLayout = VK_IMAGE_LAYOUT_UNDEFINED
          ∧ newLayout = VK_IMAGE_LAYOUT_TRANSFER_DST_OPTIMAL)
        ∨ (oldLayout = VK_IMAGE_LAYOUT_TRANSFER_DST_OPTIMAL
          ∧ newLayout = VK_IMAGE_LAYOUT_SHADER_READ_ONLY_OPTIMAL) →
      (texture.transitionImageLayout commandPool graphicsQueue image format oldLayout newLayout
          mipLevels commandBuffer).outcome = Except.ok ()
      ∧ commandbuffer.allocations commandBuffer
          (texture.transitionImageLayout commandPool graphicsQueue image format oldLayout
            newLayout mipLevels commandBuffer).calls = 1
      ∧ commandbuffer.frees commandBuffer
          (texture.transitionImageLayout commandPool graphicsQueue image format oldLayout
            newLayout mipLevels commandBuffer).calls = 1
      ∧ (texture.transitionImageLayout commandPool graphicsQueue image format oldLayout
            newLayout mipLevels commandBuffer).calls.head?
          = some (NativeCall.vkAllocateCommandBuffers
              { commandPool := commandPool, level := VK_COMMAND_BUFFER_LEVEL_PRIMARY,
                commandBufferCount := 1 } commandBuffer)
      ∧ (texture.transitionImageLayout commandPool graphicsQueue image format oldLayout
            newLayout mipLevels commandBuffer).calls.getLast?
          = some (NativeCall.vkFreeCommandBuffers commandPool [commandBuffer]))
    ∧ (¬ (oldLayout = VK_IMAGE_LAYOUT_UNDEFINED
          ∧ newLayout = VK_IMAGE_LAYOUT_TRANSFER_DST_OPTIMAL) →
        ¬ (oldLayout = VK_IMAGE_LAYOUT_TRANSFER_DST_OPTIMAL
          ∧ newLayout = VK_IMAGE_LAYOUT_SHADER_READ_ONLY_OPTIMAL) →
      (texture.transitionImageLayout commandPool graphicsQueue image format oldLayout newLayout
          mipLevels commandBuffer).outcome
        = Except.error ⟨FailureKind.invalid_argument, "unsupported layout transition!"⟩
      ∧ (texture.transitionImageLayout commandPool graphicsQueue image format oldLayout
            newLayout mipLevels commandBuffer).calls
          = [NativeCall.vkAllocateCommandBuffers
                { commandPool := commandPool, level := VK_COMMAND_BUFFER_LEVEL_PRIMARY,
                  commandBufferCount := 1 } commandBuffer,
              NativeCall.vkBeginCommandBuffer commandBuffer
                VK_COMMAND_BUFFER_USAGE_ONE_TIME_SUBMIT_BIT]
      ∧ commandbuffer.allocations commandBuffer
          (texture.transitionImageLayout commandPool graphicsQueue image format oldLayout
            newLayout mipLevels commandBuffer).calls = 1
      ∧ commandbuffer.frees commandBuffer
          (texture.transitionImageLayout commandPool graphicsQueue image format oldLayout
            newLayout mipLevels commandBuffer).calls = 0) := by
  constructor
  · rintro (⟨h1, h2⟩ | ⟨h1, h2⟩)
    · subst h1 h2
      rw [texture.transitionImageLayout_calls_undefined_to_transfer_dst]
      refine ⟨rfl, ?_, ?_, rfl, rfl⟩
      · simp [commandbuffer.allocations]
      · simp [commandbuffer.frees]
    · subst h1 h2
      rw [texture.transitionImageLayout_calls_transfer_dst_to_shader_read]
      refine ⟨rfl, ?_, ?_, rfl, rfl⟩
      · simp [commandbuffer.allocations]
      · simp [commandbuffer.frees]
  · intro h1 h2
    rw [texture.transitionImageLayout_calls_unsupported _ _ _ _ _ _ _ _ h1 h2]
    refine ⟨?_, rfl, ?_, ?_⟩
    · exact (texture.transitionImageLayout_error_iff _ _ _ _ _ _ _ _ _).mpr ⟨h1, h2, rfl⟩
    · simp [commandbuffer.allocations]
    · simp [commandbuffer.frees]

/-- C12 amended, at the transition from UNDEFINED to TRANSFER_DST_OPTIMAL. -/
theorem transitionImageLayout_frees_command_buffer_iff_supported_witness :
    commandbuffer.frees 9
      (texture.transitionImageLayout 1 2 3 VK_FORMAT_R8G8B8A8_SRGB VK_IMAGE_LAYOUT_UNDEFINED
        VK_IMAGE_LAYOUT_TRANSFER_DST_OPTIMAL 1 9).calls = 1 :=
  ((transitionImageLayout_frees_command_buffer_iff_supported 1 2 3 VK_FORMAT_R8G8B8A8_SRGB
      VK_IMAGE_LAYOUT_UNDEFINED VK_IMAGE_LAYOUT_TRANSFER_DST_OPTIMAL 1 9).1
    (Or.inl ⟨rfl, rfl⟩)).2.2.1

/-! ## Order of the native calls -/

namespace buffer

theorem copyBuffer_calls (commandPool graphicsQueue srcBuffer dstBuffer size
    commandBuffer : Nat) :
    (copyBuffer commandPool graphicsQueue srcBuffer dstBuffer size commandBuffer).calls
      = [NativeCall.vkAllocateCommandBuffers
            { commandPool := commandPool, level := VK_COMMAND_BUFFER_LEVEL_PRIMARY,
              commandBufferCount := 1 } commandBuffer,
          NativeCall.vkBeginCommandBuffer commandBuffer
            VK_COMMAND_BUFFER_USAGE_ONE_TIME_SUBMIT_BIT,
          NativeCall.vkCmdCopyBuffer commandBuffer srcBuffer dstBuffer
            [{ srcOffset := 0, dstOffset := 0, size := size }],
          NativeCall.vkEndCommandBuffer commandBuffer,
          NativeCall.vkQueueSubmit graphicsQueue [commandBuffer] VK_NULL_HANDLE,
          NativeCall.vkQueueWaitIdle graphicsQueue,
          NativeCall.vkFreeCommandBuffers commandPool [commandBuffer]] := rfl

theorem copyBuffer_outcome (commandPool graphicsQueue srcBuffer dstBuffer size
    commandBuffer : Nat) :
    (copyBuffer commandPool graphicsQueue srcBuffer dstBuffer size commandBuffer).outcome
      = Except.ok () := rfl

end buffer

/-- C13: `endAndExecuteSingleTimeCommands` issues exactly four native calls,
in this order: end of recording, submission of the one command buffer to the
graphics queue without a fence, wait for the queue to be idle, release of the
command buffer; so the release comes after the wait.  `copyBuffer` returns
normally, and by then it has recorded, between the begin of recording and
that sequence, one copy command with a single region of the given size from
offset 0 to offset 0: it returns only after the wait that follows the
copy. -/
theorem endAndExecuteSingleTimeCommands_order (commandPool graphicsQueue commandBuffer
    srcBuffer dstBuffer size : Nat) :
    (commandbuffer.endAndExecuteSingleTimeCommands commandPool graphicsQueue
        commandBuffer).calls
      = [NativeCall.vkEndCommandBuffer commandBuffer,
          NativeCall.vkQueueSubmit graphicsQueue [commandBuffer] VK_NULL_HANDLE,
          NativeCall.vkQueueWaitIdle graphicsQueue,
          NativeCall.vkFreeCommandBuffers commandPool [commandBuffer]]
    ∧ (∀ before after,
        (commandbuffer.endAndExecuteSingleTimeCommands commandPool graphicsQueue
            commandBuffer).calls
          = before ++ NativeCall.vkFreeCommandBuffers commandPool [commandBuffer] :: after →
        NativeCall.vkQueueWaitIdle graphicsQueue ∈ before)
    ∧ (buffer.copyBuffer commandPool graphicsQueue srcBuffer dstBuffer size
        commandBuffer).outcome = Except.ok ()
    ∧ (buffer.copyBuffer commandPool graphicsQueue srcBuffer dstBuffer size commandBuffer).calls
      = [NativeCall.vkAllocateCommandBuffers
            { commandPool := commandPool, level := VK_COMMAND_BUFFER_LEVEL_PRIMARY,
              commandBufferCount := 1 } commandBuffer,
          NativeCall.vkBeginCommandBuffer commandBuffer
            VK_COMMAND_BUFFER_USAGE_ONE_TIME_SUBMIT_BIT,
          NativeCall.vkCmdCopyBuffer commandBuffer srcBuffer dstBuffer
            [{ srcOffset := 0, dstOffset := 0, size := size }]]
        ++ (commandbuffer.endAndExecuteSingleTimeCommands commandPool graphicsQueue
            commandBuffer).calls := by
  refine ⟨rfl, ?_, rfl, rfl⟩
  intro before after h
  have hcalls : (commandbuffer.endAndExecuteSingleTimeCommands commandPool graphicsQueue
      commandBuffer).calls
      = [NativeCall.vkEndCommandBuffer commandBuffer,
          NativeCall.vkQueueSubmit graphicsQueue [commandBuffer] VK_NULL_HANDLE,
          NativeCall.vkQueueWaitIdle graphicsQueue,
          NativeCall.vkFreeCommandBuffers commandPool [commandBuffer]] := rfl
  rw [hcalls] at h
  match before, h with
  | [], h => simp at h
  | [_], h => simp at h
  | [_, _], h => simp at h
  | [a, b, c], h =>
    simp at h
    simp [h.2.2.1]
  | a :: b :: c :: d :: rest, h => simp at h


/-! ## Staged buffer upload -/

namespace Run

theorem raised_of_error {α : Type} (r : Run α) (e : Failure)
    (h : r.outcome = Except.error e) : r.raised = true := by
  unfold raised
  rw [h]

theorem raised_of_ok {α : Type} (r : Run α) (a : α)
    (h : r.outcome = Except.ok a) : r.raised = false := by
  unfold raised
  rw [h]

theorem raised_bind_of_error {α β : Type} (r : Run α) (f : α → Run β) (e : Failure)
    (h : r.outcome = Except.error e) : (r >>= f).raised = true :=
  raised_of_error _ e (outcome_bind_of_error r f e h)

theorem raised_bind_of_ok {α β : Type} (r : Run α) (f : α → Run β) (a : α)
    (h : r.outcome = Except.ok a) : (r >>= f).raised = (f a).raised := by
  unfold raised
  rw [outcome_bind_of_ok r f a h]

@[simp] theorem raised_call_bind {β : Type} (c : NativeCall) (f : Unit → Run β) :
    (call c >>= f).raised = (f ()).raised := rfl

end Run

namespace buffer

theorem findMemoryTypeLoop_ok_flags (memProperties : VkPhysicalDeviceMemoryProperties)
    (typeFilter properties : Nat) :
    ∀ (remaining i k : Nat),
      findMemoryTypeLoop memProperties typeFilter properties remaining i = Except.ok k →
      propertyFlagsAt memProperties k &&& properties = properties := by
  intro remaining
  induction remaining with
  | zero =>
    intro i k h
    simp [findMemoryTypeLoop] at h
  | succ n ih =>
    intro i k h
    unfold findMemoryTypeLoop at h
    split_ifs at h with hc
    · injection h with h
      subst h
      exact hc.2
    · exact ih _ _ h

theorem findMemoryType_ok_flags (memProperties : VkPhysicalDeviceMemoryProperties)
    (typeFilter properties k : Nat)
    (h : findMemoryType memProperties typeFilter properties = Except.ok k) :
    propertyFlagsAt memProperties k &&& properties = properties :=
  findMemoryTypeLoop_ok_flags memProperties typeFilter properties _ _ k h

theorem bindBuffer_calls_ok (memProperties : VkPhysicalDeviceMemoryProperties)
    (replies : BindBufferReplies) (size usage properties i : Nat)
    (hcreate : replies.createBufferResult = VK_SUCCESS)
    (hfind : findMemoryType memProperties replies.memRequirements.memoryTypeBits properties
      = Except.ok i)
    (halloc : replies.allocateMemoryResult = VK_SUCCESS) :
    (bindBuffer memProperties replies size usage properties).calls
      = [NativeCall.vkCreateBuffer
            { size := size, usage := usage, sharingMode := VK_SHARING_MODE_EXCLUSIVE,
              flags := 0 },
          NativeCall.vkAllocateMemory
            { allocationSize := replies.memRequirements.size, memoryTypeIndex := i },
          NativeCall.vkBindBufferMemory replies.buffer replies.bufferMemory 0] := by
  unfold bindBuffer
  simp [Run.bind_eq_andThen, Run.andThen, hcreate, hfind, halloc, Run.call, Run.ret, pure,
    Run.lift]

theorem bindBuffer_ok_iff (memProperties : VkPhysicalDeviceMemoryProperties)
    (replies : BindBufferReplies) (size usage properties : Nat) :
    (bindBuffer memProperties replies size usage properties).raised = false
      ↔ (replies.createBufferResult = VK_SUCCESS
          ∧ (∃ i, findMemoryType memProperties replies.memRequirements.memoryTypeBits
                properties = Except.ok i)
          ∧ replies.allocateMemoryResult = VK_SUCCESS) := by
  rw [← Bool.not_eq_true, bindBuffer_raised_iff]
  cases hf : findMemoryType memProperties replies.memRequirements.memoryTypeBits
      properties with
  | error e => simp
  | ok i => simp

theorem createBuffer_ok (bufferType : BufferType)
    (memProperties : VkPhysicalDeviceMemoryProperties) (replies : CreateBufferReplies)
    (commandPool graphicsQueue elementSize itemCount stagingType destinationType : Nat)
    (hs1 : replies.staging.createBufferResult = VK_SUCCESS)
    (hs2 : findMemoryType memProperties replies.staging.memRequirements.memoryTypeBits
      (VK_MEMORY_PROPERTY_HOST_VISIBLE_BIT ||| VK_MEMORY_PROPERTY_HOST_COHERENT_BIT)
      = Except.ok stagingType)
    (hs3 : replies.staging.allocateMemoryResult = VK_SUCCESS)
    (hd1 : replies.destination.createBufferResult = VK_SUCCESS)
    (hd2 : findMemoryType memProperties replies.destination.memRequirements.memoryTypeBits
      VK_MEMORY_PROPERTY_DEVICE_LOCAL_BIT = Except.ok destinationType)
    (hd3 : replies.destination.allocateMemoryResult = VK_SUCCESS) :
    (createBuffer bufferType memProperties replies commandPool graphicsQueue elementSize
        itemCount).outcome
      = Except.ok (replies.destination.buffer, replies.destination.bufferMemory)
    ∧ (createBuffer bufferType memProperties replies commandPool graphicsQueue elementSize
        itemCount).calls
      = [NativeCall.vkCreateBuffer
            { size := (elementSize * itemCount) % 2 ^ 64
              usage := VK_BUFFER_USAGE_TRANSFER_SRC_BIT
              sharingMode := VK_SHARING_MODE_EXCLUSIVE, flags := 0 },
          NativeCall.vkAllocateMemory
            { allocationSize := replies.staging.memRequirements.size,
              memoryTypeIndex := stagingType },
          NativeCall.vkBindBufferMemory replies.staging.buffer replies.staging.bufferMemory 0,
          NativeCall.vkMapMemory replies.staging.bufferMemory 0
            ((elementSize * itemCount) % 2 ^ 64) 0,
          NativeCall.memcpy ((elementSize * itemCount) % 2 ^ 64),
          NativeCall.vkUnmapMemory replies.staging.bufferMemory,
          NativeCall.vkCreateBuffer
            { size := (elementSize * itemCount) % 2 ^ 64
              usage := VK_BUFFER_USAGE_TRANSFER_DST_BIT
                ||| (if bufferType = BufferType.Vertex then VK_BUFFER_USAGE_VERTEX_BUFFER_BIT
                      else VK_BUFFER_USAGE_INDEX_BUFFER_BIT)
              sharingMode := VK_SHARING_MODE_EXCLUSIVE, flags := 0 },
          NativeCall.vkAllocateMemory
            { allocationSize := replies.destination.memRequirements.size,
              memoryTypeIndex := destinationType },
          NativeCall.vkBindBufferMemory replies.destination.buffer
            replies.destination.bufferMemory 0]
        ++ (copyBuffer commandPool graphicsQueue replies.staging.buffer
              replies.destination.buffer ((elementSize * itemCount) % 2 ^ 64)
              replies.copyCommandBuffer).calls
        ++ [NativeCall.vkDestroyBuffer replies.staging.buffer,
            NativeCall.vkFreeMemory replies.staging.bufferMemory] := by
  have ho1 := bindBuffer_ok memProperties replies.staging ((elementSize * itemCount) % 2 ^ 64)
    VK_BUFFER_USAGE_TRANSFER_SRC_BIT
    (VK_MEMORY_PROPERTY_HOST_VISIBLE_BIT ||| VK_MEMORY_PROPERTY_HOST_COHERENT_BIT)
    stagingType hs1 hs2 hs3
  have hc1 := bindBuffer_calls_ok memProperties replies.staging
    ((elementSize * itemCount) % 2 ^ 64) VK_BUFFER_USAGE_TRANSFER_SRC_BIT
    (VK_MEMORY_PROPERTY_HOST_VISIBLE_BIT ||| VK_MEMORY_PROPERTY_HOST_COHERENT_BIT)
    stagingType hs1 hs2 hs3
  have ho2 := bindBuffer_ok memProperties replies.destination
    ((elementSize * itemCount) % 2 ^ 64)
    (VK_BUFFER_USAGE_TRANSFER_DST_BIT
      ||| (if bufferType = BufferType.Vertex then VK_BUFFER_USAGE_VERTEX_BUFFER_BIT
            else VK_BUFFER_USAGE_INDEX_BUFFER_BIT))
    VK_MEMORY_PROPERTY_DEVICE_LOCAL_BIT destinationType hd1 hd2 hd3
  have hc2 := bindBuffer_calls_ok memProperties replies.destination
    ((elementSize * itemCount) % 2 ^ 64)
    (VK_BUFFER_USAGE_TRANSFER_DST_BIT
      ||| (if bufferType = BufferType.Vertex then VK_BUFFER_USAGE_VERTEX_BUFFER_BIT
            else VK_BUFFER_USAGE_INDEX_BUFFER_BIT))
    VK_MEMORY_PROPERTY_DEVICE_LOCAL_BIT destinationType hd1 hd2 hd3
  unfold createBuffer
  dsimp only
  constructor
  · rw [Run.outcome_bind_of_ok _ _ _ ho1]
    simp only [Run.outcome_call_bind]
    rw [Run.outcome_bind_of_ok _ _ _ ho2]
    dsimp only
    rw [Run.outcome_bind_of_ok _ _ _ (copyBuffer_outcome _ _ _ _ _ _)]
    rfl
  · rw [Run.calls_bind_of_ok _ _ _ ho1, hc1]
    simp only [Run.calls_call_bind]
    rw [Run.calls_bind_of_ok _ _ _ ho2, hc2]
    dsimp only
    rw [Run.calls_bind_of_ok _ _ _ (copyBuffer_outcome _ _ _ _ _ _)]
    simp

theorem createBuffer_raised_iff (bufferType : BufferType)
    (memProperties : VkPhysicalDeviceMemoryProperties) (replies : CreateBufferReplies)
    (commandPool graphicsQueue elementSize itemCount : Nat) :
    (createBuffer bufferType memProperties replies commandPool graphicsQueue elementSize
        itemCount).raised = true
      ↔ ((bindBuffer memProperties replies.staging ((elementSize * itemCount) % 2 ^ 64)
            VK_BUFFER_USAGE_TRANSFER_SRC_BIT
            (VK_MEMORY_PROPERTY_HOST_VISIBLE_BIT
              ||| VK_MEMORY_PROPERTY_HOST_COHERENT_BIT)).raised = true
          ∨ (bindBuffer memProperties replies.destination
              ((elementSize * itemCount) % 2 ^ 64)
              (VK_BUFFER_USAGE_TRANSFER_DST_BIT
                ||| (if bufferType = BufferType.Vertex then VK_BUFFER_USAGE_VERTEX_BUFFER_BIT
                      else VK_BUFFER_USAGE_INDEX_BUFFER_BIT))
              VK_MEMORY_PROPERTY_DEVICE_LOCAL_BIT).raised = true) := by
  unfold createBuffer
  dsimp only
  generalize (elementSize * itemCount) % 2 ^ 64 = bufferSize
  generalize bindBuffer memProperties replies.staging bufferSize
    VK_BUFFER_USAGE_TRANSFER_SRC_BIT
    (VK_MEMORY_PROPERTY_HOST_VISIBLE_BIT ||| VK_MEMORY_PROPERTY_HOST_COHERENT_BIT) = r1
  generalize bindBuffer memProperties replies.destination bufferSize
    (VK_BUFFER_USAGE_TRANSFER_DST_BIT
      ||| (if bufferType = BufferType.Vertex then VK_BUFFER_USAGE_VERTEX_BUFFER_BIT
            else VK_BUFFER_USAGE_INDEX_BUFFER_BIT))
    VK_MEMORY_PROPERTY_DEVICE_LOCAL_BIT = r2
  cases h1 : r1.outcome with
  | error e =>
    rw [Run.raised_bind_of_error _ _ _ h1, Run.raised_of_error _ _ h1]
    simp
  | ok a =>
    obtain ⟨stagingBuffer, stagingBufferMemory⟩ := a
    rw [Run.raised_bind_of_ok _ _ _ h1, Run.raised_of_ok _ _ h1]
    simp only [Run.raised_call_bind]
    cases h2 : r2.outcome with
    | error e =>
      rw [Run.raised_bind_of_error _ _ _ h2, Run.raised_of_error _ _ h2]
      simp
    | ok b =>
      obtain ⟨buffer, bufferMemory⟩ := b
      rw [Run.raised_bind_of_ok _ _ _ h2, Run.raised_of_ok _ _ h2]
      dsimp only
      rw [Run.raised_bind_of_ok _ _ _ (copyBuffer_outcome _ _ _ _ _ _)]
      simp [Run.raised_call_bind, Run.raised]

end buffer

/-- C14: for a list of `itemCount` items of `elementSize` bytes each (their
product a `size_t`) and either buffer type, in every run in which the two
calls of `bindBuffer` return, `createBuffer` returns normally and issues
exactly these native calls, in this order: creation of the staging buffer of
`elementSize * itemCount` bytes with transfer-source usage, allocation of its
memory in a type whose flags contain host-visible and host-coherent, binding;
mapping, write of `elementSize * itemCount` bytes, unmapping; creation of the
destination buffer of the same size with usage transfer-destination plus
vertex-buffer for `Vertex` and plus index-buffer otherwise, allocation in a
device-local type, binding; the calls of `copyBuffer` for that size from the
staging buffer to the destination; then one destruction of the staging
buffer and one release of its memory.  `createBuffer` raises exactly when
one of the two calls of `bindBuffer` raises. -/
theorem createBuffer_stages_copies_and_releases (bufferType : buffer.BufferType)
    (memProperties : buffer.VkPhysicalDeviceMemoryProperties)
    (replies : buffer.CreateBufferReplies)
    (commandPool graphicsQueue elementSize itemCount : Nat)
    (hsize : elementSize * itemCount < 2 ^ 64)
    (hstaging : (buffer.bindBuffer memProperties replies.staging (elementSize * itemCount)
        VK_BUFFER_USAGE_TRANSFER_SRC_BIT
        (VK_MEMORY_PROPERTY_HOST_VISIBLE_BIT ||| VK_MEMORY_PROPERTY_HOST_COHERENT_BIT)).raised
      = false)
    (hdestination : (buffer.bindBuffer memProperties replies.destination
        (elementSize * itemCount)
        (VK_BUFFER_USAGE_TRANSFER_DST_BIT
          ||| (if bufferType = buffer.BufferType.Vertex then VK_BUFFER_USAGE_VERTEX_BUFFER_BIT
                else VK_BUFFER_USAGE_INDEX_BUFFER_BIT))
        VK_MEMORY_PROPERTY_DEVICE_LOCAL_BIT).raised = false) :
    (∃ stagingType destinationType,
      buffer.propertyFlagsAt memProperties stagingType
          &&& (VK_MEMORY_PROPERTY_HOST_VISIBLE_BIT ||| VK_MEMORY_PROPERTY_HOST_COHERENT_BIT)
        = VK_MEMORY_PROPERTY_HOST_VISIBLE_BIT ||| VK_MEMORY_PROPERTY_HOST_COHERENT_BIT
      ∧ buffer.propertyFlagsAt memProperties destinationType
          &&& VK_MEMORY_PROPERTY_DEVICE_LOCAL_BIT = VK_MEMORY_PROPERTY_DEVICE_LOCAL_BIT
      ∧ (buffer.createBuffer bufferType memProperties replies commandPool graphicsQueue
          elementSize itemCount).outcome
        = Except.ok (replies.destination.buffer, replies.destination.bufferMemory)
      ∧ (buffer.createBuffer bufferType memProperties replies commandPool graphicsQueue
          elementSize itemCount).calls
        = [NativeCall.vkCreateBuffer
              { size := elementSize * itemCount
                usage := VK_BUFFER_USAGE_TRANSFER_SRC_BIT
                sharingMode := VK_SHARING_MODE_EXCLUSIVE, flags := 0 },
            NativeCall.vkAllocateMemory
              { allocationSize := replies.staging.memRequirements.size,
                memoryTypeIndex := stagingType },
            NativeCall.vkBindBufferMemory replies.staging.buffer
              replies.staging.bufferMemory 0,
            NativeCall.vkMapMemory replies.staging.bufferMemory 0 (elementSize * itemCount) 0,
            NativeCall.memcpy (elementSize * itemCount),
            NativeCall.vkUnmapMemory replies.staging.bufferMemory,
            NativeCall.vkCreateBuffer
              { size := elementSize * itemCount
                usage := VK_BUFFER_USAGE_TRANSFER_DST_BIT
                  ||| (if bufferType = buffer.BufferType.Vertex then
                        VK_BUFFER_USAGE_VERTEX_BUFFER_BIT
                      else VK_BUFFER_USAGE_INDEX_BUFFER_BIT)
                sharingMode := VK_SHARING_MODE_EXCLUSIVE, flags := 0 },
            NativeCall.vkAllocateMemory
              { allocationSize := replies.destination.memRequirements.size,
                memoryTypeIndex := destinationType },
            NativeCall.vkBindBufferMemory replies.destination.buffer
              replies.destination.bufferMemory 0,
            NativeCall.vkAllocateCommandBuffers
              { commandPool := commandPool, level := VK_COMMAND_BUFFER_LEVEL_PRIMARY,
                commandBufferCount := 1 } replies.copyCommandBuffer,
            NativeCall.vkBeginCommandBuffer replies.copyCommandBuffer
              VK_COMMAND_BUFFER_USAGE_ONE_TIME_SUBMIT_BIT,
            NativeCall.vkCmdCopyBuffer replies.copyCommandBuffer replies.staging.buffer
              replies.destination.buffer
              [{ srcOffset := 0, dstOffset := 0, size := elementSize * itemCount }],
            NativeCall.vkEndCommandBuffer replies.copyCommandBuffer,
            NativeCall.vkQueueSubmit graphicsQueue [replies.copyCommandBuffer] VK_NULL_HANDLE,
            NativeCall.vkQueueWaitIdle graphicsQueue,
            NativeCall.vkFreeCommandBuffers commandPool [replies.copyCommandBuffer],
            NativeCall.vkDestroyBuffer replies.staging.buffer,
            NativeCall.vkFreeMemory replies.staging.bufferMemory])
    ∧ ((buffer.createBuffer bufferType memProperties replies commandPool graphicsQueue
          elementSize itemCount).raised = true
        ↔ ((buffer.bindBuffer memProperties replies.staging (elementSize * itemCount)
              VK_BUFFER_USAGE_TRANSFER_SRC_BIT
              (VK_MEMORY_PROPERTY_HOST_VISIBLE_BIT
                ||| VK_MEMORY_PROPERTY_HOST_COHERENT_BIT)).raised = true
            ∨ (buffer.bindBuffer memProperties replies.destination (elementSize * itemCount)
                (VK_BUFFER_USAGE_TRANSFER_DST_BIT
                  ||| (if bufferType = buffer.BufferType.Vertex then
                        VK_BUFFER_USAGE_VERTEX_BUFFER_BIT
                      else VK_BUFFER_USAGE_INDEX_BUFFER_BIT))
                VK_MEMORY_PROPERTY_DEVICE_LOCAL_BIT).raised = true)) := by
  have hmod : (elementSize * itemCount) % 2 ^ 64 = elementSize * itemCount :=
    Nat.mod_eq_of_lt hsize
  obtain ⟨hs1, ⟨stagingType, hs2⟩, hs3⟩ := (buffer.bindBuffer_ok_iff _ _ _ _ _).mp hstaging
  obtain ⟨hd1, ⟨destinationType, hd2⟩, hd3⟩ :=
    (buffer.bindBuffer_ok_iff _ _ _ _ _).mp hdestination
  have hok := buffer.createBuffer_ok bufferType memProperties replies commandPool
    graphicsQueue elementSize itemCount stagingType destinationType hs1 hs2 hs3 hd1 hd2 hd3
  have hraised := buffer.createBuffer_raised_iff bufferType memProperties replies commandPool
    graphicsQueue elementSize itemCount
  rw [hmod] at hok hraised
  refine ⟨⟨stagingType, destinationType, buffer.findMemoryType_ok_flags _ _ _ _ hs2,
    buffer.findMemoryType_ok_flags _ _ _ _ hd2, hok.1, ?_⟩, hraised⟩
  rw [hok.2, buffer.copyBuffer_calls]
  rfl

/-- C14, at four vertices of 32 bytes on a device whose memory type 1 is
host-visible and host-coherent and whose memory type 0 is device-local. -/
theorem createBuffer_stages_copies_and_releases_witness :
    32 * 4 < 2 ^ 64
    ∧ (buffer.bindBuffer ⟨2, [⟨1, 0⟩, ⟨6, 0⟩]⟩ ⟨0, 11, ⟨128, 16, 3⟩, 0, 12, 0⟩ (32 * 4)
        VK_BUFFER_USAGE_TRANSFER_SRC_BIT
        (VK_MEMORY_PROPERTY_HOST_VISIBLE_BIT ||| VK_MEMORY_PROPERTY_HOST_COHERENT_BIT)).raised
      = false
    ∧ (buffer.createBuffer buffer.BufferType.Vertex ⟨2, [⟨1, 0⟩, ⟨6, 0⟩]⟩
        ⟨⟨0, 11, ⟨128, 16, 3⟩, 0, 12, 0⟩, ⟨0, 13, ⟨128, 16, 3⟩, 0, 14, 0⟩, 9⟩ 1 2 32 4).raised
      = false :=
  ⟨by decide, by decide,
    Bool.eq_false_iff.mpr (fun h =>
      ((createBuffer_stages_copies_and_releases buffer.BufferType.Vertex
          ⟨2, [⟨1, 0⟩, ⟨6, 0⟩]⟩
          ⟨⟨0, 11, ⟨128, 16, 3⟩, 0, 12, 0⟩, ⟨0, 13, ⟨128, 16, 3⟩, 0, 14, 0⟩, 9⟩ 1 2 32 4
          (by decide) (by decide) (by decide)).2.mp h).elim (by decide) (by decide))⟩


/-! ## Vertex input description -/

/-- C15: `getBindingDescription` reports binding 0, per-vertex input rate
and the stride `sizeof(Vertex)`, which is 32 bytes for three, three and two
packed 32-bit floats; `getAttributeDescriptions` reports exactly three
attributes, all in binding 0, at locations 0, 1, 2, with the byte offsets
0, 12, 24 of the members and the formats of 3, 3 and 2 32-bit floats; each
attribute ends where the next begins or before, and the last one ends at the
stride; the pipeline is given this one binding and these three attributes. -/
theorem vertex_description_matches_layout :
    vertex.getBindingDescription
      = { binding := 0, stride := 32, inputRate := VK_VERTEX_INPUT_RATE_VERTEX }
    ∧ vertex.getBindingDescription.stride = sizeof vertex.Vertex
    ∧ sizeof vertex.Vertex = 4 * (3 + 3 + 2)
    ∧ vertex.getAttributeDescriptions
      = [ { binding := 0, location := 0, format := VK_FORMAT_R32G32B32_SFLOAT, offset := 0 },
          { binding := 0, location := 1, format := VK_FORMAT_R32G32B32_SFLOAT, offset := 12 },
          { binding := 0, location := 2, format := VK_FORMAT_R32G32_SFLOAT, offset := 24 } ]
    ∧ vertex.formatSize VK_FORMAT_R32G32B32_SFLOAT = 4 * 3
    ∧ vertex.formatSize VK_FORMAT_R32G32_SFLOAT = 4 * 2
    ∧ (∀ i a b, vertex.getAttributeDescriptions[i]? = some a →
        vertex.getAttributeDescriptions[i + 1]? = some b →
        a.offset + vertex.formatSize a.format ≤ b.offset)
    ∧ (∀ a ∈ vertex.getAttributeDescriptions,
        a.binding = vertex.getBindingDescription.binding
          ∧ a.offset + vertex.formatSize a.format ≤ vertex.getBindingDescription.stride)
    ∧ pipeline.vertexInputInfo
      = { vertexBindingDescriptionCount := 1
          pVertexBindingDescriptions := [vertex.getBindingDescription]
          vertexAttributeDescriptionCount := 3
          pVertexAttributeDescriptions := vertex.getAttributeDescriptions } := by
  refine ⟨by decide, rfl, by decide, by decide, by decide, by decide, ?_, by decide, by decide⟩
  intro i a b ha hb
  have hlen : vertex.getAttributeDescriptions.length = 3 := by decide
  have hi : i + 1 < 3 := by
    rw [← hlen]
    exact (List.getElem?_eq_some.mp hb).1
  have hcases : i = 0 ∨ i = 1 := by omega
  rcases hcases with h | h <;> subst h
  · have ha1 : vertex.getAttributeDescriptions[0]?
        = some ⟨0, 0, VK_FORMAT_R32G32B32_SFLOAT, 0⟩ := by decide
    have hb1 : vertex.getAttributeDescriptions[0 + 1]?
        = some ⟨1, 0, VK_FORMAT_R32G32B32_SFLOAT, 12⟩ := by decide
    rw [ha1] at ha
    rw [hb1] at hb
    injection ha with ha
    injection hb with hb
    subst ha hb
    decide
  · have ha1 : vertex.getAttributeDescriptions[1]?
        = some ⟨1, 0, VK_FORMAT_R32G32B32_SFLOAT, 12⟩ := by decide
    have hb1 : vertex.getAttributeDescriptions[1 + 1]?
        = some ⟨2, 0, VK_FORMAT_R32G32_SFLOAT, 24⟩ := by decide
    rw [ha1] at ha
    rw [hb1] at hb
    injection ha with ha
    injection hb with hb
    subst ha hb
    decide


/-! ## Extension names -/

namespace device

theorem mem_foldl_insert (device_extensions : List String) :
    ∀ (s : List String) (x : String),
      x ∈ device_extensions.foldl (fun s name => if name ∈ s then s else name :: s) s
        ↔ x ∈ s ∨ x ∈ device_extensions := by
  induction device_extensions with
  | nil => intro s x; simp
  | cons name rest ih =>
    intro s x
    rw [List.foldl_cons, ih]
    by_cases h : name ∈ s
    · rw [if_pos h]
      constructor
      · rintro (h1 | h1)
        · exact Or.inl h1
        · exact Or.inr (List.mem_cons_of_mem _ h1)
      · rintro (h1 | h1)
        · exact Or.inl h1
        · rcases List.mem_cons.mp h1 with h2 | h2
          · exact Or.inl (h2 ▸ h)
          · exact Or.inr h2
    · rw [if_neg h]
      simp only [List.mem_cons]
      tauto

theorem nodup_foldl_insert (device_extensions : List String) :
    ∀ (s : List String), s.Nodup →
      (device_extensions.foldl (fun s name => if name ∈ s then s else name :: s) s).Nodup := by
  induction device_extensions with
  | nil => intro s hs; simpa using hs
  | cons name rest ih =>
    intro s hs
    rw [List.foldl_cons]
    apply ih
    by_cases h : name ∈ s
    · rw [if_pos h]; exact hs
    · rw [if_neg h]; exact List.nodup_cons.mpr ⟨h, hs⟩

theorem mem_requiredExtensionSet (device_extensions : List String) (x : String) :
    x ∈ requiredExtensionSet device_extensions ↔ x ∈ device_extensions := by
  unfold requiredExtensionSet
  rw [mem_foldl_insert]
  simp

theorem nodup_requiredExtensionSet (device_extensions : List String) :
    (requiredExtensionSet device_extensions).Nodup :=
  nodup_foldl_insert device_extensions [] List.nodup_nil

theorem mem_foldl_erase (availableExtensions : List String) :
    ∀ (s : List String), s.Nodup → ∀ x : String,
      (x ∈ availableExtensions.foldl (fun requiredExtensions extensionName =>
            requiredExtensions.erase extensionName) s
        ↔ x ∈ s ∧ x ∉ availableExtensions) := by
  induction availableExtensions with
  | nil => intro s _ x; simp
  | cons name rest ih =>
    intro s hs x
    rw [List.foldl_cons, ih (s.erase name) (hs.erase name) x, hs.mem_erase_iff]
    simp only [List.mem_cons, not_or]
    tauto

theorem checkDeviceExtensionSupport_iff (availableExtensions device_extensions : List String) :
    checkDeviceExtensionSupport availableExtensions device_extensions = true
      ↔ ∀ name ∈ device_extensions, name ∈ availableExtensions := by
  unfold checkDeviceExtensionSupport
  rw [List.isEmpty_iff, List.eq_nil_iff_forall_not_mem]
  constructor
  · intro h name hname
    by_contra hnot
    exact h name ((mem_foldl_erase availableExtensions _
      (nodup_requiredExtensionSet device_extensions) name).mpr
      ⟨(mem_requiredExtensionSet device_extensions name).mpr hname, hnot⟩)
  · intro h name hmem
    obtain ⟨h1, h2⟩ := (mem_foldl_erase availableExtensions _
      (nodup_requiredExtensionSet device_extensions) name).mp hmem
    exact h2 (h name ((mem_requiredExtensionSet device_extensions name).mp h1))

end device

/-- C16: `checkDeviceExtensionSupport` returns true if and only if every
required name occurs among the available names; it returns true when no name
is required; and the result depends only on which names occur in each list,
not on how often or in which order. -/
theorem checkDeviceExtensionSupport_iff_all_required_available
    (availableExtensions device_extensions : List String) :
    (device.checkDeviceExtensionSupport availableExtensions device_extensions = true
      ↔ ∀ name ∈ device_extensions, name ∈ availableExtensions)
    ∧ device.checkDeviceExtensionSupport availableExtensions [] = true
    ∧ (∀ (availableExtensions2 device_extensions2 : List String),
        (∀ name, name ∈ availableExtensions2 ↔ name ∈ availableExtensions) →
        (∀ name, name ∈ device_extensions2 ↔ name ∈ device_extensions) →
        device.checkDeviceExtensionSupport availableExtensions2 device_extensions2
          = device.checkDeviceExtensionSupport availableExtensions device_extensions)
    ∧ device.checkDeviceExtensionSupport (availableExtensions ++ availableExtensions)
        (device_extensions ++ device_extensions)
      = device.checkDeviceExtensionSupport availableExtensions device_extensions := by
  have hsame : ∀ (a1 d1 a2 d2 : List String),
      (∀ name, name ∈ a2 ↔ name ∈ a1) → (∀ name, name ∈ d2 ↔ name ∈ d1) →
      device.checkDeviceExtensionSupport a2 d2 = device.checkDeviceExtensionSupport a1 d1 := by
    intro a1 d1 a2 d2 ha hd
    rw [Bool.eq_iff_iff, device.checkDeviceExtensionSupport_iff,
      device.checkDeviceExtensionSupport_iff]
    constructor
    · intro h name hname
      exact (ha name).mp (h name ((hd name).mpr hname))
    · intro h name hname
      exact (ha name).mpr (h name ((hd name).mp hname))
  refine ⟨device.checkDeviceExtensionSupport_iff _ _, ?_, ?_, ?_⟩
  · rw [device.checkDeviceExtensionSupport_iff]
    intro name hname
    simp at hname
  · intro a2 d2 ha hd
    exact hsame _ _ _ _ ha hd
  · apply hsame
    · intro name; simp
    · intro name; simp

/-- C16, at a device that offers the swapchain extension among others. -/
theorem checkDeviceExtensionSupport_iff_all_required_available_witness :
    device.checkDeviceExtensionSupport ["VK_KHR_maintenance1", "VK_KHR_swapchain"]
      ["VK_KHR_swapchain", "VK_KHR_swapchain"] = true :=
  (checkDeviceExtensionSupport_iff_all_required_available
    ["VK_KHR_maintenance1", "VK_KHR_swapchain"] ["VK_KHR_swapchain", "VK_KHR_swapchain"]).1.mpr
    (by decide)

/-- C17: `getRequiredExtensions` returns the extensions GLFW requires, all
of them and in GLFW's order, followed by the debug-utils name when, and only
when, validation layers are enabled; the result has as many entries as GLFW
reports when validation is disabled and one more when it is enabled. -/
theorem getRequiredExtensions_glfw_then_debug_utils (glfwExtensions : List String)
    (enable_validation_layers : Bool) :
    device.getRequiredExtensions glfwExtensions false = glfwExtensions
    ∧ device.getRequiredExtensions glfwExtensions true
      = glfwExtensions ++ ["VK_EXT_debug_utils"]
    ∧ (device.getRequiredExtensions glfwExtensions false).length = glfwExtensions.length
    ∧ (device.getRequiredExtensions glfwExtensions true).length = glfwExtensions.length + 1
    ∧ (∀ i, i < glfwExtensions.length →
        (device.getRequiredExtensions glfwExtensions enable_validation_layers)[i]?
          = glfwExtensions[i]?)
    ∧ ((device.getRequiredExtensions glfwExtensions enable_validation_layers).length
          = glfwExtensions.length + 1
        ↔ enable_validation_layers = true)
    ∧ ((device.getRequiredExtensions glfwExtensions enable_validation_layers)[
          glfwExtensions.length]? = some "VK_EXT_debug_utils"
        ↔ enable_validation_layers = true) := by
  refine ⟨rfl, rfl, rfl, by simp [device.getRequiredExtensions], ?_, ?_, ?_⟩
  · intro i hi
    cases enable_validation_layers
    · rfl
    · simp only [device.getRequiredExtensions, if_true]
      exact List.getElem?_append_left hi
  · cases enable_validation_layers <;> simp [device.getRequiredExtensions]
  · cases enable_validation_layers
    · simp [device.getRequiredExtensions]
    · simp [device.getRequiredExtensions, VK_EXT_DEBUG_UTILS_EXTENSION_NAME]

/-- C17, at the two extensions GLFW requires on an X11 desktop. -/
theorem getRequiredExtensions_glfw_then_debug_utils_witness :
    device.getRequiredExtensions ["VK_KHR_surface", "VK_KHR_xcb_surface"] true
      = ["VK_KHR_surface", "VK_KHR_xcb_surface", "VK_EXT_debug_utils"] :=
  (getRequiredExtensions_glfw_then_debug_utils ["VK_KHR_surface", "VK_KHR_xcb_surface"]
    true).2.1


/-! ## Mipmap generation: layouts of the mip levels -/

namespace texture

theorem layoutsAfter_cons (image : Nat) (layouts : Nat → Nat) (c : NativeCall)
    (calls : List NativeCall) :
    layoutsAfter image layouts (c :: calls)
      = layoutsAfter image (layoutsAfterCall image layouts c) calls := rfl

theorem layoutsAfter_append (image : Nat) (layouts : Nat → Nat) (xs ys : List NativeCall) :
    layoutsAfter image layouts (xs ++ ys)
      = layoutsAfter image (layoutsAfter image layouts xs) ys := by
  unfold layoutsAfter
  rw [List.foldl_append]

theorem callsAgreeWithLayouts_cons (image : Nat) (layouts : Nat → Nat) (c : NativeCall)
    (calls : List NativeCall) :
    callsAgreeWithLayouts image layouts (c :: calls)
      = (callAgreesWithLayouts image layouts c
          && callsAgreeWithLayouts image (layoutsAfterCall image layouts c) calls) := rfl

theorem movesToLayout_cons (image newLayout level : Nat) (c : NativeCall)
    (calls : List NativeCall) :
    movesToLayout image newLayout level (c :: calls)
      = movesToLayout image newLayout level [c] + movesToLayout image newLayout level calls := by
  unfold movesToLayout
  simp

theorem callsAgreeWithLayouts_append (image : Nat) (xs ys : List NativeCall) :
    ∀ layouts : Nat → Nat,
      callsAgreeWithLayouts image layouts (xs ++ ys)
        = (callsAgreeWithLayouts image layouts xs
            && callsAgreeWithLayouts image (layoutsAfter image layouts xs) ys) := by
  induction xs with
  | nil => intro layouts; simp [callsAgreeWithLayouts, layoutsAfter]
  | cons c rest ih =>
    intro layouts
    rw [List.cons_append, layoutsAfter_cons, callsAgreeWithLayouts_cons,
      callsAgreeWithLayouts_cons, ih, Bool.and_assoc]

theorem movesToLayout_append (image newLayout level : Nat) (xs ys : List NativeCall) :
    movesToLayout image newLayout level (xs ++ ys)
      = movesToLayout image newLayout level xs + movesToLayout image newLayout level ys := by
  unfold movesToLayout
  rw [List.map_append, List.sum_append]

theorem layoutsAfterBarrier_mipBarrier (image : Nat) (layouts : Nat → Nat)
    (baseMipLevel oldLayout newLayout srcAccessMask dstAccessMask level : Nat) :
    layoutsAfterBarrier image layouts
        (mipBarrier image baseMipLevel oldLayout newLayout srcAccessMask dstAccessMask) level
      = if level = baseMipLevel then newLayout else layouts level := by
  unfold layoutsAfterBarrier barrierCovers mipBarrier
  by_cases h : level = baseMipLevel
  · subst h
    simp
  · have h1 : ¬ (baseMipLevel ≤ level ∧ level < baseMipLevel + 1) := by omega
    simp [h, h1]

theorem barrierNamesActualLayout_mipBarrier (image : Nat) (layouts : Nat → Nat)
    (baseMipLevel oldLayout newLayout srcAccessMask dstAccessMask : Nat)
    (h : layouts baseMipLevel = oldLayout) :
    barrierNamesActualLayout image layouts
        (mipBarrier image baseMipLevel oldLayout newLayout srcAccessMask dstAccessMask)
      = true := by
  unfold barrierNamesActualLayout mipBarrier
  simp [h]

theorem barrierCovers_mipBarrier (image baseMipLevel oldLayout newLayout srcAccessMask
    dstAccessMask level : Nat) :
    barrierCovers
        (mipBarrier image baseMipLevel oldLayout newLayout srcAccessMask dstAccessMask) level
      = decide (level = baseMipLevel) := by
  unfold barrierCovers mipBarrier
  by_cases h : level = baseMipLevel
  · subst h
    simp
  · have h1 : ¬ (baseMipLevel ≤ level ∧ level < baseMipLevel + 1) := by omega
    simp [h, h1]

end texture

namespace texture

/-- The three commands recorded by one iteration of the loop of
`generateMipmaps` at level `i`, with `mipWidth` and `mipHeight` the extent
of level `i - 1`. -/
theorem generateMipmapsLoop_calls_succ (commandBuffer image remaining i : Nat)
    (mipWidth mipHeight : Int) :
    (generateMipmapsLoop commandBuffer image (remaining + 1) i mipWidth mipHeight).calls
      = NativeCall.vkCmdPipelineBarrier commandBuffer
          VK_PIPELINE_STAGE_TRANSFER_BIT VK_PIPELINE_STAGE_TRANSFER_BIT 0
          [mipBarrier image (i - 1) VK_IMAGE_LAYOUT_TRANSFER_DST_OPTIMAL
            VK_IMAGE_LAYOUT_TRANSFER_SRC_OPTIMAL VK_ACCESS_TRANSFER_WRITE_BIT
            VK_ACCESS_TRANSFER_READ_BIT]
        :: NativeCall.vkCmdBlitImage commandBuffer
            image VK_IMAGE_LAYOUT_TRANSFER_SRC_OPTIMAL
            image VK_IMAGE_LAYOUT_TRANSFER_DST_OPTIMAL
            [{ srcOffsets0 := { x := 0, y := 0, z := 0 }
               srcOffsets1 := { x := mipWidth, y := mipHeight, z := 1 }
               srcSubresource :=
                 { aspectMask := VK_IMAGE_ASPECT_COLOR_BIT, mipLevel := i - 1,
                   baseArrayLayer := 0, layerCount := 1 }
               dstOffsets0 := { x := 0, y := 0, z := 0 }
               dstOffsets1 :=
                 { x := if mipWidth > 1 then mipWidth / 2 else 1
                   y := if mipHeight > 1 then mipHeight / 2 else 1
                   z := 1 }
               dstSubresource :=
                 { aspectMask := VK_IMAGE_ASPECT_COLOR_BIT, mipLevel := i,
                   baseArrayLayer := 0, layerCount := 1 } }]
            VK_FILTER_LINEAR
        :: NativeCall.vkCmdPipelineBarrier commandBuffer
            VK_PIPELINE_STAGE_TRANSFER_BIT VK_PIPELINE_STAGE_FRAGMENT_SHADER_BIT 0
            [mipBarrier image (i - 1) VK_IMAGE_LAYOUT_TRANSFER_SRC_OPTIMAL
              VK_IMAGE_LAYOUT_SHADER_READ_ONLY_OPTIMAL VK_ACCESS_TRANSFER_READ_BIT
              VK_ACCESS_SHADER_READ_BIT]
        :: (generateMipmapsLoop commandBuffer image remaining (i + 1)
              (if mipWidth > 1 then mipWidth / 2 else mipWidth)
              (if mipHeight > 1 then mipHeight / 2 else mipHeight)).calls := by
  conv_lhs => unfold generateMipmapsLoop
  simp only [Run.calls_call_bind]

theorem generateMipmaps_calls (optimalTilingFeatures commandPool graphicsQueue image
    imageFormat : Nat) (texWidth texHeight : Int) (mipLevels commandBuffer : Nat)
    (hlinear : optimalTilingFeatures &&& VK_FORMAT_FEATURE_SAMPLED_IMAGE_FILTER_LINEAR_BIT ≠ 0) :
    (generateMipmaps optimalTilingFeatures commandPool graphicsQueue image imageFormat
        texWidth texHeight mipLevels commandBuffer).calls
      = [NativeCall.vkAllocateCommandBuffers
            { commandPool := commandPool, level := VK_COMMAND_BUFFER_LEVEL_PRIMARY,
              commandBufferCount := 1 } commandBuffer,
          NativeCall.vkBeginCommandBuffer commandBuffer
            VK_COMMAND_BUFFER_USAGE_ONE_TIME_SUBMIT_BIT]
        ++ (generateMipmapsLoop commandBuffer image (mipLevels - 1) 1 texWidth texHeight).calls
        ++ [NativeCall.vkCmdPipelineBarrier commandBuffer
              VK_PIPELINE_STAGE_TRANSFER_BIT VK_PIPELINE_STAGE_FRAGMENT_SHADER_BIT 0
              [mipBarrier image ((mipLevels + (2 ^ 32 - 1)) % 2 ^ 32)
                VK_IMAGE_LAYOUT_TRANSFER_DST_OPTIMAL VK_IMAGE_LAYOUT_SHADER_READ_ONLY_OPTIMAL
                VK_ACCESS_TRANSFER_WRITE_BIT VK_ACCESS_SHADER_READ_BIT],
            NativeCall.vkEndCommandBuffer commandBuffer,
            NativeCall.vkQueueSubmit graphicsQueue [commandBuffer] VK_NULL_HANDLE,
            NativeCall.vkQueueWaitIdle graphicsQueue,
            NativeCall.vkFreeCommandBuffers commandPool [commandBuffer]] := by
  unfold generateMipmaps
  dsimp only
  rw [if_neg hlinear]
  rw [Run.calls_bind_of_ok _ _ _ (commandbuffer.beginSingleTimeCommands_outcome _ _)]
  obtain ⟨p, hp⟩ := generateMipmapsLoop_returns commandBuffer image (mipLevels - 1) 1
    texWidth texHeight
  rw [Run.calls_bind_of_ok _ _ _ hp]
  simp only [Run.calls_call_bind, List.append_assoc]
  rfl

theorem generateMipmaps_without_linear_filter (optimalTilingFeatures commandPool graphicsQueue
    image imageFormat : Nat) (texWidth texHeight : Int) (mipLevels commandBuffer : Nat)
    (hlinear : optimalTilingFeatures &&& VK_FORMAT_FEATURE_SAMPLED_IMAGE_FILTER_LINEAR_BIT = 0) :
    generateMipmaps optimalTilingFeatures commandPool graphicsQueue image imageFormat
        texWidth texHeight mipLevels commandBuffer
      = ⟨[], Except.error
          (runtimeError "texture image format does not support linear blitting!")⟩ := by
  unfold generateMipmaps
  dsimp only
  rw [if_pos hlinear]
  rfl

end texture

namespace texture

theorem layoutsAfterCall_mipBarrier (image : Nat) (layouts : Nat → Nat)
    (commandBuffer srcStageMask dstStageMask dependencyFlags baseMipLevel oldLayout newLayout
      srcAccessMask dstAccessMask level : Nat) :
    layoutsAfterCall image layouts
        (NativeCall.vkCmdPipelineBarrier commandBuffer srcStageMask dstStageMask
          dependencyFlags
          [mipBarrier image baseMipLevel oldLayout newLayout srcAccessMask dstAccessMask]) level
      = if level = baseMipLevel then newLayout else layouts level :=
  layoutsAfterBarrier_mipBarrier image layouts baseMipLevel oldLayout newLayout srcAccessMask
    dstAccessMask level

theorem callAgreesWithLayouts_mipBarrier (image : Nat) (layouts : Nat → Nat)
    (commandBuffer srcStageMask dstStageMask dependencyFlags baseMipLevel oldLayout newLayout
      srcAccessMask dstAccessMask : Nat) (h : layouts baseMipLevel = oldLayout) :
    callAgreesWithLayouts image layouts
        (NativeCall.vkCmdPipelineBarrier commandBuffer srcStageMask dstStageMask
          dependencyFlags
          [mipBarrier image baseMipLevel oldLayout newLayout srcAccessMask dstAccessMask])
      = true := by
  unfold callAgreesWithLayouts barriersNameActualLayouts
  rw [barrierNamesActualLayout_mipBarrier image layouts _ _ _ _ _ h]
  rfl

theorem callAgreesWithLayouts_blit (image : Nat) (layouts : Nat → Nat)
    (commandBuffer filter : Nat) (blit : VkImageBlit)
    (hsrc : layouts blit.srcSubresource.mipLevel = VK_IMAGE_LAYOUT_TRANSFER_SRC_OPTIMAL)
    (hdst : layouts blit.dstSubresource.mipLevel = VK_IMAGE_LAYOUT_TRANSFER_DST_OPTIMAL) :
    callAgreesWithLayouts image layouts
        (NativeCall.vkCmdBlitImage commandBuffer image VK_IMAGE_LAYOUT_TRANSFER_SRC_OPTIMAL
          image VK_IMAGE_LAYOUT_TRANSFER_DST_OPTIMAL [blit] filter) = true := by
  unfold callAgreesWithLayouts
  simp [hsrc, hdst]

theorem movesToLayout_mipBarrier (image newLayout level : Nat)
    (commandBuffer srcStageMask dstStageMask dependencyFlags baseMipLevel oldLayout
      barrierNewLayout srcAccessMask dstAccessMask : Nat) :
    movesToLayout image newLayout level
        [NativeCall.vkCmdPipelineBarrier commandBuffer srcStageMask dstStageMask
          dependencyFlags
          [mipBarrier image baseMipLevel oldLayout barrierNewLayout srcAccessMask
            dstAccessMask]]
      = if level = baseMipLevel ∧ barrierNewLayout = newLayout then 1 else 0 := by
  unfold movesToLayout
  simp only [List.map_cons, List.map_nil, List.sum_cons, List.sum_nil, Nat.add_zero]
  rw [List.countP_cons, List.countP_nil, barrierCovers_mipBarrier]
  by_cases h1 : level = baseMipLevel <;> by_cases h2 : barrierNewLayout = newLayout <;>
    simp [h1, h2, mipBarrier]

theorem movesToLayout_blit (image newLayout level : Nat)
    (commandBuffer srcImage srcImageLayout dstImage dstImageLayout filter : Nat)
    (regions : List VkImageBlit) :
    movesToLayout image newLayout level
        [NativeCall.vkCmdBlitImage commandBuffer srcImage srcImageLayout dstImage
          dstImageLayout regions filter] = 0 := rfl

theorem generateMipmapsLoop_layouts (commandBuffer image mipLevels : Nat) :
    ∀ (remaining i : Nat) (mipWidth mipHeight : Int) (layouts : Nat → Nat),
      1 ≤ i → i + remaining = mipLevels →
      (∀ l, l < i - 1 → layouts l = VK_IMAGE_LAYOUT_SHADER_READ_ONLY_OPTIMAL) →
      (∀ l, i - 1 ≤ l → l < mipLevels → layouts l = VK_IMAGE_LAYOUT_TRANSFER_DST_OPTIMAL) →
      callsAgreeWithLayouts image layouts
          (generateMipmapsLoop commandBuffer image remaining i mipWidth mipHeight).calls = true
      ∧ (∀ l, l < mipLevels - 1 →
          layoutsAfter image layouts
              (generateMipmapsLoop commandBuffer image remaining i mipWidth mipHeight).calls l
            = VK_IMAGE_LAYOUT_SHADER_READ_ONLY_OPTIMAL)
      ∧ layoutsAfter image layouts
            (generateMipmapsLoop commandBuffer image remaining i mipWidth mipHeight).calls
            (mipLevels - 1)
          = VK_IMAGE_LAYOUT_TRANSFER_DST_OPTIMAL
      ∧ (∀ l, mipLevels ≤ l →
          layoutsAfter image layouts
              (generateMipmapsLoop commandBuffer image remaining i mipWidth mipHeight).calls l
            = layouts l)
      ∧ (∀ l, movesToLayout image VK_IMAGE_LAYOUT_SHADER_READ_ONLY_OPTIMAL l
            (generateMipmapsLoop commandBuffer image remaining i mipWidth mipHeight).calls
          = if i - 1 ≤ l ∧ l < mipLevels - 1 then 1 else 0) := by
  intro remaining
  induction remaining with
  | zero =>
    intro i mipWidth mipHeight layouts hi hsum hbelow hfrom
    have hcalls : (generateMipmapsLoop commandBuffer image 0 i mipWidth mipHeight).calls = [] :=
      rfl
    rw [hcalls]
    have him : i = mipLevels := by omega
    subst him
    refine ⟨rfl, fun l hl => hbelow l hl, hfrom _ (le_refl _) (by omega), fun l _ => rfl, ?_⟩
    intro l
    have : ¬ (i - 1 ≤ l ∧ l < i - 1) := by omega
    rw [if_neg this]
    rfl
  | succ n ih =>
    intro i mipWidth mipHeight layouts hi hsum hbelow hfrom
    rw [generateMipmapsLoop_calls_succ]
    have hne : i ≠ i - 1 := by omega
    have hL1 := layoutsAfterCall_mipBarrier image layouts commandBuffer
      VK_PIPELINE_STAGE_TRANSFER_BIT VK_PIPELINE_STAGE_TRANSFER_BIT 0 (i - 1)
      VK_IMAGE_LAYOUT_TRANSFER_DST_OPTIMAL VK_IMAGE_LAYOUT_TRANSFER_SRC_OPTIMAL
      VK_ACCESS_TRANSFER_WRITE_BIT VK_ACCESS_TRANSFER_READ_BIT
    generalize hL1def : layoutsAfterCall image layouts
      (NativeCall.vkCmdPipelineBarrier commandBuffer
        VK_PIPELINE_STAGE_TRANSFER_BIT VK_PIPELINE_STAGE_TRANSFER_BIT 0
        [mipBarrier image (i - 1) VK_IMAGE_LAYOUT_TRANSFER_DST_OPTIMAL
          VK_IMAGE_LAYOUT_TRANSFER_SRC_OPTIMAL VK_ACCESS_TRANSFER_WRITE_BIT
          VK_ACCESS_TRANSFER_READ_BIT]) = L1 at hL1
    have hL3 := layoutsAfterCall_mipBarrier image L1 commandBuffer
      VK_PIPELINE_STAGE_TRANSFER_BIT VK_PIPELINE_STAGE_FRAGMENT_SHADER_BIT 0 (i - 1)
      VK_IMAGE_LAYOUT_TRANSFER_SRC_OPTIMAL VK_IMAGE_LAYOUT_SHADER_READ_ONLY_OPTIMAL
      VK_ACCESS_TRANSFER_READ_BIT VK_ACCESS_SHADER_READ_BIT
    generalize hL3def : layoutsAfterCall image L1
      (NativeCall.vkCmdPipelineBarrier commandBuffer
        VK_PIPELINE_STAGE_TRANSFER_BIT VK_PIPELINE_STAGE_FRAGMENT_SHADER_BIT 0
        [mipBarrier image (i - 1) VK_IMAGE_LAYOUT_TRANSFER_SRC_OPTIMAL
          VK_IMAGE_LAYOUT_SHADER_READ_ONLY_OPTIMAL VK_ACCESS_TRANSFER_READ_BIT
          VK_ACCESS_SHADER_READ_BIT]) = L3 at hL3
    have hL3below : ∀ l, l < i + 1 - 1 → L3 l = VK_IMAGE_LAYOUT_SHADER_READ_ONLY_OPTIMAL := by
      intro l hl
      rw [hL3]
      by_cases h : l = i - 1
      · rw [if_pos h]
      · rw [if_neg h, hL1, if_neg h]
        exact hbelow l (by omega)
    have hL3from : ∀ l, i + 1 - 1 ≤ l → l < mipLevels →
        L3 l = VK_IMAGE_LAYOUT_TRANSFER_DST_OPTIMAL := by
      intro l hl1 hl2
      have h : l ≠ i - 1 := by omega
      rw [hL3, if_neg h, hL1, if_neg h]
      exact hfrom l (by omega) hl2
    obtain ⟨ih1, ih2, ih3, ih4, ih5⟩ := ih (i + 1)
      (if mipWidth > 1 then mipWidth / 2 else mipWidth)
      (if mipHeight > 1 then mipHeight / 2 else mipHeight) L3 (by omega) (by omega)
      hL3below hL3from
    have hagree1 := callAgreesWithLayouts_mipBarrier image layouts commandBuffer
      VK_PIPELINE_STAGE_TRANSFER_BIT VK_PIPELINE_STAGE_TRANSFER_BIT 0 (i - 1)
      VK_IMAGE_LAYOUT_TRANSFER_DST_OPTIMAL VK_IMAGE_LAYOUT_TRANSFER_SRC_OPTIMAL
      VK_ACCESS_TRANSFER_WRITE_BIT VK_ACCESS_TRANSFER_READ_BIT
      (hfrom (i - 1) (le_refl _) (by omega))
    have hL1src : L1 (i - 1) = VK_IMAGE_LAYOUT_TRANSFER_SRC_OPTIMAL := by
      rw [hL1, if_pos rfl]
    have hL1dst : L1 i = VK_IMAGE_LAYOUT_TRANSFER_DST_OPTIMAL := by
      rw [hL1, if_neg hne]
      exact hfrom i (by omega) (by omega)
    have hagree3 := callAgreesWithLayouts_mipBarrier image L1 commandBuffer
      VK_PIPELINE_STAGE_TRANSFER_BIT VK_PIPELINE_STAGE_FRAGMENT_SHADER_BIT 0 (i - 1)
      VK_IMAGE_LAYOUT_TRANSFER_SRC_OPTIMAL VK_IMAGE_LAYOUT_SHADER_READ_ONLY_OPTIMAL
      VK_ACCESS_TRANSFER_READ_BIT VK_ACCESS_SHADER_READ_BIT hL1src
    refine ⟨?_, ?_, ?_, ?_, ?_⟩
    · rw [callsAgreeWithLayouts_cons, callsAgreeWithLayouts_cons, callsAgreeWithLayouts_cons,
        hagree1, hL1def]
      rw [callAgreesWithLayouts_blit image L1 commandBuffer VK_FILTER_LINEAR _ hL1src hL1dst]
      have hblit : ∀ c, layoutsAfterCall image L1
          (NativeCall.vkCmdBlitImage commandBuffer image VK_IMAGE_LAYOUT_TRANSFER_SRC_OPTIMAL
            image VK_IMAGE_LAYOUT_TRANSFER_DST_OPTIMAL c VK_FILTER_LINEAR) = L1 := fun _ => rfl
      rw [hblit, hagree3, hL3def, ih1]
      rfl
    · intro l hl
      rw [layoutsAfter_cons, layoutsAfter_cons, layoutsAfter_cons, hL1def]
      have hblit : ∀ c, layoutsAfterCall image L1
          (NativeCall.vkCmdBlitImage commandBuffer image VK_IMAGE_LAYOUT_TRANSFER_SRC_OPTIMAL
            image VK_IMAGE_LAYOUT_TRANSFER_DST_OPTIMAL c VK_FILTER_LINEAR) = L1 := fun _ => rfl
      rw [hblit, hL3def]
      exact ih2 l hl
    · rw [layoutsAfter_cons, layoutsAfter_cons, layoutsAfter_cons, hL1def]
      have hblit : ∀ c, layoutsAfterCall image L1
          (NativeCall.vkCmdBlitImage commandBuffer image VK_IMAGE_LAYOUT_TRANSFER_SRC_OPTIMAL
            image VK_IMAGE_LAYOUT_TRANSFER_DST_OPTIMAL c VK_FILTER_LINEAR) = L1 := fun _ => rfl
      rw [hblit, hL3def]
      exact ih3
    · intro l hl
      rw [layoutsAfter_cons, layoutsAfter_cons, layoutsAfter_cons, hL1def]
      have hblit : ∀ c, layoutsAfterCall image L1
          (NativeCall.vkCmdBlitImage commandBuffer image VK_IMAGE_LAYOUT_TRANSFER_SRC_OPTIMAL
            image VK_IMAGE_LAYOUT_TRANSFER_DST_OPTIMAL c VK_FILTER_LINEAR) = L1 := fun _ => rfl
      rw [hblit, hL3def, ih4 l hl]
      have h : l ≠ i - 1 := by omega
      rw [hL3, if_neg h, hL1, if_neg h]
    · intro l
      rw [movesToLayout_cons, movesToLayout_mipBarrier, movesToLayout_cons, movesToLayout_blit,
        movesToLayout_cons, movesToLayout_mipBarrier, ih5 l]
      have hsrc : ¬ (l = i - 1 ∧ VK_IMAGE_LAYOUT_TRANSFER_SRC_OPTIMAL
          = VK_IMAGE_LAYOUT_SHADER_READ_ONLY_OPTIMAL) := by
        intro h
        exact absurd h.2 (by decide)
      rw [if_neg hsrc]
      by_cases h : l = i - 1
      · have h1 : ¬ (i + 1 - 1 ≤ l ∧ l < mipLevels - 1) := by omega
        have h2 : i - 1 ≤ l ∧ l < mipLevels - 1 := by omega
        rw [if_pos ⟨h, rfl⟩, if_neg h1, if_pos h2]
      · have h0 : ¬ (l = i - 1 ∧ VK_IMAGE_LAYOUT_SHADER_READ_ONLY_OPTIMAL
            = VK_IMAGE_LAYOUT_SHADER_READ_ONLY_OPTIMAL) := fun hh => h hh.1
        rw [if_neg h0]
        by_cases h3 : i + 1 - 1 ≤ l ∧ l < mipLevels - 1
        · have h2 : i - 1 ≤ l ∧ l < mipLevels - 1 := by omega
          rw [if_pos h3, if_pos h2]
        · have h2 : ¬ (i - 1 ≤ l ∧ l < mipLevels - 1) := by omega
          rw [if_neg h3, if_neg h2]

end texture

namespace texture

/-- The unsigned 32-bit difference `mipLevels - 1` for `1 ≤ mipLevels`. -/
theorem pred_uint32 (mipLevels : Nat) (hlevels : 1 ≤ mipLevels) (hmax : mipLevels < 2 ^ 32) :
    (mipLevels + (2 ^ 32 - 1)) % 2 ^ 32 = mipLevels - 1 := by
  have h1 : mipLevels + (2 ^ 32 - 1) = (mipLevels - 1) + 1 * 2 ^ 32 := by omega
  rw [h1, Nat.add_mul_mod_self_right]
  exact Nat.mod_eq_of_lt (by omega)

end texture

/-- C18: for `1 ≤ mipLevels` (an unsigned 32-bit value) and an image whose
mip levels `0 .. mipLevels - 1` are all in TRANSFER_DST_OPTIMAL when
`generateMipmaps` starts, in every run that passes the linear-filter test:
each recorded barrier names as `oldLayout` the layout its mip level has at
that point of the command sequence, each blit reads a level then in
TRANSFER_SRC_OPTIMAL and writes a level then in TRANSFER_DST_OPTIMAL; after
the recorded commands every level `0 .. mipLevels - 1` is in
SHADER_READ_ONLY_OPTIMAL, moved to that layout by exactly one barrier; the
levels from `mipLevels` on are left as they were.  When the format lacks
linear filtering the procedure raises and records nothing. -/
theorem generateMipmaps_layout_transitions (optimalTilingFeatures commandPool graphicsQueue
    image imageFormat : Nat) (texWidth texHeight : Int) (mipLevels commandBuffer : Nat)
    (layouts : Nat → Nat) (hlevels : 1 ≤ mipLevels) (hmax : mipLevels < 2 ^ 32)
    (hstart : ∀ l, l < mipLevels → layouts l = VK_IMAGE_LAYOUT_TRANSFER_DST_OPTIMAL) :
    (optimalTilingFeatures &&& VK_FORMAT_FEATURE_SAMPLED_IMAGE_FILTER_LINEAR_BIT ≠ 0 →
      texture.callsAgreeWithLayouts image layouts
          (texture.generateMipmaps optimalTilingFeatures commandPool graphicsQueue image
            imageFormat texWidth texHeight mipLevels commandBuffer).calls = true
      ∧ (∀ l, l < mipLevels →
          texture.layoutsAfter image layouts
              (texture.generateMipmaps optimalTilingFeatures commandPool graphicsQueue image
                imageFormat texWidth texHeight mipLevels commandBuffer).calls l
            = VK_IMAGE_LAYOUT_SHADER_READ_ONLY_OPTIMAL)
      ∧ (∀ l, l < mipLevels →
          texture.movesToLayout image VK_IMAGE_LAYOUT_SHADER_READ_ONLY_OPTIMAL l
              (texture.generateMipmaps optimalTilingFeatures commandPool graphicsQueue image
                imageFormat texWidth texHeight mipLevels commandBuffer).calls = 1)
      ∧ (∀ l, mipLevels ≤ l →
          texture.layoutsAfter image layouts
              (texture.generateMipmaps optimalTilingFeatures commandPool graphicsQueue image
                imageFormat texWidth texHeight mipLevels commandBuffer).calls l
            = layouts l))
    ∧ (optimalTilingFeatures &&& VK_FORMAT_FEATURE_SAMPLED_IMAGE_FILTER_LINEAR_BIT = 0 →
      texture.generateMipmaps optimalTilingFeatures commandPool graphicsQueue image
          imageFormat texWidth texHeight mipLevels commandBuffer
        = ⟨[], Except.error
            (runtimeError "texture image format does not support linear blitting!")⟩) := by
  refine ⟨?_, texture.generateMipmaps_without_linear_filter _ _ _ _ _ _ _ _ _⟩
  intro hlinear
  have hbase := texture.pred_uint32 mipLevels hlevels hmax
  rw [texture.generateMipmaps_calls _ _ _ _ _ _ _ _ _ hlinear, hbase]
  obtain ⟨hl1, hl2, hl3, hl4, hl5⟩ := texture.generateMipmapsLoop_layouts commandBuffer image
    mipLevels (mipLevels - 1) 1 texWidth texHeight layouts (le_refl _) (by omega)
    (fun l hl => absurd hl (by omega)) (fun l _ hl => hstart l hl)
  generalize (texture.generateMipmapsLoop commandBuffer image (mipLevels - 1) 1 texWidth
    texHeight).calls = loopCalls at hl1 hl2 hl3 hl4 hl5
  have hfinalAgree := texture.callAgreesWithLayouts_mipBarrier image
    (texture.layoutsAfter image layouts loopCalls) commandBuffer
    VK_PIPELINE_STAGE_TRANSFER_BIT VK_PIPELINE_STAGE_FRAGMENT_SHADER_BIT 0 (mipLevels - 1)
    VK_IMAGE_LAYOUT_TRANSFER_DST_OPTIMAL VK_IMAGE_LAYOUT_SHADER_READ_ONLY_OPTIMAL
    VK_ACCESS_TRANSFER_WRITE_BIT VK_ACCESS_SHADER_READ_BIT hl3
  have hfinalLayouts := texture.layoutsAfterCall_mipBarrier image
    (texture.layoutsAfter image layouts loopCalls) commandBuffer
    VK_PIPELINE_STAGE_TRANSFER_BIT VK_PIPELINE_STAGE_FRAGMENT_SHADER_BIT 0 (mipLevels - 1)
    VK_IMAGE_LAYOUT_TRANSFER_DST_OPTIMAL VK_IMAGE_LAYOUT_SHADER_READ_ONLY_OPTIMAL
    VK_ACCESS_TRANSFER_WRITE_BIT VK_ACCESS_SHADER_READ_BIT
  have hafter : ∀ l,
      texture.layoutsAfter image layouts
        ([NativeCall.vkAllocateCommandBuffers
              { commandPool := commandPool, level := VK_COMMAND_BUFFER_LEVEL_PRIMARY,
                commandBufferCount := 1 } commandBuffer,
            NativeCall.vkBeginCommandBuffer commandBuffer
              VK_COMMAND_BUFFER_USAGE_ONE_TIME_SUBMIT_BIT]
          ++ loopCalls
          ++ [NativeCall.vkCmdPipelineBarrier commandBuffer
                VK_PIPELINE_STAGE_TRANSFER_BIT VK_PIPELINE_STAGE_FRAGMENT_SHADER_BIT 0
                [texture.mipBarrier image (mipLevels - 1)
                  VK_IMAGE_LAYOUT_TRANSFER_DST_OPTIMAL VK_IMAGE_LAYOUT_SHADER_READ_ONLY_OPTIMAL
                  VK_ACCESS_TRANSFER_WRITE_BIT VK_ACCESS_SHADER_READ_BIT],
              NativeCall.vkEndCommandBuffer commandBuffer,
              NativeCall.vkQueueSubmit graphicsQueue [commandBuffer] VK_NULL_HANDLE,
              NativeCall.vkQueueWaitIdle graphicsQueue,
              NativeCall.vkFreeCommandBuffers commandPool [commandBuffer]]) l
        = if l = mipLevels - 1 then VK_IMAGE_LAYOUT_SHADER_READ_ONLY_OPTIMAL
          else texture.layoutsAfter image layouts loopCalls l := by
    intro l
    rw [texture.layoutsAfter_append, texture.layoutsAfter_append, ← hfinalLayouts l]
    rfl
  refine ⟨?_, ?_, ?_, ?_⟩
  · rw [texture.callsAgreeWithLayouts_append, texture.callsAgreeWithLayouts_append]
    have hpre : texture.layoutsAfter image layouts
        [NativeCall.vkAllocateCommandBuffers
            { commandPool := commandPool, level := VK_COMMAND_BUFFER_LEVEL_PRIMARY,
              commandBufferCount := 1 } commandBuffer,
          NativeCall.vkBeginCommandBuffer commandBuffer
            VK_COMMAND_BUFFER_USAGE_ONE_TIME_SUBMIT_BIT] = layouts := rfl
    have hpreAgree : texture.callsAgreeWithLayouts image layouts
        [NativeCall.vkAllocateCommandBuffers
            { commandPool := commandPool, level := VK_COMMAND_BUFFER_LEVEL_PRIMARY,
              commandBufferCount := 1 } commandBuffer,
          NativeCall.vkBeginCommandBuffer commandBuffer
            VK_COMMAND_BUFFER_USAGE_ONE_TIME_SUBMIT_BIT] = true := rfl
    have hpostAgree : texture.callsAgreeWithLayouts image
        (texture.layoutsAfter image layouts loopCalls)
        [NativeCall.vkCmdPipelineBarrier commandBuffer
            VK_PIPELINE_STAGE_TRANSFER_BIT VK_PIPELINE_STAGE_FRAGMENT_SHADER_BIT 0
            [texture.mipBarrier image (mipLevels - 1)
              VK_IMAGE_LAYOUT_TRANSFER_DST_OPTIMAL VK_IMAGE_LAYOUT_SHADER_READ_ONLY_OPTIMAL
              VK_ACCESS_TRANSFER_WRITE_BIT VK_ACCESS_SHADER_READ_BIT],
          NativeCall.vkEndCommandBuffer commandBuffer,
          NativeCall.vkQueueSubmit graphicsQueue [commandBuffer] VK_NULL_HANDLE,
          NativeCall.vkQueueWaitIdle graphicsQueue,
          NativeCall.vkFreeCommandBuffers commandPool [commandBuffer]] = true := by
      rw [texture.callsAgreeWithLayouts_cons, hfinalAgree]
      rfl
    rw [texture.layoutsAfter_append, hpre, hpreAgree, hl1, hpostAgree]
    rfl
  · intro l hl
    rw [hafter]
    by_cases h : l = mipLevels - 1
    · rw [if_pos h]
    · rw [if_neg h]
      exact hl2 l (by omega)
  · intro l hl
    have hpre : texture.movesToLayout image VK_IMAGE_LAYOUT_SHADER_READ_ONLY_OPTIMAL l
        [NativeCall.vkAllocateCommandBuffers
            { commandPool := commandPool, level := VK_COMMAND_BUFFER_LEVEL_PRIMARY,
              commandBufferCount := 1 } commandBuffer,
          NativeCall.vkBeginCommandBuffer commandBuffer
            VK_COMMAND_BUFFER_USAGE_ONE_TIME_SUBMIT_BIT] = 0 := rfl
    have hpost : texture.movesToLayout image VK_IMAGE_LAYOUT_SHADER_READ_ONLY_OPTIMAL l
        [NativeCall.vkCmdPipelineBarrier commandBuffer
            VK_PIPELINE_STAGE_TRANSFER_BIT VK_PIPELINE_STAGE_FRAGMENT_SHADER_BIT 0
            [texture.mipBarrier image (mipLevels - 1)
              VK_IMAGE_LAYOUT_TRANSFER_DST_OPTIMAL VK_IMAGE_LAYOUT_SHADER_READ_ONLY_OPTIMAL
              VK_ACCESS_TRANSFER_WRITE_BIT VK_ACCESS_SHADER_READ_BIT],
          NativeCall.vkEndCommandBuffer commandBuffer,
          NativeCall.vkQueueSubmit graphicsQueue [commandBuffer] VK_NULL_HANDLE,
          NativeCall.vkQueueWaitIdle graphicsQueue,
          NativeCall.vkFreeCommandBuffers commandPool [commandBuffer]]
        = if l = mipLevels - 1 ∧ VK_IMAGE_LAYOUT_SHADER_READ_ONLY_OPTIMAL
            = VK_IMAGE_LAYOUT_SHADER_READ_ONLY_OPTIMAL then 1 else 0 := by
      rw [texture.movesToLayout_cons, texture.movesToLayout_mipBarrier]
      rfl
    rw [texture.movesToLayout_append, texture.movesToLayout_append, hl5 l, hpre, hpost]
    by_cases h : l = mipLevels - 1
    · have h1 : ¬ (1 - 1 ≤ l ∧ l < mipLevels - 1) := by omega
      rw [if_neg h1, if_pos ⟨h, rfl⟩]
    · have h1 : 1 - 1 ≤ l ∧ l < mipLevels - 1 := by omega
      have h2 : ¬ (l = mipLevels - 1 ∧ VK_IMAGE_LAYOUT_SHADER_READ_ONLY_OPTIMAL
          = VK_IMAGE_LAYOUT_SHADER_READ_ONLY_OPTIMAL) := fun hh => h hh.1
      rw [if_pos h1, if_neg h2]
  · intro l hl
    rw [hafter]
    have h : l ≠ mipLevels - 1 := by omega
    rw [if_neg h]
    exact hl4 l hl

/-- C18, at an image of three mip levels, all in TRANSFER_DST_OPTIMAL. -/
theorem generateMipmaps_layout_transitions_witness :
    1 ≤ 3 ∧ 3 < 2 ^ 32
    ∧ (∀ l, l < 3 → (fun _ => VK_IMAGE_LAYOUT_TRANSFER_DST_OPTIMAL : Nat → Nat) l
        = VK_IMAGE_LAYOUT_TRANSFER_DST_OPTIMAL)
    ∧ 0x1000 &&& VK_FORMAT_FEATURE_SAMPLED_IMAGE_FILTER_LINEAR_BIT ≠ 0
    ∧ texture.callsAgreeWithLayouts 3 (fun _ => VK_IMAGE_LAYOUT_TRANSFER_DST_OPTIMAL)
        (texture.generateMipmaps 0x1000 1 2 3 VK_FORMAT_R8G8B8A8_SRGB 5 3 3 9).calls = true :=
  ⟨by decide, by decide, fun _ _ => rfl, by decide,
    ((generateMipmaps_layout_transitions 0x1000 1 2 3 VK_FORMAT_R8G8B8A8_SRGB 5 3 3 9
        (fun _ => VK_IMAGE_LAYOUT_TRANSFER_DST_OPTIMAL) (by decide) (by decide)
        (fun _ _ => rfl)).1 (by decide)).1⟩


/-! ## Mipmap generation: extents of the mip levels -/

namespace texture

theorem mipExtent_zero (x : Nat) (hx : 1 ≤ x) : mipExtent x 0 = x := by
  unfold mipExtent
  simp
  omega

theorem mipExtent_pos (x level : Nat) : 1 ≤ mipExtent x level := by
  unfold mipExtent
  exact le_max_left _ _

/-- Each level is the previous one halved, never below 1. -/
theorem mipExtent_succ (x level : Nat) :
    mipExtent x (level + 1) = max 1 (mipExtent x level / 2) := by
  unfold mipExtent
  rw [pow_succ, ← Nat.div_div_eq_div_mul]
  by_cases h : 1 ≤ x / 2 ^ level
  · rw [max_eq_right h]
  · have h0 : x / 2 ^ level = 0 := Nat.lt_one_iff.mp (not_le.mp h)
    rw [h0]
    simp

/-- The update `if (mipWidth > 1) mipWidth /= 2` of the loop. -/
theorem halve_extent (m : Nat) (hm : 1 ≤ m) :
    (if (m : Int) > 1 then (m : Int) / 2 else (m : Int)) = ((max 1 (m / 2) : Nat) : Int) := by
  by_cases h : 1 < m
  · have h1 : (m : Int) > 1 := by exact_mod_cast h
    rw [if_pos h1]
    have h2 : max 1 (m / 2) = m / 2 := max_eq_right (by omega)
    rw [h2]
    norm_cast
  · have h1 : ¬ ((m : Int) > 1) := by
      intro hh
      exact h (by exact_mod_cast hh)
    rw [if_neg h1]
    have hm1 : m = 1 := by omega
    subst hm1
    rfl

/-- The expression `mipWidth > 1 ? mipWidth / 2 : 1` of the blit. -/
theorem halve_extent_or_one (m : Nat) (hm : 1 ≤ m) :
    (if (m : Int) > 1 then (m : Int) / 2 else 1) = ((max 1 (m / 2) : Nat) : Int) := by
  rw [← halve_extent m hm]
  by_cases h : (m : Int) > 1
  · rw [if_pos h, if_pos h]
  · rw [if_neg h, if_neg h]
    have : m = 1 := by
      have : ¬ (1 < m) := fun hh => h (by exact_mod_cast hh)
      omega
    subst this
    rfl

theorem blits_cons_barrier (commandBuffer srcStageMask dstStageMask dependencyFlags : Nat)
    (barriers : List VkImageMemoryBarrier) (calls : List NativeCall) :
    blits (NativeCall.vkCmdPipelineBarrier commandBuffer srcStageMask dstStageMask
        dependencyFlags barriers :: calls) = blits calls := rfl

theorem blits_cons_blit (commandBuffer srcImage srcImageLayout dstImage dstImageLayout
    filter : Nat) (regions : List VkImageBlit) (calls : List NativeCall) :
    blits (NativeCall.vkCmdBlitImage commandBuffer srcImage srcImageLayout dstImage
        dstImageLayout regions filter :: calls)
      = NativeCall.vkCmdBlitImage commandBuffer srcImage srcImageLayout dstImage
          dstImageLayout regions filter :: blits calls := rfl

theorem blits_append (xs ys : List NativeCall) : blits (xs ++ ys) = blits xs ++ blits ys := by
  unfold blits
  rw [List.filter_append]

/-- The blits recorded by the loop of `generateMipmaps` entered at level `i`
with the extent of level `i - 1`, and the extent it ends with. -/
theorem generateMipmapsLoop_blits (commandBuffer image texWidth texHeight : Nat) :
    ∀ (remaining i : Nat), 1 ≤ i →
      blits (generateMipmapsLoop commandBuffer image remaining i
          ((mipExtent texWidth (i - 1) : Nat) : Int)
          ((mipExtent texHeight (i - 1) : Nat) : Int)).calls
        = (List.range remaining).map (fun k =>
            NativeCall.vkCmdBlitImage commandBuffer
              image VK_IMAGE_LAYOUT_TRANSFER_SRC_OPTIMAL
              image VK_IMAGE_LAYOUT_TRANSFER_DST_OPTIMAL
              [mipBlit texWidth texHeight (i + k)] VK_FILTER_LINEAR)
      ∧ (generateMipmapsLoop commandBuffer image remaining i
          ((mipExtent texWidth (i - 1) : Nat) : Int)
          ((mipExtent texHeight (i - 1) : Nat) : Int)).outcome
        = Except.ok (((mipExtent texWidth (i - 1 + remaining) : Nat) : Int),
            ((mipExtent texHeight (i - 1 + remaining) : Nat) : Int)) := by
  intro remaining
  induction remaining with
  | zero =>
    intro i _
    exact ⟨rfl, rfl⟩
  | succ n ih =>
    intro i hi
    have hsucc : i - 1 + 1 = i := by omega
    have hw := halve_extent (mipExtent texWidth (i - 1)) (mipExtent_pos _ _)
    have hh := halve_extent (mipExtent texHeight (i - 1)) (mipExtent_pos _ _)
    have hw1 := halve_extent_or_one (mipExtent texWidth (i - 1)) (mipExtent_pos _ _)
    have hh1 := halve_extent_or_one (mipExtent texHeight (i - 1)) (mipExtent_pos _ _)
    rw [← mipExtent_succ, hsucc] at hw hh hw1 hh1
    obtain ⟨ih1, ih2⟩ := ih (i + 1) (by omega)
    rw [Nat.add_sub_cancel] at ih1 ih2
    constructor
    · rw [generateMipmapsLoop_calls_succ, blits_cons_barrier, blits_cons_blit,
        blits_cons_barrier, hw, hh, hw1, hh1, ih1, List.range_succ_eq_map, List.map_cons,
        List.map_map]
      congr 1
      apply List.map_congr_left
      intro k _
      have : i + 1 + k = i + (k + 1) := by omega
      simp only [Function.comp, Nat.succ_eq_add_one, this]
    · unfold generateMipmapsLoop
      simp only [Run.outcome_call_bind]
      rw [hw, hh, ih2]
      have : i + n = i - 1 + (n + 1) := by omega
      rw [this]

theorem generateMipmaps_blits (optimalTilingFeatures commandPool graphicsQueue image
    imageFormat texWidth texHeight mipLevels commandBuffer : Nat)
    (hw : 1 ≤ texWidth) (hh : 1 ≤ texHeight)
    (hlinear : optimalTilingFeatures &&& VK_FORMAT_FEATURE_SAMPLED_IMAGE_FILTER_LINEAR_BIT ≠ 0) :
    blits (generateMipmaps optimalTilingFeatures commandPool graphicsQueue image imageFormat
        (texWidth : Int) (texHeight : Int) mipLevels commandBuffer).calls
      = (List.range (mipLevels - 1)).map (fun k =>
          NativeCall.vkCmdBlitImage commandBuffer
            image VK_IMAGE_LAYOUT_TRANSFER_SRC_OPTIMAL
            image VK_IMAGE_LAYOUT_TRANSFER_DST_OPTIMAL
            [mipBlit texWidth texHeight (1 + k)] VK_FILTER_LINEAR) := by
  rw [generateMipmaps_calls _ _ _ _ _ _ _ _ _ hlinear, blits_append, blits_append]
  have h := (generateMipmapsLoop_blits commandBuffer image texWidth texHeight (mipLevels - 1) 1
    (le_refl _)).1
  rw [Nat.sub_self, mipExtent_zero _ hw, mipExtent_zero _ hh] at h
  rw [h]
  have hpre : ∀ a b, blits [NativeCall.vkAllocateCommandBuffers a commandBuffer,
      NativeCall.vkBeginCommandBuffer commandBuffer b] = [] := fun _ _ => rfl
  rw [hpre]
  simp [blits]

end texture

/-- C19: for `texWidth ≥ 1`, `texHeight ≥ 1` and `mipLevels ≥ 1`, in every
run that passes the linear-filter test `generateMipmaps` records exactly
`mipLevels - 1` blits, and the `i`-th of them, for `1 ≤ i < mipLevels`, reads
mip level `i - 1` over the extent `max(1, texWidth / 2^(i-1))` by
`max(1, texHeight / 2^(i-1))` and writes mip level `i` over the extent
`max(1, texWidth / 2^i)` by `max(1, texHeight / 2^i)`; each level is the
previous one halved in each dimension, never below 1.  When the format lacks
linear filtering the procedure raises and records nothing. -/
theorem generateMipmaps_blit_chain (optimalTilingFeatures commandPool graphicsQueue image
    imageFormat texWidth texHeight mipLevels commandBuffer : Nat)
    (hw : 1 ≤ texWidth) (hh : 1 ≤ texHeight) (_ : 1 ≤ mipLevels) :
    (optimalTilingFeatures &&& VK_FORMAT_FEATURE_SAMPLED_IMAGE_FILTER_LINEAR_BIT ≠ 0 →
      (texture.blits (texture.generateMipmaps optimalTilingFeatures commandPool graphicsQueue
          image imageFormat (texWidth : Int) (texHeight : Int) mipLevels
          commandBuffer).calls).length = mipLevels - 1
      ∧ ∀ i, 1 ≤ i → i < mipLevels →
        (texture.blits (texture.generateMipmaps optimalTilingFeatures commandPool
            graphicsQueue image imageFormat (texWidth : Int) (texHeight : Int) mipLevels
            commandBuffer).calls)[i - 1]?
          = some (NativeCall.vkCmdBlitImage commandBuffer
              image VK_IMAGE_LAYOUT_TRANSFER_SRC_OPTIMAL
              image VK_IMAGE_LAYOUT_TRANSFER_DST_OPTIMAL
              [{ srcSubresource :=
                   { aspectMask := VK_IMAGE_ASPECT_COLOR_BIT, mipLevel := i - 1,
                     baseArrayLayer := 0, layerCount := 1 }
                 srcOffsets0 := { x := 0, y := 0, z := 0 }
                 srcOffsets1 :=
                   { x := ((max 1 (texWidth / 2 ^ (i - 1)) : Nat) : Int)
                     y := ((max 1 (texHeight / 2 ^ (i - 1)) : Nat) : Int)
                     z := 1 }
                 dstSubresource :=
                   { aspectMask := VK_IMAGE_ASPECT_COLOR_BIT, mipLevel := i,
                     baseArrayLayer := 0, layerCount := 1 }
                 dstOffsets0 := { x := 0, y := 0, z := 0 }
                 dstOffsets1 :=
                   { x := ((max 1 (texWidth / 2 ^ i) : Nat) : Int)
                     y := ((max 1 (texHeight / 2 ^ i) : Nat) : Int)
                     z := 1 } }]
              VK_FILTER_LINEAR))
    ∧ (∀ x level, max 1 (x / 2 ^ (level + 1)) = max 1 (max 1 (x / 2 ^ level) / 2))
    ∧ (optimalTilingFeatures &&& VK_FORMAT_FEATURE_SAMPLED_IMAGE_FILTER_LINEAR_BIT = 0 →
      texture.generateMipmaps optimalTilingFeatures commandPool graphicsQueue image
          imageFormat (texWidth : Int) (texHeight : Int) mipLevels commandBuffer
        = ⟨[], Except.error
            (runtimeError "texture image format does not support linear blitting!")⟩) := by
  refine ⟨?_, fun x level => texture.mipExtent_succ x level,
    texture.generateMipmaps_without_linear_filter _ _ _ _ _ _ _ _ _⟩
  intro hlinear
  rw [texture.generateMipmaps_blits _ _ _ _ _ _ _ _ _ hw hh hlinear]
  refine ⟨by simp, ?_⟩
  intro i hi1 hi2
  rw [List.getElem?_map, List.getElem?_range (by omega)]
  have : 1 + (i - 1) = i := by omega
  simp only [Option.map_some', this]
  rfl

/-- C19, at a 5 by 3 image with three mip levels: the second blit reads
level 1 over 2 by 1 and writes level 2 over 1 by 1. -/
theorem generateMipmaps_blit_chain_witness :
    1 ≤ 5 ∧ 1 ≤ 3 ∧ 0x1000 &&& VK_FORMAT_FEATURE_SAMPLED_IMAGE_FILTER_LINEAR_BIT ≠ 0
    ∧ (texture.blits (texture.generateMipmaps 0x1000 1 2 3 VK_FORMAT_R8G8B8A8_SRGB
        ((5 : Nat) : Int) ((3 : Nat) : Int) 3 9).calls).length = 3 - 1 :=
  ⟨by decide, by decide, by decide,
    ((generateMipmaps_blit_chain 0x1000 1 2 3 VK_FORMAT_R8G8B8A8_SRGB 5 3 3 9 (by decide)
      (by decide) (by decide)).1 (by decide)).1⟩

namespace texture

theorem mipExtent_last (x y : Nat) (hxy : x ≤ y) :
    mipExtent x (Nat.log 2 y) = 1 := by
  unfold mipExtent
  have hlt : y < 2 ^ (Nat.log 2 y + 1) := Nat.lt_pow_succ_log_self (by norm_num) y
  have h2 : x / 2 ^ Nat.log 2 y < 2 := by
    rw [Nat.div_lt_iff_lt_mul (by positivity)]
    rw [pow_succ] at hlt
    omega
  omega

theorem mipExtent_before_last (y level : Nat) (hy : 1 ≤ y) (hlevel : level < Nat.log 2 y) :
    2 ≤ mipExtent y level := by
  unfold mipExtent
  have hle : 2 ^ Nat.log 2 y ≤ y := Nat.pow_log_le_self 2 (by omega)
  have hpow : 2 ^ (level + 1) ≤ 2 ^ Nat.log 2 y :=
    Nat.pow_le_pow_right (by norm_num) hlevel
  have h2 : 2 ≤ y / 2 ^ level := by
    rw [Nat.le_div_iff_mul_le (by positivity)]
    rw [pow_succ] at hpow
    omega
  exact le_trans h2 (le_max_right _ _)

end texture

/-- C20: for a texture of width `w ≥ 1` and height `h ≥ 1` (values of an
`int`) and the mip level count `createTextureImage` computes from them, the
extent `generateMipmaps` reaches for the last level is 1 by 1, the loop
ending with `mipWidth = mipHeight = 1`, and no earlier level has the extent
1 by 1; the blits recorded in a run that passes the linear-filter test are
those of this chain, level `k` having the extent `max(1, w / 2^k)` by
`max(1, h / 2^k)`. -/
theorem generateMipmaps_chain_ends_at_one_by_one (w h : Nat) (hw : 1 ≤ w) (hh : 1 ≤ h)
    (hwmax : w < 2 ^ 31) (hhmax : h < 2 ^ 31)
    (optimalTilingFeatures commandPool graphicsQueue image imageFormat commandBuffer : Nat) :
    (texture.generateMipmapsLoop commandBuffer image
        (texture.mipLevels (w : Int) (h : Int) - 1) 1 (w : Int) (h : Int)).outcome
      = Except.ok (1, 1)
    ∧ texture.mipExtent w (texture.mipLevels (w : Int) (h : Int) - 1) = 1
    ∧ texture.mipExtent h (texture.mipLevels (w : Int) (h : Int) - 1) = 1
    ∧ (∀ level, level < texture.mipLevels (w : Int) (h : Int) - 1 →
        ¬ (texture.mipExtent w level = 1 ∧ texture.mipExtent h level = 1))
    ∧ (optimalTilingFeatures &&& VK_FORMAT_FEATURE_SAMPLED_IMAGE_FILTER_LINEAR_BIT ≠ 0 →
        texture.blits (texture.generateMipmaps optimalTilingFeatures commandPool graphicsQueue
            image imageFormat (w : Int) (h : Int) (texture.mipLevels (w : Int) (h : Int))
            commandBuffer).calls
          = (List.range (texture.mipLevels (w : Int) (h : Int) - 1)).map (fun k =>
              NativeCall.vkCmdBlitImage commandBuffer
                image VK_IMAGE_LAYOUT_TRANSFER_SRC_OPTIMAL
                image VK_IMAGE_LAYOUT_TRANSFER_DST_OPTIMAL
                [texture.mipBlit w h (1 + k)] VK_FILTER_LINEAR)) := by
  have hlog := texture.mipLevels_eq_log w h hw hwmax hhmax
  have hL : texture.mipLevels (w : Int) (h : Int) - 1 = Nat.log 2 (max w h) := by
    rw [hlog, Nat.add_sub_cancel]
  have hwlast : texture.mipExtent w (Nat.log 2 (max w h)) = 1 :=
    texture.mipExtent_last w (max w h) (le_max_left _ _)
  have hhlast : texture.mipExtent h (Nat.log 2 (max w h)) = 1 :=
    texture.mipExtent_last h (max w h) (le_max_right _ _)
  rw [hL]
  refine ⟨?_, hwlast, hhlast, ?_, ?_⟩
  · have hloop := (texture.generateMipmapsLoop_blits commandBuffer image w h
      (Nat.log 2 (max w h)) 1 (le_refl _)).2
    rw [Nat.sub_self, texture.mipExtent_zero _ hw, texture.mipExtent_zero _ hh, Nat.zero_add,
      hwlast, hhlast] at hloop
    exact hloop
  · intro level hlevel hboth
    have h2 := texture.mipExtent_before_last (max w h) level (by omega) hlevel
    rcases le_total w h with hle | hle
    · rw [max_eq_right hle] at h2
      omega
    · rw [max_eq_left hle] at h2
      omega
  · intro hlinear
    rw [texture.generateMipmaps_blits _ _ _ _ _ _ _ _ _ hw hh hlinear, hL]

/-- C20, at a 1024 by 600 texture: eleven levels, the last one 1 by 1. -/
theorem generateMipmaps_chain_ends_at_one_by_one_witness :
    1 ≤ 1024 ∧ 1 ≤ 600 ∧ 1024 < 2 ^ 31 ∧ 600 < 2 ^ 31
    ∧ texture.mipExtent 1024 (texture.mipLevels ((1024 : Nat) : Int) ((600 : Nat) : Int) - 1) = 1
    ∧ texture.mipExtent 600 (texture.mipLevels ((1024 : Nat) : Int) ((600 : Nat) : Int) - 1) = 1 :=
  ⟨by decide, by decide, by decide, by decide,
    (generateMipmaps_chain_ends_at_one_by_one 1024 600 (by decide) (by decide) (by decide)
      (by decide) 0x1000 1 2 3 VK_FORMAT_R8G8B8A8_SRGB 9).2.1,
    (generateMipmaps_chain_ends_at_one_by_one 1024 600 (by decide) (by decide) (by decide)
      (by decide) 0x1000 1 2 3 VK_FORMAT_R8G8B8A8_SRGB 9).2.2.1⟩

/-! ## The two layout transitions -/

namespace texture

theorem barrierCovers_transitionBarrier (image oldLayout newLayout mipLevels srcAccessMask
    dstAccessMask level : Nat) :
    barrierCovers (transitionBarrier image oldLayout newLayout mipLevels srcAccessMask
      dstAccessMask) level = true ↔ level < mipLevels := by
  simp [barrierCovers, transitionBarrier]

theorem transitionImageLayout_ok_iff (commandPool graphicsQueue image format oldLayout
    newLayout mipLevels commandBuffer : Nat) :
    (transitionImageLayout commandPool graphicsQueue image format oldLayout newLayout mipLevels
        commandBuffer).outcome = Except.ok ()
      ↔ ((oldLayout = VK_IMAGE_LAYOUT_UNDEFINED
            ∧ newLayout = VK_IMAGE_LAYOUT_TRANSFER_DST_OPTIMAL)
          ∨ (oldLayout = VK_IMAGE_LAYOUT_TRANSFER_DST_OPTIMAL
            ∧ newLayout = VK_IMAGE_LAYOUT_SHADER_READ_ONLY_OPTIMAL)) := by
  constructor
  · intro h
    by_contra hne
    rw [not_or] at hne
    have herr := (transitionImageLayout_error_iff commandPool graphicsQueue image format
      oldLayout newLayout mipLevels commandBuffer
      (invalidArgument "unsupported layout transition!")).mpr ⟨hne.1, hne.2, rfl⟩
    rw [h] at herr
    cases herr
  · intro h
    cases hout : (transitionImageLayout commandPool graphicsQueue image format oldLayout
        newLayout mipLevels commandBuffer).outcome with
    | error e =>
      rw [transitionImageLayout_error_iff] at hout
      rcases h with h | h
      · exact absurd h hout.1
      · exact absurd h hout.2.1
    | ok u => rfl

end texture

/-- C21: `transitionImageLayout` returns normally for exactly two pairs of
layouts.  From UNDEFINED to TRANSFER_DST_OPTIMAL it records exactly one
pipeline barrier, from stage top-of-pipe to stage transfer, with exactly one
image barrier that has empty source access and transfer-write destination
access; from TRANSFER_DST_OPTIMAL to SHADER_READ_ONLY_OPTIMAL it records
exactly one pipeline barrier, from stage transfer to stage fragment-shader,
with exactly one image barrier that has transfer-write source access and
shader-read destination access.  In both the image barrier is on the colour
aspect and covers exactly the mip levels below `mipLevels`, and the recording
is submitted once.  For every other pair the procedure raises "unsupported
layout transition!", having recorded no barrier and submitted nothing. -/
theorem transitionImageLayout_two_transitions (commandPool graphicsQueue image format oldLayout
    newLayout mipLevels commandBuffer : Nat) :
    ((texture.transitionImageLayout commandPool graphicsQueue image format oldLayout newLayout
          mipLevels commandBuffer).outcome = Except.ok ()
        ↔ ((oldLayout = VK_IMAGE_LAYOUT_UNDEFINED
              ∧ newLayout = VK_IMAGE_LAYOUT_TRANSFER_DST_OPTIMAL)
            ∨ (oldLayout = VK_IMAGE_LAYOUT_TRANSFER_DST_OPTIMAL
              ∧ newLayout = VK_IMAGE_LAYOUT_SHADER_READ_ONLY_OPTIMAL)))
    ∧ (oldLayout = VK_IMAGE_LAYOUT_UNDEFINED
          ∧ newLayout = VK_IMAGE_LAYOUT_TRANSFER_DST_OPTIMAL →
        texture.pipelineBarriers
            (texture.transitionImageLayout commandPool graphicsQueue image format oldLayout
              newLayout mipLevels commandBuffer).calls
          = [NativeCall.vkCmdPipelineBarrier commandBuffer VK_PIPELINE_STAGE_TOP_OF_PIPE_BIT
              VK_PIPELINE_STAGE_TRANSFER_BIT 0
              [texture.transitionBarrier image VK_IMAGE_LAYOUT_UNDEFINED
                VK_IMAGE_LAYOUT_TRANSFER_DST_OPTIMAL mipLevels 0 VK_ACCESS_TRANSFER_WRITE_BIT]]
        ∧ commandbuffer.submits
            (texture.transitionImageLayout commandPool graphicsQueue image format oldLayout
              newLayout mipLevels commandBuffer).calls
          = [NativeCall.vkQueueSubmit graphicsQueue [commandBuffer] VK_NULL_HANDLE])
    ∧ (oldLayout = VK_IMAGE_LAYOUT_TRANSFER_DST_OPTIMAL
          ∧ newLayout = VK_IMAGE_LAYOUT_SHADER_READ_ONLY_OPTIMAL →
        texture.pipelineBarriers
            (texture.transitionImageLayout commandPool graphicsQueue image format oldLayout
              newLayout mipLevels commandBuffer).calls
          = [NativeCall.vkCmdPipelineBarrier commandBuffer VK_PIPELINE_STAGE_TRANSFER_BIT
              VK_PIPELINE_STAGE_FRAGMENT_SHADER_BIT 0
              [texture.transitionBarrier image VK_IMAGE_LAYOUT_TRANSFER_DST_OPTIMAL
                VK_IMAGE_LAYOUT_SHADER_READ_ONLY_OPTIMAL mipLevels VK_ACCESS_TRANSFER_WRITE_BIT
                VK_ACCESS_SHADER_READ_BIT]]
        ∧ commandbuffer.submits
            (texture.transitionImageLayout commandPool graphicsQueue image format oldLayout
              newLayout mipLevels commandBuffer).calls
          = [NativeCall.vkQueueSubmit graphicsQueue [commandBuffer] VK_NULL_HANDLE])
    ∧ (∀ srcAccessMask dstAccessMask : Nat,
        (texture.transitionBarrier image oldLayout newLayout mipLevels srcAccessMask
            dstAccessMask).subresourceRange.aspectMask = VK_IMAGE_ASPECT_COLOR_BIT
        ∧ ∀ level : Nat,
            texture.barrierCovers (texture.transitionBarrier image oldLayout newLayout mipLevels
              srcAccessMask dstAccessMask) level = true ↔ level < mipLevels)
    ∧ (¬ (oldLayout = VK_IMAGE_LAYOUT_UNDEFINED
            ∧ newLayout = VK_IMAGE_LAYOUT_TRANSFER_DST_OPTIMAL) →
        ¬ (oldLayout = VK_IMAGE_LAYOUT_TRANSFER_DST_OPTIMAL
            ∧ newLayout = VK_IMAGE_LAYOUT_SHADER_READ_ONLY_OPTIMAL) →
        (texture.transitionImageLayout commandPool graphicsQueue image format oldLayout
            newLayout mipLevels commandBuffer).outcome
          = Except.error (invalidArgument "unsupported layout transition!")
        ∧ texture.pipelineBarriers
            (texture.transitionImageLayout commandPool graphicsQueue image format oldLayout
              newLayout mipLevels commandBuffer).calls = []
        ∧ commandbuffer.submits
            (texture.transitionImageLayout commandPool graphicsQueue image format oldLayout
              newLayout mipLevels commandBuffer).calls = []) := by
  refine ⟨texture.transitionImageLayout_ok_iff _ _ _ _ _ _ _ _, ?_, ?_, ?_, ?_⟩
  · rintro ⟨h1, h2⟩
    subst h1 h2
    rw [texture.transitionImageLayout_calls_undefined_to_transfer_dst]
    exact ⟨rfl, rfl⟩
  · rintro ⟨h1, h2⟩
    subst h1 h2
    rw [texture.transitionImageLayout_calls_transfer_dst_to_shader_read]
    exact ⟨rfl, rfl⟩
  · intro srcAccessMask dstAccessMask
    exact ⟨rfl, fun level => texture.barrierCovers_transitionBarrier _ _ _ _ _ _ _⟩
  · intro h1 h2
    rw [texture.transitionImageLayout_calls_unsupported _ _ _ _ _ _ _ _ h1 h2]
    refine ⟨?_, rfl, rfl⟩
    exact (texture.transitionImageLayout_error_iff _ _ _ _ _ _ _ _ _).mpr ⟨h1, h2, rfl⟩

/-- C21, at the transition of an eleven-level image from TRANSFER_DST_OPTIMAL
to SHADER_READ_ONLY_OPTIMAL, and at the unsupported transition from UNDEFINED
to SHADER_READ_ONLY_OPTIMAL. -/
theorem transitionImageLayout_two_transitions_witness :
    (texture.pipelineBarriers
        (texture.transitionImageLayout 1 2 3 VK_FORMAT_R8G8B8A8_SRGB
          VK_IMAGE_LAYOUT_TRANSFER_DST_OPTIMAL VK_IMAGE_LAYOUT_SHADER_READ_ONLY_OPTIMAL 11
          9).calls
      = [NativeCall.vkCmdPipelineBarrier 9 VK_PIPELINE_STAGE_TRANSFER_BIT
          VK_PIPELINE_STAGE_FRAGMENT_SHADER_BIT 0
          [texture.transitionBarrier 3 VK_IMAGE_LAYOUT_TRANSFER_DST_OPTIMAL
            VK_IMAGE_LAYOUT_SHADER_READ_ONLY_OPTIMAL 11 VK_ACCESS_TRANSFER_WRITE_BIT
            VK_ACCESS_SHADER_READ_BIT]])
    ∧ texture.pipelineBarriers
        (texture.transitionImageLayout 1 2 3 VK_FORMAT_R8G8B8A8_SRGB VK_IMAGE_LAYOUT_UNDEFINED
          VK_IMAGE_LAYOUT_SHADER_READ_ONLY_OPTIMAL 11 9).calls = [] :=
  ⟨((transitionImageLayout_two_transitions 1 2 3 VK_FORMAT_R8G8B8A8_SRGB
      VK_IMAGE_LAYOUT_TRANSFER_DST_OPTIMAL VK_IMAGE_LAYOUT_SHADER_READ_ONLY_OPTIMAL 11
      9).2.2.1 ⟨rfl, rfl⟩).1,
    ((transitionImageLayout_two_transitions 1 2 3 VK_FORMAT_R8G8B8A8_SRGB
      VK_IMAGE_LAYOUT_UNDEFINED VK_IMAGE_LAYOUT_SHADER_READ_ONLY_OPTIMAL 11 9).2.2.2.2
      (by decide) (by decide)).2.1⟩

/-! ## Queue families -/

namespace device

theorem findQueueFamiliesLoop_none (presentationSupport : List Nat) :
    ∀ (families : List VkQueueFamilyProperties) (i : Nat) (indices : QueueFamilyIndices),
      (∀ q ∈ families, q.queueFlags &&& VK_QUEUE_GRAPHICS_BIT = 0) →
      findQueueFamiliesLoop presentationSupport families i indices = indices := by
  intro families
  induction families with
  | nil => intro i indices _; rfl
  | cons q rest ih =>
    intro i indices h
    unfold findQueueFamiliesLoop
    rw [if_neg (by simp [h q (List.mem_cons_self _ _)])]
    exact ih (i + 1) indices (fun x hx => h x (List.mem_cons_of_mem _ hx))

theorem findQueueFamiliesLoop_first (presentationSupport : List Nat)
    (first : VkQueueFamilyProperties) (after : List VkQueueFamilyProperties)
    (hfirst : first.queueFlags &&& VK_QUEUE_GRAPHICS_BIT ≠ 0) :
    ∀ (before : List VkQueueFamilyProperties) (i : Nat) (indices : QueueFamilyIndices),
      (∀ q ∈ before, q.queueFlags &&& VK_QUEUE_GRAPHICS_BIT = 0) →
      findQueueFamiliesLoop presentationSupport (before ++ first :: after) i indices
        = { graphicsFamily := some (i + before.length)
            presentationFamily :=
              if presentationSupport.getD (i + before.length) VK_FALSE ≠ 0 then
                some (i + before.length)
              else indices.presentationFamily } := by
  intro before
  induction before with
  | nil =>
    intro i indices _
    simp only [List.nil_append, List.length_nil, Nat.add_zero]
    unfold findQueueFamiliesLoop
    rw [if_pos hfirst]
    dsimp only
    split_ifs <;> rfl
  | cons q rest ih =>
    intro i indices h
    simp only [List.cons_append]
    unfold findQueueFamiliesLoop
    rw [if_neg (by simp [h q (List.mem_cons_self _ _)])]
    rw [ih (i + 1) indices (fun x hx => h x (List.mem_cons_of_mem _ hx))]
    have : i + 1 + rest.length = i + (q :: rest).length := by
      simp only [List.length_cons]; omega
    rw [this]

/-- A list of queue families either has no graphics-capable family or splits
at the first one. -/
theorem split_at_first_graphics :
    ∀ (families : List VkQueueFamilyProperties),
      (∀ q ∈ families, q.queueFlags &&& VK_QUEUE_GRAPHICS_BIT = 0)
      ∨ ∃ before first after, families = before ++ first :: after
          ∧ (∀ q ∈ before, q.queueFlags &&& VK_QUEUE_GRAPHICS_BIT = 0)
          ∧ first.queueFlags &&& VK_QUEUE_GRAPHICS_BIT ≠ 0 := by
  intro families
  induction families with
  | nil => left; simp
  | cons q rest ih =>
    by_cases hq : q.queueFlags &&& VK_QUEUE_GRAPHICS_BIT = 0
    · rcases ih with h | ⟨before, first, after, h1, h2, h3⟩
      · left
        intro x hx
        rcases List.mem_cons.mp hx with h' | h'
        · rw [h']; exact hq
        · exact h x h'
      · right
        refine ⟨q :: before, first, after, by rw [h1]; rfl, ?_, h3⟩
        intro x hx
        rcases List.mem_cons.mp hx with h' | h'
        · rw [h']; exact hq
        · exact h2 x h'
    · right
      exact ⟨[], q, rest, rfl, by simp, hq⟩

theorem findQueueFamilies_none (report : PhysicalDeviceReport)
    (h : ∀ q ∈ report.queueFamilies, q.queueFlags &&& VK_QUEUE_GRAPHICS_BIT = 0) :
    findQueueFamilies report = { graphicsFamily := none, presentationFamily := none } := by
  unfold findQueueFamilies
  exact findQueueFamiliesLoop_none _ _ _ _ h

theorem findQueueFamilies_first (report : PhysicalDeviceReport)
    (before : List VkQueueFamilyProperties) (first : VkQueueFamilyProperties)
    (after : List VkQueueFamilyProperties)
    (hsplit : report.queueFamilies = before ++ first :: after)
    (hbefore : ∀ q ∈ before, q.queueFlags &&& VK_QUEUE_GRAPHICS_BIT = 0)
    (hfirst : first.queueFlags &&& VK_QUEUE_GRAPHICS_BIT ≠ 0) :
    findQueueFamilies report
      = { graphicsFamily := some before.length
          presentationFamily :=
            if report.presentationSupport.getD before.length VK_FALSE ≠ 0 then
              some before.length
            else none } := by
  unfold findQueueFamilies
  rw [hsplit, findQueueFamiliesLoop_first _ first after hfirst before 0 _ hbefore]
  simp only [Nat.zero_add]

/-- Whenever `presentationFamily` has a value, `graphicsFamily` has the same
value. -/
theorem findQueueFamilies_presentation_eq_graphics (report : PhysicalDeviceReport) (v : Nat)
    (h : (findQueueFamilies report).presentationFamily = some v) :
    (findQueueFamilies report).graphicsFamily = some v := by
  rcases split_at_first_graphics report.queueFamilies with hnone
    | ⟨before, first, after, h1, h2, h3⟩
  · rw [findQueueFamilies_none report hnone] at h
    cases h
  · rw [findQueueFamilies_first report before first after h1 h2 h3] at h ⊢
    dsimp only at h ⊢
    split_ifs at h with hs
    exact h

theorem isComplete_iff (indices : QueueFamilyIndices) :
    indices.isComplete = true
      ↔ (∃ g, indices.graphicsFamily = some g) ∧ ∃ p, indices.presentationFamily = some p := by
  unfold QueueFamilyIndices.isComplete
  cases indices.graphicsFamily <;> cases indices.presentationFamily <;> simp

end device

/-- C22: when the queue families of the device split into families without
the graphics capability, a first family with it (its index is the number of
families before it) and the families after it, `findQueueFamilies` sets
`graphicsFamily` to the index of that first family, sets `presentationFamily`
to the same index when that family can present to the surface and leaves it
empty otherwise, so the result is complete exactly when that family can
present; the result is the same for every device that has the same families
up to and including that one and the same presentation support at that index,
whatever the families after it are and whichever of them can present.  When
no family has the graphics capability both indices stay empty and the result
is not complete. -/
theorem findQueueFamilies_first_graphics_family (report : PhysicalDeviceReport) :
    (∀ (before : List VkQueueFamilyProperties) (first : VkQueueFamilyProperties)
        (after : List VkQueueFamilyProperties),
      report.queueFamilies = before ++ first :: after →
      (∀ q ∈ before, q.queueFlags &&& VK_QUEUE_GRAPHICS_BIT = 0) →
      first.queueFlags &&& VK_QUEUE_GRAPHICS_BIT ≠ 0 →
        (device.findQueueFamilies report).graphicsFamily = some before.length
        ∧ (device.findQueueFamilies report).presentationFamily
            = (if report.presentationSupport.getD before.length VK_FALSE ≠ 0 then
                some before.length else none)
        ∧ ((device.findQueueFamilies report).isComplete = true
            ↔ report.presentationSupport.getD before.length VK_FALSE ≠ 0)
        ∧ (∀ (other : PhysicalDeviceReport) (others : List VkQueueFamilyProperties),
            other.queueFamilies = before ++ first :: others →
            other.presentationSupport.getD before.length VK_FALSE
              = report.presentationSupport.getD before.length VK_FALSE →
            device.findQueueFamilies other = device.findQueueFamilies report))
    ∧ ((∀ q ∈ report.queueFamilies, q.queueFlags &&& VK_QUEUE_GRAPHICS_BIT = 0) →
        (device.findQueueFamilies report).graphicsFamily = none
        ∧ (device.findQueueFamilies report).presentationFamily = none
        ∧ (device.findQueueFamilies report).isComplete = false) := by
  constructor
  · intro before first after hsplit hbefore hfirst
    have hres := device.findQueueFamilies_first report before first after hsplit hbefore hfirst
    refine ⟨by rw [hres], by rw [hres], ?_, ?_⟩
    · rw [hres]
      unfold device.QueueFamilyIndices.isComplete
      dsimp only
      split_ifs with hs
      · exact ⟨fun _ => hs, fun _ => rfl⟩
      · exact ⟨fun h => by simp at h, fun h => absurd h hs⟩
    · intro other others hother hsupport
      rw [hres, device.findQueueFamilies_first other before first others hother hbefore hfirst,
        hsupport]
  · intro hnone
    rw [device.findQueueFamilies_none report hnone]
    exact ⟨rfl, rfl, rfl⟩

/-- C22, at a device with a transfer-only family, then a graphics family that
cannot present, then a graphics family that can: the graphics family is
index 1 and the result is not complete. -/
theorem findQueueFamilies_first_graphics_family_witness :
    (device.findQueueFamilies
        ⟨[⟨4, 1⟩, ⟨1, 1⟩, ⟨1, 1⟩], [0, 0, 1], [], ⟨2, 3, ⟨800, 600⟩, ⟨1, 1⟩, ⟨4096, 4096⟩, 1⟩,
          [], [], 1, ⟨0, []⟩⟩).graphicsFamily = some 1
    ∧ ¬ (device.findQueueFamilies
        ⟨[⟨4, 1⟩, ⟨1, 1⟩, ⟨1, 1⟩], [0, 0, 1], [], ⟨2, 3, ⟨800, 600⟩, ⟨1, 1⟩, ⟨4096, 4096⟩, 1⟩,
          [], [], 1, ⟨0, []⟩⟩).isComplete = true :=
  ⟨((findQueueFamilies_first_graphics_family
      ⟨[⟨4, 1⟩, ⟨1, 1⟩, ⟨1, 1⟩], [0, 0, 1], [], ⟨2, 3, ⟨800, 600⟩, ⟨1, 1⟩, ⟨4096, 4096⟩, 1⟩,
        [], [], 1, ⟨0, []⟩⟩).1 [⟨4, 1⟩] ⟨1, 1⟩ [⟨1, 1⟩] rfl (by decide) (by decide)).1,
    fun h => absurd (((findQueueFamilies_first_graphics_family
      ⟨[⟨4, 1⟩, ⟨1, 1⟩, ⟨1, 1⟩], [0, 0, 1], [], ⟨2, 3, ⟨800, 600⟩, ⟨1, 1⟩, ⟨4096, 4096⟩, 1⟩,
        [], [], 1, ⟨0, []⟩⟩).1 [⟨4, 1⟩] ⟨1, 1⟩ [⟨1, 1⟩] rfl (by decide)
        (by decide)).2.2.1.mp h) (by decide)⟩

/-! ## One queue family for graphics and presentation -/

namespace swapchain

/-- The create-info of `createSwapChain` when both queue family indices are
`family`: exclusive sharing, no queue family indices. -/
theorem createSwapChainWith_calls (report : PhysicalDeviceReport)
    (replies : CreateSwapChainReplies) (surface : Nat) (swapChainSupport : SwapChainSupportDetails)
    (surfaceFormat : VkSurfaceFormatKHR) (family : Nat)
    (hg : (device.findQueueFamilies report).graphicsFamily = some family)
    (hq : (device.findQueueFamilies report).presentationFamily = some family) :
    (createSwapChainWith report replies surface swapChainSupport surfaceFormat).calls
      = [NativeCall.vkCreateSwapchainKHR
          { surface := surface
            minImageCount := imageCount swapChainSupport.capabilities
            imageFormat := surfaceFormat.format
            imageColorSpace := surfaceFormat.colorSpace
            imageExtent :=
              chooseSwapExtent swapChainSupport.capabilities replies.framebufferSize
            imageArrayLayers := 1
            imageUsage := VK_IMAGE_USAGE_COLOR_ATTACHMENT_BIT
            imageSharingMode := VK_SHARING_MODE_EXCLUSIVE
            queueFamilyIndexCount := 0
            pQueueFamilyIndices := none
            preTransform := swapChainSupport.capabilities.currentTransform
            compositeAlpha := VK_COMPOSITE_ALPHA_OPAQUE_BIT_KHR
            presentMode := chooseSwapPresentMode swapChainSupport.presentationModes
            clipped := VK_TRUE
            oldSwapchain := VK_NULL_HANDLE }] := by
  have hd : decide ((some family : Option Nat) ≠ some family) = false := by simp
  unfold createSwapChainWith
  simp only [hg, hq, optionalValue, Run.calls_pure_bind, Run.calls_call_bind, hd,
    Bool.false_eq_true, if_false]
  split_ifs <;> rfl

/-- Without both queue family indices `createSwapChain` raises at the read of
the empty one, before any native call. -/
theorem createSwapChainWith_incomplete (report : PhysicalDeviceReport)
    (replies : CreateSwapChainReplies) (surface : Nat) (swapChainSupport : SwapChainSupportDetails)
    (surfaceFormat : VkSurfaceFormatKHR)
    (h : (device.findQueueFamilies report).isComplete = false) :
    (createSwapChainWith report replies surface swapChainSupport surfaceFormat).calls = []
    ∧ (createSwapChainWith report replies surface swapChainSupport surfaceFormat).outcome
      = Except.error ⟨FailureKind.bad_optional_access, "bad optional access"⟩ := by
  unfold createSwapChainWith
  dsimp only
  cases hg : (device.findQueueFamilies report).graphicsFamily with
  | none => exact ⟨rfl, rfl⟩
  | some g =>
    cases hq : (device.findQueueFamilies report).presentationFamily with
    | none => exact ⟨rfl, rfl⟩
    | some q =>
      simp [device.QueueFamilyIndices.isComplete, hg, hq] at h

end swapchain

namespace device

theorem queueFamilySet_self (family : Nat) : queueFamilySet family family = [family] := by
  simp [queueFamilySet]

theorem createLogicalDevice_calls (report : PhysicalDeviceReport)
    (replies : CreateLogicalDeviceReplies) (device_extensions : List String)
    (enable_validation_layers : Bool) (validation_layers : List String) (family : Nat)
    (hg : (findQueueFamilies report).graphicsFamily = some family)
    (hq : (findQueueFamilies report).presentationFamily = some family) :
    (createLogicalDevice report replies device_extensions enable_validation_layers
        validation_layers).calls
      = [NativeCall.vkCreateDevice
          { queueCreateInfoCount := 1
            pQueueCreateInfos :=
              [{ queueFamilyIndex := family, queueCount := 1, pQueuePriorities := [1] }]
            pEnabledFeatures := some { samplerAnisotropy := VK_TRUE }
            enabledExtensionCount := device_extensions.length % 2 ^ 32
            ppEnabledExtensionNames := device_extensions
            enabledLayerCount :=
              if enable_validation_layers then validation_layers.length % 2 ^ 32 else 0
            ppEnabledLayerNames :=
              if enable_validation_layers then some validation_layers else none }] := by
  unfold createLogicalDevice
  simp only [hg, hq, swapchain.optionalValue, Run.calls_pure_bind, Run.calls_call_bind,
    queueFamilySet_self]
  split_ifs <;> rfl

theorem createLogicalDevice_incomplete (report : PhysicalDeviceReport)
    (replies : CreateLogicalDeviceReplies) (device_extensions : List String)
    (enable_validation_layers : Bool) (validation_layers : List String)
    (h : (findQueueFamilies report).isComplete = false) :
    (createLogicalDevice report replies device_extensions enable_validation_layers
        validation_layers).calls = []
    ∧ (createLogicalDevice report replies device_extensions enable_validation_layers
        validation_layers).outcome
      = Except.error ⟨FailureKind.bad_optional_access, "bad optional access"⟩ := by
  unfold createLogicalDevice
  dsimp only
  cases hg : (findQueueFamilies report).graphicsFamily with
  | none => exact ⟨rfl, rfl⟩
  | some g =>
    cases hq : (findQueueFamilies report).presentationFamily with
    | none => exact ⟨rfl, rfl⟩
    | some q =>
      simp [QueueFamilyIndices.isComplete, hg, hq] at h

/-- Complete queue family indices hold one value twice. -/
theorem isComplete_same_family (report : PhysicalDeviceReport)
    (h : (findQueueFamilies report).isComplete = true) :
    ∃ family, (findQueueFamilies report).graphicsFamily = some family
      ∧ (findQueueFamilies report).presentationFamily = some family := by
  obtain ⟨_, ⟨p, hp⟩⟩ := (isComplete_iff _).mp h
  exact ⟨p, findQueueFamilies_presentation_eq_graphics report p hp, hp⟩

end device

/-- C23: in every result of `findQueueFamilies` a `presentationFamily` with a
value equals `graphicsFamily`.  So every swapchain creation that
`createSwapChain` issues has sharing mode EXCLUSIVE, index count 0 and no
index array; with complete indices it issues exactly that one call, and with
incomplete ones it raises at the read of the empty index, before any call.
Likewise every device creation that `createLogicalDevice` issues carries
exactly one queue create-info, for the graphics family, with one queue; with
complete indices it issues exactly that one call, and with incomplete ones it
raises before any call. -/
theorem presentation_family_is_graphics_family (report : PhysicalDeviceReport) :
    (∀ v : Nat, (device.findQueueFamilies report).presentationFamily = some v →
        (device.findQueueFamilies report).graphicsFamily = some v)
    ∧ (∀ (replies : swapchain.CreateSwapChainReplies) (surface : Nat)
          (run : Run swapchain.SwapChainOutputs),
        swapchain.createSwapChain report replies surface = some run →
          (∀ createInfo : VkSwapchainCreateInfoKHR,
            NativeCall.vkCreateSwapchainKHR createInfo ∈ run.calls →
              createInfo.imageSharingMode = VK_SHARING_MODE_EXCLUSIVE
              ∧ createInfo.queueFamilyIndexCount = 0
              ∧ createInfo.pQueueFamilyIndices = none)
          ∧ ((device.findQueueFamilies report).isComplete = true →
              ∃ createInfo, run.calls = [NativeCall.vkCreateSwapchainKHR createInfo])
          ∧ ((device.findQueueFamilies report).isComplete = false →
              run.calls = []
              ∧ run.outcome
                = Except.error ⟨FailureKind.bad_optional_access, "bad optional access"⟩))
    ∧ (∀ (replies : device.CreateLogicalDeviceReplies) (device_extensions : List String)
          (enable_validation_layers : Bool) (validation_layers : List String),
        (∀ createInfo : VkDeviceCreateInfo,
          NativeCall.vkCreateDevice createInfo
              ∈ (device.createLogicalDevice report replies device_extensions
                  enable_validation_layers validation_layers).calls →
            createInfo.queueCreateInfoCount = 1
            ∧ ∃ family, (device.findQueueFamilies report).graphicsFamily = some family
                ∧ createInfo.pQueueCreateInfos
                  = [{ queueFamilyIndex := family, queueCount := 1, pQueuePriorities := [1] }])
        ∧ ((device.findQueueFamilies report).isComplete = true →
            ∃ createInfo,
              (device.createLogicalDevice report replies device_extensions
                  enable_validation_layers validation_layers).calls
                = [NativeCall.vkCreateDevice createInfo])
        ∧ ((device.findQueueFamilies report).isComplete = false →
            (device.createLogicalDevice report replies device_extensions
                enable_validation_layers validation_layers).calls = []
            ∧ (device.createLogicalDevice report replies device_extensions
                enable_validation_layers validation_layers).outcome
              = Except.error ⟨FailureKind.bad_optional_access, "bad optional access"⟩)) := by
  refine ⟨device.findQueueFamilies_presentation_eq_graphics report, ?_, ?_⟩
  · intro replies surface run hrun
    unfold swapchain.createSwapChain at hrun
    dsimp only at hrun
    split at hrun
    · cases hrun
    · rename_i surfaceFormat _
      injection hrun with hrun
      subst hrun
      refine ⟨?_, ?_, ?_⟩
      · intro createInfo hcall
        cases hc : (device.findQueueFamilies report).isComplete with
        | false =>
          rw [(swapchain.createSwapChainWith_incomplete report replies surface _ _ hc).1] at hcall
          simp at hcall
        | true =>
          obtain ⟨family, hg, hq⟩ := device.isComplete_same_family report hc
          rw [swapchain.createSwapChainWith_calls report replies surface _ _ family hg hq,
            List.mem_singleton] at hcall
          injection hcall with hcall
          subst hcall
          exact ⟨rfl, rfl, rfl⟩
      · intro hc
        obtain ⟨family, hg, hq⟩ := device.isComplete_same_family report hc
        exact ⟨_, swapchain.createSwapChainWith_calls report replies surface _ _ family hg hq⟩
      · intro hc
        exact swapchain.createSwapChainWith_incomplete report replies surface _ _ hc
  · intro replies device_extensions enable_validation_layers validation_layers
    refine ⟨?_, ?_, ?_⟩
    · intro createInfo hcall
      cases hc : (device.findQueueFamilies report).isComplete with
      | false =>
        rw [(device.createLogicalDevice_incomplete report replies device_extensions
          enable_validation_layers validation_layers hc).1] at hcall
        simp at hcall
      | true =>
        obtain ⟨family, hg, hq⟩ := device.isComplete_same_family report hc
        rw [device.createLogicalDevice_calls report replies device_extensions
          enable_validation_layers validation_layers family hg hq, List.mem_singleton] at hcall
        injection hcall with hcall
        subst hcall
        exact ⟨rfl, family, hg, rfl⟩
    · intro hc
      obtain ⟨family, hg, hq⟩ := device.isComplete_same_family report hc
      exact ⟨_, device.createLogicalDevice_calls report replies device_extensions
        enable_validation_layers validation_layers family hg hq⟩
    · intro hc
      exact device.createLogicalDevice_incomplete report replies device_extensions
        enable_validation_layers validation_layers hc

/-- C23, at a device whose second family has the graphics capability and can
present: both indices are 1 and the one device creation asks for one queue
of family 1. -/
theorem presentation_family_is_graphics_family_witness :
    (device.findQueueFamilies
        ⟨[⟨4, 1⟩, ⟨1, 1⟩], [1, 1], [], ⟨2, 3, ⟨800, 600⟩, ⟨1, 1⟩, ⟨4096, 4096⟩, 1⟩,
          [⟨50, 0⟩], [2], 1, ⟨0, []⟩⟩).presentationFamily = some 1
    ∧ (device.findQueueFamilies
        ⟨[⟨4, 1⟩, ⟨1, 1⟩], [1, 1], [], ⟨2, 3, ⟨800, 600⟩, ⟨1, 1⟩, ⟨4096, 4096⟩, 1⟩,
          [⟨50, 0⟩], [2], 1, ⟨0, []⟩⟩).graphicsFamily = some 1
    ∧ ∃ createInfo,
        (device.createLogicalDevice
            ⟨[⟨4, 1⟩, ⟨1, 1⟩], [1, 1], [], ⟨2, 3, ⟨800, 600⟩, ⟨1, 1⟩, ⟨4096, 4096⟩, 1⟩,
              [⟨50, 0⟩], [2], 1, ⟨0, []⟩⟩
            ⟨0, 11, fun family => 20 + family⟩ ["VK_KHR_swapchain"] false []).calls
          = [NativeCall.vkCreateDevice createInfo] :=
  ⟨by decide,
    (presentation_family_is_graphics_family
      ⟨[⟨4, 1⟩, ⟨1, 1⟩], [1, 1], [], ⟨2, 3, ⟨800, 600⟩, ⟨1, 1⟩, ⟨4096, 4096⟩, 1⟩,
        [⟨50, 0⟩], [2], 1, ⟨0, []⟩⟩).1 1 (by decide),
    ((presentation_family_is_graphics_family
      ⟨[⟨4, 1⟩, ⟨1, 1⟩], [1, 1], [], ⟨2, 3, ⟨800, 600⟩, ⟨1, 1⟩, ⟨4096, 4096⟩, 1⟩,
        [⟨50, 0⟩], [2], 1, ⟨0, []⟩⟩).2.2 ⟨0, 11, fun family => 20 + family⟩
      ["VK_KHR_swapchain"] false []).2.1 (by decide)⟩

/-! ## Suitable devices and anisotropic filtering -/

namespace device

theorem isPhysicalDeviceSuitable_iff (report : PhysicalDeviceReport)
    (device_extensions : List String) :
    isPhysicalDeviceSuitable report device_extensions = true
      ↔ ((findQueueFamilies report).isComplete = true
        ∧ (∀ name ∈ device_extensions, name ∈ report.availableExtensions)
        ∧ report.formats ≠ []
        ∧ report.presentationModes ≠ []
        ∧ report.samplerAnisotropy ≠ 0) := by
  unfold isPhysicalDeviceSuitable
  dsimp only
  rw [← checkDeviceExtensionSupport_iff]
  cases hext : checkDeviceExtensionSupport report.availableExtensions device_extensions
  · simp
  · simp [swapchain.querySwapChainSupport, List.isEmpty_iff, and_assoc]

/-- The handle the loop of `pickPhysicalDevice` leaves is the one it was
entered with or that of a suitable device. -/
theorem pickPhysicalDeviceLoop_handle (gpu : Nat → PhysicalDeviceReport)
    (device_extensions : List String) :
    ∀ (devices : List Nat) (physicalDevice : Nat) (examined : List Nat),
      ((∀ d ∈ devices, isPhysicalDeviceSuitable (gpu d) device_extensions = false)
        ∧ (pickPhysicalDeviceLoop gpu device_extensions devices physicalDevice examined).1
          = physicalDevice)
      ∨ ((pickPhysicalDeviceLoop gpu device_extensions devices physicalDevice examined).1
            ∈ devices
        ∧ isPhysicalDeviceSuitable
            (gpu (pickPhysicalDeviceLoop gpu device_extensions devices physicalDevice
              examined).1) device_extensions = true) := by
  intro devices
  induction devices with
  | nil =>
    intro physicalDevice examined
    left
    exact ⟨by simp, rfl⟩
  | cons d rest ih =>
    intro physicalDevice examined
    unfold pickPhysicalDeviceLoop
    by_cases hd : isPhysicalDeviceSuitable (gpu d) device_extensions = true
    · rw [if_pos hd]
      right
      exact ⟨List.mem_cons_self _ _, hd⟩
    · rw [if_neg hd]
      rcases ih physicalDevice (examined ++ [d]) with ⟨h1, h2⟩ | ⟨h1, h2⟩
      · left
        refine ⟨?_, h2⟩
        intro x hx
        rcases List.mem_cons.mp hx with h | h
        · rw [h]; simpa using hd
        · exact h1 x h
      · right
        exact ⟨List.mem_cons_of_mem _ h1, h2⟩

/-- The handle `pickPhysicalDevice` leaves is the one it was entered with,
no enumerated device being suitable, or that of a suitable enumerated
device. -/
theorem pickPhysicalDevice_handle (enumerated : List Nat) (gpu : Nat → PhysicalDeviceReport)
    (device_extensions : List String) (physicalDevice : Nat) :
    ((∀ d ∈ enumerated, isPhysicalDeviceSuitable (gpu d) device_extensions = false)
      ∧ (pickPhysicalDevice enumerated gpu device_extensions physicalDevice).physicalDevice
        = physicalDevice)
    ∨ ((pickPhysicalDevice enumerated gpu device_extensions physicalDevice).physicalDevice
          ∈ enumerated
      ∧ isPhysicalDeviceSuitable
          (gpu (pickPhysicalDevice enumerated gpu device_extensions
            physicalDevice).physicalDevice) device_extensions = true) := by
  unfold pickPhysicalDevice
  dsimp only
  split_ifs with h0 hnull
  · left
    have : enumerated = [] := List.length_eq_zero.mp h0
    subst this
    exact ⟨by simp, rfl⟩
  · exact pickPhysicalDeviceLoop_handle gpu device_extensions enumerated physicalDevice []
  · exact pickPhysicalDeviceLoop_handle gpu device_extensions enumerated physicalDevice []

theorem pickPhysicalDevice_ok_handle_ne_null (enumerated : List Nat)
    (gpu : Nat → PhysicalDeviceReport) (device_extensions : List String) (physicalDevice : Nat)
    (hok : (pickPhysicalDevice enumerated gpu device_extensions physicalDevice).outcome
      = Except.ok ()) :
    (pickPhysicalDevice enumerated gpu device_extensions physicalDevice).physicalDevice
      ≠ VK_NULL_HANDLE := by
  unfold pickPhysicalDevice at hok ⊢
  dsimp only at hok ⊢
  split_ifs at hok ⊢ with h0 hnull
  exact hnull

/-- Every device creation of `createLogicalDevice` enables the sampler
anisotropy feature and no other. -/
theorem createLogicalDevice_enables_samplerAnisotropy (report : PhysicalDeviceReport)
    (replies : CreateLogicalDeviceReplies) (device_extensions : List String)
    (enable_validation_layers : Bool) (validation_layers : List String)
    (createInfo : VkDeviceCreateInfo)
    (hcall : NativeCall.vkCreateDevice createInfo
      ∈ (createLogicalDevice report replies device_extensions enable_validation_layers
          validation_layers).calls) :
    createInfo.pEnabledFeatures = some { samplerAnisotropy := VK_TRUE } := by
  cases hc : (findQueueFamilies report).isComplete with
  | false =>
    rw [(createLogicalDevice_incomplete report replies device_extensions
      enable_validation_layers validation_layers hc).1] at hcall
    simp at hcall
  | true =>
    obtain ⟨family, hg, hq⟩ := isComplete_same_family report hc
    rw [createLogicalDevice_calls report replies device_extensions
      enable_validation_layers validation_layers family hg hq, List.mem_singleton] at hcall
    injection hcall with hcall
    subst hcall
    rfl

end device

namespace texture

theorem createTextureSampler_calls (limits : VkPhysicalDeviceLimits) (createSamplerResult : Int)
    (textureSampler : Nat) :
    ∃ samplerInfo : VkSamplerCreateInfo,
      (createTextureSampler limits createSamplerResult textureSampler).calls
        = [NativeCall.vkCreateSampler samplerInfo]
      ∧ samplerInfo.anisotropyEnable = VK_TRUE
      ∧ samplerInfo.maxAnisotropy = limits.maxSamplerAnisotropy := by
  unfold createTextureSampler
  simp only [Run.calls_call_bind]
  split_ifs <;> exact ⟨_, rfl, rfl, rfl⟩

end texture

namespace swapchain

theorem length_resize (v : List Nat) (n : Nat) : (resize v n).length = n := by
  unfold resize
  simp only [List.length_append, List.length_take, List.length_replicate]
  omega

/-- The creations the loop issues are the first ones of the list of
creations for the remaining views. -/
theorem createFramebuffersLoop_calls_prefix (replies : CreateFramebuffersReplies)
    (swapChainExtent : VkExtent2D) (depthImageView colorImageView renderPass : Nat) :
    ∀ (rest before swapChainFramebuffers : List Nat),
      (createFramebuffersLoop replies (before ++ rest) swapChainExtent depthImageView
          colorImageView renderPass rest.length before.length swapChainFramebuffers).calls
        <+: rest.map fun view => NativeCall.vkCreateFramebuffer
          (framebufferInfo swapChainExtent depthImageView colorImageView renderPass view) := by
  intro rest
  induction rest with
  | nil =>
    intro before fbs
    simp [createFramebuffersLoop]
  | cons v rest ih =>
    intro before fbs
    have hget : (before ++ v :: rest).getD before.length VK_NULL_HANDLE = v := by
      rw [List.getD_append_right _ _ _ _ (le_refl _)]
      simp
    simp only [List.length_cons, List.map_cons]
    unfold createFramebuffersLoop
    simp only [Run.calls_call_bind, hget]
    split_ifs with hres
    · simp
    · have := ih (before ++ [v]) (fbs.set before.length (replies.framebuffer before.length))
      simp only [List.append_assoc, List.singleton_append, List.length_append,
        List.length_singleton] at this
      exact List.prefix_cons_inj _ |>.mpr this

/-- When every remaining creation succeeds the loop issues all of them and
stores each handle at the index of its view. -/
theorem createFramebuffersLoop_ok (replies : CreateFramebuffersReplies)
    (swapChainExtent : VkExtent2D) (depthImageView colorImageView renderPass : Nat) :
    ∀ (rest before swapChainFramebuffers : List Nat),
      (∀ j, before.length ≤ j → j < (before ++ rest).length →
        replies.createFramebufferResult j = VK_SUCCESS) →
      swapChainFramebuffers.length = (before ++ rest).length →
      (createFramebuffersLoop replies (before ++ rest) swapChainExtent depthImageView
          colorImageView renderPass rest.length before.length swapChainFramebuffers).calls
        = (rest.map fun view => NativeCall.vkCreateFramebuffer
          (framebufferInfo swapChainExtent depthImageView colorImageView renderPass view))
      ∧ ∃ out : List Nat,
          (createFramebuffersLoop replies (before ++ rest) swapChainExtent depthImageView
            colorImageView renderPass rest.length before.length swapChainFramebuffers).outcome
            = Except.ok out
          ∧ out.length = (before ++ rest).length
          ∧ (∀ j, j < before.length → out[j]? = swapChainFramebuffers[j]?)
          ∧ (∀ j, before.length ≤ j → j < (before ++ rest).length →
              out[j]? = some (replies.framebuffer j)) := by
  intro rest
  induction rest with
  | nil =>
    intro before fbs hres hlen
    refine ⟨by simp [createFramebuffersLoop], fbs, by simp [createFramebuffersLoop], hlen,
      fun _ _ => rfl, ?_⟩
    intro j h1 h2
    simp at h2
    omega
  | cons v rest ih =>
    intro before fbs hres hlen
    have hget : (before ++ v :: rest).getD before.length VK_NULL_HANDLE = v := by
      rw [List.getD_append_right _ _ _ _ (le_refl _)]
      simp
    have hi : replies.createFramebufferResult before.length = VK_SUCCESS :=
      hres before.length (le_refl _) (by simp)
    have hcons : before ++ v :: rest = (before ++ [v]) ++ rest := by simp
    have hlen1 : (before ++ [v]).length = before.length + 1 := by simp
    obtain ⟨hcalls, out, hout, houtlen, hlow, hhigh⟩ :=
      ih (before ++ [v]) (fbs.set before.length (replies.framebuffer before.length))
        (by
          intro j h1 h2
          rw [← hcons] at h2
          exact hres j (by rw [hlen1] at h1; omega) h2)
        (by rw [List.length_set, ← hcons]; exact hlen)
    rw [← hcons, hlen1] at hcalls hout
    rw [← hcons] at houtlen hhigh
    rw [hlen1] at hlow hhigh
    simp only [List.length_cons, List.map_cons]
    unfold createFramebuffersLoop
    simp only [Run.calls_call_bind, Run.outcome_call_bind, hget]
    rw [if_neg (by simp [hi])]
    refine ⟨by rw [hcalls], out, hout, houtlen, ?_, ?_⟩
    · intro j hj
      rw [hlow j (by omega), List.getElem?_set_ne (by omega)]
    · intro j h1 h2
      by_cases hj : j = before.length
      · subst hj
        have : before.length < fbs.length := by rw [hlen]; simp
        rw [hlow _ (by omega), List.getElem?_set_self this]
      · exact hhigh j (by omega) h2

/-- When some remaining creation fails the loop raises. -/
theorem createFramebuffersLoop_error (replies : CreateFramebuffersReplies)
    (swapChainImageViews : List Nat)
    (swapChainExtent : VkExtent2D) (depthImageView colorImageView renderPass : Nat) :
    ∀ (remaining i : Nat) (swapChainFramebuffers : List Nat),
      (∃ j, i ≤ j ∧ j < i + remaining ∧ replies.createFramebufferResult j ≠ VK_SUCCESS) →
      (createFramebuffersLoop replies swapChainImageViews swapChainExtent depthImageView
          colorImageView renderPass remaining i swapChainFramebuffers).outcome
        = Except.error (runtimeError "failed to create framebuffer!") := by
  intro remaining
  induction remaining with
  | zero =>
    rintro i fbs ⟨j, h1, h2, _⟩
    omega
  | succ remaining ih =>
    rintro i fbs ⟨j, h1, h2, h3⟩
    unfold createFramebuffersLoop
    simp only [Run.outcome_call_bind]
    split_ifs with hres
    · rfl
    · apply ih
      refine ⟨j, ?_, by omega, h3⟩
      by_contra hlt
      have : j = i := by omega
      subst this
      exact h3 (by simpa using hres)

end swapchain

/-- C25: `createFramebuffers` issues framebuffer creations for the swapchain
views in order, the creation for a view listing exactly the three attachments
colour view, depth view and that view, with the render pass given, the width
and height of the swapchain extent and one layer.  When every creation
succeeds there is one creation per view and the vector returned holds, per
view, the handle its creation stored; when one fails the procedure raises
"failed to create framebuffer!".  The order is that of the render pass
`createRenderPass` creates: attachment 0 is the multisampled colour
attachment, referenced as the colour attachment; attachment 1 the depth
attachment, referenced as the depth-stencil attachment; attachment 2 the
single-sample attachment with final layout present-source, referenced as the
resolve attachment. -/
theorem createFramebuffers_one_per_view (replies : swapchain.CreateFramebuffersReplies)
    (swapChainImageViews : List Nat) (swapChainExtent : VkExtent2D)
    (depthImageView colorImageView renderPass : Nat) (swapChainFramebuffers : List Nat) :
    ((swapchain.createFramebuffers replies swapChainImageViews swapChainExtent depthImageView
          colorImageView renderPass swapChainFramebuffers).calls
        <+: swapChainImageViews.map fun view => NativeCall.vkCreateFramebuffer
          { renderPass := renderPass
            attachmentCount := 3
            pAttachments := [colorImageView, depthImageView, view]
            width := swapChainExtent.width
            height := swapChainExtent.height
            layers := 1 })
    ∧ ((∀ i, i < swapChainImageViews.length →
          replies.createFramebufferResult i = VK_SUCCESS) →
        (swapchain.createFramebuffers replies swapChainImageViews swapChainExtent depthImageView
            colorImageView renderPass swapChainFramebuffers).calls
          = (swapChainImageViews.map fun view => NativeCall.vkCreateFramebuffer
              { renderPass := renderPass
                attachmentCount := 3
                pAttachments := [colorImageView, depthImageView, view]
                width := swapChainExtent.width
                height := swapChainExtent.height
                layers := 1 })
        ∧ (swapchain.createFramebuffers replies swapChainImageViews swapChainExtent
            depthImageView colorImageView renderPass swapChainFramebuffers).outcome
          = Except.ok ((List.range swapChainImageViews.length).map replies.framebuffer))
    ∧ ((∃ i, i < swapChainImageViews.length
            ∧ replies.createFramebufferResult i ≠ VK_SUCCESS) →
        (swapchain.createFramebuffers replies swapChainImageViews swapChainExtent depthImageView
            colorImageView renderPass swapChainFramebuffers).outcome
          = Except.error (runtimeError "failed to create framebuffer!"))
    ∧ (∀ (createRenderPassResult : Int) (swapChainImageFormat msaaSampleCount depthFormat
          handle : Nat),
        ∃ (renderPassInfo : VkRenderPassCreateInfo)
          (color depth resolve : VkAttachmentDescription) (subpass : VkSubpassDescription),
          (pipeline.createRenderPass createRenderPassResult swapChainImageFormat
              msaaSampleCount depthFormat handle).calls
            = [NativeCall.vkCreateRenderPass renderPassInfo]
          ∧ renderPassInfo.attachmentCount = 3
          ∧ renderPassInfo.pAttachments = [color, depth, resolve]
          ∧ renderPassInfo.pSubpasses = [subpass]
          ∧ subpass.pColorAttachments
            = [{ attachment := 0, layout := VK_IMAGE_LAYOUT_COLOR_ATTACHMENT_OPTIMAL }]
          ∧ subpass.pDepthStencilAttachment
            = some { attachment := 1, layout := VK_IMAGE_LAYOUT_DEPTH_STENCIL_ATTACHMENT_OPTIMAL }
          ∧ subpass.pResolveAttachments
            = some [{ attachment := 2, layout := VK_IMAGE_LAYOUT_COLOR_ATTACHMENT_OPTIMAL }]
          ∧ color.format = swapChainImageFormat
          ∧ color.samples = msaaSampleCount
          ∧ color.finalLayout = VK_IMAGE_LAYOUT_COLOR_ATTACHMENT_OPTIMAL
          ∧ depth.format = depthFormat
          ∧ depth.samples = msaaSampleCount
          ∧ depth.finalLayout = VK_IMAGE_LAYOUT_DEPTH_STENCIL_ATTACHMENT_OPTIMAL
          ∧ resolve.format = swapChainImageFormat
          ∧ resolve.samples = VK_SAMPLE_COUNT_1_BIT
          ∧ resolve.finalLayout = VK_IMAGE_LAYOUT_PRESENT_SRC_KHR) := by
  refine ⟨?_, ?_, ?_, ?_⟩
  · exact swapchain.createFramebuffersLoop_calls_prefix replies swapChainExtent depthImageView
      colorImageView renderPass swapChainImageViews [] _
  · intro hres
    obtain ⟨hcalls, out, hout, houtlen, _, hhigh⟩ :=
      swapchain.createFramebuffersLoop_ok replies swapChainExtent depthImageView
        colorImageView renderPass swapChainImageViews []
        (swapchain.resize swapChainFramebuffers swapChainImageViews.length)
        (fun j _ h2 => hres j (by simpa using h2))
        (by rw [swapchain.length_resize]; simp)
    refine ⟨hcalls, ?_⟩
    have hval : out = (List.range swapChainImageViews.length).map replies.framebuffer := by
      apply List.ext_getElem?
      intro j
      by_cases hj : j < swapChainImageViews.length
      · rw [hhigh j (Nat.zero_le _) (by simpa using hj)]
        simp [List.getElem?_range hj]
      · have h1 : out.length ≤ j := by
          rw [houtlen]; simp; omega
        rw [List.getElem?_eq_none h1, List.getElem?_eq_none (by simp; omega)]
    rw [← hval]
    exact hout
  · rintro ⟨i, hi, hres⟩
    exact swapchain.createFramebuffersLoop_error replies swapChainImageViews swapChainExtent
      depthImageView colorImageView renderPass swapChainImageViews.length 0 _
      ⟨i, Nat.zero_le _, by omega, hres⟩
  · intro createRenderPassResult swapChainImageFormat msaaSampleCount depthFormat handle
    refine ⟨pipeline.renderPassInfo swapChainImageFormat msaaSampleCount depthFormat,
      _, _, _, _, ?_, rfl, rfl, rfl, rfl, rfl, rfl, rfl, rfl, rfl, rfl, rfl, rfl, rfl, rfl, rfl⟩
    unfold pipeline.createRenderPass
    simp only [Run.calls_call_bind]
    split_ifs <;> rfl

/-- C25, at a swapchain of three views whose framebuffers are all created. -/
theorem createFramebuffers_one_per_view_witness :
    (swapchain.createFramebuffers ⟨fun _ => VK_SUCCESS, fun i => 40 + i⟩ [21, 22, 23]
        ⟨800, 600⟩ 8 9 5 []).calls
      = [NativeCall.vkCreateFramebuffer ⟨5, 3, [9, 8, 21], 800, 600, 1⟩,
          NativeCall.vkCreateFramebuffer ⟨5, 3, [9, 8, 22], 800, 600, 1⟩,
          NativeCall.vkCreateFramebuffer ⟨5, 3, [9, 8, 23], 800, 600, 1⟩]
    ∧ (swapchain.createFramebuffers ⟨fun _ => VK_SUCCESS, fun i => 40 + i⟩ [21, 22, 23]
        ⟨800, 600⟩ 8 9 5 []).outcome = Except.ok [40, 41, 42] :=
  (createFramebuffers_one_per_view ⟨fun _ => VK_SUCCESS, fun i => 40 + i⟩ [21, 22, 23]
    ⟨800, 600⟩ 8 9 5 []).2.1 (fun _ _ => rfl)

/-! ## Descriptor set updates -/

namespace Run

/-- A call of a sequence is a call of its first part or, the first part
having returned, of the rest. -/
theorem mem_calls_bind {α β : Type} (r : Run α) (f : α → Run β) (c : NativeCall)
    (h : c ∈ (r >>= f).calls) :
    c ∈ r.calls ∨ ∃ a, r.outcome = Except.ok a ∧ c ∈ (f a).calls := by
  cases hout : r.outcome with
  | error e =>
    rw [calls_bind_of_error r f e hout] at h
    exact Or.inl h
  | ok a =>
    rw [calls_bind_of_ok r f a hout, List.mem_append] at h
    rcases h with h | h
    · exact Or.inl h
    · exact Or.inr ⟨a, rfl, h⟩

end Run

namespace buffer

theorem sizeof_UniformBufferObject : sizeof UniformBufferObject = 192 := by decide

/-- Every buffer creation of `bindBuffer` asks for the given size and usage. -/
theorem bindBuffer_createBuffer (memProperties : VkPhysicalDeviceMemoryProperties)
    (replies : BindBufferReplies) (size usage properties : Nat)
    (bufferInfo : VkBufferCreateInfo)
    (h : NativeCall.vkCreateBuffer bufferInfo
      ∈ (bindBuffer memProperties replies size usage properties).calls) :
    bufferInfo.size = size ∧ bufferInfo.usage = usage := by
  unfold bindBuffer at h
  simp only [Run.calls_call_bind, List.mem_cons] at h
  rcases h with h | h
  · injection h with h
    subst h
    exact ⟨rfl, rfl⟩
  · exfalso
    split_ifs at h
    · simp at h
    all_goals
      rcases Run.mem_calls_bind _ _ _ h with h | ⟨a, _, h⟩
      · simp at h
      · simp at h

/-- The first call of `bindBuffer` is the buffer creation. -/
theorem bindBuffer_first_call (memProperties : VkPhysicalDeviceMemoryProperties)
    (replies : BindBufferReplies) (size usage properties : Nat) :
    ∃ rest, (bindBuffer memProperties replies size usage properties).calls
      = NativeCall.vkCreateBuffer
          { size := size, usage := usage, sharingMode := VK_SHARING_MODE_EXCLUSIVE, flags := 0 }
        :: rest := by
  unfold bindBuffer
  simp only [Run.calls_call_bind]
  exact ⟨_, rfl⟩

theorem createUniformBuffersLoop_createBuffer (memProperties : VkPhysicalDeviceMemoryProperties)
    (replies : CreateUniformBuffersReplies) (bufferSize : Nat)
    (bufferInfo : VkBufferCreateInfo) :
    ∀ (remaining i : Nat) (vectors : List Nat × List Nat × List Nat),
      NativeCall.vkCreateBuffer bufferInfo
          ∈ (createUniformBuffersLoop memProperties replies bufferSize remaining i
              vectors).calls →
        bufferInfo.size = bufferSize ∧ bufferInfo.usage = VK_BUFFER_USAGE_UNIFORM_BUFFER_BIT := by
  intro remaining
  induction remaining with
  | zero =>
    intro i vectors h
    simp [createUniformBuffersLoop] at h
  | succ remaining ih =>
    rintro i ⟨uniformBuffers, uniformBuffersMemory, uniformBuffersMapped⟩ h
    unfold createUniformBuffersLoop at h
    rcases Run.mem_calls_bind _ _ _ h with h | ⟨⟨buffer, bufferMemory⟩, _, h⟩
    · exact bindBuffer_createBuffer _ _ _ _ _ _ h
    · simp only [Run.calls_call_bind, List.mem_cons] at h
      rcases h with h | h
      · cases h
      · exact ih _ _ h

theorem createUniformBuffers_createBuffer (memProperties : VkPhysicalDeviceMemoryProperties)
    (replies : CreateUniformBuffersReplies) (maxFramesInFlight : Int)
    (uniformBuffers uniformBuffersMemory uniformBuffersMapped : List Nat)
    (bufferInfo : VkBufferCreateInfo)
    (h : NativeCall.vkCreateBuffer bufferInfo
      ∈ (createUniformBuffers memProperties replies maxFramesInFlight uniformBuffers
          uniformBuffersMemory uniformBuffersMapped).calls) :
    bufferInfo.size = sizeof UniformBufferObject
      ∧ bufferInfo.usage = VK_BUFFER_USAGE_UNIFORM_BUFFER_BIT := by
  unfold createUniformBuffers at h
  rcases Run.mem_calls_bind _ _ _ h with h | ⟨size, _, h⟩
  · unfold vectorSize at h
    split_ifs at h <;> simp at h
  · exact createUniformBuffersLoop_createBuffer _ _ _ _ _ _ _ h

theorem createUniformBuffers_first_call (memProperties : VkPhysicalDeviceMemoryProperties)
    (replies : CreateUniformBuffersReplies) (n : Nat)
    (uniformBuffers uniformBuffersMemory uniformBuffersMapped : List Nat) :
    ∃ rest, (createUniformBuffers memProperties replies ((n + 1 : Nat) : Int) uniformBuffers
        uniformBuffersMemory uniformBuffersMapped).calls
      = NativeCall.vkCreateBuffer
          { size := sizeof UniformBufferObject, usage := VK_BUFFER_USAGE_UNIFORM_BUFFER_BIT,
            sharingMode := VK_SHARING_MODE_EXCLUSIVE, flags := 0 } :: rest := by
  unfold createUniformBuffers
  rw [vectorSize_natCast]
  simp only [Run.calls_pure_bind]
  unfold createUniformBuffersLoop
  obtain ⟨rest, hrest⟩ := bindBuffer_first_call memProperties (replies.bind 0)
    (sizeof UniformBufferObject) VK_BUFFER_USAGE_UNIFORM_BUFFER_BIT
    (VK_MEMORY_PROPERTY_HOST_VISIBLE_BIT ||| VK_MEMORY_PROPERTY_HOST_COHERENT_BIT)
  cases hout : (bindBuffer memProperties (replies.bind 0) (sizeof UniformBufferObject)
      VK_BUFFER_USAGE_UNIFORM_BUFFER_BIT
      (VK_MEMORY_PROPERTY_HOST_VISIBLE_BIT ||| VK_MEMORY_PROPERTY_HOST_COHERENT_BIT)).outcome with
  | error e =>
    rw [Run.calls_bind_of_error _ _ e hout, hrest]
    exact ⟨_, rfl⟩
  | ok a =>
    rw [Run.calls_bind_of_ok _ _ a hout, hrest]
    exact ⟨_, rfl⟩

/-- The updates the loop of `createDescriptorSets` issues: one per index, with
the two writes for the set and the uniform buffer at that index. -/
theorem createDescriptorSetsLoop_calls (uniformBuffers descriptorSets : List Nat)
    (textureImageView textureSampler : Nat) :
    ∀ (remaining i : Nat),
      (createDescriptorSetsLoop uniformBuffers descriptorSets textureImageView textureSampler
          remaining i).calls
        = (List.range' i remaining).map fun j =>
            NativeCall.vkUpdateDescriptorSets
              (descriptorWrites (descriptorSets.getD j VK_NULL_HANDLE)
                (uniformBuffers.getD j VK_NULL_HANDLE) textureImageView textureSampler) 0 := by
  intro remaining
  induction remaining with
  | zero => intro i; rfl
  | succ remaining ih =>
    intro i
    unfold createDescriptorSetsLoop
    simp only [Run.calls_call_bind]
    rw [ih (i + 1)]
    rfl

theorem getD_map_range (f : Nat → Nat) (n i : Nat) (hi : i < n) :
    ((List.range n).map f).getD i VK_NULL_HANDLE = f i := by
  rw [List.getD_eq_getElem?_getD, List.getElem?_map, List.getElem?_range hi]
  rfl

theorem createDescriptorSets_calls_ok (replies : CreateDescriptorSetsReplies) (n : Nat)
    (uniformBuffers : List Nat)
    (descriptorPool descriptorSetLayout textureImageView textureSampler : Nat)
    (h : replies.allocateDescriptorSetsResult = VK_SUCCESS) :
    (createDescriptorSets replies (n : Int) uniformBuffers descriptorPool
        descriptorSetLayout textureImageView textureSampler).calls
      = NativeCall.vkAllocateDescriptorSets
          { descriptorPool := descriptorPool
            descriptorSetCount := toUInt32 (n : Int)
            pSetLayouts := List.replicate n descriptorSetLayout }
        :: (List.range n).map fun i =>
            NativeCall.vkUpdateDescriptorSets
              (descriptorWrites (replies.descriptorSets.getD i VK_NULL_HANDLE)
                (uniformBuffers.getD i VK_NULL_HANDLE) textureImageView textureSampler) 0 := by
  unfold createDescriptorSets
  rw [vectorSize_natCast]
  simp only [Run.calls_pure_bind, Run.calls_call_bind]
  rw [if_neg (by simp [h])]
  rw [Run.calls_bind_of_ok _ _ _ (createDescriptorSetsLoop_outcome _ _ _ _ _ _)]
  rw [createDescriptorSetsLoop_calls]
  simp only [Run.calls_pure, List.append_nil, List.range_eq_range']
  congr 1
  apply List.map_congr_left
  intro j hj
  have hjn : j < n := by
    have := (List.mem_range'_1.mp hj).2
    omega
  have := getD_map_range (fun i => replies.descriptorSets.getD i VK_NULL_HANDLE) n j hjn
  rw [List.range_eq_range'] at this
  rw [this]

theorem createDescriptorSets_calls_error (replies : CreateDescriptorSetsReplies) (n : Nat)
    (uniformBuffers : List Nat)
    (descriptorPool descriptorSetLayout textureImageView textureSampler : Nat)
    (h : replies.allocateDescriptorSetsResult ≠ VK_SUCCESS) :
    (createDescriptorSets replies (n : Int) uniformBuffers descriptorPool
        descriptorSetLayout textureImageView textureSampler).calls
      = [NativeCall.vkAllocateDescriptorSets
          { descriptorPool := descriptorPool
            descriptorSetCount := toUInt32 (n : Int)
            pSetLayouts := List.replicate n descriptorSetLayout }]
    ∧ (createDescriptorSets replies (n : Int) uniformBuffers descriptorPool
        descriptorSetLayout textureImageView textureSampler).outcome
      = Except.error (runtimeError "failed to allocate descriptor sets!") := by
  unfold createDescriptorSets
  rw [vectorSize_natCast]
  simp only [Run.calls_pure_bind, Run.calls_call_bind, Run.outcome_pure_bind,
    Run.outcome_call_bind]
  rw [if_pos h]
  exact ⟨rfl, rfl⟩

end buffer

/-- C26: for `maxFramesInFlight = n ≥ 0` and at least `n` uniform buffers,
when the allocation succeeds `createDescriptorSets` returns exactly `n` sets
and, after the allocation, issues exactly one update per index `i < n`, in
order, each with exactly two writes for set `i`: at binding 0 one
uniform-buffer descriptor over `uniformBuffers[i]` with offset 0 and range
`sizeof(UniformBufferObject)`, which is 192 bytes, and at binding 1 one
combined-image-sampler descriptor with the given view and sampler in layout
SHADER_READ_ONLY_OPTIMAL.  When the allocation fails the procedure raises
after the allocation alone.  Every buffer `createUniformBuffers` creates has
that size of 192 bytes, and the bindings, types and counts written are those
of the layout `createDescriptorSetLayout` declares: binding 0 a uniform buffer
for the vertex stage, binding 1 a combined image sampler for the fragment
stage. -/
theorem createDescriptorSets_two_writes_per_set (replies : buffer.CreateDescriptorSetsReplies)
    (n : Nat) (uniformBuffers : List Nat)
    (descriptorPool descriptorSetLayout textureImageView textureSampler : Nat)
    (hbuffers : n ≤ uniformBuffers.length) :
    (replies.allocateDescriptorSetsResult = VK_SUCCESS →
      (∃ descriptorSets : List Nat,
        (buffer.createDescriptorSets replies (n : Int) uniformBuffers descriptorPool
            descriptorSetLayout textureImageView textureSampler).outcome
          = Except.ok descriptorSets
        ∧ descriptorSets.length = n
        ∧ ∃ allocInfo,
            (buffer.createDescriptorSets replies (n : Int) uniformBuffers descriptorPool
                descriptorSetLayout textureImageView textureSampler).calls
              = NativeCall.vkAllocateDescriptorSets allocInfo
                :: (List.range n).map fun i =>
                    NativeCall.vkUpdateDescriptorSets
                      [ { dstSet := descriptorSets.getD i VK_NULL_HANDLE
                          dstBinding := 0
                          dstArrayElement := 0
                          descriptorType := VK_DESCRIPTOR_TYPE_UNIFORM_BUFFER
                          descriptorCount := 1
                          pBufferInfo :=
                            some { buffer := uniformBuffers.getD i VK_NULL_HANDLE, offset := 0,
                                   range := 192 }
                          pImageInfo := none },
                        { dstSet := descriptorSets.getD i VK_NULL_HANDLE
                          dstBinding := 1
                          dstArrayElement := 0
                          descriptorType := VK_DESCRIPTOR_TYPE_COMBINED_IMAGE_SAMPLER
                          descriptorCount := 1
                          pBufferInfo := none
                          pImageInfo :=
                            some { imageLayout := VK_IMAGE_LAYOUT_SHADER_READ_ONLY_OPTIMAL,
                                   imageView := textureImageView,
                                   sampler := textureSampler } } ] 0)
      ∧ ∀ i, i < n →
          uniformBuffers[i]? = some (uniformBuffers.getD i VK_NULL_HANDLE))
    ∧ (replies.allocateDescriptorSetsResult ≠ VK_SUCCESS →
        (∃ allocInfo,
          (buffer.createDescriptorSets replies (n : Int) uniformBuffers descriptorPool
              descriptorSetLayout textureImageView textureSampler).calls
            = [NativeCall.vkAllocateDescriptorSets allocInfo])
        ∧ (buffer.createDescriptorSets replies (n : Int) uniformBuffers descriptorPool
            descriptorSetLayout textureImageView textureSampler).outcome
          = Except.error (runtimeError "failed to allocate descriptor sets!"))
    ∧ sizeof buffer.UniformBufferObject = 192
    ∧ (∀ (memProperties : buffer.VkPhysicalDeviceMemoryProperties)
          (uniformReplies : buffer.CreateUniformBuffersReplies) (maxFramesInFlight : Int)
          (buffers memories mappings : List Nat),
        (∀ bufferInfo : VkBufferCreateInfo,
          NativeCall.vkCreateBuffer bufferInfo
              ∈ (buffer.createUniformBuffers memProperties uniformReplies maxFramesInFlight
                  buffers memories mappings).calls →
            bufferInfo.size = 192 ∧ bufferInfo.usage = VK_BUFFER_USAGE_UNIFORM_BUFFER_BIT)
        ∧ (0 < maxFramesInFlight →
            ∃ bufferInfo rest,
              (buffer.createUniformBuffers memProperties uniformReplies maxFramesInFlight
                  buffers memories mappings).calls
                = NativeCall.vkCreateBuffer bufferInfo :: rest))
    ∧ (∀ (createDescriptorSetLayoutResult : Int) (handle : Nat),
        (buffer.createDescriptorSetLayout createDescriptorSetLayoutResult handle).calls
          = [NativeCall.vkCreateDescriptorSetLayout
              { bindingCount := 2
                pBindings :=
                  [ { binding := 0
                      descriptorType := VK_DESCRIPTOR_TYPE_UNIFORM_BUFFER
                      descriptorCount := 1
                      stageFlags := VK_SHADER_STAGE_VERTEX_BIT
                      pImmutableSamplers := none },
                    { binding := 1
                      descriptorType := VK_DESCRIPTOR_TYPE_COMBINED_IMAGE_SAMPLER
                      descriptorCount := 1
                      stageFlags := VK_SHADER_STAGE_FRAGMENT_BIT
                      pImmutableSamplers := none } ] }]) := by
  refine ⟨?_, ?_, buffer.sizeof_UniformBufferObject, ?_, ?_⟩
  · intro hok
    refine ⟨⟨_, buffer.createDescriptorSets_ok replies n uniformBuffers descriptorPool
      descriptorSetLayout textureImageView textureSampler hok, by simp,
      { descriptorPool := descriptorPool
        descriptorSetCount := toUInt32 (n : Int)
        pSetLayouts := List.replicate n descriptorSetLayout }, ?_⟩, ?_⟩
    · rw [buffer.createDescriptorSets_calls_ok replies n uniformBuffers descriptorPool
        descriptorSetLayout textureImageView textureSampler hok]
      congr 1
      apply List.map_congr_left
      intro i hi
      rw [buffer.getD_map_range _ n i (List.mem_range.mp hi)]
      rfl
    · intro i hi
      have hlt : i < uniformBuffers.length := by omega
      rw [List.getD_eq_getElem?_getD, List.getElem?_eq_getElem hlt]
      rfl
  · intro herr
    obtain ⟨h1, h2⟩ := buffer.createDescriptorSets_calls_error replies n uniformBuffers
      descriptorPool descriptorSetLayout textureImageView textureSampler herr
    exact ⟨⟨_, h1⟩, h2⟩
  · intro memProperties uniformReplies maxFramesInFlight buffers memories mappings
    refine ⟨?_, ?_⟩
    · intro bufferInfo hmem
      have := buffer.createUniformBuffers_createBuffer memProperties uniformReplies
        maxFramesInFlight buffers memories mappings bufferInfo hmem
      rw [buffer.sizeof_UniformBufferObject] at this
      exact this
    · intro hpos
      obtain ⟨m, hm⟩ : ∃ m : Nat, maxFramesInFlight = ((m + 1 : Nat) : Int) :=
        ⟨(maxFramesInFlight - 1).toNat, by omega⟩
      subst hm
      obtain ⟨rest, hrest⟩ := buffer.createUniformBuffers_first_call memProperties
        uniformReplies m buffers memories mappings
      exact ⟨_, rest, hrest⟩
  · intro createDescriptorSetLayoutResult handle
    exact buffer.createDescriptorSetLayout_calls createDescriptorSetLayoutResult handle

/-- C26, at two frames in flight with the uniform buffers 31 and 32. -/
theorem createDescriptorSets_two_writes_per_set_witness :
    ∃ descriptorSets : List Nat,
      (buffer.createDescriptorSets ⟨VK_SUCCESS, [51, 52]⟩ ((2 : Nat) : Int) [31, 32] 7 8 9
          10).outcome = Except.ok descriptorSets
      ∧ descriptorSets.length = 2 :=
  match (createDescriptorSets_two_writes_per_set ⟨VK_SUCCESS, [51, 52]⟩ 2 [31, 32] 7 8 9 10
    (by decide)).1 rfl with
  | ⟨⟨descriptorSets, h1, h2, _⟩, _⟩ => ⟨descriptorSets, h1, h2⟩

/-! ## The byte size of the texture upload -/

namespace texture

/-- While four bytes per pixel stay within the range of `int`, the size
`createTextureImage` computes is `4 * w * h`. -/
theorem imageSize_eq (w h : Nat) (hsize : 4 * w * h < 2 ^ 31) :
    imageSize (w : Int) (h : Int) = 4 * w * h := by
  unfold imageSize
  dsimp only
  have hp : (w : Int) * (h : Int) * 4 = ((4 * w * h : Nat) : Int) := by
    push_cast
    ring
  rw [hp]
  generalize 4 * w * h = p at hsize
  omega

/-- The calls of `copyBufferToImage`: one copy of one region, tightly packed,
into mip level 0 at offset (0, 0, 0) with extent (`width`, `height`, 1). -/
theorem copyBufferToImage_calls (commandPool graphicsQueue buffer image width height
    commandBuffer : Nat) :
    (copyBufferToImage commandPool graphicsQueue buffer image width height commandBuffer).calls
      = [NativeCall.vkAllocateCommandBuffers
          { commandPool := commandPool, level := VK_COMMAND_BUFFER_LEVEL_PRIMARY,
            commandBufferCount := 1 } commandBuffer,
         NativeCall.vkBeginCommandBuffer commandBuffer VK_COMMAND_BUFFER_USAGE_ONE_TIME_SUBMIT_BIT,
         NativeCall.vkCmdCopyBufferToImage commandBuffer buffer image
           VK_IMAGE_LAYOUT_TRANSFER_DST_OPTIMAL
           [{ bufferOffset := 0
              bufferRowLength := 0
              bufferImageHeight := 0
              imageSubresource :=
                { aspectMask := VK_IMAGE_ASPECT_COLOR_BIT, mipLevel := 0, baseArrayLayer := 0,
                  layerCount := 1 }
              imageOffset := { x := 0, y := 0, z := 0 }
              imageExtent := { width := width, height := height, depth := 1 } }],
         NativeCall.vkEndCommandBuffer commandBuffer,
         NativeCall.vkQueueSubmit graphicsQueue [commandBuffer] VK_NULL_HANDLE,
         NativeCall.vkQueueWaitIdle graphicsQueue,
         NativeCall.vkFreeCommandBuffers commandPool [commandBuffer]] := rfl

theorem imageSize_32768 : imageSize 32768 32768 = 0 := by
  unfold imageSize
  dsimp only
  omega

/-- The first call of `createTextureImage` once the pixels are loaded is the
creation of the staging buffer, with the size computed from the width and the
height. -/
theorem createTextureImage_first_call
    (memProperties : buffer.VkPhysicalDeviceMemoryProperties)
    (replies : CreateTextureImageReplies) (commandPool graphicsQueue msaaSampleCount : Nat)
    (hpixels : replies.pixelsLoaded = true) :
    ∃ rest, (createTextureImage memProperties replies commandPool graphicsQueue
        msaaSampleCount).calls
      = NativeCall.vkCreateBuffer
          { size := imageSize replies.texWidth replies.texHeight
            usage := VK_BUFFER_USAGE_TRANSFER_SRC_BIT
            sharingMode := VK_SHARING_MODE_EXCLUSIVE
            flags := 0 } :: rest := by
  unfold createTextureImage
  dsimp only
  rw [if_neg (by simp [hpixels])]
  obtain ⟨rest, hrest⟩ := buffer.bindBuffer_first_call memProperties replies.staging
    (imageSize replies.texWidth replies.texHeight) VK_BUFFER_USAGE_TRANSFER_SRC_BIT
    (VK_MEMORY_PROPERTY_HOST_VISIBLE_BIT ||| VK_MEMORY_PROPERTY_HOST_COHERENT_BIT)
  cases hout : (buffer.bindBuffer memProperties replies.staging
      (imageSize replies.texWidth replies.texHeight) VK_BUFFER_USAGE_TRANSFER_SRC_BIT
      (VK_MEMORY_PROPERTY_HOST_VISIBLE_BIT ||| VK_MEMORY_PROPERTY_HOST_COHERENT_BIT)).outcome with
  | error e =>
    rw [Run.calls_bind_of_error _ _ e hout, hrest]
    exact ⟨_, rfl⟩
  | ok a =>
    rw [Run.calls_bind_of_ok _ _ a hout, hrest]
    exact ⟨_, rfl⟩

end texture

theorem and_two_pow_eq_iff (x i : Nat) : x &&& 2 ^ i = 2 ^ i ↔ x.testBit i = true := by
  rw [and_eq_right_iff_bits]
  constructor
  · intro h
    exact h i (by simp [Nat.testBit_two_pow])
  · intro h b hb
    rw [Nat.testBit_two_pow] at hb
    have hib : i = b := by simpa using hb
    subst hib
    exact h

/-- A bit is set in the conjunction of two masks exactly when it is set in
both. -/
theorem and_and_two_pow_ne_zero_iff (c d i : Nat) :
    (c &&& d) &&& 2 ^ i ≠ 0 ↔ (c &&& 2 ^ i = 2 ^ i ∧ d &&& 2 ^ i = 2 ^ i) := by
  rw [and_two_pow_ne_zero_iff, Nat.testBit_and, and_two_pow_eq_iff, and_two_pow_eq_iff]
  simp

/-- C28: `getMaxUsableSampleCount` returns the first of the sample counts 64,
32, 16, 8, 4, 2 whose bit is set in both the colour and the depth mask, and 1
when there is none; the value is one of the seven single bits; a value other
than 1 is set in both masks; no larger one of the six counts is set in both;
and the value is 1 exactly when none of the six is set in both. -/
theorem getMaxUsableSampleCount_largest_in_both_masks (limits : VkPhysicalDeviceLimits) :
    device.getMaxUsableSampleCount limits
      = (([VK_SAMPLE_COUNT_64_BIT, VK_SAMPLE_COUNT_32_BIT, VK_SAMPLE_COUNT_16_BIT,
            VK_SAMPLE_COUNT_8_BIT, VK_SAMPLE_COUNT_4_BIT, VK_SAMPLE_COUNT_2_BIT].find?
          fun samples =>
            decide (limits.framebufferColorSampleCounts &&& samples = samples
              ∧ limits.framebufferDepthSampleCounts &&& samples = samples)).getD
          VK_SAMPLE_COUNT_1_BIT)
    ∧ device.getMaxUsableSampleCount limits ∈ [64, 32, 16, 8, 4, 2, 1]
    ∧ (device.getMaxUsableSampleCount limits ≠ 1 →
        limits.framebufferColorSampleCounts &&& device.getMaxUsableSampleCount limits
            = device.getMaxUsableSampleCount limits
          ∧ limits.framebufferDepthSampleCounts &&& device.getMaxUsableSampleCount limits
            = device.getMaxUsableSampleCount limits)
    ∧ (∀ samples ∈ [64, 32, 16, 8, 4, 2],
        device.getMaxUsableSampleCount limits < samples →
          ¬ (limits.framebufferColorSampleCounts &&& samples = samples
            ∧ limits.framebufferDepthSampleCounts &&& samples = samples))
    ∧ (device.getMaxUsableSampleCount limits = 1
        ↔ ∀ samples ∈ [64, 32, 16, 8, 4, 2],
          ¬ (limits.framebufferColorSampleCounts &&& samples = samples
            ∧ limits.framebufferDepthSampleCounts &&& samples = samples)) := by
  have h64 := and_and_two_pow_ne_zero_iff limits.framebufferColorSampleCounts
    limits.framebufferDepthSampleCounts 6
  have h32 := and_and_two_pow_ne_zero_iff limits.framebufferColorSampleCounts
    limits.framebufferDepthSampleCounts 5
  have h16 := and_and_two_pow_ne_zero_iff limits.framebufferColorSampleCounts
    limits.framebufferDepthSampleCounts 4
  have h8 := and_and_two_pow_ne_zero_iff limits.framebufferColorSampleCounts
    limits.framebufferDepthSampleCounts 3
  have h4 := and_and_two_pow_ne_zero_iff limits.framebufferColorSampleCounts
    limits.framebufferDepthSampleCounts 2
  have h2 := and_and_two_pow_ne_zero_iff limits.framebufferColorSampleCounts
    limits.framebufferDepthSampleCounts 1
  norm_num at h64 h32 h16 h8 h4 h2
  unfold device.getMaxUsableSampleCount
  simp only [VK_SAMPLE_COUNT_64_BIT, VK_SAMPLE_COUNT_32_BIT, VK_SAMPLE_COUNT_16_BIT,
    VK_SAMPLE_COUNT_8_BIT, VK_SAMPLE_COUNT_4_BIT, VK_SAMPLE_COUNT_2_BIT, VK_SAMPLE_COUNT_1_BIT]
  simp only [ne_eq, h64, h32, h16, h8, h4, h2]
  generalize limits.framebufferColorSampleCounts = c
  generalize limits.framebufferDepthSampleCounts = d
  clear h64 h32 h16 h8 h4 h2
  by_cases a64 : c &&& 64 = 64 ∧ d &&& 64 = 64
  · simp [a64]
  have b64 := not_and.mp a64
  by_cases a32 : c &&& 32 = 32 ∧ d &&& 32 = 32
  · simp [a64, a32]
    exact b64
  have b32 := not_and.mp a32
  by_cases a16 : c &&& 16 = 16 ∧ d &&& 16 = 16
  · simp [a64, a32, a16]
    exact ⟨b64, b32⟩
  have b16 := not_and.mp a16
  by_cases a8 : c &&& 8 = 8 ∧ d &&& 8 = 8
  · simp [a64, a32, a16, a8]
    exact ⟨b64, b32, b16⟩
  have b8 := not_and.mp a8
  by_cases a4 : c &&& 4 = 4 ∧ d &&& 4 = 4
  · simp [a64, a32, a16, a8, a4]
    exact ⟨b64, b32, b16, b8⟩
  have b4 := not_and.mp a4
  by_cases a2 : c &&& 2 = 2 ∧ d &&& 2 = 2
  · simp [a64, a32, a16, a8, a4, a2]
    exact ⟨b64, b32, b16, b8, b4⟩
  have b2 := not_and.mp a2
  simp [a64, a32, a16, a8, a4, a2]
  exact ⟨b64, b32, b16, b8, b4, b2⟩

/-- C28, at a device whose colour mask has the counts 1 to 8 and whose depth
mask has the counts 1, 2, 4 and 16: the value is 4, set in both masks. -/
theorem getMaxUsableSampleCount_largest_in_both_masks_witness :
    device.getMaxUsableSampleCount ⟨0xF, 0x17, 16⟩ = 4
    ∧ (0xF : Nat) &&& device.getMaxUsableSampleCount ⟨0xF, 0x17, 16⟩
      = device.getMaxUsableSampleCount ⟨0xF, 0x17, 16⟩ :=
  ⟨by decide,
    ((getMaxUsableSampleCount_largest_in_both_masks ⟨0xF, 0x17, 16⟩).2.2.1 (by decide)).1⟩

/-! ## The supported depth format -/

namespace device

/-- The two tests of the loop body of `findSupportedDepthImageFormat`, read on
the bits of the masks. -/
theorem formatQualifies_iff (formatProperties : Nat → VkFormatProperties)
    (tiling features format : Nat) :
    formatQualifies formatProperties tiling features format
      ↔ ((tiling = VK_IMAGE_TILING_LINEAR
            ∧ (formatProperties format).linearTilingFeatures &&& features = features)
          ∨ (tiling = VK_IMAGE_TILING_OPTIMAL
            ∧ (formatProperties format).optimalTilingFeatures &&& features = features)) := by
  unfold formatQualifies
  rw [and_eq_right_iff_bits, and_eq_right_iff_bits]

theorem findSupportedDepthImageFormat_cons_of_qualifies
    (formatProperties : Nat → VkFormatProperties) (tiling features format : Nat)
    (rest : List Nat) (h : formatQualifies formatProperties tiling features format) :
    findSupportedDepthImageFormat formatProperties (format :: rest) tiling features
      = Except.ok format := by
  rw [formatQualifies_iff] at h
  unfold findSupportedDepthImageFormat
  dsimp only
  rcases h with h | h
  · rw [if_pos h]
  · split_ifs <;> rfl

theorem findSupportedDepthImageFormat_cons_of_not_qualifies
    (formatProperties : Nat → VkFormatProperties) (tiling features format : Nat)
    (rest : List Nat) (h : ¬ formatQualifies formatProperties tiling features format) :
    findSupportedDepthImageFormat formatProperties (format :: rest) tiling features
      = findSupportedDepthImageFormat formatProperties rest tiling features := by
  rw [formatQualifies_iff, not_or] at h
  rw [findSupportedDepthImageFormat, if_neg h.1, if_neg h.2]

/-- The loop returns a format exactly when the format is the first candidate
that qualifies. -/
theorem findSupportedDepthImageFormat_ok_iff (formatProperties : Nat → VkFormatProperties)
    (tiling features : Nat) :
    ∀ (candidates : List Nat) (format : Nat),
      findSupportedDepthImageFormat formatProperties candidates tiling features
          = Except.ok format
        ↔ ∃ before after, candidates = before ++ format :: after
            ∧ formatQualifies formatProperties tiling features format
            ∧ ∀ f ∈ before, ¬ formatQualifies formatProperties tiling features f := by
  intro candidates
  induction candidates with
  | nil =>
    intro format
    constructor
    · intro h
      simp [findSupportedDepthImageFormat] at h
    · rintro ⟨before, after, h, _⟩
      simp at h
  | cons c rest ih =>
    intro format
    by_cases hc : formatQualifies formatProperties tiling features c
    · rw [findSupportedDepthImageFormat_cons_of_qualifies _ _ _ _ _ hc]
      constructor
      · intro h
        injection h with h
        subst h
        exact ⟨[], rest, rfl, hc, by simp⟩
      · rintro ⟨before, after, h, _, hbefore⟩
        cases before with
        | nil =>
          simp only [List.nil_append, List.cons.injEq] at h
          rw [h.1]
        | cons b before =>
          simp only [List.cons_append, List.cons.injEq] at h
          exact absurd (h.1 ▸ hc) (hbefore b (by simp))
    · rw [findSupportedDepthImageFormat_cons_of_not_qualifies _ _ _ _ _ hc, ih format]
      constructor
      · rintro ⟨before, after, h, hq, hbefore⟩
        refine ⟨c :: before, after, by rw [h]; rfl, hq, ?_⟩
        intro f hf
        rcases List.mem_cons.mp hf with hf | hf
        · rw [hf]; exact hc
        · exact hbefore f hf
      · rintro ⟨before, after, h, hq, hbefore⟩
        cases before with
        | nil =>
          simp only [List.nil_append, List.cons.injEq] at h
          exact absurd (h.1 ▸ hq) hc
        | cons b before =>
          simp only [List.cons_append, List.cons.injEq] at h
          exact ⟨before, after, h.2, hq, fun f hf => hbefore f (by simp [hf])⟩

/-- The loop raises exactly when no candidate qualifies, and then with the
message of the source. -/
theorem findSupportedDepthImageFormat_error_iff (formatProperties : Nat → VkFormatProperties)
    (tiling features : Nat) :
    ∀ (candidates : List Nat) (e : Failure),
      findSupportedDepthImageFormat formatProperties candidates tiling features
          = Except.error e
        ↔ (e = runtimeError "failed to find supported format!"
            ∧ ∀ f ∈ candidates, ¬ formatQualifies formatProperties tiling features f) := by
  intro candidates
  induction candidates with
  | nil =>
    intro e
    constructor
    · intro h
      simp only [findSupportedDepthImageFormat] at h
      injection h with h
      exact ⟨h.symm, by simp⟩
    · rintro ⟨h, _⟩
      rw [h]
      rfl
  | cons c rest ih =>
    intro e
    by_cases hc : formatQualifies formatProperties tiling features c
    · rw [findSupportedDepthImageFormat_cons_of_qualifies _ _ _ _ _ hc]
      constructor
      · intro h
        cases h
      · rintro ⟨_, h⟩
        exact absurd hc (h c (by simp))
    · rw [findSupportedDepthImageFormat_cons_of_not_qualifies _ _ _ _ _ hc, ih e]
      constructor
      · rintro ⟨h, hrest⟩
        refine ⟨h, ?_⟩
        intro f hf
        rcases List.mem_cons.mp hf with hf | hf
        · rw [hf]; exact hc
        · exact hrest f hf
      · rintro ⟨h, hall⟩
        exact ⟨h, fun f hf => hall f (by simp [hf])⟩

end device

/-- C29: for every list of candidates, every tiling and every required feature
mask, `findSupportedDepthImageFormat` returns a format exactly when that format
is the first candidate, in list order, that qualifies (its linear-tiling
features for LINEAR, its optimal-tiling features for OPTIMAL, contain every
required bit); it raises exactly when no candidate qualifies, and then
"failed to find supported format!"; it raises so for the empty list and for
every tiling that is neither LINEAR nor OPTIMAL. -/
theorem findSupportedDepthImageFormat_first_qualifying
    (formatProperties : Nat → VkFormatProperties) (candidates : List Nat)
    (tiling features : Nat) :
    (∀ format,
        device.findSupportedDepthImageFormat formatProperties candidates tiling features
            = Except.ok format
          ↔ ∃ before after, candidates = before ++ format :: after
              ∧ device.formatQualifies formatProperties tiling features format
              ∧ ∀ f ∈ before, ¬ device.formatQualifies formatProperties tiling features f)
    ∧ (∀ e,
        device.findSupportedDepthImageFormat formatProperties candidates tiling features
            = Except.error e
          ↔ (e = runtimeError "failed to find supported format!"
              ∧ ∀ f ∈ candidates, ¬ device.formatQualifies formatProperties tiling features f))
    ∧ ((∃ e, device.findSupportedDepthImageFormat formatProperties candidates tiling features
            = Except.error e)
        ↔ ∀ f ∈ candidates, ¬ device.formatQualifies formatProperties tiling features f)
    ∧ device.findSupportedDepthImageFormat formatProperties [] tiling features
        = Except.error (runtimeError "failed to find supported format!")
    ∧ (tiling ≠ VK_IMAGE_TILING_LINEAR → tiling ≠ VK_IMAGE_TILING_OPTIMAL →
        device.findSupportedDepthImageFormat formatProperties candidates tiling features
          = Except.error (runtimeError "failed to find supported format!")) := by
  refine ⟨device.findSupportedDepthImageFormat_ok_iff formatProperties tiling features candidates,
    device.findSupportedDepthImageFormat_error_iff formatProperties tiling features candidates,
    ?_, rfl, ?_⟩
  · constructor
    · rintro ⟨e, he⟩
      exact ((device.findSupportedDepthImageFormat_error_iff formatProperties tiling features
        candidates e).mp he).2
    · intro h
      exact ⟨_, (device.findSupportedDepthImageFormat_error_iff formatProperties tiling features
        candidates _).mpr ⟨rfl, h⟩⟩
  · intro hlinear hoptimal
    refine (device.findSupportedDepthImageFormat_error_iff formatProperties tiling features
      candidates _).mpr ⟨rfl, ?_⟩
    intro f _ hq
    rcases hq with hq | hq
    · exact hlinear hq.1
    · exact hoptimal hq.1

/-- C29, at the candidates 126, 130, 129 asked for OPTIMAL tiling with the
depth-stencil attachment feature (0x200), on a device where format 126 has the
feature only for linear tiling and 130 and 129 have it for optimal tiling: the
format returned is 130; and for the tiling 2, neither LINEAR nor OPTIMAL, the
search raises. -/
theorem findSupportedDepthImageFormat_first_qualifying_witness :
    device.findSupportedDepthImageFormat
        (fun format => if format = 126 then ⟨0x200, 0, 0⟩ else ⟨0, 0x200, 0⟩)
        [126, 130, 129] VK_IMAGE_TILING_OPTIMAL 0x200 = Except.ok 130
    ∧ device.findSupportedDepthImageFormat
        (fun format => if format = 126 then ⟨0x200, 0, 0⟩ else ⟨0, 0x200, 0⟩)
        [126, 130, 129] 2 0x200
      = Except.error (runtimeError "failed to find supported format!") :=
  ⟨by decide,
    (findSupportedDepthImageFormat_first_qualifying
      (fun format => if format = 126 then ⟨0x200, 0, 0⟩ else ⟨0, 0x200, 0⟩)
      [126, 130, 129] 2 0x200).2.2.2.2 (by decide) (by decide)⟩

/-! ## The depth test and the sample count of the pipelines -/

namespace pipeline

/-- The one call of `createRenderPass`. -/
theorem createRenderPass_calls (createRenderPassResult : Int) (swapChainImageFormat
    msaaSampleCount depthFormat renderPass : Nat) :
    (createRenderPass createRenderPassResult swapChainImageFormat msaaSampleCount depthFormat
        renderPass).calls
      = [NativeCall.vkCreateRenderPass
          (renderPassInfo swapChainImageFormat msaaSampleCount depthFormat)] := by
  unfold createRenderPass
  simp only [Run.calls_call_bind]
  split_ifs <;> rfl

/-- The create-info of both procedures is depth-tested and multisampled,
whatever the vertex input state and the front face. -/
theorem pipelineInfo_depthTestedAndMultisampled
    (vertexInputInfo : VkPipelineVertexInputStateCreateInfo) (frontFace vertShaderModule
      fragShaderModule msaaSampleCount renderPass pipelineLayout : Nat) :
    depthTestedAndMultisampled
      (pipelineInfo vertexInputInfo frontFace vertShaderModule fragShaderModule msaaSampleCount
        renderPass pipelineLayout) msaaSampleCount :=
  ⟨depthStencil, multisampling msaaSampleCount, rfl, rfl, rfl, rfl, rfl, rfl, rfl, rfl⟩

/-- The calls of `createShaderModule` are creations of shader modules. -/
theorem createShaderModule_calls (code : List Nat) (createShaderModuleResult : Int)
    (shaderModule : Nat) :
    (createShaderModule code createShaderModuleResult shaderModule).calls
      = [NativeCall.vkCreateShaderModule { codeSize := code.length, pCode := code }] := by
  unfold createShaderModule
  simp only [Run.calls_call_bind]
  split_ifs <;> rfl

theorem createShaderModule_outcome (code : List Nat) (createShaderModuleResult : Int)
    (shaderModule : Nat) :
    (createShaderModule code createShaderModuleResult shaderModule).outcome
      = if createShaderModuleResult ≠ VK_SUCCESS then
          Except.error (runtimeError "failed to create shader module!")
        else Except.ok shaderModule := by
  unfold createShaderModule
  simp only [Run.outcome_call_bind]
  split_ifs <;> rfl

/-- Every pipeline creation `createGraphicsPipeline` issues is the creation of
one pipeline from the create-info `pipelineInfo`. -/
theorem createGraphicsPipeline_creation (files : String → Option (List Nat))
    (replies : CreatePipelineReplies) (vert_file frag_file : String)
    (swapChainExtent : VkExtent2D) (msaaSampleCount renderPass descriptorSetLayout : Nat)
    (pipelineCache createInfoCount : Nat) (pCreateInfos : List VkGraphicsPipelineCreateInfo)
    (h : NativeCall.vkCreateGraphicsPipelines pipelineCache createInfoCount pCreateInfos
      ∈ (createGraphicsPipeline files replies vert_file frag_file swapChainExtent
          msaaSampleCount renderPass descriptorSetLayout).calls) :
    pipelineCache = VK_NULL_HANDLE ∧ createInfoCount = 1
      ∧ ∃ vertShaderModule fragShaderModule pipelineLayout,
          pCreateInfos = [pipelineInfo vertexInputInfo VK_FRONT_FACE_COUNTER_CLOCKWISE
            vertShaderModule fragShaderModule msaaSampleCount renderPass pipelineLayout] := by
  unfold createGraphicsPipeline at h
  rcases Run.mem_calls_bind _ _ _ h with h | ⟨vertShaderCode, _, h⟩
  · simp at h
  rcases Run.mem_calls_bind _ _ _ h with h | ⟨fragShaderCode, _, h⟩
  · simp at h
  rcases Run.mem_calls_bind _ _ _ h with h | ⟨vertShaderModule, _, h⟩
  · simp [createShaderModule_calls] at h
  rcases Run.mem_calls_bind _ _ _ h with h | ⟨fragShaderModule, _, h⟩
  · simp [createShaderModule_calls] at h
  rcases Run.mem_calls_bind _ _ _ h with h | ⟨_, _, h⟩
  · simp at h
  split_ifs at h
  · simp at h
  all_goals
    rcases Run.mem_calls_bind _ _ _ h with h | ⟨_, _, h⟩
    · simp only [Run.calls_call, List.mem_singleton] at h
      injection h with h1 h2 h3
      exact ⟨h1, h2, vertShaderModule, fragShaderModule, replies.pipelineLayout, h3⟩
    · simp at h

/-- Every pipeline creation `createCubePipeline` issues is the creation of one
pipeline from the create-info `pipelineInfo`. -/
theorem createCubePipeline_creation (files : String → Option (List Nat))
    (replies : CreatePipelineReplies) (vert_file frag_file : String)
    (swapChainExtent : VkExtent2D) (msaaSampleCount renderPass : Nat)
    (pipelineCache createInfoCount : Nat) (pCreateInfos : List VkGraphicsPipelineCreateInfo)
    (h : NativeCall.vkCreateGraphicsPipelines pipelineCache createInfoCount pCreateInfos
      ∈ (createCubePipeline files replies vert_file frag_file swapChainExtent
          msaaSampleCount renderPass).calls) :
    pipelineCache = VK_NULL_HANDLE ∧ createInfoCount = 1
      ∧ ∃ vertShaderModule fragShaderModule pipelineLayout,
          pCreateInfos = [pipelineInfo cubeVertexInputInfo VK_FRONT_FACE_CLOCKWISE
            vertShaderModule fragShaderModule msaaSampleCount renderPass pipelineLayout] := by
  unfold createCubePipeline at h
  rcases Run.mem_calls_bind _ _ _ h with h | ⟨vertShaderCode, _, h⟩
  · simp at h
  rcases Run.mem_calls_bind _ _ _ h with h | ⟨fragShaderCode, _, h⟩
  · simp at h
  rcases Run.mem_calls_bind _ _ _ h with h | ⟨vertShaderModule, _, h⟩
  · simp [createShaderModule_calls] at h
  rcases Run.mem_calls_bind _ _ _ h with h | ⟨fragShaderModule, _, h⟩
  · simp [createShaderModule_calls] at h
  rcases Run.mem_calls_bind _ _ _ h with h | ⟨_, _, h⟩
  · simp at h
  split_ifs at h
  · simp at h
  all_goals
    rcases Run.mem_calls_bind _ _ _ h with h | ⟨_, _, h⟩
    · simp only [Run.calls_call, List.mem_singleton] at h
      injection h with h1 h2 h3
      exact ⟨h1, h2, vertShaderModule, fragShaderModule, replies.pipelineLayout, h3⟩
    · simp at h

/-- When both files open and the three creations before it succeed,
`createGraphicsPipeline` reaches the creation of the pipeline. -/
theorem createGraphicsPipeline_reaches_creation (files : String → Option (List Nat))
    (replies : CreatePipelineReplies) (vert_file frag_file : String)
    (swapChainExtent : VkExtent2D) (msaaSampleCount renderPass descriptorSetLayout : Nat)
    (hvert : files vert_file ≠ none) (hfrag : files frag_file ≠ none)
    (hvertModule : replies.createVertShaderModuleResult = VK_SUCCESS)
    (hfragModule : replies.createFragShaderModuleResult = VK_SUCCESS)
    (hlayout : replies.createPipelineLayoutResult = VK_SUCCESS) :
    NativeCall.vkCreateGraphicsPipelines VK_NULL_HANDLE 1
        [pipelineInfo vertexInputInfo VK_FRONT_FACE_COUNTER_CLOCKWISE replies.vertShaderModule
          replies.fragShaderModule msaaSampleCount renderPass replies.pipelineLayout]
      ∈ (createGraphicsPipeline files replies vert_file frag_file swapChainExtent
          msaaSampleCount renderPass descriptorSetLayout).calls := by
  obtain ⟨vertShaderCode, hv⟩ := Option.ne_none_iff_exists'.mp hvert
  obtain ⟨fragShaderCode, hf⟩ := Option.ne_none_iff_exists'.mp hfrag
  unfold createGraphicsPipeline
  rw [Run.calls_bind_of_ok _ _ vertShaderCode (by simp [readFile, hv]),
    Run.calls_bind_of_ok _ _ fragShaderCode (by simp [readFile, hf]),
    Run.calls_bind_of_ok _ _ replies.vertShaderModule
      (by rw [createShaderModule_outcome, if_neg (by simp [hvertModule])]),
    Run.calls_bind_of_ok _ _ replies.fragShaderModule
      (by rw [createShaderModule_outcome, if_neg (by simp [hfragModule])])]
  simp only [Run.calls_call_bind, if_neg (not_not.mpr hlayout)]
  simp

/-- When both files open and the three creations before it succeed,
`createCubePipeline` reaches the creation of the pipeline. -/
theorem createCubePipeline_reaches_creation (files : String → Option (List Nat))
    (replies : CreatePipelineReplies) (vert_file frag_file : String)
    (swapChainExtent : VkExtent2D) (msaaSampleCount renderPass : Nat)
    (hvert : files vert_file ≠ none) (hfrag : files frag_file ≠ none)
    (hvertModule : replies.createVertShaderModuleResult = VK_SUCCESS)
    (hfragModule : replies.createFragShaderModuleResult = VK_SUCCESS)
    (hlayout : replies.createPipelineLayoutResult = VK_SUCCESS) :
    NativeCall.vkCreateGraphicsPipelines VK_NULL_HANDLE 1
        [pipelineInfo cubeVertexInputInfo VK_FRONT_FACE_CLOCKWISE replies.vertShaderModule
          replies.fragShaderModule msaaSampleCount renderPass replies.pipelineLayout]
      ∈ (createCubePipeline files replies vert_file frag_file swapChainExtent
          msaaSampleCount renderPass).calls := by
  obtain ⟨vertShaderCode, hv⟩ := Option.ne_none_iff_exists'.mp hvert
  obtain ⟨fragShaderCode, hf⟩ := Option.ne_none_iff_exists'.mp hfrag
  unfold createCubePipeline
  rw [Run.calls_bind_of_ok _ _ vertShaderCode (by simp [readFile, hv]),
    Run.calls_bind_of_ok _ _ fragShaderCode (by simp [readFile, hf]),
    Run.calls_bind_of_ok _ _ replies.vertShaderModule
      (by rw [createShaderModule_outcome, if_neg (by simp [hvertModule])]),
    Run.calls_bind_of_ok _ _ replies.fragShaderModule
      (by rw [createShaderModule_outcome, if_neg (by simp [hfragModule])])]
  simp only [Run.calls_call_bind, if_neg (not_not.mpr hlayout)]
  simp

end pipeline

/-- C30: every create-info `createGraphicsPipeline` and `createCubePipeline`
pass to `vkCreateGraphicsPipelines` is the single create-info of the call and
is depth-tested and multisampled for the argument `msaaSampleCount`: the
depth-stencil state is present with depth test and depth write enabled,
comparison LESS, depth-bounds and stencil tests disabled, and the
rasterization sample count is `msaaSampleCount`.  Both procedures reach that
call when the two shader files open and the shader modules and the pipeline
layout are created.  The render pass `createRenderPass` creates for the same
argument gives its colour attachment and its depth attachment that sample
count. -/
theorem createPipelines_depth_tested_and_multisampled (files : String → Option (List Nat))
    (replies : pipeline.CreatePipelineReplies) (vert_file frag_file : String)
    (swapChainExtent : VkExtent2D) (msaaSampleCount renderPass descriptorSetLayout : Nat)
    (createRenderPassResult : Int) (swapChainImageFormat depthFormat renderPassHandle : Nat) :
    (∀ pipelineCache createInfoCount pCreateInfos,
        NativeCall.vkCreateGraphicsPipelines pipelineCache createInfoCount pCreateInfos
            ∈ (pipeline.createGraphicsPipeline files replies vert_file frag_file
                swapChainExtent msaaSampleCount renderPass descriptorSetLayout).calls →
          createInfoCount = 1
            ∧ ∃ info, pCreateInfos = [info]
                ∧ pipeline.depthTestedAndMultisampled info msaaSampleCount)
    ∧ (∀ pipelineCache createInfoCount pCreateInfos,
        NativeCall.vkCreateGraphicsPipelines pipelineCache createInfoCount pCreateInfos
            ∈ (pipeline.createCubePipeline files replies vert_file frag_file
                swapChainExtent msaaSampleCount renderPass).calls →
          createInfoCount = 1
            ∧ ∃ info, pCreateInfos = [info]
                ∧ pipeline.depthTestedAndMultisampled info msaaSampleCount)
    ∧ (files vert_file ≠ none → files frag_file ≠ none →
        replies.createVertShaderModuleResult = VK_SUCCESS →
        replies.createFragShaderModuleResult = VK_SUCCESS →
        replies.createPipelineLayoutResult = VK_SUCCESS →
          (∃ info, NativeCall.vkCreateGraphicsPipelines VK_NULL_HANDLE 1 [info]
              ∈ (pipeline.createGraphicsPipeline files replies vert_file frag_file
                  swapChainExtent msaaSampleCount renderPass descriptorSetLayout).calls)
          ∧ ∃ info, NativeCall.vkCreateGraphicsPipelines VK_NULL_HANDLE 1 [info]
              ∈ (pipeline.createCubePipeline files replies vert_file frag_file
                  swapChainExtent msaaSampleCount renderPass).calls)
    ∧ ∃ (renderPassInfo : VkRenderPassCreateInfo)
        (color depth : VkAttachmentDescription) (others : List VkAttachmentDescription),
        (pipeline.createRenderPass createRenderPassResult swapChainImageFormat msaaSampleCount
            depthFormat renderPassHandle).calls
          = [NativeCall.vkCreateRenderPass renderPassInfo]
        ∧ renderPassInfo.pAttachments = color :: depth :: others
        ∧ color.samples = msaaSampleCount
        ∧ depth.samples = msaaSampleCount := by
  refine ⟨?_, ?_, ?_, ?_⟩
  · intro pipelineCache createInfoCount pCreateInfos h
    obtain ⟨_, hcount, vertShaderModule, fragShaderModule, pipelineLayout, hinfos⟩ :=
      pipeline.createGraphicsPipeline_creation files replies vert_file frag_file
        swapChainExtent msaaSampleCount renderPass descriptorSetLayout _ _ _ h
    exact ⟨hcount, _, hinfos, pipeline.pipelineInfo_depthTestedAndMultisampled _ _ _ _ _ _ _⟩
  · intro pipelineCache createInfoCount pCreateInfos h
    obtain ⟨_, hcount, vertShaderModule, fragShaderModule, pipelineLayout, hinfos⟩ :=
      pipeline.createCubePipeline_creation files replies vert_file frag_file
        swapChainExtent msaaSampleCount renderPass _ _ _ h
    exact ⟨hcount, _, hinfos, pipeline.pipelineInfo_depthTestedAndMultisampled _ _ _ _ _ _ _⟩
  · intro hvert hfrag hvertModule hfragModule hlayout
    exact ⟨⟨_, pipeline.createGraphicsPipeline_reaches_creation files replies vert_file
        frag_file swapChainExtent msaaSampleCount renderPass descriptorSetLayout hvert hfrag
        hvertModule hfragModule hlayout⟩,
      ⟨_, pipeline.createCubePipeline_reaches_creation files replies vert_file frag_file
        swapChainExtent msaaSampleCount renderPass hvert hfrag hvertModule hfragModule
        hlayout⟩⟩
  · exact ⟨pipeline.renderPassInfo swapChainImageFormat msaaSampleCount depthFormat, _, _, _,
      pipeline.createRenderPass_calls _ _ _ _ _, rfl, rfl, rfl⟩

/-- C30, at two shader files that open, creations that all succeed and the
sample count 4: both procedures issue a pipeline creation, and the create-info
of the creation of `createGraphicsPipeline` is depth-tested and multisampled
with 4 samples. -/
theorem createPipelines_depth_tested_and_multisampled_witness :
    ((∃ info, NativeCall.vkCreateGraphicsPipelines VK_NULL_HANDLE 1 [info]
        ∈ (pipeline.createGraphicsPipeline (fun _ => some [3, 2, 35, 7])
            ⟨0, 11, 0, 12, 0, 13, 0, 14⟩ "vert.spv" "frag.spv" ⟨800, 600⟩ 4 5 6).calls)
      ∧ ∃ info, NativeCall.vkCreateGraphicsPipelines VK_NULL_HANDLE 1 [info]
        ∈ (pipeline.createCubePipeline (fun _ => some [3, 2, 35, 7])
            ⟨0, 11, 0, 12, 0, 13, 0, 14⟩ "vert.spv" "frag.spv" ⟨800, 600⟩ 4 5).calls)
    ∧ (∀ pipelineCache createInfoCount pCreateInfos,
        NativeCall.vkCreateGraphicsPipelines pipelineCache createInfoCount pCreateInfos
            ∈ (pipeline.createGraphicsPipeline (fun _ => some [3, 2, 35, 7])
                ⟨0, 11, 0, 12, 0, 13, 0, 14⟩ "vert.spv" "frag.spv" ⟨800, 600⟩ 4 5 6).calls →
          createInfoCount = 1
            ∧ ∃ info, pCreateInfos = [info] ∧ pipeline.depthTestedAndMultisampled info 4) :=
  ⟨(createPipelines_depth_tested_and_multisampled (fun _ => some [3, 2, 35, 7])
      ⟨0, 11, 0, 12, 0, 13, 0, 14⟩ "vert.spv" "frag.spv" ⟨800, 600⟩ 4 5 6 0 50 126 9).2.2.1
      (by simp) (by simp) rfl rfl rfl,
    (createPipelines_depth_tested_and_multisampled (fun _ => some [3, 2, 35, 7])
      ⟨0, 11, 0, 12, 0, 13, 0, 14⟩ "vert.spv" "frag.spv" ⟨800, 600⟩ 4 5 6 0 50 126 9).1⟩
